import Mathlib

/-!
# OpenSM PortInfo receiver: a shallow embedding

The development embeds `opensm/osm_port_info_rcv.c` (the PortInfo receiver of the
subnet manager) as pure functions over an explicit topology store and an
explicit trace of the observable actions (log entries, requests handed to the
transport, lock operations, signals to the state manager).

Conventions.
* Pointers into the topology store are keys: a node pointer is a natural number,
  a pointer to a physical port is the pair (node, port number) of the slot
  `p_node->physp_table[port_num]`, a Port is addressed by its GUID in the
  subnet's port table.
* Fields that the C code keeps in network byte order are kept in network byte
  order here, and `cl_ntoh16`, `cl_ntoh32`, `cl_hton32` are byte swaps.
* `CL_ASSERT` is a no-op, as in a release build.
* The leading double underscore of the static functions of the C file is dropped:
  `__osm_pi_rcv_process_endport` is `osm_pi_rcv_process_endport` here.
-/

namespace OpenSM

/-! ## Byte order and constants -/

/-- Modelled from the spec: `cl_ntoh16` of complib (not in the sources), the
conversion of a 16-bit wire value from network to host byte order; the spec takes
the decoding of wire values as given. On a little-endian host the two bytes are
swapped. -/
def cl_ntoh16 (x : Nat) : Nat := (x % 256) * 256 + (x / 256) % 256

/-- Modelled from the spec: `cl_hton16` of complib (not in the sources), the same
byte swap as `cl_ntoh16`. -/
def cl_hton16 (x : Nat) : Nat := cl_ntoh16 x

/-- Modelled from the spec: `cl_ntoh32` of complib (not in the sources), the
conversion of a 32-bit value from network to host byte order, on a little-endian
host: the four bytes are reversed. -/
def cl_ntoh32 (x : Nat) : Nat :=
  (x % 256) * 16777216 + (x / 256 % 256) * 65536 + (x / 65536 % 256) * 256
    + (x / 16777216) % 256

/-- Modelled from the spec: `cl_hton32` of complib (not in the sources), the same
byte reversal as `cl_ntoh32`. -/
def cl_hton32 (x : Nat) : Nat := cl_ntoh32 x

/-- The number of partition keys in one PKeyTable block (`ib_types.h`). -/
def IB_NUM_PKEY_ELEMENTS_IN_BLOCK : Nat := 32

/-- The vendor whose switches misreport the partition enforcement capability
(`#define IBM_VENDOR_ID (0x5076)`, line 394). -/
def IBM_VENDOR_ID : Nat := 0x5076

/-- Link states of `ib_types.h`. -/
def IB_LINK_DOWN : Nat := 1
/-- Link state Init. -/
def IB_LINK_INIT : Nat := 2
/-- Link state Armed. -/
def IB_LINK_ARMED : Nat := 3
/-- Link state Active. -/
def IB_LINK_ACTIVE : Nat := 4

/-- Node types of `ib_types.h`. -/
def IB_NODE_TYPE_CA : Nat := 1
/-- Node type switch. -/
def IB_NODE_TYPE_SWITCH : Nat := 2
/-- Node type router. -/
def IB_NODE_TYPE_ROUTER : Nat := 3

/-- The capability mask bit "is SM", a network-order constant:
`CL_HTON32(0x00000002)`. -/
def IB_PORT_CAP_IS_SM : Nat := cl_hton32 2

/-- The first unicast LID, host order (`ib_types.h`). -/
def IB_LID_UCAST_START_HO : Nat := 0x0001
/-- The last unicast LID, host order (`ib_types.h`). -/
def IB_LID_UCAST_END_HO : Nat := 0xBFFF

/-! ## Data model -/

/-- The PortInfo attribute, `ib_port_info_t`. The type is declared in
`ib_types.h`, which is not in the sources; the record holds what the receiver
reads through the accessors: `port_state` is `ib_port_info_get_port_state`,
`mtu_cap` is `ib_port_info_get_mtu_cap`, `rate` is `ib_port_info_compute_rate`,
`client_rereg` is `ib_port_info_get_client_rereg`; `base_lid`,
`master_sm_base_lid` and `capability_mask` are the network-order fields, and
`other` stands for every remaining byte of the attribute. -/
structure ib_port_info_t where
  base_lid : Nat
  master_sm_base_lid : Nat
  capability_mask : Nat
  local_port_num : Nat
  port_state : Nat
  mtu_cap : Nat
  rate : Nat
  client_rereg : Bool
  other : Nat
deriving DecidableEq, Repr

/-- The attribute of a PhysicalPort that was never written (all zero). -/
def ib_port_info_t.zero : ib_port_info_t :=
  ⟨0, 0, 0, 0, 0, 0, 0, false, 0⟩

/-- The directed-route path, `osm_dr_path_t`: a transport binding, a hop count
and the hop port numbers. -/
structure osm_dr_path_t where
  h_bind : Nat
  hop_count : Nat
  path : List Nat
deriving DecidableEq, Repr

/-- The PhysicalPort, `osm_physp_t`. Its port number and owning node are the key
of the slot it is stored in (`p_node->physp_table[port_num]`); `p_remote_physp`
is the adjacency reference, `valid` what `osm_physp_is_valid` reports. -/
structure osm_physp_t where
  port_info : ib_port_info_t
  port_guid : Nat
  p_remote_physp : Option (Nat × Nat)
  dr_path : osm_dr_path_t
  got_set_resp : Bool
  valid : Bool
deriving DecidableEq, Repr

/-- The fields of NodeInfo the receiver reads; `vendor_id` is what
`ib_node_info_get_vendor_id` returns (network order), `partition_cap` is in
network order. -/
structure ib_node_info_t where
  node_type : Nat
  node_guid : Nat
  port_guid : Nat
  partition_cap : Nat
  vendor_id : Nat
deriving DecidableEq, Repr

/-- The fields of SwitchInfo the receiver reads; `enforce_cap` is in network
order, `enhanced_port0` is what `ib_switch_info_is_enhanced_port0` reports. -/
structure ib_switch_info_t where
  enforce_cap : Nat
  enhanced_port0 : Bool
deriving DecidableEq, Repr

/-- The switch record of a node, `osm_switch_t`. -/
structure osm_switch_t where
  switch_info : ib_switch_info_t
deriving DecidableEq, Repr

/-- The node, `osm_node_t`, without its table of PhysicalPorts, which the store
keeps under the key (node, port number). -/
structure osm_node_t where
  node_info : ib_node_info_t
  sw : Option osm_switch_t
deriving DecidableEq, Repr

/-- The Port, `osm_port_t`: its node, its discovery counter and the port numbers
of the PhysicalPorts registered with it. -/
structure osm_port_t where
  p_node : Nat
  discovery_count : Nat
  physp_tbl : List Nat
deriving DecidableEq, Repr

/-- The record of a remote subnet manager, `osm_remote_sm_t`; `pri_state` is the
byte `smi.pri_state` (priority in the high four bits, state in the low four). -/
structure osm_remote_sm_t where
  pri_state : Nat
deriving DecidableEq, Repr

/-- The Subnet, `osm_subn_t`, with the fields the receiver reads or writes. -/
structure osm_subn_t where
  sm_port_guid : Nat
  master_sm_base_lid : Nat
  min_ca_mtu : Nat
  min_ca_rate : Nat
  ignore_other_sm : Bool
  in_sweep_hop_0 : Bool
  sm_guid_tbl : Nat → Option osm_remote_sm_t
  port_guid_tbl : Nat → Option osm_port_t

/-- The topology store: the Subnet, the nodes by address, and the PhysicalPort
slots `p_node->physp_table[port_num]` by node and port number. -/
structure Store where
  subn : osm_subn_t
  node : Nat → osm_node_t
  physp_table : Nat → Nat → osm_physp_t

/-- The context the transport hands back with a PortInfo response,
`osm_pi_context_t`. -/
structure osm_pi_context_t where
  node_guid : Nat
  port_guid : Nat
  set_method : Bool
  light_sweep : Bool
  update_master_sm_base_lid : Bool
  ignore_errors : Bool
  active_transition : Bool
deriving DecidableEq, Repr

/-- The context attached to a request this receiver issues (the members of the
union `osm_madw_context_t` it fills in). -/
inductive osm_madw_context_t where
  | ni_context (node_guid : Nat) (port_num : Nat)
  | smi_context (port_guid : Nat) (set_method : Bool)
  | pkey_context (node_guid : Nat) (port_guid : Nat) (set_method : Bool)
deriving DecidableEq, Repr

/-- The header fields of the response the receiver reads, `ib_smp_t`; `status`
and `attr_mod` are in network order. -/
structure ib_smp_t where
  status : Nat
  attr_mod : Nat
  hop_count : Nat
  initial_path : List Nat
  trans_id : Nat
deriving DecidableEq, Repr

/-- The response as delivered, `osm_madw_t`: header, PortInfo payload, the
request context and the transport binding. -/
structure osm_madw_t where
  smp : ib_smp_t
  pi : ib_port_info_t
  context : osm_pi_context_t
  h_bind : Nat
deriving DecidableEq, Repr

/-- Log levels of `osm_log.h`. -/
inductive osm_log_level_t where
  | error | info | verbose | debug
deriving DecidableEq, Repr

/-- The attributes this receiver requests. -/
inductive AttrId where
  | node_info | p_key_table | sm_info
deriving DecidableEq, Repr

/-- The observable actions of the receiver, in the order they happen. A log
entry carries its level and the number of its `ERR` tag (0 when it has none). -/
inductive Event where
  | log (level : osm_log_level_t) (code : Nat)
  | dump_port_info (level : osm_log_level_t)
  | req_get (path : osm_dr_path_t) (attr_id : AttrId) (attr_mod : Nat)
      (context : osm_madw_context_t) (status : Bool)
  | vendor_set_sm (h_bind : Nat) (is_sm : Bool)
  | state_mgr_change_detected
  | plock_excl_acquire
  | plock_release
deriving DecidableEq, Repr

/-- What the environment decides: which log levels are active
(`osm_log_is_active`) and whether the k-th request handed to the transport
during a call is accepted (`IB_SUCCESS`). -/
structure Env where
  log_is_active : osm_log_level_t → Bool
  req_status : Nat → Bool

/-- The state threaded through the receiver: the store and the trace so far. -/
structure Machine where
  store : Store
  trace : List Event

/-- Appends an action to the trace. -/
def Machine.emit (m : Machine) (e : Event) : Machine :=
  { m with trace := m.trace ++ [e] }

/-- A call of `osm_log`. -/
def Machine.log (m : Machine) (level : osm_log_level_t) (code : Nat) : Machine :=
  m.emit (Event.log level code)

/-- Whether an action is a request handed to the transport. -/
def Event.isReq : Event → Bool
  | Event.req_get _ _ _ _ _ => true
  | _ => false

/-- Whether an action is a request for the given attribute. -/
def Event.isReqFor (a : AttrId) : Event → Bool
  | Event.req_get _ attr_id _ _ _ => decide (attr_id = a)
  | _ => false

/-! ## Helpers of the store that are not in the sources -/

/-- Modelled from the spec: `osm_req_get` (osm_req.c, not in the sources), the
transport's `issueRequest(path, attributeId, attributeModifier, context) →
success|failure`: the request is handed over and the environment answers whether
it was accepted. -/
def osm_req_get (env : Env) (m : Machine) (p_path : osm_dr_path_t) (attr_id : AttrId)
    (attr_mod : Nat) (context : osm_madw_context_t) : Bool × Machine :=
  let status := env.req_status (m.trace.countP Event.isReq)
  (status, m.emit (Event.req_get p_path attr_id attr_mod context status))

/-- Modelled from the spec: `osm_dr_path_init` (osm_path.h, not in the sources):
the path built from a transport binding, a hop count and the hop port numbers. -/
def osm_dr_path_init (h_bind hop_count : Nat) (path : List Nat) : osm_dr_path_t :=
  ⟨h_bind, hop_count, path⟩

/-- Modelled from the spec: `osm_dr_path_extend` (osm_path.h, not in the
sources): "appends one hop"; the caller extends a copy. -/
def osm_dr_path_extend (p : osm_dr_path_t) (port_num : Nat) : osm_dr_path_t :=
  { p with hop_count := p.hop_count + 1, path := p.path ++ [port_num] }

/-- The slot `p_node->physp_table[port_num]` (`osm_node_get_physp_ptr`). -/
def osm_node_get_physp_ptr (p_node : Nat) (port_num : Nat) : Nat × Nat :=
  (p_node, port_num)

/-- The PhysicalPort a pointer refers to. -/
def Store.physp (s : Store) (p : Nat × Nat) : osm_physp_t :=
  s.physp_table p.1 p.2

/-- Writes a PhysicalPort through a pointer. -/
def Store.setPhysp (s : Store) (p : Nat × Nat) (v : osm_physp_t) : Store :=
  { s with physp_table := fun n k => if n = p.1 ∧ k = p.2 then v else s.physp_table n k }

/-- Modelled from the spec: `osm_physp_get_port_num` (osm_port.h, not in the
sources). The identity of a PhysicalPort is (owning node, port number), the key
of its slot. -/
def osm_physp_get_port_num (p : Nat × Nat) : Nat := p.2

/-- Modelled from the spec: `osm_physp_get_node_ptr` (osm_port.h, not in the
sources): the owning node of the identity (owning node, port number). -/
def osm_physp_get_node_ptr (p : Nat × Nat) : Nat := p.1

/-- Modelled from the spec: `osm_physp_is_valid` (osm_port.h, not in the
sources): the validity flag, "false until first discovered". -/
def osm_physp_is_valid (s : Store) (p : Nat × Nat) : Bool := (s.physp p).valid

/-- The adjacency reference of a PhysicalPort (`osm_physp_get_remote`). -/
def osm_physp_get_remote (s : Store) (p : Nat × Nat) : Option (Nat × Nat) :=
  (s.physp p).p_remote_physp

/-- The port GUID of a PhysicalPort (`osm_physp_get_port_guid`). -/
def osm_physp_get_port_guid (s : Store) (p : Nat × Nat) : Nat := (s.physp p).port_guid

/-- The directed-route path of a PhysicalPort (`osm_physp_get_dr_path_ptr`). -/
def osm_physp_get_dr_path_ptr (s : Store) (p : Nat × Nat) : osm_dr_path_t :=
  (s.physp p).dr_path

/-- The node GUID of a node (`osm_node_get_node_guid`). -/
def osm_node_get_node_guid (s : Store) (p_node : Nat) : Nat :=
  (s.node p_node).node_info.node_guid

/-- The type of a node (`osm_node_get_type`). -/
def osm_node_get_type (s : Store) (p_node : Nat) : Nat :=
  (s.node p_node).node_info.node_type

/-- The Port with the given GUID, if any (`osm_get_port_by_guid`). -/
def osm_get_port_by_guid (subn : osm_subn_t) (guid : Nat) : Option osm_port_t :=
  subn.port_guid_tbl guid

/-- Modelled from the spec: `osm_physp_set_port_info` (osm_port.h, not in the
sources): "record the attribute snapshot onto the PhysicalPort". -/
def osm_physp_set_port_info (s : Store) (p : Nat × Nat) (p_pi : ib_port_info_t) : Store :=
  s.setPhysp p { s.physp p with port_info := p_pi }

/-- Modelled from the spec: `osm_physp_trim_base_lid_to_valid_range` (osm_port.h,
not in the sources), the "base-LID range validity correction": a stored base LID
outside the unicast range is replaced by 0 and the original LID is returned;
otherwise 0 is returned and nothing changes. -/
def osm_physp_trim_base_lid_to_valid_range (s : Store) (p : Nat × Nat) : Nat × Store :=
  let lid := (s.physp p).port_info.base_lid
  if cl_ntoh16 lid > IB_LID_UCAST_END_HO ∨ cl_ntoh16 lid < IB_LID_UCAST_START_HO then
    (lid, s.setPhysp p { s.physp p with port_info := { (s.physp p).port_info with base_lid := 0 } })
  else
    (0, s)

/-- Modelled from the spec: `osm_node_unlink` (osm_node.c, not in the sources):
"remove it symmetrically (unlink both ends)": the adjacency references of the
two named PhysicalPorts are cleared. -/
def osm_node_unlink (s : Store) (p_node port_num p_remote_node remote_port_num : Nat) : Store :=
  let a := osm_node_get_physp_ptr p_node port_num
  let s1 := s.setPhysp a { s.physp a with p_remote_physp := none }
  let b := osm_node_get_physp_ptr p_remote_node remote_port_num
  s1.setPhysp b { s1.physp b with p_remote_physp := none }

/-- Modelled from the spec: `osm_physp_init` (osm_port.c, not in the sources):
"materialize it now using the GUID, port number, owning Node, the transport
binding, and the hop-count/path data carried by the response's envelope (first
time this port is seen)". The port number and the owning node are the key of the
slot; every attribute the spec does not name starts empty. -/
def osm_physp_init (s : Store) (p : Nat × Nat) (port_guid h_bind hop_count : Nat)
    (p_initial_path : List Nat) : Store :=
  s.setPhysp p
    { port_info := ib_port_info_t.zero
      port_guid := port_guid
      p_remote_physp := none
      dr_path := osm_dr_path_init h_bind hop_count p_initial_path
      got_set_resp := false
      valid := true }

/-- Modelled from the spec: `osm_port_add_new_physp` (osm_port.c, not in the
sources), the last step of materializing a PhysicalPort seen for the first time:
the Port with the given GUID records the port number of its new PhysicalPort. -/
def osm_port_add_new_physp (s : Store) (port_guid : Nat) (port_num : Nat) : Store :=
  let tbl : Nat → Option osm_port_t := fun g =>
    if g = port_guid then
      Option.map (fun p => { p with physp_tbl := p.physp_tbl ++ [port_num] })
        (s.subn.port_guid_tbl g)
    else s.subn.port_guid_tbl g
  { s with subn := { s.subn with port_guid_tbl := tbl } }

/-! ## The receiver (`osm_port_info_rcv.c`)

The longer functions are cut into the consecutive blocks of their bodies; each
block names the lines it embeds. -/

/-- Replaces the Subnet of the store of a machine state. -/
def Machine.setSubn (m : Machine) (subn : osm_subn_t) : Machine :=
  { m with store := { m.store with subn := subn } }

/-- Replaces the store of a machine state. -/
def Machine.setStore (m : Machine) (s : Store) : Machine :=
  { m with store := s }

/-- A call of `osm_log` guarded by `osm_log_is_active`. -/
def Machine.logIfActive (m : Machine) (env : Env) (level : osm_log_level_t) : Machine :=
  if env.log_is_active level then m.log level 0 else m

/-- The function `__osm_pi_rcv_set_sm` (lines 73-99): tells the transport to set
the IS_SM bit on the binding of the port's path. -/
def osm_pi_rcv_set_sm (env : Env) (m : Machine) (p_physp : Nat × Nat) : Machine :=
  let m1 := m.logIfActive env osm_log_level_t.debug
  let p_dr_path := osm_physp_get_dr_path_ptr m1.store p_physp
  m1.emit (Event.vendor_set_sm p_dr_path.h_bind true)

/-- Lines 125-134 of `__osm_pi_rcv_process_endport`: the minimal endport MTU. -/
def osm_pi_rcv_process_endport_mtu (m : Machine) (p_pi : ib_port_info_t) : Machine :=
  let mtu := p_pi.mtu_cap
  if mtu < m.store.subn.min_ca_mtu then
    (m.log osm_log_level_t.verbose 0).setSubn { m.store.subn with min_ca_mtu := mtu }
  else m

/-- Lines 136-146 of `__osm_pi_rcv_process_endport`: the minimal endport rate. -/
def osm_pi_rcv_process_endport_rate (m : Machine) (p_pi : ib_port_info_t) : Machine :=
  let rate := p_pi.rate
  if rate < m.store.subn.min_ca_rate then
    (m.log osm_log_level_t.verbose 0).setSubn { m.store.subn with min_ca_rate := rate }
  else m

/-- Lines 120-147 of `__osm_pi_rcv_process_endport`: the minima are tracked for
every port but port 0. -/
def osm_pi_rcv_process_endport_min (m : Machine) (p_physp : Nat × Nat)
    (p_pi : ib_port_info_t) : Machine :=
  if osm_physp_get_port_num p_physp ≠ 0 then
    osm_pi_rcv_process_endport_rate (osm_pi_rcv_process_endport_mtu m p_pi) p_pi
  else m

/-- Lines 168-174 of `__osm_pi_rcv_process_endport`: the state of a known remote
manager is cleaned, its priority kept. -/
def osm_pi_rcv_process_endport_clean (m : Machine) (port_guid : Nat) : Machine :=
  match m.store.subn.sm_guid_tbl port_guid with
  | some p_sm =>
    let tbl : Nat → Option osm_remote_sm_t := fun g =>
      if g = port_guid then some { p_sm with pri_state := 0xF0 &&& p_sm.pri_state }
      else m.store.subn.sm_guid_tbl g
    m.setSubn { m.store.subn with sm_guid_tbl := tbl }
  | none => m

/-- Lines 176-218 of `__osm_pi_rcv_process_endport`: a port that says it hosts a
manager is asked for its SMInfo unless other managers are ignored. -/
def osm_pi_rcv_process_endport_query (env : Env) (m : Machine) (port_guid : Nat)
    (p_physp : Nat × Nat) (p_pi : ib_port_info_t) : Machine :=
  if p_pi.capability_mask &&& IB_PORT_CAP_IS_SM ≠ 0 then
    if m.store.subn.ignore_other_sm then
      m.log osm_log_level_t.verbose 0
    else
      let m3 := m.logIfActive env osm_log_level_t.verbose
      let context := osm_madw_context_t.smi_context port_guid false
      let r := osm_req_get env m3 (osm_physp_get_dr_path_ptr m3.store p_physp)
        AttrId.sm_info 0 context
      if r.1 then r.2 else r.2.log osm_log_level_t.error 0x0F05
  else m

/-- Lines 149-219 of `__osm_pi_rcv_process_endport`: our own port, or a remote
one. -/
def osm_pi_rcv_process_endport_sm (env : Env) (m : Machine) (port_guid : Nat)
    (p_physp : Nat × Nat) (p_pi : ib_port_info_t) : Machine :=
  if port_guid = m.store.subn.sm_port_guid then
    if p_pi.capability_mask &&& IB_PORT_CAP_IS_SM = 0 then
      osm_pi_rcv_set_sm env m p_physp
    else m
  else
    osm_pi_rcv_process_endport_query env (osm_pi_rcv_process_endport_clean m port_guid)
      port_guid p_physp p_pi

/-- The function `__osm_pi_rcv_process_endport` (lines 103-222). -/
def osm_pi_rcv_process_endport (env : Env) (m : Machine) (p_physp : Nat × Nat)
    (p_pi : ib_port_info_t) : Machine :=
  let port_guid := osm_physp_get_port_guid m.store p_physp
  osm_pi_rcv_process_endport_sm env (osm_pi_rcv_process_endport_min m p_physp p_pi)
    port_guid p_physp p_pi

/-- The case `IB_LINK_DOWN` of `__osm_pi_rcv_process_switch_port` (lines
258-279). -/
def osm_pi_rcv_process_switch_port_down (m : Machine) (p_node : Nat)
    (p_physp : Nat × Nat) : Machine :=
  let port_num := osm_physp_get_port_num p_physp
  match osm_physp_get_remote m.store p_physp with
  | some p_remote_physp =>
    if osm_physp_is_valid m.store p_remote_physp then
      let p_remote_node := osm_physp_get_node_ptr p_remote_physp
      let remote_port_num := osm_physp_get_port_num p_remote_physp
      let m1 := m.log osm_log_level_t.verbose 0
      m1.setStore (osm_node_unlink m1.store p_node port_num p_remote_node remote_port_num)
    else m
  | none => m

/-- The cases `IB_LINK_INIT`, `IB_LINK_ARMED`, `IB_LINK_ACTIVE` of
`__osm_pi_rcv_process_switch_port` (lines 281-328). The path is a copy of the
port's path, extended by the port. -/
def osm_pi_rcv_process_switch_port_live (env : Env) (m : Machine) (p_node : Nat)
    (p_physp : Nat × Nat) (p_pi : ib_port_info_t) : Machine :=
  if p_pi.local_port_num ≠ osm_physp_get_port_num p_physp then
    let path := osm_dr_path_extend (osm_physp_get_dr_path_ptr m.store p_physp)
      (osm_physp_get_port_num p_physp)
    let context := osm_madw_context_t.ni_context (osm_node_get_node_guid m.store p_node)
      (osm_physp_get_port_num p_physp)
    let r := osm_req_get env m path AttrId.node_info 0 context
    if r.1 then r.2 else r.2.log osm_log_level_t.error 0x0F02
  else
    m.logIfActive env osm_log_level_t.debug

/-- The link-state switch of `__osm_pi_rcv_process_switch_port` (lines 256-337). -/
def osm_pi_rcv_process_switch_port_state (env : Env) (m : Machine) (p_node : Nat)
    (p_physp : Nat × Nat) (p_pi : ib_port_info_t) : Machine :=
  if p_pi.port_state = IB_LINK_DOWN then
    osm_pi_rcv_process_switch_port_down m p_node p_physp
  else if p_pi.port_state = IB_LINK_INIT ∨ p_pi.port_state = IB_LINK_ARMED
      ∨ p_pi.port_state = IB_LINK_ACTIVE then
    osm_pi_rcv_process_switch_port_live env m p_node p_physp p_pi
  else
    m.log osm_log_level_t.error 0x0F03

/-- Lines 250-338 of `__osm_pi_rcv_process_switch_port`: the link state is looked
at for a non-zero port when discovery is not limited to hop zero. -/
def osm_pi_rcv_process_switch_port_probe (env : Env) (m : Machine) (p_node : Nat)
    (p_physp : Nat × Nat) (p_pi : ib_port_info_t) : Machine :=
  if osm_physp_get_port_num p_physp ≠ 0 ∧ m.store.subn.in_sweep_hop_0 = false then
    osm_pi_rcv_process_switch_port_state env m p_node p_physp p_pi
  else m

/-- The call of `osm_physp_trim_base_lid_to_valid_range` with the log of a
corrected LID (lines 348-352 with `ERR 0F04`, lines 383-387 with `ERR 0F08`). -/
def osm_pi_rcv_trim_base_lid (m : Machine) (p_physp : Nat × Nat) (code : Nat) : Machine :=
  let t := osm_physp_trim_base_lid_to_valid_range m.store p_physp
  let m1 := m.setStore t.2
  if t.1 ≠ 0 then m1.log osm_log_level_t.error code else m1

/-- Lines 353-359 of `__osm_pi_rcv_process_switch_port`: on base switch port 0
the attribute is copied whole. -/
def osm_pi_rcv_process_switch_port_bsp0 (m : Machine) (p_node : Nat)
    (p_physp : Nat × Nat) (p_pi : ib_port_info_t) : Machine :=
  match (m.store.node p_node).sw with
  | some sw =>
    if sw.switch_info.enhanced_port0 = false then
      m.setStore (m.store.setPhysp p_physp { m.store.physp p_physp with port_info := p_pi })
    else m
  | none => m

/-- Lines 345-361 of `__osm_pi_rcv_process_switch_port`: switch management
port 0. -/
def osm_pi_rcv_process_switch_port_0 (env : Env) (m : Machine) (p_node : Nat)
    (p_physp : Nat × Nat) (p_pi : ib_port_info_t) : Machine :=
  if osm_physp_get_port_num p_physp = 0 then
    osm_pi_rcv_process_endport env
      (osm_pi_rcv_process_switch_port_bsp0 (osm_pi_rcv_trim_base_lid m p_physp 0x0F04)
        p_node p_physp p_pi)
      p_physp p_pi
  else m

/-- The function `__osm_pi_rcv_process_switch_port` (lines 227-364). -/
def osm_pi_rcv_process_switch_port (env : Env) (m : Machine) (p_node : Nat)
    (p_physp : Nat × Nat) (p_pi : ib_port_info_t) : Machine :=
  let m1 := osm_pi_rcv_process_switch_port_probe env m p_node p_physp p_pi
  let m2 := m1.setStore (osm_physp_set_port_info m1.store p_physp p_pi)
  osm_pi_rcv_process_switch_port_0 env m2 p_node p_physp p_pi

/-- The function `__osm_pi_rcv_process_ca_or_router_port` (lines 368-392). -/
def osm_pi_rcv_process_ca_or_router_port (env : Env) (m : Machine) (_p_node : Nat)
    (p_physp : Nat × Nat) (p_pi : ib_port_info_t) : Machine :=
  let m1 := m.setStore (osm_physp_set_port_info m.store p_physp p_pi)
  osm_pi_rcv_process_endport env (osm_pi_rcv_trim_base_lid m1 p_physp 0x0F08) p_physp p_pi

/-- The assignment `p_node->sw->switch_info.enforce_cap = v` (line 437) on a node
that has a switch record. -/
def Store.setEnforceCap (s : Store) (p_node : Nat) (v : Nat) : Store :=
  let upd : osm_switch_t → osm_switch_t := fun sw =>
    { sw with switch_info := { sw.switch_info with enforce_cap := v } }
  let nodes : Nat → osm_node_t := fun n =>
    if n = p_node then { s.node n with sw := Option.map upd (s.node n).sw }
    else s.node n
  { s with node := nodes }

/-- The attribute modifier, host order, that `osm_pkey_get_tables` computes for a
block (lines 449-452). -/
def pkey_attr_mod_ho (s : Store) (p_node port_num block_num : Nat) : Nat :=
  if osm_node_get_type s p_node ≠ IB_NODE_TYPE_SWITCH then block_num
  else block_num ||| (port_num <<< 16)

/-- The loop of `osm_pkey_get_tables` (lines 447-468): `remaining` iterations are
left, the next block is `block_num`. A request that is not accepted is logged and
ends the loop (`goto Exit`). -/
def osm_pkey_get_tables_loop (env : Env) (p_node : Nat) (port_num : Nat)
    (path : osm_dr_path_t) (context : osm_madw_context_t) :
    Nat → Nat → Machine → Machine
  | 0, _, m => m
  | remaining + 1, block_num, m =>
    let attr_mod_ho := pkey_attr_mod_ho m.store p_node port_num block_num
    let r := osm_req_get env m path AttrId.p_key_table (cl_hton32 attr_mod_ho) context
    if r.1 then
      osm_pkey_get_tables_loop env p_node port_num path context remaining (block_num + 1) r.2
    else
      r.2.log osm_log_level_t.error 0x0F12

/-- The function `osm_pkey_get_tables` (lines 397-472). `max_blocks` is a
`uint16_t`; the sum it is computed from is an `int`. -/
def osm_pkey_get_tables (env : Env) (m : Machine) (p_node : Nat) (p_physp : Nat × Nat) :
    Machine :=
  let path := osm_physp_get_dr_path_ptr m.store p_physp
  let context := osm_madw_context_t.pkey_context (osm_node_get_node_guid m.store p_node)
    (osm_physp_get_port_guid m.store p_physp) false
  let port_num := osm_physp_get_port_num p_physp
  let node := m.store.node p_node
  match node.sw with
  | some sw =>
    if port_num = 0 then
      let max_blocks :=
        (cl_ntoh16 node.node_info.partition_cap + IB_NUM_PKEY_ELEMENTS_IN_BLOCK - 1)
          / IB_NUM_PKEY_ELEMENTS_IN_BLOCK % 65536
      osm_pkey_get_tables_loop env p_node port_num path context max_blocks 0 m
    else
      let m1 :=
        if cl_ntoh32 node.node_info.vendor_id = IBM_VENDOR_ID then
          m.setStore (m.store.setEnforceCap p_node 0)
        else m
      let enforce_cap :=
        if cl_ntoh32 node.node_info.vendor_id = IBM_VENDOR_ID then 0
        else sw.switch_info.enforce_cap
      if cl_ntoh16 enforce_cap = 0 then m1
      else
        let max_blocks :=
          (cl_ntoh16 enforce_cap + IB_NUM_PKEY_ELEMENTS_IN_BLOCK - 1)
            / IB_NUM_PKEY_ELEMENTS_IN_BLOCK % 65536
        osm_pkey_get_tables_loop env p_node port_num path context max_blocks 0 m1
  | none =>
    let max_blocks :=
      (cl_ntoh16 node.node_info.partition_cap + IB_NUM_PKEY_ELEMENTS_IN_BLOCK - 1)
        / IB_NUM_PKEY_ELEMENTS_IN_BLOCK % 65536
    osm_pkey_get_tables_loop env p_node port_num path context max_blocks 0 m

/-- The function `__osm_pi_rcv_get_pkey_slvl_vla_tables` (lines 476-488). -/
def osm_pi_rcv_get_pkey_slvl_vla_tables (env : Env) (m : Machine) (p_node : Nat)
    (p_physp : Nat × Nat) : Machine :=
  osm_pkey_get_tables env m p_node p_physp

/-- Lines 569-597 of `osm_pi_rcv_process_set`: the check of the status of the
response. -/
def osm_pi_rcv_process_set_status (m : Machine) (p_madw : osm_madw_t) : Machine :=
  let p_context := p_madw.context
  let p_smp := p_madw.smp
  if p_context.ignore_errors = false ∧ (cl_ntoh16 p_smp.status &&& 0x7fff) ≠ 0 then
    if p_context.active_transition = true ∧ (cl_ntoh16 p_smp.status &&& 0x7fff) = 0x1c then
      (m.log osm_log_level_t.info 0).emit (Event.dump_port_info osm_log_level_t.info)
    else
      (m.log osm_log_level_t.error 0x0F10).emit (Event.dump_port_info osm_log_level_t.error)
  else m

/-- The function `osm_pi_rcv_process_set` (lines 539-619). The Port is passed by
value: the function only reads it. -/
def osm_pi_rcv_process_set (env : Env) (m : Machine) (p_port : osm_port_t) (port_num : Nat)
    (p_madw : osm_madw_t) : Machine :=
  let p_node := p_port.p_node
  let p_physp := osm_node_get_physp_ptr p_node port_num
  let p_pi := p_madw.pi
  let m2 := (osm_pi_rcv_process_set_status m p_madw).logIfActive env osm_log_level_t.debug
  let s3 := osm_physp_set_port_info m2.store p_physp p_pi
  m2.setStore (s3.setPhysp p_physp { s3.physp p_physp with got_set_resp := true })

/-- The increment `p_port->discovery_count++` (line 724) on the Port with the
given GUID. The width of the counter is not declared in the sources; the model
counts without a bound. -/
def osm_port_discovery_count_inc (s : Store) (port_guid : Nat) : Store :=
  let tbl : Nat → Option osm_port_t := fun g =>
    if g = port_guid then
      Option.map (fun p => { p with discovery_count := p.discovery_count + 1 })
        (s.subn.port_guid_tbl g)
    else s.subn.port_guid_tbl g
  { s with subn := { s.subn with port_guid_tbl := tbl } }

/-- Lines 746-783 of `osm_pi_rcv_process`: a PhysicalPort seen for the first time
is initialized and registered with its Port; the path of a known one is
refreshed. -/
def osm_pi_rcv_process_get_physp (env : Env) (m : Machine) (port_guid : Nat)
    (p_physp : Nat × Nat) (port_num : Nat) (p_madw : osm_madw_t) : Machine :=
  let p_smp := p_madw.smp
  if osm_physp_is_valid m.store p_physp = false then
    let ma := m.logIfActive env osm_log_level_t.verbose
    let s1 := osm_physp_init ma.store p_physp port_guid p_madw.h_bind p_smp.hop_count
      p_smp.initial_path
    ma.setStore (osm_port_add_new_physp s1 port_guid port_num)
  else
    m.setStore (m.store.setPhysp p_physp
      { m.store.physp p_physp with
        dr_path := osm_dr_path_init p_madw.h_bind p_smp.hop_count p_smp.initial_path })

/-- Lines 785-799 of `osm_pi_rcv_process`: the master manager's base LID is
copied when the context asks for it. -/
def osm_pi_rcv_process_get_master (m : Machine) (p_madw : osm_madw_t) : Machine :=
  if p_madw.context.update_master_sm_base_lid = true then
    (m.log osm_log_level_t.verbose 0).setSubn
      { m.store.subn with master_sm_base_lid := p_madw.pi.master_sm_base_lid }
  else m

/-- Lines 801-819 of `osm_pi_rcv_process`: the switch on the node type. -/
def osm_pi_rcv_process_get_dispatch (env : Env) (m : Machine) (p_node : Nat)
    (p_physp : Nat × Nat) (p_pi : ib_port_info_t) : Machine :=
  let node_type := osm_node_get_type m.store p_node
  if node_type = IB_NODE_TYPE_CA ∨ node_type = IB_NODE_TYPE_ROUTER then
    osm_pi_rcv_process_ca_or_router_port env m p_node p_physp p_pi
  else if node_type = IB_NODE_TYPE_SWITCH then
    osm_pi_rcv_process_switch_port env m p_node p_physp p_pi
  else
    m.log osm_log_level_t.error 0x0F07

/-- The discovery-read branch of `osm_pi_rcv_process` (lines 722-826), entered
with the lock held for the Port `p_port` found under `port_guid`. -/
def osm_pi_rcv_process_get (env : Env) (m : Machine) (port_guid : Nat) (p_port : osm_port_t)
    (port_num : Nat) (p_madw : osm_madw_t) : Machine :=
  let m1 := (m.setStore (osm_port_discovery_count_inc m.store port_guid)).logIfActive env
    osm_log_level_t.verbose
  let p_node := p_port.p_node
  let p_physp := osm_node_get_physp_ptr p_node port_num
  let m3 := osm_pi_rcv_process_get_physp env m1 port_guid p_physp port_num p_madw
  let m4 := osm_pi_rcv_process_get_master m3 p_madw
  let m5 := osm_pi_rcv_process_get_dispatch env m4 p_node p_physp p_madw.pi
  osm_pi_rcv_get_pkey_slvl_vla_tables env m5 p_node p_physp

/-- What a call of the receiver leaves behind: the store, the PortInfo payload as
it stands in the response buffer (the receiver clears the client-reregister bit
in place), and the actions of the call in order. -/
structure Outcome where
  store : Store
  p_pi : ib_port_info_t
  trace : List Event

/-- Lines 661-669 of `osm_pi_rcv_process`: the payload after the
client-reregister bit was cleared in place. -/
def osm_pi_rcv_clear_client_rereg (p_pi : ib_port_info_t) : ib_port_info_t :=
  if p_pi.client_rereg = true then { p_pi with client_rereg := false } else p_pi

/-- Lines 691-828 of `osm_pi_rcv_process`: the handling under the lock of a
response that is not a light-sweep one. -/
def osm_pi_rcv_process_locked (env : Env) (m : Machine) (port_guid port_num : Nat)
    (p_madw : osm_madw_t) : Machine :=
  let m2 := m.emit Event.plock_excl_acquire
  match osm_get_port_by_guid m2.store.subn port_guid with
  | none =>
    (m2.emit Event.plock_release).log osm_log_level_t.error 0x0F06
  | some p_port =>
    let m3 :=
      if p_madw.context.set_method = true then
        osm_pi_rcv_process_set env m2 p_port port_num p_madw
      else
        osm_pi_rcv_process_get env m2 port_guid p_port port_num p_madw
    m3.emit Event.plock_release

/-- The function `osm_pi_rcv_process` (lines 623-835), the entry point invoked
for a PortInfo response. -/
def osm_pi_rcv_process (env : Env) (s : Store) (p_madw : osm_madw_t) : Outcome :=
  let p_smp := p_madw.smp
  let p_context := p_madw.context
  let port_num := cl_ntoh32 p_smp.attr_mod % 256
  let port_guid := p_context.port_guid
  let m0 : Machine := (Machine.mk s []).emit (Event.dump_port_info osm_log_level_t.debug)
  let p_pi := osm_pi_rcv_clear_client_rereg p_madw.pi
  let m1 := if p_madw.pi.client_rereg = true then m0.log osm_log_level_t.debug 0 else m0
  let madw1 : osm_madw_t := { p_madw with pi := p_pi }
  let m9 :=
    if p_context.light_sweep = true then
      (m1.log osm_log_level_t.verbose 0).emit Event.state_mgr_change_detected
    else
      osm_pi_rcv_process_locked env m1 port_guid port_num madw1
  ⟨m9.store, p_pi, m9.trace⟩

/-- The store after a sequence of responses handled one after another, each with
the environment it meets. -/
def osm_pi_rcv_process_seq (s : Store) (rs : List (Env × osm_madw_t)) : Store :=
  rs.foldl (fun st r => (osm_pi_rcv_process r.1 st r.2).store) s

/-! ## The LinearForwardingTable record receiver (`osm_sa_lft_record.c`)

The receiver answers SubnAdmGet and SubnAdmGetTable queries for LFT records. It
reads the topology store and changes nothing in it; what it changes is the pool
of record items, the list of records found and the trace of its actions. The
leading double underscore of the static functions is dropped here too. -/

/-- The methods the receiver supports and the response mask (`ib_types.h`). -/
def IB_MAD_METHOD_GET : Nat := 0x01
/-- Method SubnAdmGetTable. -/
def IB_MAD_METHOD_GETTABLE : Nat := 0x12
/-- The bit that marks a response method. -/
def IB_MAD_METHOD_RESP_MASK : Nat := 0x80
/-- Method SubnAdmGetTableResp. -/
def IB_MAD_METHOD_GETTABLE_RESP : Nat := 0x92

/-- The component mask bit of the LID, a network-order constant:
`CL_HTON64(((uint64_t)1)<<0)` (`ib_types.h`), on a little-endian host. -/
def IB_LFTR_COMPMASK_LID : Nat := 0x0100000000000000
/-- The component mask bit of the block number: `CL_HTON64(((uint64_t)1)<<1)`. -/
def IB_LFTR_COMPMASK_BLOCK : Nat := 0x0200000000000000

/-- The size of a MAD (`ib_types.h`). -/
def MAD_BLOCK_SIZE : Nat := 256
/-- The size of the header of an SA MAD (`ib_types.h`). -/
def IB_SA_MAD_HDR_SIZE : Nat := 56
/-- The value of `sizeof(ib_lft_record_t)`: two 16-bit fields, four reserved bytes
and the 64 entries of a block. -/
def sizeof_ib_lft_record_t : Nat := 72

/-- RMPP constants of `ib_types.h`. -/
def IB_RMPP_TYPE_DATA : Nat := 1
/-- RMPP flag "active". -/
def IB_RMPP_FLAG_ACTIVE : Nat := 0x01
/-- RMPP flag "first". -/
def IB_RMPP_FLAG_FIRST : Nat := 0x02
/-- RMPP flag "last". -/
def IB_RMPP_FLAG_LAST : Nat := 0x04

/-- The statuses the receiver sends with `osm_sa_send_error`, by the names of
their constants in `ib_types.h`. -/
inductive ib_sa_status_t where
  | IB_MAD_STATUS_UNSUP_METHOD_ATTR
  | IB_SA_MAD_STATUS_NO_RECORDS
  | IB_SA_MAD_STATUS_TOO_MANY_RECORDS
  | IB_SA_MAD_STATUS_NO_RESOURCES
deriving DecidableEq, Repr

/-- An LFT record, `ib_lft_record_t`: LID and block number in network order and
the entries of the block. -/
structure ib_lft_record_t where
  lid : Nat
  block_num : Nat
  lft : List Nat
deriving DecidableEq, Repr

/-- The header of an SA MAD, `ib_sa_mad_t`, with the fields the receiver reads or
writes; `other` stands for the rest of the header. -/
structure ib_sa_mad_t where
  method : Nat
  comp_mask : Nat
  sm_key : Nat
  attr_offset : Nat
  rmpp_type : Nat
  rmpp_flags : Nat
  other : Nat
deriving DecidableEq, Repr

/-- The MAD wrapper of a received query (the `osm_madw_t` of the C code, read here
as an SA MAD): the header, the record of the payload, the binding it arrived on
and the address of the requester. -/
structure osm_sa_madw_t where
  sa_mad : ib_sa_mad_t
  payload : ib_lft_record_t
  h_bind : Nat
  mad_addr : Nat
deriving DecidableEq, Repr

/-- The MAD wrapper of a response, as obtained from `osm_mad_pool_get` and filled
in by the receiver: binding, requested size, address, header and the records of
the payload. -/
structure osm_resp_madw_t where
  h_bind : Nat
  size : Nat
  mad_addr : Nat
  sa_mad : ib_sa_mad_t
  recs : List ib_lft_record_t
deriving DecidableEq, Repr

/-- The observable actions of the LFT record receiver. -/
inductive LftrEvent where
  /-- A call of `osm_log` with its level and, for an `ERR xxxx` entry, the code. -/
  | log (level : osm_log_level_t) (code : Nat)
  /-- The shared acquire of the lock (`cl_plock_acquire`). -/
  | plock_acquire
  /-- The release of the lock. -/
  | plock_release
  /-- A call of `cl_qlock_pool_get` on the pool of record items, and whether it
  returned an item. -/
  | pool_get (ok : Bool)
  /-- A call of `cl_qlock_pool_put`: an item goes back to the pool. -/
  | pool_put
  /-- A call of `osm_mad_pool_get` for a response of the given size, and whether
  it returned a MAD. -/
  | mad_pool_get (size : Nat) (ok : Bool)
  /-- A call of `osm_sa_send_error` with the status. -/
  | sa_send_error (status : ib_sa_status_t)
  /-- A call of `osm_sa_vendor_send` with the response, and whether it
  succeeded. -/
  | vendor_send (resp : osm_resp_madw_t) (ok : Bool)
deriving DecidableEq, Repr

/-- Whether an action is a call of `cl_qlock_pool_get`. -/
def LftrEvent.isPoolGet : LftrEvent → Bool
  | LftrEvent.pool_get _ => true
  | _ => false

/-- What the environment decides during a call of the LFT record receiver: which
log levels are active, whether the k-th `cl_qlock_pool_get` of the call returns
an item, whether `osm_mad_pool_get` returns a MAD and whether
`osm_sa_vendor_send` succeeds. -/
structure LftrEnv where
  log_is_active : osm_log_level_t → Bool
  pool_get_ok : Nat → Bool
  mad_pool_get_ok : Bool
  vendor_send_ok : Bool

/-- Modelled from the spec: the receiver object `osm_lftr_rcv_t` with what the
receiver reaches through it. The topology store is the one the discovery engine
populates. The spec names the query/response service as an external reader that
filters "by a compound mask and partition membership" and gives no more, and the
headers of the store (`osm_switch.h`, `osm_port.h`, `osm_pkey.h`, `osm_subn.h`)
are not in the sources; what they give is kept as it is given, one field per
accessor: the switch table `sw_guid_tbl` in key order (a switch is named by its
node), `osm_get_physp_by_mad_addr`, `osm_physp_share_pkey`, the default
PhysicalPort `p_physp` of the Port with a GUID, `osm_port_get_lid_range_ho` and
`osm_port_get_base_lid` of that Port, and `osm_switch_get_max_block_id_in_use`
and `osm_switch_get_fwd_tbl_block` of a switch (no block for a block id the
table does not have). `VENDOR_RMPP_SUPPORT` tells how the file was compiled. -/
structure osm_lftr_rcv_t where
  p_subn : Store
  sw_guid_tbl : List Nat
  osm_get_physp_by_mad_addr : Nat → Option (Nat × Nat)
  osm_physp_share_pkey : Nat × Nat → Nat × Nat → Bool
  p_physp : Nat → Option (Nat × Nat)
  osm_port_get_lid_range_ho : Nat → Nat × Nat
  osm_port_get_base_lid : Nat → Nat
  osm_switch_get_max_block_id_in_use : Nat → Nat
  osm_switch_get_fwd_tbl_block : Nat → Nat → Option (List Nat)
  VENDOR_RMPP_SUPPORT : Bool

/-- The search context `osm_lftr_search_ctxt_t`; the list and the receiver are
passed separately. -/
structure osm_lftr_search_ctxt_t where
  p_rcvd_rec : ib_lft_record_t
  comp_mask : Nat
  p_req_physp : Nat × Nat

/-- The state threaded through the LFT record receiver: the number of record
items that are out of the pool, the list of records `rec_list`, and the trace. -/
structure LftrMachine where
  pool_in_use : Nat
  rec_list : List ib_lft_record_t
  trace : List LftrEvent

/-- Appends an action to the trace. -/
def LftrMachine.emit (m : LftrMachine) (e : LftrEvent) : LftrMachine :=
  { m with trace := m.trace ++ [e] }

/-- A call of `osm_log`. -/
def LftrMachine.log (m : LftrMachine) (level : osm_log_level_t) (code : Nat) : LftrMachine :=
  m.emit (LftrEvent.log level code)

/-- Modelled from the spec: `cl_qlock_pool_put` of complib (not in the sources;
the spec leaves the record pool to the query/response service): an item taken
from the pool goes back to it. -/
def cl_qlock_pool_put (m : LftrMachine) : LftrMachine :=
  { m with pool_in_use := m.pool_in_use - 1, trace := m.trace ++ [LftrEvent.pool_put] }

/-- Modelled from the spec: `cl_qlock_pool_get` of complib (not in the sources):
the environment decides whether an item is returned; an item returned is out of
the pool. -/
def cl_qlock_pool_get (env : LftrEnv) (m : LftrMachine) : Bool × LftrMachine :=
  let ok := env.pool_get_ok (m.trace.countP LftrEvent.isPoolGet)
  (ok, { m with pool_in_use := if ok then m.pool_in_use + 1 else m.pool_in_use,
                trace := m.trace ++ [LftrEvent.pool_get ok] })

/-- Modelled from the spec: `ib_get_attr_offset` (`ib_types.h`, not in the
sources; the spec leaves the wire encoding to the query/response service): the
size of an attribute in units of 8 bytes, rounded up, in network order. -/
def ib_get_attr_offset (attr_size : Nat) : Nat := cl_hton16 ((attr_size + 7) / 8)

/-- The function `__osm_lftr_rcv_new_lftr` (lines 129-174): a record for a block
of a switch is appended to the list. The status it returns is not used by its
caller. The buffer of the record is zeroed before the block is copied. -/
def osm_lftr_rcv_new_lftr (env : LftrEnv) (p_rcv : osm_lftr_rcv_t) (m : LftrMachine)
    (p_sw : Nat) (lid block : Nat) : LftrMachine :=
  let r := cl_qlock_pool_get env m
  if r.1 = false then
    r.2.log osm_log_level_t.error 0x4402
  else
    let m1 := if env.log_is_active osm_log_level_t.debug then r.2.log osm_log_level_t.debug 0
      else r.2
    let lft := (p_rcv.osm_switch_get_fwd_tbl_block p_sw (cl_ntoh16 block)).getD
      (List.replicate 64 0)
    { m1 with rec_list := m1.rec_list ++ [{ lid := lid, block_num := block, lft := lft }] }

/-- The function `__osm_lftr_get_port_by_guid` (lines 178-195). -/
def osm_lftr_get_port_by_guid (p_rcv : osm_lftr_rcv_t) (m : LftrMachine) (port_guid : Nat) :
    Option osm_port_t × LftrMachine :=
  let m1 := m.emit LftrEvent.plock_acquire
  let p_port := osm_get_port_by_guid p_rcv.p_subn.subn port_guid
  let m2 := match p_port with
    | none => m1.log osm_log_level_t.debug 0x4404
    | some _ => m1
  (p_port, m2.emit LftrEvent.plock_release)

/-- The loop of `__osm_lftr_rcv_by_comp_mask` (lines 267-271):
`for (block = min_block; block <= max_block; block++)` with `block` a `uint16_t`.
The first argument bounds the number of times the condition is evaluated; the
result is `none` when the bound is reached before the condition fails. -/
def osm_lftr_rcv_by_comp_mask_loop (env : LftrEnv) (p_rcv : osm_lftr_rcv_t) (p_sw : Nat)
    (lid max_block : Nat) : Nat → Nat → LftrMachine → Option LftrMachine
  | 0, _, _ => none
  | fuel + 1, block, m =>
    if block ≤ max_block then
      osm_lftr_rcv_by_comp_mask_loop env p_rcv p_sw lid max_block fuel ((block + 1) % 65536)
        (osm_lftr_rcv_new_lftr env p_rcv m p_sw lid (cl_hton16 block))
    else some m

/-- Lines 258-265 of `__osm_lftr_rcv_by_comp_mask`: the first block to output,
a `uint16_t`. -/
def osm_lftr_rcv_by_comp_mask_min_block (p_ctxt : osm_lftr_search_ctxt_t) : Nat :=
  if p_ctxt.comp_mask &&& IB_LFTR_COMPMASK_BLOCK ≠ 0 then
    cl_ntoh16 p_ctxt.p_rcvd_rec.block_num
  else 0

/-- Lines 258-265 of `__osm_lftr_rcv_by_comp_mask`: the last block to output,
a `uint16_t`. -/
def osm_lftr_rcv_by_comp_mask_max_block (p_rcv : osm_lftr_rcv_t)
    (p_ctxt : osm_lftr_search_ctxt_t) (p_sw : Nat) : Nat :=
  if p_ctxt.comp_mask &&& IB_LFTR_COMPMASK_BLOCK ≠ 0 then
    cl_ntoh16 p_ctxt.p_rcvd_rec.block_num
  else p_rcv.osm_switch_get_max_block_id_in_use p_sw % 65536

/-- The function `__osm_lftr_rcv_by_comp_mask` (lines 199-272), applied to a
switch. `min_lid_ho` and `max_lid_ho` are `uint16_t`. The result is `none` when
the block loop does not end within `fuel` evaluations of its condition. -/
def osm_lftr_rcv_by_comp_mask (fuel : Nat) (env : LftrEnv) (p_rcv : osm_lftr_rcv_t)
    (p_ctxt : osm_lftr_search_ctxt_t) (m : LftrMachine) (p_sw : Nat) : Option LftrMachine :=
  let p_rcvd_rec := p_ctxt.p_rcvd_rec
  let comp_mask := p_ctxt.comp_mask
  let port_guid := (p_rcv.p_subn.node p_sw).node_info.port_guid
  let r := osm_lftr_get_port_by_guid p_rcv m port_guid
  match r.1 with
  | none => some (r.2.log osm_log_level_t.error 0x4405)
  | some _ =>
    match p_rcv.p_physp port_guid with
    | none => some (r.2.log osm_log_level_t.error 0x4406)
    | some p_physp =>
      if p_rcv.osm_physp_share_pkey p_ctxt.p_req_physp p_physp = false then some r.2
      else
        let min_lid_ho := (p_rcv.osm_port_get_lid_range_ho port_guid).1 % 65536
        let max_lid_ho := (p_rcv.osm_port_get_lid_range_ho port_guid).2 % 65536
        let m1 := if comp_mask &&& IB_LFTR_COMPMASK_LID ≠ 0 then
            r.2.log osm_log_level_t.debug 0
          else r.2
        if comp_mask &&& IB_LFTR_COMPMASK_LID ≠ 0
            ∧ (min_lid_ho > cl_ntoh16 p_rcvd_rec.lid ∨ max_lid_ho < cl_ntoh16 p_rcvd_rec.lid)
        then some m1
        else
          osm_lftr_rcv_by_comp_mask_loop env p_rcv p_sw (p_rcv.osm_port_get_base_lid port_guid)
            (osm_lftr_rcv_by_comp_mask_max_block p_rcv p_ctxt p_sw) fuel
            (osm_lftr_rcv_by_comp_mask_min_block p_ctxt) m1

/-- Modelled from the spec: `cl_qmap_apply_func` of complib (not in the sources):
the function is applied to the items of the map, here the switches, in key
order. -/
def cl_qmap_apply_func (f : LftrMachine → Nat → Option LftrMachine) :
    List Nat → LftrMachine → Option LftrMachine
  | [], m => some m
  | p_sw :: rest, m =>
    match f m p_sw with
    | none => none
    | some m1 => cl_qmap_apply_func f rest m1

/-- Lines 333-337 of `osm_lftr_rcv_process`: the search context of a query. -/
def osm_lftr_rcv_process_context (p_madw : osm_sa_madw_t) (p_req_physp : Nat × Nat) :
    osm_lftr_search_ctxt_t :=
  { p_rcvd_rec := p_madw.payload, comp_mask := p_madw.sa_mad.comp_mask,
    p_req_physp := p_req_physp }

/-- Lines 331-345 of `osm_lftr_rcv_process`: the search over all switches, under
the lock. -/
def osm_lftr_rcv_process_search (fuel : Nat) (env : LftrEnv) (p_rcv : osm_lftr_rcv_t)
    (m : LftrMachine) (p_madw : osm_sa_madw_t) (p_req_physp : Nat × Nat) :
    Option LftrMachine :=
  let context := osm_lftr_rcv_process_context p_madw p_req_physp
  let m1 := { m with rec_list := [] }.emit LftrEvent.plock_acquire
  match cl_qmap_apply_func (osm_lftr_rcv_by_comp_mask fuel env p_rcv context)
      p_rcv.sw_guid_tbl m1 with
  | none => none
  | some m2 => some (m2.emit LftrEvent.plock_release)

/-- The call `cl_qlist_remove_head` followed by `cl_qlock_pool_put`, made the
given number of times (lines 367-376 and 424-428). -/
def osm_lftr_rcv_put_heads : Nat → LftrMachine → LftrMachine
  | 0, m => m
  | k + 1, m =>
    osm_lftr_rcv_put_heads k (cl_qlock_pool_put { m with rec_list := m.rec_list.tail })

/-- The loop of lines 465-476: every item of the list is removed and returned to
the pool, in order; the record of the item number `i` is copied to the response
when `i < num_rec`. The first argument counts the iterations left, of
`pre_trim_num_rec`; the response payload is the last argument. -/
def osm_lftr_rcv_copy_loop (num_rec : Nat) :
    Nat → Nat → LftrMachine → List ib_lft_record_t → LftrMachine × List ib_lft_record_t
  | 0, _, m, recs => (m, recs)
  | k + 1, i, m, recs =>
    let recs1 := match m.rec_list.head? with
      | some r => if i < num_rec then recs ++ [r] else recs
      | none => recs
    osm_lftr_rcv_copy_loop num_rec k (i + 1)
      (cl_qlock_pool_put { m with rec_list := m.rec_list.tail }) recs1

/-- Lines 430-484 of `osm_lftr_rcv_process`: the response MAD is filled in and
sent. -/
def osm_lftr_rcv_process_send (env : LftrEnv) (p_rcv : osm_lftr_rcv_t) (m : LftrMachine)
    (p_madw : osm_sa_madw_t) (num_rec pre_trim_num_rec size : Nat) : LftrMachine :=
  let p_rcvd_mad := p_madw.sa_mad
  let mad1 : ib_sa_mad_t :=
    { p_rcvd_mad with
      method := (p_rcvd_mad.method ||| IB_MAD_METHOD_RESP_MASK) % 256
      sm_key := 0
      attr_offset := ib_get_attr_offset sizeof_ib_lft_record_t }
  let mad2 : ib_sa_mad_t :=
    if mad1.method = IB_MAD_METHOD_GETTABLE_RESP then
      if p_rcv.VENDOR_RMPP_SUPPORT = false then
        { mad1 with rmpp_type := IB_RMPP_TYPE_DATA
                    rmpp_flags := IB_RMPP_FLAG_FIRST ||| IB_RMPP_FLAG_LAST ||| IB_RMPP_FLAG_ACTIVE }
      else { mad1 with rmpp_flags := IB_RMPP_FLAG_ACTIVE }
    else mad1
  let r := osm_lftr_rcv_copy_loop num_rec pre_trim_num_rec 0 m []
  let resp : osm_resp_madw_t :=
    { h_bind := p_madw.h_bind, size := size, mad_addr := p_madw.mad_addr, sa_mad := mad2,
      recs := r.2 }
  let m1 := r.1.emit (LftrEvent.vendor_send resp env.vendor_send_ok)
  if env.vendor_send_ok = false then m1.log osm_log_level_t.error 0x4411 else m1

/-- Lines 383-484 of `osm_lftr_rcv_process`: the records are trimmed to one MAD
when the file is compiled without RMPP support, the response MAD is obtained and
sent. `num_rec` is a `uint32_t`. -/
def osm_lftr_rcv_process_reply (env : LftrEnv) (p_rcv : osm_lftr_rcv_t) (m : LftrMachine)
    (p_madw : osm_sa_madw_t) (num_rec : Nat) : LftrMachine :=
  let p_rcvd_mad := p_madw.sa_mad
  let pre_trim_num_rec := num_rec
  let trim_num_rec := (MAD_BLOCK_SIZE - IB_SA_MAD_HDR_SIZE) / sizeof_ib_lft_record_t
  let trimmed := p_rcv.VENDOR_RMPP_SUPPORT = false ∧ trim_num_rec < num_rec
  let m1 := if trimmed then m.log osm_log_level_t.verbose 0 else m
  let num_rec1 := if trimmed then trim_num_rec else num_rec
  let m2 := m1.log osm_log_level_t.debug 0
  if p_rcvd_mad.method ≠ IB_MAD_METHOD_GETTABLE ∧ num_rec1 = 0 then
    m2.emit (LftrEvent.sa_send_error ib_sa_status_t.IB_SA_MAD_STATUS_NO_RECORDS)
  else
    let size := num_rec1 * sizeof_ib_lft_record_t + IB_SA_MAD_HDR_SIZE
    let m3 := m2.emit (LftrEvent.mad_pool_get size env.mad_pool_get_ok)
    if env.mad_pool_get_ok = false then
      let m4 := m3.log osm_log_level_t.error 0x4410
      let m5 := osm_lftr_rcv_put_heads num_rec1 m4
      m5.emit (LftrEvent.sa_send_error ib_sa_status_t.IB_SA_MAD_STATUS_NO_RESOURCES)
    else
      osm_lftr_rcv_process_send env p_rcv m3 p_madw num_rec1 pre_trim_num_rec size

/-- Lines 345-484 of `osm_lftr_rcv_process`: what is sent for the records found.
`num_rec` is a `uint32_t`. The loop of lines 367-376 removes the items until the
list is empty. -/
def osm_lftr_rcv_process_respond (env : LftrEnv) (p_rcv : osm_lftr_rcv_t) (m : LftrMachine)
    (p_madw : osm_sa_madw_t) : LftrMachine :=
  let p_rcvd_mad := p_madw.sa_mad
  let num_rec := m.rec_list.length % 4294967296
  if p_rcvd_mad.method = IB_MAD_METHOD_GET ∧ num_rec = 0 then
    m.emit (LftrEvent.sa_send_error ib_sa_status_t.IB_SA_MAD_STATUS_NO_RECORDS)
  else if p_rcvd_mad.method = IB_MAD_METHOD_GET ∧ num_rec > 1 then
    let m1 := (m.log osm_log_level_t.error 0x4409).emit
      (LftrEvent.sa_send_error ib_sa_status_t.IB_SA_MAD_STATUS_TOO_MANY_RECORDS)
    osm_lftr_rcv_put_heads m1.rec_list.length m1
  else
    osm_lftr_rcv_process_reply env p_rcv m p_madw num_rec

/-- The function `osm_lftr_rcv_process` (lines 276-487), started with `pool_in_use`
record items out of the pool. The result is `none` when the block loop of a
switch does not end within `fuel` evaluations of its condition. -/
def osm_lftr_rcv_process (fuel : Nat) (env : LftrEnv) (p_rcv : osm_lftr_rcv_t)
    (pool_in_use : Nat) (p_madw : osm_sa_madw_t) : Option LftrMachine :=
  let m0 : LftrMachine := ⟨pool_in_use, [], []⟩
  let p_rcvd_mad := p_madw.sa_mad
  if p_rcvd_mad.method ≠ IB_MAD_METHOD_GET ∧ p_rcvd_mad.method ≠ IB_MAD_METHOD_GETTABLE then
    some ((m0.log osm_log_level_t.error 0x4408).emit
      (LftrEvent.sa_send_error ib_sa_status_t.IB_MAD_STATUS_UNSUP_METHOD_ATTR))
  else
    match p_rcv.osm_get_physp_by_mad_addr p_madw.mad_addr with
    | none => some (m0.log osm_log_level_t.error 0x4407)
    | some p_req_physp =>
      match osm_lftr_rcv_process_search fuel env p_rcv m0 p_madw p_req_physp with
      | none => none
      | some m1 => some (osm_lftr_rcv_process_respond env p_rcv m1 p_madw)

/-! ## Definitions used to state the properties -/

/-- The PKeyTable request `osm_pkey_get_tables` makes for a block when the
transport accepts it. -/
def pkey_request (s : Store) (p_node : Nat) (p_physp : Nat × Nat) (block_num : Nat) : Event :=
  Event.req_get (osm_physp_get_dr_path_ptr s p_physp) AttrId.p_key_table
    (cl_hton32 (pkey_attr_mod_ho s p_node (osm_physp_get_port_num p_physp) block_num))
    (osm_madw_context_t.pkey_context (osm_node_get_node_guid s p_node)
      (osm_physp_get_port_guid s p_physp) false) true

/-- The capability `c` that sizes the fan-out of `osm_pkey_get_tables`, host
order: the NodeInfo partition capability when the node has no switch record or
the port number is 0; for a non-zero switch port the SwitchInfo partition
enforcement capability, taken as 0 when the vendor is `IBM_VENDOR_ID`. -/
def pkey_capability (s : Store) (p_node : Nat) (port_num : Nat) : Nat :=
  match (s.node p_node).sw with
  | none => cl_ntoh16 (s.node p_node).node_info.partition_cap
  | some sw =>
    if port_num = 0 then cl_ntoh16 (s.node p_node).node_info.partition_cap
    else if cl_ntoh32 (s.node p_node).node_info.vendor_id = IBM_VENDOR_ID then 0
    else cl_ntoh16 sw.switch_info.enforce_cap

/-- The capability `c` as claim C1 words it: the NodeInfo partition capability
when the node has no switch record or the port number is 0, and the SwitchInfo
partition enforcement capability for a non-zero switch port. -/
def pkey_capability_as_reported (s : Store) (p_node : Nat) (port_num : Nat) : Nat :=
  match (s.node p_node).sw with
  | none => cl_ntoh16 (s.node p_node).node_info.partition_cap
  | some sw =>
    if port_num = 0 then cl_ntoh16 (s.node p_node).node_info.partition_cap
    else cl_ntoh16 sw.switch_info.enforce_cap

/-- A PhysicalPort slot that was never initialized. -/
def Example.physp_empty : osm_physp_t :=
  ⟨ib_port_info_t.zero, 0, none, ⟨0, 0, []⟩, false, false⟩

/-- A Subnet with no Port, no remote manager and the given aggregates. -/
def Example.subn_empty : osm_subn_t :=
  { sm_port_guid := 0x10, master_sm_base_lid := 0, min_ca_mtu := 5, min_ca_rate := 10,
    ignore_other_sm := false, in_sweep_hop_0 := false,
    sm_guid_tbl := fun _ => none, port_guid_tbl := fun _ => none }

/-- An environment in which every log level is active and every request is
accepted. -/
def Example.env_ok : Env := ⟨fun _ => true, fun _ => true⟩

/-- A store whose nodes are all switches of vendor `IBM_VENDOR_ID` (network order
`0x76500000`) reporting a partition enforcement capability of 64 (network order
`0x4000`) and a partition capability of 64. -/
def Example.store_ibm : Store :=
  { subn := Example.subn_empty
    node := fun _ => ⟨⟨IB_NODE_TYPE_SWITCH, 0x77, 0x77, 0x4000, 0x76500000⟩,
      some ⟨⟨0x4000, true⟩⟩⟩
    physp_table := fun _ _ => Example.physp_empty }

/-- A store whose nodes are all channel adapters with the partition capability
65535 (network order `0xFFFF`). -/
def Example.store_ca_full : Store :=
  { subn := Example.subn_empty
    node := fun _ => ⟨⟨IB_NODE_TYPE_CA, 0x55, 0x56, 0xFFFF, 0x01000000⟩, none⟩
    physp_table := fun _ _ => Example.physp_empty }

/-- A store whose nodes are all switches of another vendor reporting a partition
enforcement capability of 33 (network order `0x2100`). -/
def Example.store_sw : Store :=
  { subn := Example.subn_empty
    node := fun _ => ⟨⟨IB_NODE_TYPE_SWITCH, 0x77, 0x77, 0x4000, 0x01000000⟩,
      some ⟨⟨0x2100, true⟩⟩⟩
    physp_table := fun _ _ => Example.physp_empty }

/-- The NodeInfo requests (discovery requests) of a trace, in order. -/
def niReqs (t : List Event) : List Event :=
  t.filter (Event.isReqFor AttrId.node_info)

/-- Whether a link state is one of Init, Armed, Active. -/
@[reducible]
def link_is_live (port_state : Nat) : Prop :=
  port_state = IB_LINK_INIT ∨ port_state = IB_LINK_ARMED ∨ port_state = IB_LINK_ACTIVE

/-- The NodeInfo request `__osm_pi_rcv_process_switch_port` makes through the
port `p_physp` of the node `p_node` in the machine state `m`. -/
def discovery_request (env : Env) (m : Machine) (p_node : Nat) (p_physp : Nat × Nat) : Event :=
  Event.req_get
    (osm_dr_path_extend (osm_physp_get_dr_path_ptr m.store p_physp) (osm_physp_get_port_num p_physp))
    AttrId.node_info 0
    (osm_madw_context_t.ni_context (osm_node_get_node_guid m.store p_node)
      (osm_physp_get_port_num p_physp))
    (env.req_status (m.trace.countP Event.isReq))

/-- The NodeInfo requests a call of `osm_pi_rcv_process` makes, read off the store
before the call and the response: none for a light-sweep response, an unknown
port GUID or a write confirmation; for a discovery read exactly one, through the
port named by the response, when the node of the Port is a switch, the port is
not port 0, discovery is not limited to hop zero, the link state is Init, Armed
or Active and the responder's local port number is another port; none
otherwise. -/
def discovery_requests_expected (env : Env) (s : Store) (p_madw : osm_madw_t) : List Event :=
  let port_num := cl_ntoh32 p_madw.smp.attr_mod % 256
  if p_madw.context.light_sweep = true then []
  else
    match s.subn.port_guid_tbl p_madw.context.port_guid with
    | none => []
    | some p_port =>
      if p_madw.context.set_method = true then []
      else if osm_node_get_type s p_port.p_node = IB_NODE_TYPE_SWITCH
          ∧ port_num ≠ 0 ∧ s.subn.in_sweep_hop_0 = false
          ∧ p_madw.pi.port_state ≠ IB_LINK_DOWN ∧ link_is_live p_madw.pi.port_state
          ∧ p_madw.pi.local_port_num ≠ port_num then
        [Event.req_get
          (osm_dr_path_extend
            (osm_dr_path_init p_madw.h_bind p_madw.smp.hop_count p_madw.smp.initial_path)
            port_num)
          AttrId.node_info 0
          (osm_madw_context_t.ni_context (osm_node_get_node_guid s p_port.p_node) port_num)
          (env.req_status 0)]
      else []

/-- Two values of a PhysicalPort agree on everything but the attribute snapshot
and the adjacency reference: path, port GUID, validity and the
write-acknowledged flag. -/
def physp_kept (a b : osm_physp_t) : Prop :=
  a.dr_path = b.dr_path ∧ a.port_guid = b.port_guid ∧ a.valid = b.valid
    ∧ a.got_set_resp = b.got_set_resp

/-- The machine state of `osm_pi_rcv_process` when the lock has just been taken
(line 691): the response was dumped, the client-reregister bit looked at. -/
def osm_pi_rcv_process_entry (s : Store) (p_madw : osm_madw_t) : Machine :=
  (if p_madw.pi.client_rereg = true then
      ((Machine.mk s []).emit (Event.dump_port_info osm_log_level_t.debug)).log
        osm_log_level_t.debug 0
    else (Machine.mk s []).emit (Event.dump_port_info osm_log_level_t.debug)).emit
    Event.plock_excl_acquire

/-- The response as the receiver passes it on: the client-reregister bit of the
payload cleared (lines 663-669). -/
def osm_madw_cleared (p_madw : osm_madw_t) : osm_madw_t :=
  { p_madw with pi := osm_pi_rcv_clear_client_rereg p_madw.pi }

/-- The port number a response names: the low byte of the host-order attribute
modifier (line 652). -/
def osm_madw_port_num (p_madw : osm_madw_t) : Nat :=
  cl_ntoh32 p_madw.smp.attr_mod % 256

/-- A PhysicalPort that is valid, with the given adjacency reference. -/
def Example.physp_linked (r : Option (Nat × Nat)) : osm_physp_t :=
  ⟨ib_port_info_t.zero, 0x21, r, ⟨7, 1, [0, 1]⟩, false, true⟩

/-- A small fabric. Node 1 and node 2 are switches (node 1 with an enhanced port
0, node 2 with a base port 0), node 3 is a channel adapter, node 4 has an unknown
node type. The Ports 0x21, 0x22, 0x31, 0x41 belong to the nodes 1, 2, 3, 4. Port
3 of node 1 and port 5 of node 2 are valid and wired to each other; every other
PhysicalPort is still to be discovered. The manager's own port is 0x10, a remote
manager is recorded for port 0x31. -/
def Example.store_fabric : Store :=
  { subn :=
      { sm_port_guid := 0x10, master_sm_base_lid := 0, min_ca_mtu := 5, min_ca_rate := 10,
        ignore_other_sm := false, in_sweep_hop_0 := false,
        sm_guid_tbl := fun g => if g = 0x31 then some ⟨0x5A⟩ else none,
        port_guid_tbl := fun g =>
          if g = 0x21 then some ⟨1, 0, [0]⟩
          else if g = 0x22 then some ⟨2, 0, [0]⟩
          else if g = 0x31 then some ⟨3, 0, []⟩
          else if g = 0x41 then some ⟨4, 0, []⟩
          else none }
    node := fun n =>
      if n = 1 then ⟨⟨IB_NODE_TYPE_SWITCH, 0x21, 0x21, 0x4000, 0x01000000⟩, some ⟨⟨0x2100, true⟩⟩⟩
      else if n = 2 then
        ⟨⟨IB_NODE_TYPE_SWITCH, 0x22, 0x22, 0x4000, 0x01000000⟩, some ⟨⟨0, false⟩⟩⟩
      else if n = 3 then ⟨⟨IB_NODE_TYPE_CA, 0x30, 0x31, 0x4000, 0x01000000⟩, none⟩
      else ⟨⟨0, 0x40, 0x41, 0, 0⟩, none⟩
    physp_table := fun n k =>
      if n = 1 ∧ k = 3 then Example.physp_linked (some (2, 5))
      else if n = 2 ∧ k = 5 then Example.physp_linked (some (1, 3))
      else Example.physp_empty }

/-- A discovery-read response for the Port with the given GUID and the given port
number (network-order attribute modifier `port_num * 2^24`), with the given link
state, local port number and base LID; MTU capability 4, rate 3, the IS_SM bit
clear, two hops `[0, 1]` on binding 7. -/
def Example.madw_get (port_guid port_num port_state local_port_num base_lid : Nat) :
    osm_madw_t :=
  { smp := ⟨0, port_num * 16777216, 1, [0, 1], 0x99⟩
    pi := ⟨base_lid, 0, 0, local_port_num, port_state, 4, 3, false, 0⟩
    context := ⟨0x20, port_guid, false, false, false, false, false⟩
    h_bind := 7 }

/-- A write-confirmation response for the Port with the given GUID and port
number, with the given network-order status and the flags ignore-errors and
active-transition; the snapshot has link state Active and base LID 1 (network
order `0x0100`). -/
def Example.madw_set (port_guid port_num status : Nat) (ignore_errors active_transition : Bool) :
    osm_madw_t :=
  { smp := ⟨status, port_num * 16777216, 1, [0, 1], 0x9A⟩
    pi := ⟨0x0100, 0, 0, 1, IB_LINK_ACTIVE, 4, 3, false, 0⟩
    context := ⟨0x20, port_guid, true, false, false, ignore_errors, active_transition⟩
    h_bind := 7 }

/-- Adjacency is symmetric in a store: if the adjacency reference of a
PhysicalPort `a` is `b`, the adjacency reference of `b` is `a`. -/
def adjacency_symmetric (s : Store) : Prop :=
  ∀ a b : Nat × Nat, osm_physp_get_remote s a = some b → osm_physp_get_remote s b = some a

/-- Only valid PhysicalPorts hold an adjacency reference in a store. -/
def adjacency_only_valid (s : Store) : Prop :=
  ∀ a : Nat × Nat, osm_physp_is_valid s a = false → osm_physp_get_remote s a = none

/-- Two stores agree on the adjacency reference and the validity of every
PhysicalPort. -/
def adjacency_same (s' s : Store) : Prop :=
  ∀ q : Nat × Nat, osm_physp_get_remote s' q = osm_physp_get_remote s q
    ∧ osm_physp_is_valid s' q = osm_physp_is_valid s q

/-- The machine state of `osm_pi_rcv_process_get` when the node type is switched
on (line 801): the counter was incremented, the PhysicalPort initialized or its
path refreshed, the master base LID copied. -/
def osm_pi_rcv_process_get_before_dispatch (env : Env) (m : Machine) (port_guid : Nat)
    (p_physp : Nat × Nat) (port_num : Nat) (p_madw : osm_madw_t) : Machine :=
  osm_pi_rcv_process_get_master
    (osm_pi_rcv_process_get_physp env
      ((m.setStore (osm_port_discovery_count_inc m.store port_guid)).logIfActive env
        osm_log_level_t.verbose) port_guid p_physp port_num p_madw) p_madw

/-- A store in which port 4 of node 1 was never discovered and yet is wired, both
ways, to port 6 of node 2; the Ports and nodes are those of
`Example.store_fabric`. -/
def Example.store_undiscovered_link : Store :=
  { Example.store_fabric with
    physp_table := fun n k =>
      if n = 1 ∧ k = 4 then { Example.physp_empty with p_remote_physp := some (2, 6) }
      else if n = 2 ∧ k = 6 then Example.physp_linked (some (1, 4))
      else Example.physp_empty }

/-- A store in which port 3 of node 1 is valid and refers to port 5 of node 2,
which was never discovered; the Ports and nodes are those of
`Example.store_fabric`. -/
def Example.store_dangling_link : Store :=
  { Example.store_fabric with
    physp_table := fun n k =>
      if n = 1 ∧ k = 3 then Example.physp_linked (some (2, 5))
      else Example.physp_empty }

/-- The minimum aggregates of one Subnet are at most those of another. -/
def subn_minima_le (a b : osm_subn_t) : Prop :=
  a.min_ca_mtu ≤ b.min_ca_mtu ∧ a.min_ca_rate ≤ b.min_ca_rate

/-- Two stores have the same shape: every port GUID resolves to a Port of the same
node (or to none) in both, and every node has the same NodeInfo and the same kind
of switch record (none, base port 0, enhanced port 0) in both. -/
def store_shape_same (s' s : Store) : Prop :=
  (∀ g : Nat, Option.map osm_port_t.p_node (s'.subn.port_guid_tbl g)
      = Option.map osm_port_t.p_node (s.subn.port_guid_tbl g))
    ∧ (∀ n : Nat, (s'.node n).node_info = (s.node n).node_info
      ∧ Option.map (fun sw : osm_switch_t => sw.switch_info.enhanced_port0) (s'.node n).sw
        = Option.map (fun sw : osm_switch_t => sw.switch_info.enhanced_port0) (s.node n).sw)

/-- The base-LID correction applied to a snapshot: a base LID outside the unicast
range is replaced by 0. -/
def snapshot_trimmed (p_pi : ib_port_info_t) : ib_port_info_t :=
  if cl_ntoh16 p_pi.base_lid > IB_LID_UCAST_END_HO ∨ cl_ntoh16 p_pi.base_lid < IB_LID_UCAST_START_HO
  then { p_pi with base_lid := 0 } else p_pi

/-- The snapshot a discovery read leaves on the PhysicalPort `port_num` of the node
`p_node` (a channel adapter, router or switch) for the payload `p_pi`: the payload
with the base-LID correction applied on a channel adapter or router port and on
port 0 of a switch, except on a base port 0 of a switch with a switch record; the
payload itself on that base port 0 and on the other ports of a switch. -/
def snapshot_of_get (s : Store) (p_node port_num : Nat) (p_pi : ib_port_info_t) :
    ib_port_info_t :=
  if osm_node_get_type s p_node = IB_NODE_TYPE_CA
      ∨ osm_node_get_type s p_node = IB_NODE_TYPE_ROUTER then snapshot_trimmed p_pi
  else if port_num ≠ 0 then p_pi
  else match Option.map (fun sw : osm_switch_t => sw.switch_info.enhanced_port0)
      (s.node p_node).sw with
    | some false => p_pi
    | _ => snapshot_trimmed p_pi

/-- The snapshot a response leaves on its PhysicalPort, for a response that is not
a light-sweep one and names the known Port `p_port`: the payload with the
client-reregister bit cleared for a write confirmation, and what
`snapshot_of_get` makes of that payload for a discovery read. -/
def snapshot_expected (s : Store) (w : osm_madw_t) (p_port : osm_port_t) : ib_port_info_t :=
  if w.context.set_method = true then osm_pi_rcv_clear_client_rereg w.pi
  else snapshot_of_get s p_port.p_node (osm_madw_port_num w) (osm_pi_rcv_clear_client_rereg w.pi)

/-- Whether a node type is one the receiver handles: channel adapter, router or
switch. -/
def node_type_known (t : Nat) : Prop :=
  t = IB_NODE_TYPE_CA ∨ t = IB_NODE_TYPE_ROUTER ∨ t = IB_NODE_TYPE_SWITCH

/-- A light-sweep response for port 3 of the Port 0x21, with the client-reregister
bit set. -/
def Example.madw_light : osm_madw_t :=
  { smp := ⟨0, 3 * 16777216, 1, [0, 1], 0x9B⟩
    pi := ⟨0x0100, 0, 0, 1, IB_LINK_ACTIVE, 2, 2, true, 0⟩
    context := ⟨0x20, 0x21, false, true, false, false, false⟩
    h_bind := 7 }

/-- The PKeyTable request `osm_pkey_get_tables` makes for a block when the
transport refuses it. -/
def pkey_request_refused (s : Store) (p_node : Nat) (p_physp : Nat × Nat) (block_num : Nat) :
    Event :=
  Event.req_get (osm_physp_get_dr_path_ptr s p_physp) AttrId.p_key_table
    (cl_hton32 (pkey_attr_mod_ho s p_node (osm_physp_get_port_num p_physp) block_num))
    (osm_madw_context_t.pkey_context (osm_node_get_node_guid s p_node)
      (osm_physp_get_port_guid s p_physp) false) false

/-- An environment whose transport refuses the first request and accepts every
later one. -/
def Example.env_first_refused : Env := ⟨fun _ => true, fun k => k != 0⟩

/-- The fabric of `Example.store_fabric` with two discovered endports: port 1 of
node 3 is the port 0x31, for which a remote manager is recorded, and port 1 of
node 5 is the manager's own port 0x10. -/
def Example.store_managers : Store :=
  { Example.store_fabric with
    physp_table := fun n k =>
      if n = 3 ∧ k = 1 then ⟨ib_port_info_t.zero, 0x31, none, ⟨7, 1, [0, 1]⟩, false, true⟩
      else if n = 5 ∧ k = 1 then ⟨ib_port_info_t.zero, 0x10, none, ⟨7, 0, [0]⟩, false, true⟩
      else Example.store_fabric.physp_table n k }

/-- A payload whose capability mask has the IS_SM bit and nothing else; link
state Active, base LID 1, MTU capability 4, rate 3. -/
def Example.pi_is_sm : ib_port_info_t :=
  ⟨0x0100, 0, IB_PORT_CAP_IS_SM, 2, IB_LINK_ACTIVE, 4, 3, false, 0⟩

/-- The same payload with an empty capability mask. -/
def Example.pi_no_sm : ib_port_info_t :=
  ⟨0x0100, 0, 0, 2, IB_LINK_ACTIVE, 4, 3, false, 0⟩

/-- The machine state of `osm_pi_rcv_process`, for a discovery read that names the
known Port `p_port`, when the node type is switched on (line 801). -/
def osm_pi_rcv_process_at_dispatch (env : Env) (s : Store) (w : osm_madw_t)
    (p_port : osm_port_t) : Machine :=
  osm_pi_rcv_process_get_before_dispatch env (osm_pi_rcv_process_entry s w)
    w.context.port_guid (p_port.p_node, osm_madw_port_num w) (osm_madw_port_num w)
    (osm_madw_cleared w)

/-- The machine state of `osm_pi_rcv_process`, for a discovery read that names the
known Port `p_port`, when the tables are fetched (line 824): after the switch on
the node type. -/
def osm_pi_rcv_process_at_tables (env : Env) (s : Store) (w : osm_madw_t)
    (p_port : osm_port_t) : Machine :=
  osm_pi_rcv_process_get_dispatch env (osm_pi_rcv_process_at_dispatch env s w p_port)
    p_port.p_node (p_port.p_node, osm_madw_port_num w) (osm_madw_cleared w).pi

/-- A discovery-read response for port 1 of the Port 0x41, whose node has an
unknown type. -/
def Example.madw_unknown : osm_madw_t := Example.madw_get 0x41 1 IB_LINK_ACTIVE 2 0x0100

/-- The branches of `osm_pi_rcv_process`. -/
inductive Branch where
  | light_sweep
  | unknown_port
  | set
  | get
deriving DecidableEq, Repr

/-- The branch `osm_pi_rcv_process` takes for a response (lines 677, 692-693 and
718): read off the context and the Port table. -/
def osm_pi_rcv_process_branch (s : Store) (p_madw : osm_madw_t) : Branch :=
  if p_madw.context.light_sweep = true then Branch.light_sweep
  else
    match osm_get_port_by_guid s.subn p_madw.context.port_guid with
    | none => Branch.unknown_port
    | some _ => if p_madw.context.set_method = true then Branch.set else Branch.get

/-- The Port and the PhysicalPort `osm_pi_rcv_process` works on: the Port found
under the port GUID of the context (line 692) and the slot of its node
(lines 743-746, lines 556-559 for a write confirmation) at the port number taken
from the attribute modifier of the response (line 652); none for a light-sweep
response or an unknown port GUID. -/
def osm_pi_rcv_process_target (s : Store) (p_madw : osm_madw_t) :
    Option (osm_port_t × (Nat × Nat)) :=
  if p_madw.context.light_sweep = true then none
  else
    match osm_get_port_by_guid s.subn p_madw.context.port_guid with
    | none => none
    | some p_port =>
      some (p_port, osm_node_get_physp_ptr p_port.p_node (osm_madw_port_num p_madw))

/-- Whether an action is an operation on the topology lock. -/
def Event.isLock : Event → Bool
  | Event.plock_excl_acquire => true
  | Event.plock_release => true
  | _ => false

/-- The machine state `m'` continues the machine state `m` without touching the
lock: its trace is the trace of `m` followed by actions none of which is an
operation on the lock. -/
def trace_continues (m' m : Machine) : Prop :=
  ∃ l : List Event, m'.trace = m.trace ++ l ∧ l.countP Event.isLock = 0

/-- The discovery counter of the Port with the given GUID, if there is such a
Port. -/
def discovery_count_of (s : Store) (g : Nat) : Option Nat :=
  Option.map (fun p : osm_port_t => p.discovery_count) (s.subn.port_guid_tbl g)

/-- Whether an action sends something to the requester: an error status or a
record response. -/
def LftrEvent.isSend : LftrEvent → Bool
  | LftrEvent.sa_send_error _ => true
  | LftrEvent.vendor_send _ _ => true
  | _ => false

/-- The header of the response to a query: the header received with the response
bit set in the method, a zero SM key and the attribute offset of an LFT
record. -/
def lftr_resp_header (p_madw : osm_sa_madw_t) : ib_sa_mad_t :=
  { p_madw.sa_mad with
    method := (p_madw.sa_mad.method ||| IB_MAD_METHOD_RESP_MASK) % 256
    sm_key := 0
    attr_offset := ib_get_attr_offset sizeof_ib_lft_record_t }

/-- An environment in which every level is logged, the pool always has an item,
and a response MAD is always available and sent. -/
def Example.lftr_env_ok : LftrEnv := ⟨fun _ => true, fun _ => true, true, true⟩

/-- A receiver over the small fabric: the switches are the nodes 1 and 2 (Ports
0x21 and 0x22, default PhysicalPorts their ports 0, LIDs 4 and 5). Node 1 uses
the blocks 0 and 1 of its table, node 2 only block 0; block `b` of a switch
routes every LID through port `b + 1`. The requester at address 9 is port 1 of
node 3 and shares a partition with node 1 and node 2. Compiled without RMPP
support. -/
def Example.lftr_rcv : osm_lftr_rcv_t :=
  { p_subn := Example.store_fabric
    sw_guid_tbl := [1, 2]
    osm_get_physp_by_mad_addr := fun a => if a = 9 then some (3, 1) else none
    osm_physp_share_pkey := fun _ _ => true
    p_physp := fun g => if g = 0x21 then some (1, 0) else if g = 0x22 then some (2, 0) else none
    osm_port_get_lid_range_ho := fun g => if g = 0x21 then (4, 4) else (5, 5)
    osm_port_get_base_lid := fun g => if g = 0x21 then 0x0400 else 0x0500
    osm_switch_get_max_block_id_in_use := fun n => if n = 1 then 1 else 0
    osm_switch_get_fwd_tbl_block := fun _ b => some (List.replicate 64 (b + 1))
    VENDOR_RMPP_SUPPORT := false }

/-- A query from address 9 on binding 7 with the given method, component mask,
LID and block number (the last two in network order). -/
def Example.lftr_madw (method comp_mask lid block_num : Nat) : osm_sa_madw_t :=
  { sa_mad := ⟨method, comp_mask, 0x1234, 0, 0, 0, 0x77⟩
    payload := ⟨lid, block_num, []⟩
    h_bind := 7
    mad_addr := 9 }

/-- The first filter of an LFT-record query: the switch has a Port under the port
GUID of its node, the Port has a default PhysicalPort, and that PhysicalPort
shares a partition with the PhysicalPort of the requester. -/
def lftr_shares_partition (p_rcv : osm_lftr_rcv_t) (p_ctxt : osm_lftr_search_ctxt_t)
    (p_sw : Nat) : Bool :=
  (osm_get_port_by_guid p_rcv.p_subn.subn (p_rcv.p_subn.node p_sw).node_info.port_guid).isSome
    && (match p_rcv.p_physp (p_rcv.p_subn.node p_sw).node_info.port_guid with
        | none => false
        | some p_physp => p_rcv.osm_physp_share_pkey p_ctxt.p_req_physp p_physp)

/-- The second filter of an LFT-record query: the LID bit of the component mask
is clear, or the requested LID, in host order, lies in the LID range of the
switch's Port, bounds included. -/
def lftr_lid_in_range (p_rcv : osm_lftr_rcv_t) (p_ctxt : osm_lftr_search_ctxt_t)
    (p_sw : Nat) : Bool :=
  decide (p_ctxt.comp_mask &&& IB_LFTR_COMPMASK_LID = 0)
    || (decide ((p_rcv.osm_port_get_lid_range_ho
            (p_rcv.p_subn.node p_sw).node_info.port_guid).1 % 65536
          ≤ cl_ntoh16 p_ctxt.p_rcvd_rec.lid)
        && decide (cl_ntoh16 p_ctxt.p_rcvd_rec.lid
          ≤ (p_rcv.osm_port_get_lid_range_ho
            (p_rcv.p_subn.node p_sw).node_info.port_guid).2 % 65536))

/-- The state in which the block loop of `__osm_lftr_rcv_by_comp_mask` starts for
a switch that passes the filters: the Port was looked up and, when the LID bit
is set, the comparison was logged. -/
def osm_lftr_rcv_by_comp_mask_at_loop (p_rcv : osm_lftr_rcv_t)
    (p_ctxt : osm_lftr_search_ctxt_t) (m : LftrMachine) (p_sw : Nat) : LftrMachine :=
  if p_ctxt.comp_mask &&& IB_LFTR_COMPMASK_LID ≠ 0 then
    (osm_lftr_get_port_by_guid p_rcv m
      (p_rcv.p_subn.node p_sw).node_info.port_guid).2.log osm_log_level_t.debug 0
  else (osm_lftr_get_port_by_guid p_rcv m (p_rcv.p_subn.node p_sw).node_info.port_guid).2

/-- The record of a block of a switch: the base LID of the switch's Port, the
block number in network order, and the block of the forwarding table (zeros when
the table has no such block). -/
def lftr_record (p_rcv : osm_lftr_rcv_t) (p_sw : Nat) (block : Nat) : ib_lft_record_t :=
  { lid := p_rcv.osm_port_get_base_lid (p_rcv.p_subn.node p_sw).node_info.port_guid
    block_num := cl_hton16 block
    lft := (p_rcv.osm_switch_get_fwd_tbl_block p_sw block).getD (List.replicate 64 0) }

/-- Two states of the search agree on everything a later visit of a switch can
depend on and on the result: the list of records, the pool, and the number of
pool requests made so far. -/
def lftr_same_result (a b : LftrMachine) : Prop :=
  a.rec_list = b.rec_list ∧ a.pool_in_use = b.pool_in_use
    ∧ a.trace.countP LftrEvent.isPoolGet = b.trace.countP LftrEvent.isPoolGet

/-- Two runs have the same outcome: neither returns, or both return in states
with the same result. -/
def lftr_same_outcome : Option LftrMachine → Option LftrMachine → Prop
  | none, none => True
  | some a, some b => lftr_same_result a b
  | _, _ => False

/-- Whether a switch passes both filters of an LFT-record query. -/
def lftr_passes (p_rcv : osm_lftr_rcv_t) (p_ctxt : osm_lftr_search_ctxt_t) (p_sw : Nat) : Bool :=
  lftr_shares_partition p_rcv p_ctxt p_sw && lftr_lid_in_range p_rcv p_ctxt p_sw

/-- The number of records of a response for `n` records found: without RMPP support
at most as many as fit in one MAD. -/
def lftr_num_rec (p_rcv : osm_lftr_rcv_t) (n : Nat) : Nat :=
  if p_rcv.VENDOR_RMPP_SUPPORT = false
      ∧ (MAD_BLOCK_SIZE - IB_SA_MAD_HDR_SIZE) / sizeof_ib_lft_record_t < n then
    (MAD_BLOCK_SIZE - IB_SA_MAD_HDR_SIZE) / sizeof_ib_lft_record_t
  else n

/-- The header of the response to a SubnAdmGetTable query compiled without RMPP
support: the response header marked as the first and last packet of an active
RMPP transfer of data. -/
def lftr_resp_header_gettable (p_madw : osm_sa_madw_t) : ib_sa_mad_t :=
  { lftr_resp_header p_madw with
    rmpp_type := IB_RMPP_TYPE_DATA
    rmpp_flags := IB_RMPP_FLAG_FIRST ||| IB_RMPP_FLAG_LAST ||| IB_RMPP_FLAG_ACTIVE }

/-- An environment like `lftr_env_ok` in which no response MAD is available. -/
def Example.lftr_env_no_mad : LftrEnv := ⟨fun _ => true, fun _ => true, false, true⟩

/-- The header of a response as lines 439-463 fill it in: the response header,
with the RMPP fields set when the response method is SubnAdmGetTableResp. -/
def lftr_resp_header_of (p_rcv : osm_lftr_rcv_t) (p_madw : osm_sa_madw_t) : ib_sa_mad_t :=
  if (lftr_resp_header p_madw).method = IB_MAD_METHOD_GETTABLE_RESP then
    if p_rcv.VENDOR_RMPP_SUPPORT = false then lftr_resp_header_gettable p_madw
    else { lftr_resp_header p_madw with rmpp_flags := IB_RMPP_FLAG_ACTIVE }
  else lftr_resp_header p_madw

/-- The state in which the response MAD for `n` records found has just been
requested (line 409): the trimming was logged if there was one, the number of
records was logged, and the request was made. -/
def lftr_at_mad (env : LftrEnv) (p_rcv : osm_lftr_rcv_t) (m : LftrMachine) (n : Nat) :
    LftrMachine :=
  ((if p_rcv.VENDOR_RMPP_SUPPORT = false
        ∧ (MAD_BLOCK_SIZE - IB_SA_MAD_HDR_SIZE) / sizeof_ib_lft_record_t < n then
      m.log osm_log_level_t.verbose 0 else m).log osm_log_level_t.debug 0).emit
    (LftrEvent.mad_pool_get (lftr_num_rec p_rcv n * sizeof_ib_lft_record_t + IB_SA_MAD_HDR_SIZE)
      env.mad_pool_get_ok)

/-! ## Basic facts -/

@[simp] theorem Machine.emit_store (m : Machine) (e : Event) : (m.emit e).store = m.store := rfl

@[simp] theorem Machine.emit_trace (m : Machine) (e : Event) :
    (m.emit e).trace = m.trace ++ [e] := rfl

@[simp] theorem Machine.log_store (m : Machine) (l : osm_log_level_t) (c : Nat) :
    (m.log l c).store = m.store := rfl

@[simp] theorem Machine.log_trace (m : Machine) (l : osm_log_level_t) (c : Nat) :
    (m.log l c).trace = m.trace ++ [Event.log l c] := rfl

@[simp] theorem Machine.setStore_store (m : Machine) (s : Store) : (m.setStore s).store = s := rfl

@[simp] theorem Machine.setStore_trace (m : Machine) (s : Store) :
    (m.setStore s).trace = m.trace := rfl

@[simp] theorem Machine.setSubn_store (m : Machine) (s : osm_subn_t) :
    (m.setSubn s).store = { m.store with subn := s } := rfl

@[simp] theorem Machine.setSubn_trace (m : Machine) (s : osm_subn_t) :
    (m.setSubn s).trace = m.trace := rfl

@[simp] theorem osm_req_get_fst (env : Env) (m : Machine) (p : osm_dr_path_t) (a : AttrId)
    (md : Nat) (c : osm_madw_context_t) :
    (osm_req_get env m p a md c).1 = env.req_status (m.trace.countP Event.isReq) := rfl

@[simp] theorem osm_req_get_store (env : Env) (m : Machine) (p : osm_dr_path_t) (a : AttrId)
    (md : Nat) (c : osm_madw_context_t) : (osm_req_get env m p a md c).2.store = m.store := rfl

@[simp] theorem osm_req_get_trace (env : Env) (m : Machine) (p : osm_dr_path_t) (a : AttrId)
    (md : Nat) (c : osm_madw_context_t) :
    (osm_req_get env m p a md c).2.trace
      = m.trace ++ [Event.req_get p a md c (env.req_status (m.trace.countP Event.isReq))] := rfl

theorem cl_ntoh16_lt (x : Nat) : cl_ntoh16 x < 65536 := by
  unfold cl_ntoh16; omega

theorem osm_pkey_get_tables_loop_ok (env : Env) (h : ∀ k, env.req_status k = true)
    (p_node port_num : Nat) (path : osm_dr_path_t) (ctx : osm_madw_context_t) :
    ∀ (n b : Nat) (m : Machine),
      (osm_pkey_get_tables_loop env p_node port_num path ctx n b m).store = m.store ∧
      (osm_pkey_get_tables_loop env p_node port_num path ctx n b m).trace
        = m.trace ++ (List.range n).map (fun i =>
            Event.req_get path AttrId.p_key_table
              (cl_hton32 (pkey_attr_mod_ho m.store p_node port_num (b + i))) ctx true) := by
  intro n
  induction n with
  | zero => intro b m; simp [osm_pkey_get_tables_loop]
  | succ k ih =>
    intro b m
    rw [osm_pkey_get_tables_loop]
    simp only [osm_req_get_fst, h, if_true]
    obtain ⟨h1, h2⟩ := ih (b + 1) (osm_req_get env m path AttrId.p_key_table
      (cl_hton32 (pkey_attr_mod_ho m.store p_node port_num b)) ctx).2
    refine ⟨by rw [h1]; rfl, ?_⟩
    have hf : (fun i => Event.req_get path AttrId.p_key_table
          (cl_hton32 (pkey_attr_mod_ho m.store p_node port_num (b + 1 + i))) ctx true)
        = (fun i => Event.req_get path AttrId.p_key_table
          (cl_hton32 (pkey_attr_mod_ho m.store p_node port_num (b + i))) ctx true) ∘ Nat.succ := by
      funext i
      simp only [Function.comp, Nat.succ_eq_add_one]
      rw [Nat.add_assoc, Nat.add_comm 1 i]
    rw [h2, osm_req_get_trace, osm_req_get_store, h, List.range_succ_eq_map, List.map_cons,
      List.map_map, List.append_assoc, List.singleton_append, hf, Nat.add_zero]

theorem ceil_div_32 (c : Nat) : (c + 31) / 32 = ⌈(c : ℚ) / 32⌉₊ := by
  apply le_antisymm
  · have h1 : (c : ℚ) / 32 ≤ (⌈(c : ℚ) / 32⌉₊ : ℚ) := Nat.le_ceil _
    have h2 : (c : ℚ) ≤ 32 * (⌈(c : ℚ) / 32⌉₊ : ℚ) := by
      have := (div_le_iff₀ (by norm_num : (0 : ℚ) < 32)).mp h1
      linarith
    have h3 : c ≤ 32 * ⌈(c : ℚ) / 32⌉₊ := by exact_mod_cast h2
    omega
  · apply Nat.ceil_le.mpr
    rw [div_le_iff₀ (by norm_num : (0 : ℚ) < 32)]
    have h3 : c ≤ (c + 31) / 32 * 32 := by omega
    exact_mod_cast h3

/-- Claim C1, as amended: when every request is accepted, `osm_pkey_get_tables`
appends to the trace exactly the PKeyTable requests for the blocks
0, 1, ..., ceil(c/32)-1 in ascending order and nothing else, where `c` is the
host-order partition capability of NodeInfo (no switch record, or port 0) or,
for a non-zero switch port, the host-order partition enforcement capability of
SwitchInfo taken as 0 for the vendor 0x5076; `c` is below 65536 and the count
`(c + 31) / 32` is the exact ceiling, with no 16-bit wrap-around; with `c = 0`
nothing is issued. -/
theorem osm_pkey_get_tables_issues_ceil_blocks (env : Env) (m : Machine) (p_node : Nat)
    (p_physp : Nat × Nat) (h : ∀ k, env.req_status k = true) :
    (osm_pkey_get_tables env m p_node p_physp).trace
        = m.trace ++ (List.range ((pkey_capability m.store p_node p_physp.2 + 31) / 32)).map
            (pkey_request m.store p_node p_physp)
      ∧ (pkey_capability m.store p_node p_physp.2 + 31) / 32
          = ⌈(pkey_capability m.store p_node p_physp.2 : ℚ) / 32⌉₊
      ∧ pkey_capability m.store p_node p_physp.2 < 65536
      ∧ (pkey_capability m.store p_node p_physp.2 = 0 →
          (osm_pkey_get_tables env m p_node p_physp).trace = m.trace) := by
  have key : (osm_pkey_get_tables env m p_node p_physp).trace
        = m.trace ++ (List.range ((pkey_capability m.store p_node p_physp.2 + 31) / 32)).map
            (pkey_request m.store p_node p_physp) := by
    simp only [osm_pkey_get_tables, pkey_capability]
    cases hsw : (m.store.node p_node).sw with
    | none =>
      simp only [IB_NUM_PKEY_ELEMENTS_IN_BLOCK]
      have hlt := cl_ntoh16_lt (m.store.node p_node).node_info.partition_cap
      rw [Nat.mod_eq_of_lt (by omega),
        (osm_pkey_get_tables_loop_ok env h _ _ _ _ _ _ _).2]
      simp [pkey_request]
    | some sw =>
      simp only [IB_NUM_PKEY_ELEMENTS_IN_BLOCK, osm_physp_get_port_num]
      by_cases hp : p_physp.2 = 0
      · simp only [hp, if_true]
        have hlt := cl_ntoh16_lt (m.store.node p_node).node_info.partition_cap
        rw [Nat.mod_eq_of_lt (by omega),
          (osm_pkey_get_tables_loop_ok env h _ _ _ _ _ _ _).2]
        simp [pkey_request, osm_physp_get_port_num, hp]
      · simp only [hp, if_false]
        by_cases hv : cl_ntoh32 (m.store.node p_node).node_info.vendor_id = IBM_VENDOR_ID
        · simp [hv, cl_ntoh16]
        · simp only [hv, if_false]
          have hlt := cl_ntoh16_lt sw.switch_info.enforce_cap
          by_cases hc : cl_ntoh16 sw.switch_info.enforce_cap = 0
          · simp [hc]
          · simp only [hc, if_false]
            rw [Nat.mod_eq_of_lt (by omega),
              (osm_pkey_get_tables_loop_ok env h _ _ _ _ _ _ _).2]
            simp [pkey_request, osm_physp_get_port_num]
  refine ⟨key, ceil_div_32 _, ?_, ?_⟩
  · unfold pkey_capability
    split
    · exact cl_ntoh16_lt _
    · split_ifs
      · exact cl_ntoh16_lt _
      · omega
      · exact cl_ntoh16_lt _
  · intro h0
    rw [key, h0]
    simp

/-- Witness for claim C1: a switch of another vendor, port 1, enforcement
capability 33, every request accepted: two requests, for the blocks 0 and 1. And a
channel adapter with partition capability 65535: 2048 requests. -/
theorem osm_pkey_get_tables_issues_ceil_blocks_witness :
    (∀ k, Example.env_ok.req_status k = true) ∧
    pkey_capability Example.store_sw 1 1 = 33 ∧
    (osm_pkey_get_tables Example.env_ok ⟨Example.store_sw, []⟩ 1 (1, 1)).trace
      = (List.range 2).map (pkey_request Example.store_sw 1 (1, 1)) ∧
    pkey_capability Example.store_ca_full 1 1 = 65535 ∧
    (osm_pkey_get_tables Example.env_ok ⟨Example.store_ca_full, []⟩ 1 (1, 1)).trace.length
      = 2048 := by
  refine ⟨fun _ => rfl, by decide, ?_, by decide, ?_⟩
  · have h := (osm_pkey_get_tables_issues_ceil_blocks Example.env_ok ⟨Example.store_sw, []⟩ 1
      (1, 1) (fun _ => rfl)).1
    rw [h]
    rfl
  · have h := (osm_pkey_get_tables_issues_ceil_blocks Example.env_ok
      ⟨Example.store_ca_full, []⟩ 1 (1, 1) (fun _ => rfl)).1
    rw [h]
    have hc : pkey_capability Example.store_ca_full 1 1 = 65535 := by decide
    simp [hc]

/-- Counterexample to claim C1 as stated: a switch of vendor 0x5076 reports the
partition enforcement capability 64 (host order), every request is accepted, and
for its port 1 no request at all is issued, where the claim asks for
ceil(64/32) = 2. -/
theorem osm_pkey_get_tables_vendor_counterexample :
    (∀ k, Example.env_ok.req_status k = true) ∧
    pkey_capability_as_reported Example.store_ibm 1 1 = 64 ∧
    (osm_pkey_get_tables Example.env_ok ⟨Example.store_ibm, []⟩ 1 (1, 1)).trace = [] ∧
    ((osm_pkey_get_tables Example.env_ok ⟨Example.store_ibm, []⟩ 1 (1, 1)).trace.countP
      (Event.isReqFor AttrId.p_key_table)
        ≠ ⌈(pkey_capability_as_reported Example.store_ibm 1 1 : ℚ) / 32⌉₊) := by
  refine ⟨fun _ => rfl, by decide, by decide, ?_⟩
  rw [← ceil_div_32]
  decide

/-! ## Discovery requests in the trace of each block -/

@[simp] theorem Machine.logIfActive_store (m : Machine) (env : Env) (l : osm_log_level_t) :
    (m.logIfActive env l).store = m.store := by
  unfold Machine.logIfActive; split_ifs <;> rfl

theorem Machine.logIfActive_trace (m : Machine) (env : Env) (l : osm_log_level_t) :
    (m.logIfActive env l).trace
      = m.trace ++ (if env.log_is_active l then [Event.log l 0] else []) := by
  unfold Machine.logIfActive; split_ifs <;> simp

@[simp] theorem niReqs_append (t u : List Event) : niReqs (t ++ u) = niReqs t ++ niReqs u := by
  simp [niReqs]

@[simp] theorem niReqs_nil : niReqs [] = [] := rfl

@[simp] theorem niReqs_log (l : osm_log_level_t) (c : Nat) (t : List Event) :
    niReqs (Event.log l c :: t) = niReqs t := rfl

@[simp] theorem niReqs_dump (l : osm_log_level_t) (t : List Event) :
    niReqs (Event.dump_port_info l :: t) = niReqs t := rfl

@[simp] theorem niReqs_set_sm (h : Nat) (b : Bool) (t : List Event) :
    niReqs (Event.vendor_set_sm h b :: t) = niReqs t := rfl

@[simp] theorem niReqs_signal (t : List Event) :
    niReqs (Event.state_mgr_change_detected :: t) = niReqs t := rfl

@[simp] theorem niReqs_acquire (t : List Event) :
    niReqs (Event.plock_excl_acquire :: t) = niReqs t := rfl

@[simp] theorem niReqs_release (t : List Event) :
    niReqs (Event.plock_release :: t) = niReqs t := rfl

@[simp] theorem niReqs_req_sm_info (p : osm_dr_path_t) (md : Nat) (c : osm_madw_context_t)
    (st : Bool) (t : List Event) :
    niReqs (Event.req_get p AttrId.sm_info md c st :: t) = niReqs t := rfl

@[simp] theorem niReqs_req_p_key_table (p : osm_dr_path_t) (md : Nat) (c : osm_madw_context_t)
    (st : Bool) (t : List Event) :
    niReqs (Event.req_get p AttrId.p_key_table md c st :: t) = niReqs t := rfl

@[simp] theorem niReqs_req_node_info (p : osm_dr_path_t) (md : Nat) (c : osm_madw_context_t)
    (st : Bool) (t : List Event) :
    niReqs (Event.req_get p AttrId.node_info md c st :: t)
      = Event.req_get p AttrId.node_info md c st :: niReqs t := rfl

@[simp] theorem niReqs_logIfActive (m : Machine) (env : Env) (l : osm_log_level_t) :
    niReqs (m.logIfActive env l).trace = niReqs m.trace := by
  rw [Machine.logIfActive_trace]; split_ifs <;> simp

theorem osm_pi_rcv_process_endport_min_niReqs (m : Machine) (p : Nat × Nat)
    (p_pi : ib_port_info_t) :
    niReqs (osm_pi_rcv_process_endport_min m p p_pi).trace = niReqs m.trace := by
  simp only [osm_pi_rcv_process_endport_min, osm_pi_rcv_process_endport_rate,
    osm_pi_rcv_process_endport_mtu]
  split_ifs <;> simp

theorem osm_pi_rcv_process_endport_sm_niReqs (env : Env) (m : Machine) (g : Nat)
    (p : Nat × Nat) (p_pi : ib_port_info_t) :
    niReqs (osm_pi_rcv_process_endport_sm env m g p p_pi).trace = niReqs m.trace := by
  have h4 : niReqs (osm_pi_rcv_process_endport_clean m g).trace = niReqs m.trace := by
    simp only [osm_pi_rcv_process_endport_clean]; split <;> simp
  simp only [osm_pi_rcv_process_endport_sm, osm_pi_rcv_set_sm, osm_pi_rcv_process_endport_query]
  split_ifs <;> simp [h4]

theorem osm_pi_rcv_process_endport_niReqs (env : Env) (m : Machine) (p : Nat × Nat)
    (p_pi : ib_port_info_t) :
    niReqs (osm_pi_rcv_process_endport env m p p_pi).trace = niReqs m.trace := by
  simp only [osm_pi_rcv_process_endport, osm_pi_rcv_process_endport_sm_niReqs,
    osm_pi_rcv_process_endport_min_niReqs]

theorem osm_pi_rcv_trim_base_lid_trace (m : Machine) (p : Nat × Nat) (code : Nat) :
    (osm_pi_rcv_trim_base_lid m p code).trace
      = m.trace ++ (if (osm_physp_trim_base_lid_to_valid_range m.store p).1 ≠ 0
          then [Event.log osm_log_level_t.error code] else []) := by
  simp only [osm_pi_rcv_trim_base_lid]
  split_ifs <;> simp

@[simp] theorem osm_pi_rcv_trim_base_lid_store (m : Machine) (p : Nat × Nat) (code : Nat) :
    (osm_pi_rcv_trim_base_lid m p code).store
      = (osm_physp_trim_base_lid_to_valid_range m.store p).2 := by
  simp only [osm_pi_rcv_trim_base_lid]
  split_ifs <;> simp

@[simp] theorem osm_pi_rcv_trim_base_lid_niReqs (m : Machine) (p : Nat × Nat) (code : Nat) :
    niReqs (osm_pi_rcv_trim_base_lid m p code).trace = niReqs m.trace := by
  rw [osm_pi_rcv_trim_base_lid_trace]; split_ifs <;> simp

@[simp] theorem osm_pi_rcv_process_switch_port_bsp0_trace (m : Machine) (n : Nat)
    (p : Nat × Nat) (p_pi : ib_port_info_t) :
    (osm_pi_rcv_process_switch_port_bsp0 m n p p_pi).trace = m.trace := by
  simp only [osm_pi_rcv_process_switch_port_bsp0]
  split
  · split_ifs <;> rfl
  · rfl

@[simp] theorem osm_pi_rcv_process_ca_or_router_port_niReqs (env : Env) (m : Machine) (n : Nat)
    (p : Nat × Nat) (p_pi : ib_port_info_t) :
    niReqs (osm_pi_rcv_process_ca_or_router_port env m n p p_pi).trace = niReqs m.trace := by
  simp [osm_pi_rcv_process_ca_or_router_port, osm_pi_rcv_process_endport_niReqs]

@[simp] theorem osm_pi_rcv_process_switch_port_0_niReqs (env : Env) (m : Machine) (n : Nat)
    (p : Nat × Nat) (p_pi : ib_port_info_t) :
    niReqs (osm_pi_rcv_process_switch_port_0 env m n p p_pi).trace = niReqs m.trace := by
  simp only [osm_pi_rcv_process_switch_port_0]
  split_ifs <;> simp [osm_pi_rcv_process_endport_niReqs]

theorem osm_pi_rcv_process_switch_port_down_niReqs (m : Machine) (n : Nat) (p : Nat × Nat) :
    niReqs (osm_pi_rcv_process_switch_port_down m n p).trace = niReqs m.trace := by
  simp only [osm_pi_rcv_process_switch_port_down]
  split
  · split_ifs <;> simp
  · rfl

theorem osm_pi_rcv_process_switch_port_probe_niReqs (env : Env) (m : Machine) (n : Nat)
    (p : Nat × Nat) (p_pi : ib_port_info_t) :
    niReqs (osm_pi_rcv_process_switch_port_probe env m n p p_pi).trace
      = niReqs m.trace ++
        (if osm_physp_get_port_num p ≠ 0 ∧ m.store.subn.in_sweep_hop_0 = false
            ∧ p_pi.port_state ≠ IB_LINK_DOWN ∧ link_is_live p_pi.port_state
            ∧ p_pi.local_port_num ≠ osm_physp_get_port_num p
          then [discovery_request env m n p] else []) := by
  simp only [osm_pi_rcv_process_switch_port_probe, osm_pi_rcv_process_switch_port_state,
    osm_pi_rcv_process_switch_port_live, link_is_live, discovery_request]
  by_cases h0 : osm_physp_get_port_num p ≠ 0 ∧ m.store.subn.in_sweep_hop_0 = false
  · rw [if_pos h0]
    by_cases hd : p_pi.port_state = IB_LINK_DOWN
    · simp [hd, osm_pi_rcv_process_switch_port_down_niReqs]
    · rw [if_neg hd]
      by_cases hl : p_pi.port_state = IB_LINK_INIT ∨ p_pi.port_state = IB_LINK_ARMED
          ∨ p_pi.port_state = IB_LINK_ACTIVE
      · rw [if_pos hl]
        by_cases hp : p_pi.local_port_num ≠ osm_physp_get_port_num p
        · have hall : osm_physp_get_port_num p ≠ 0 ∧ m.store.subn.in_sweep_hop_0 = false
              ∧ p_pi.port_state ≠ IB_LINK_DOWN
              ∧ (p_pi.port_state = IB_LINK_INIT ∨ p_pi.port_state = IB_LINK_ARMED
                ∨ p_pi.port_state = IB_LINK_ACTIVE)
              ∧ p_pi.local_port_num ≠ osm_physp_get_port_num p := ⟨h0.1, h0.2, hd, hl, hp⟩
          rw [if_pos hp, if_pos hall]
          split_ifs <;> simp
        · rw [if_neg hp, if_neg (fun h => hp h.2.2.2.2)]
          simp
      · rw [if_neg hl, if_neg (fun h => hl h.2.2.2.1)]
        simp
  · rw [if_neg h0, if_neg (fun h => h0 ⟨h.1, h.2.1⟩)]
    simp

theorem osm_pi_rcv_process_switch_port_niReqs (env : Env) (m : Machine) (n : Nat)
    (p : Nat × Nat) (p_pi : ib_port_info_t) :
    niReqs (osm_pi_rcv_process_switch_port env m n p p_pi).trace
      = niReqs m.trace ++
        (if osm_physp_get_port_num p ≠ 0 ∧ m.store.subn.in_sweep_hop_0 = false
            ∧ p_pi.port_state ≠ IB_LINK_DOWN ∧ link_is_live p_pi.port_state
            ∧ p_pi.local_port_num ≠ osm_physp_get_port_num p
          then [discovery_request env m n p] else []) := by
  simp only [osm_pi_rcv_process_switch_port, osm_pi_rcv_process_switch_port_0_niReqs,
    Machine.setStore_trace, osm_pi_rcv_process_switch_port_probe_niReqs]

theorem osm_pkey_get_tables_loop_store (env : Env) (p_node port_num : Nat)
    (path : osm_dr_path_t) (ctx : osm_madw_context_t) :
    ∀ (n b : Nat) (m : Machine),
      (osm_pkey_get_tables_loop env p_node port_num path ctx n b m).store = m.store := by
  intro n
  induction n with
  | zero => intro b m; rfl
  | succ k ih =>
    intro b m
    rw [osm_pkey_get_tables_loop]
    simp only [osm_req_get_fst]
    split_ifs
    · rw [ih]; rfl
    · rfl

theorem osm_pkey_get_tables_loop_niReqs (env : Env) (p_node port_num : Nat)
    (path : osm_dr_path_t) (ctx : osm_madw_context_t) :
    ∀ (n b : Nat) (m : Machine),
      niReqs (osm_pkey_get_tables_loop env p_node port_num path ctx n b m).trace
        = niReqs m.trace := by
  intro n
  induction n with
  | zero => intro b m; rfl
  | succ k ih =>
    intro b m
    rw [osm_pkey_get_tables_loop]
    simp only [osm_req_get_fst]
    split_ifs
    · rw [ih]; simp
    · simp

@[simp] theorem osm_pkey_get_tables_niReqs (env : Env) (m : Machine) (n : Nat) (p : Nat × Nat) :
    niReqs (osm_pkey_get_tables env m n p).trace = niReqs m.trace := by
  simp only [osm_pkey_get_tables]
  split
  · split_ifs <;> simp [osm_pkey_get_tables_loop_niReqs]
  · simp [osm_pkey_get_tables_loop_niReqs]

theorem osm_pi_rcv_process_get_dispatch_niReqs (env : Env) (m : Machine) (n : Nat)
    (p : Nat × Nat) (p_pi : ib_port_info_t) :
    niReqs (osm_pi_rcv_process_get_dispatch env m n p p_pi).trace
      = niReqs m.trace ++
        (if osm_node_get_type m.store n = IB_NODE_TYPE_SWITCH
            ∧ osm_physp_get_port_num p ≠ 0 ∧ m.store.subn.in_sweep_hop_0 = false
            ∧ p_pi.port_state ≠ IB_LINK_DOWN ∧ link_is_live p_pi.port_state
            ∧ p_pi.local_port_num ≠ osm_physp_get_port_num p
          then [discovery_request env m n p] else []) := by
  simp only [osm_pi_rcv_process_get_dispatch]
  by_cases hs : osm_node_get_type m.store n = IB_NODE_TYPE_SWITCH
  · have h1 : ¬ (osm_node_get_type m.store n = IB_NODE_TYPE_CA
        ∨ osm_node_get_type m.store n = IB_NODE_TYPE_ROUTER) := by
      rw [hs]; decide
    rw [if_neg h1, if_pos hs, osm_pi_rcv_process_switch_port_niReqs]
    simp [hs]
  · have h2 : ¬ (osm_node_get_type m.store n = IB_NODE_TYPE_SWITCH
            ∧ osm_physp_get_port_num p ≠ 0 ∧ m.store.subn.in_sweep_hop_0 = false
            ∧ p_pi.port_state ≠ IB_LINK_DOWN ∧ link_is_live p_pi.port_state
            ∧ p_pi.local_port_num ≠ osm_physp_get_port_num p) := fun h => hs h.1
    rw [if_neg h2, if_neg hs]
    split_ifs <;> simp

/-! ## The store and the trace before the switch on the node type -/

@[simp] theorem Store.physp_setPhysp_same (s : Store) (p : Nat × Nat) (v : osm_physp_t) :
    (s.setPhysp p v).physp p = v := by
  simp [Store.setPhysp, Store.physp]

theorem Store.physp_setPhysp (s : Store) (p q : Nat × Nat) (v : osm_physp_t) :
    (s.setPhysp p v).physp q = if q = p then v else s.physp q := by
  obtain ⟨p1, p2⟩ := p
  obtain ⟨q1, q2⟩ := q
  simp [Store.setPhysp, Store.physp, Prod.ext_iff]

@[simp] theorem Store.setPhysp_node (s : Store) (p : Nat × Nat) (v : osm_physp_t) :
    (s.setPhysp p v).node = s.node := rfl

@[simp] theorem Store.setPhysp_subn (s : Store) (p : Nat × Nat) (v : osm_physp_t) :
    (s.setPhysp p v).subn = s.subn := rfl

@[simp] theorem Event.isReq_log (l : osm_log_level_t) (c : Nat) :
    Event.isReq (Event.log l c) = false := rfl

@[simp] theorem Event.isReq_dump (l : osm_log_level_t) :
    Event.isReq (Event.dump_port_info l) = false := rfl

@[simp] theorem Event.isReq_req (p : osm_dr_path_t) (a : AttrId) (md : Nat)
    (c : osm_madw_context_t) (st : Bool) : Event.isReq (Event.req_get p a md c st) = true := rfl

@[simp] theorem Event.isReq_set_sm (h : Nat) (b : Bool) :
    Event.isReq (Event.vendor_set_sm h b) = false := rfl

@[simp] theorem Event.isReq_signal : Event.isReq Event.state_mgr_change_detected = false := rfl

@[simp] theorem Event.isReq_acquire : Event.isReq Event.plock_excl_acquire = false := rfl

@[simp] theorem Event.isReq_release : Event.isReq Event.plock_release = false := rfl

@[simp] theorem reqCount_logIfActive (m : Machine) (env : Env) (l : osm_log_level_t) :
    (m.logIfActive env l).trace.countP Event.isReq = m.trace.countP Event.isReq := by
  rw [Machine.logIfActive_trace]; split_ifs <;> simp

/-- The machine state of `osm_pi_rcv_process_get` when the node type is switched
on: after the counter, the PhysicalPort and the master base LID were handled. -/
theorem osm_pi_rcv_process_get_pre (env : Env) (m : Machine) (g : Nat) (p : Nat × Nat)
    (pn : Nat) (w : osm_madw_t) :
    let m4 := osm_pi_rcv_process_get_master
      (osm_pi_rcv_process_get_physp env
        ((m.setStore (osm_port_discovery_count_inc m.store g)).logIfActive env
          osm_log_level_t.verbose) g p pn w) w
    m4.store.node = m.store.node
      ∧ m4.store.subn.in_sweep_hop_0 = m.store.subn.in_sweep_hop_0
      ∧ (m4.store.physp p).dr_path = osm_dr_path_init w.h_bind w.smp.hop_count w.smp.initial_path
      ∧ niReqs m4.trace = niReqs m.trace
      ∧ m4.trace.countP Event.isReq = m.trace.countP Event.isReq := by
  simp only [osm_pi_rcv_process_get_master, osm_pi_rcv_process_get_physp]
  split_ifs <;>
    simp [osm_physp_init, osm_port_add_new_physp, osm_port_discovery_count_inc, Store.physp,
      Store.setPhysp]

theorem osm_pi_rcv_process_get_niReqs (env : Env) (m : Machine) (g : Nat) (p_port : osm_port_t)
    (pn : Nat) (w : osm_madw_t) :
    niReqs (osm_pi_rcv_process_get env m g p_port pn w).trace
      = niReqs m.trace ++
        (if osm_node_get_type m.store p_port.p_node = IB_NODE_TYPE_SWITCH
            ∧ pn ≠ 0 ∧ m.store.subn.in_sweep_hop_0 = false
            ∧ w.pi.port_state ≠ IB_LINK_DOWN ∧ link_is_live w.pi.port_state
            ∧ w.pi.local_port_num ≠ pn then
          [Event.req_get
            (osm_dr_path_extend (osm_dr_path_init w.h_bind w.smp.hop_count w.smp.initial_path) pn)
            AttrId.node_info 0
            (osm_madw_context_t.ni_context (osm_node_get_node_guid m.store p_port.p_node) pn)
            (env.req_status (m.trace.countP Event.isReq))]
        else []) := by
  obtain ⟨h1, h2, h3, h4, h5⟩ := osm_pi_rcv_process_get_pre env m g
    (osm_node_get_physp_ptr p_port.p_node pn) pn w
  simp only [osm_pi_rcv_process_get, osm_pi_rcv_get_pkey_slvl_vla_tables,
    osm_pkey_get_tables_niReqs, osm_pi_rcv_process_get_dispatch_niReqs, discovery_request,
    osm_node_get_type, osm_node_get_node_guid, osm_physp_get_dr_path_ptr,
    osm_physp_get_port_num, osm_node_get_physp_ptr] at *
  rw [h1, h2, h3, h4, h5]

theorem osm_pi_rcv_process_set_niReqs (env : Env) (m : Machine) (p_port : osm_port_t)
    (pn : Nat) (w : osm_madw_t) :
    niReqs (osm_pi_rcv_process_set env m p_port pn w).trace = niReqs m.trace := by
  simp only [osm_pi_rcv_process_set, osm_pi_rcv_process_set_status, Machine.setStore_trace,
    niReqs_logIfActive]
  split_ifs <;> simp

theorem osm_pi_rcv_clear_client_rereg_fields (x : ib_port_info_t) :
    (osm_pi_rcv_clear_client_rereg x).port_state = x.port_state
      ∧ (osm_pi_rcv_clear_client_rereg x).local_port_num = x.local_port_num
      ∧ (osm_pi_rcv_clear_client_rereg x).mtu_cap = x.mtu_cap
      ∧ (osm_pi_rcv_clear_client_rereg x).rate = x.rate
      ∧ (osm_pi_rcv_clear_client_rereg x).base_lid = x.base_lid
      ∧ (osm_pi_rcv_clear_client_rereg x).capability_mask = x.capability_mask
      ∧ (osm_pi_rcv_clear_client_rereg x).master_sm_base_lid = x.master_sm_base_lid := by
  unfold osm_pi_rcv_clear_client_rereg; split_ifs <;> simp

/-- The machine state of `osm_pi_rcv_process` after the dump of the response and
the clearing of the client-reregister bit (lines 657-669): the store is the
initial one, no request was made. -/
theorem osm_pi_rcv_process_start (s : Store) (w : osm_madw_t) :
    let m1 := if w.pi.client_rereg = true then
        ((Machine.mk s []).emit (Event.dump_port_info osm_log_level_t.debug)).log
          osm_log_level_t.debug 0
      else (Machine.mk s []).emit (Event.dump_port_info osm_log_level_t.debug)
    m1.store = s ∧ m1.trace.countP Event.isReq = 0 ∧ niReqs m1.trace = [] := by
  simp only []
  split_ifs <;> simp [Machine.emit]

/-- The NodeInfo requests of a call of `osm_pi_rcv_process` are the expected
ones. -/
theorem osm_pi_rcv_process_niReqs (env : Env) (s : Store) (w : osm_madw_t) :
    niReqs (osm_pi_rcv_process env s w).trace = discovery_requests_expected env s w := by
  obtain ⟨hm, hc, hn⟩ := osm_pi_rcv_process_start s w
  simp only [osm_pi_rcv_process, discovery_requests_expected]
  generalize (if w.pi.client_rereg = true then
        ((Machine.mk s []).emit (Event.dump_port_info osm_log_level_t.debug)).log
          osm_log_level_t.debug 0
      else (Machine.mk s []).emit (Event.dump_port_info osm_log_level_t.debug)) = m1 at hm hc hn ⊢
  by_cases hl : w.context.light_sweep = true
  · simp [hl, hn]
  · rw [if_neg hl, if_neg hl]
    simp only [osm_pi_rcv_process_locked, osm_get_port_by_guid, Machine.emit_store, hm]
    cases hp : s.subn.port_guid_tbl w.context.port_guid with
    | none => simp [hn]
    | some p_port =>
      simp only []
      by_cases hset : w.context.set_method = true
      · rw [if_pos hset, if_pos hset]
        simp [osm_pi_rcv_process_set_niReqs, hn]
      · rw [if_neg hset, if_neg hset]
        simp only [Machine.emit_trace, niReqs_append, osm_pi_rcv_process_get_niReqs,
          Machine.emit_store, hm, (osm_pi_rcv_clear_client_rereg_fields w.pi).1,
          (osm_pi_rcv_clear_client_rereg_fields w.pi).2.1]
        simp [hn, hc]

/-! ## What each block leaves untouched in the store -/

@[simp] theorem osm_pi_rcv_set_sm_store (env : Env) (m : Machine) (p : Nat × Nat) :
    (osm_pi_rcv_set_sm env m p).store = m.store := by
  simp [osm_pi_rcv_set_sm]

theorem osm_pi_rcv_process_endport_physp_table (env : Env) (m : Machine) (p : Nat × Nat)
    (p_pi : ib_port_info_t) :
    (osm_pi_rcv_process_endport env m p p_pi).store.physp_table = m.store.physp_table := by
  have h1 : (osm_pi_rcv_process_endport_min m p p_pi).store.physp_table
      = m.store.physp_table := by
    simp only [osm_pi_rcv_process_endport_min, osm_pi_rcv_process_endport_rate,
      osm_pi_rcv_process_endport_mtu]
    split_ifs <;> rfl
  have h2 : ∀ (m : Machine) g, (osm_pi_rcv_process_endport_clean m g).store.physp_table
      = m.store.physp_table := by
    intro m g; simp only [osm_pi_rcv_process_endport_clean]; split <;> rfl
  have h3 : ∀ (m : Machine) g, (osm_pi_rcv_process_endport_sm env m g p p_pi).store.physp_table
      = m.store.physp_table := by
    intro m g
    simp only [osm_pi_rcv_process_endport_sm, osm_pi_rcv_process_endport_query]
    split_ifs <;> simp [h2]
  simp only [osm_pi_rcv_process_endport, h3, h1]

theorem osm_pi_rcv_process_endport_node (env : Env) (m : Machine) (p : Nat × Nat)
    (p_pi : ib_port_info_t) :
    (osm_pi_rcv_process_endport env m p p_pi).store.node = m.store.node := by
  have h1 : (osm_pi_rcv_process_endport_min m p p_pi).store.node = m.store.node := by
    simp only [osm_pi_rcv_process_endport_min, osm_pi_rcv_process_endport_rate,
      osm_pi_rcv_process_endport_mtu]
    split_ifs <;> rfl
  have h2 : ∀ (m : Machine) g, (osm_pi_rcv_process_endport_clean m g).store.node
      = m.store.node := by
    intro m g; simp only [osm_pi_rcv_process_endport_clean]; split <;> rfl
  have h3 : ∀ (m : Machine) g, (osm_pi_rcv_process_endport_sm env m g p p_pi).store.node
      = m.store.node := by
    intro m g
    simp only [osm_pi_rcv_process_endport_sm, osm_pi_rcv_process_endport_query]
    split_ifs <;> simp [h2]
  simp only [osm_pi_rcv_process_endport, h3, h1]

theorem osm_pi_rcv_process_endport_physp (env : Env) (m : Machine) (p q : Nat × Nat)
    (p_pi : ib_port_info_t) :
    (osm_pi_rcv_process_endport env m p p_pi).store.physp q = m.store.physp q := by
  simp only [Store.physp, osm_pi_rcv_process_endport_physp_table]

theorem osm_pkey_get_tables_physp_table (env : Env) (m : Machine) (n : Nat) (p : Nat × Nat) :
    (osm_pkey_get_tables env m n p).store.physp_table = m.store.physp_table := by
  simp only [osm_pkey_get_tables]
  split
  · split_ifs <;> simp [osm_pkey_get_tables_loop_store, Store.setEnforceCap]
  · simp [osm_pkey_get_tables_loop_store]

theorem osm_pkey_get_tables_subn (env : Env) (m : Machine) (n : Nat) (p : Nat × Nat) :
    (osm_pkey_get_tables env m n p).store.subn = m.store.subn := by
  simp only [osm_pkey_get_tables]
  split
  · split_ifs <;> simp [osm_pkey_get_tables_loop_store, Store.setEnforceCap]
  · simp [osm_pkey_get_tables_loop_store]

theorem osm_pkey_get_tables_physp (env : Env) (m : Machine) (n : Nat) (p q : Nat × Nat) :
    (osm_pkey_get_tables env m n p).store.physp q = m.store.physp q := by
  simp only [Store.physp, osm_pkey_get_tables_physp_table]

theorem physp_kept_refl (a : osm_physp_t) : physp_kept a a := ⟨rfl, rfl, rfl, rfl⟩

theorem physp_kept_trans {a b c : osm_physp_t} (h1 : physp_kept a b) (h2 : physp_kept b c) :
    physp_kept a c :=
  ⟨h1.1.trans h2.1, h1.2.1.trans h2.2.1, h1.2.2.1.trans h2.2.2.1, h1.2.2.2.trans h2.2.2.2⟩

theorem osm_physp_set_port_info_kept (s : Store) (p q : Nat × Nat) (p_pi : ib_port_info_t) :
    physp_kept ((osm_physp_set_port_info s p p_pi).physp q) (s.physp q) := by
  simp only [osm_physp_set_port_info, Store.physp_setPhysp]
  split_ifs with h
  · subst h; exact ⟨rfl, rfl, rfl, rfl⟩
  · exact physp_kept_refl _

theorem osm_physp_trim_base_lid_kept (s : Store) (p q : Nat × Nat) :
    physp_kept ((osm_physp_trim_base_lid_to_valid_range s p).2.physp q) (s.physp q) := by
  simp only [osm_physp_trim_base_lid_to_valid_range]
  split_ifs
  · simp only [Store.physp_setPhysp]
    split_ifs with h
    · subst h; exact ⟨rfl, rfl, rfl, rfl⟩
    · exact physp_kept_refl _
  · exact physp_kept_refl _

theorem Store.setPhysp_remote_kept (s : Store) (a q : Nat × Nat) (x : Option (Nat × Nat)) :
    physp_kept ((s.setPhysp a { s.physp a with p_remote_physp := x }).physp q) (s.physp q) := by
  simp only [Store.physp_setPhysp]
  split_ifs with h
  · subst h; exact ⟨rfl, rfl, rfl, rfl⟩
  · exact physp_kept_refl _

theorem osm_node_unlink_kept (s : Store) (n pn rn rpn : Nat) (q : Nat × Nat) :
    physp_kept ((osm_node_unlink s n pn rn rpn).physp q) (s.physp q) := by
  simp only [osm_node_unlink]
  exact physp_kept_trans (Store.setPhysp_remote_kept _ _ _ _) (Store.setPhysp_remote_kept _ _ _ _)

theorem osm_pi_rcv_process_switch_port_probe_kept (env : Env) (m : Machine) (n : Nat)
    (p q : Nat × Nat) (p_pi : ib_port_info_t) :
    physp_kept ((osm_pi_rcv_process_switch_port_probe env m n p p_pi).store.physp q)
      (m.store.physp q) := by
  simp only [osm_pi_rcv_process_switch_port_probe, osm_pi_rcv_process_switch_port_state,
    osm_pi_rcv_process_switch_port_live, osm_pi_rcv_process_switch_port_down]
  split_ifs
  · split
    · split_ifs
      · exact osm_node_unlink_kept _ _ _ _ _ _
      · exact physp_kept_refl _
    · exact physp_kept_refl _
  all_goals simp [physp_kept_refl]

theorem osm_pi_rcv_process_switch_port_bsp0_kept (m : Machine) (n : Nat) (p q : Nat × Nat)
    (p_pi : ib_port_info_t) :
    physp_kept ((osm_pi_rcv_process_switch_port_bsp0 m n p p_pi).store.physp q)
      (m.store.physp q) := by
  simp only [osm_pi_rcv_process_switch_port_bsp0]
  split
  · split_ifs
    · simp only [Machine.setStore_store, Store.physp_setPhysp]
      split_ifs with h
      · subst h; exact ⟨rfl, rfl, rfl, rfl⟩
      · exact physp_kept_refl _
    · exact physp_kept_refl _
  · exact physp_kept_refl _

theorem osm_pi_rcv_process_switch_port_kept (env : Env) (m : Machine) (n : Nat)
    (p q : Nat × Nat) (p_pi : ib_port_info_t) :
    physp_kept ((osm_pi_rcv_process_switch_port env m n p p_pi).store.physp q)
      (m.store.physp q) := by
  have h1 := osm_pi_rcv_process_switch_port_probe_kept env m n p q p_pi
  have h2 := osm_physp_set_port_info_kept
    (osm_pi_rcv_process_switch_port_probe env m n p p_pi).store p q p_pi
  refine physp_kept_trans ?_ (physp_kept_trans h2 h1)
  simp only [osm_pi_rcv_process_switch_port, osm_pi_rcv_process_switch_port_0]
  split_ifs
  · rw [osm_pi_rcv_process_endport_physp]
    refine physp_kept_trans (osm_pi_rcv_process_switch_port_bsp0_kept _ _ _ _ _) ?_
    rw [osm_pi_rcv_trim_base_lid_store]
    exact osm_physp_trim_base_lid_kept _ _ _
  · exact physp_kept_refl _

theorem osm_pi_rcv_process_ca_or_router_port_kept (env : Env) (m : Machine) (n : Nat)
    (p q : Nat × Nat) (p_pi : ib_port_info_t) :
    physp_kept ((osm_pi_rcv_process_ca_or_router_port env m n p p_pi).store.physp q)
      (m.store.physp q) := by
  simp only [osm_pi_rcv_process_ca_or_router_port, osm_pi_rcv_process_endport_physp,
    osm_pi_rcv_trim_base_lid_store, Machine.setStore_store]
  exact physp_kept_trans (osm_physp_trim_base_lid_kept _ _ _)
    (osm_physp_set_port_info_kept _ _ _ _)

theorem osm_pi_rcv_process_get_dispatch_kept (env : Env) (m : Machine) (n : Nat)
    (p q : Nat × Nat) (p_pi : ib_port_info_t) :
    physp_kept ((osm_pi_rcv_process_get_dispatch env m n p p_pi).store.physp q)
      (m.store.physp q) := by
  simp only [osm_pi_rcv_process_get_dispatch]
  split_ifs
  · exact osm_pi_rcv_process_ca_or_router_port_kept _ _ _ _ _ _
  · exact osm_pi_rcv_process_switch_port_kept _ _ _ _ _ _
  · exact physp_kept_refl _

/-! ## The branches of `osm_pi_rcv_process` -/

@[simp] theorem osm_pi_rcv_process_entry_store (s : Store) (w : osm_madw_t) :
    (osm_pi_rcv_process_entry s w).store = s := by
  simp only [osm_pi_rcv_process_entry]; split_ifs <;> rfl

@[simp] theorem osm_pi_rcv_process_entry_reqCount (s : Store) (w : osm_madw_t) :
    (osm_pi_rcv_process_entry s w).trace.countP Event.isReq = 0 := by
  simp only [osm_pi_rcv_process_entry]; split_ifs <;> simp [Machine.emit]

/-- A discovery read for a known Port runs `osm_pi_rcv_process_get` under the
lock. -/
theorem osm_pi_rcv_process_of_get (env : Env) (s : Store) (w : osm_madw_t) (p_port : osm_port_t)
    (hl : w.context.light_sweep = false) (hset : w.context.set_method = false)
    (hp : s.subn.port_guid_tbl w.context.port_guid = some p_port) :
    (osm_pi_rcv_process env s w).store
        = (osm_pi_rcv_process_get env (osm_pi_rcv_process_entry s w) w.context.port_guid p_port
            (osm_madw_port_num w) (osm_madw_cleared w)).store
      ∧ (osm_pi_rcv_process env s w).trace
        = (osm_pi_rcv_process_get env (osm_pi_rcv_process_entry s w) w.context.port_guid p_port
            (osm_madw_port_num w) (osm_madw_cleared w)).trace ++ [Event.plock_release] := by
  have hm : ∀ m : Machine, m.store = s →
      osm_get_port_by_guid (m.emit Event.plock_excl_acquire).store.subn w.context.port_guid
        = some p_port := by
    intro m h; simp [osm_get_port_by_guid, h, hp]
  simp only [osm_pi_rcv_process, osm_pi_rcv_process_entry, osm_pi_rcv_process_locked, hl, hset,
    osm_madw_port_num, osm_madw_cleared, Bool.false_eq_true, if_false, if_true]
  split_ifs
  · rw [hm _ rfl]; simp
  · rw [hm _ rfl]; simp

/-- A write confirmation for a known Port runs `osm_pi_rcv_process_set` under the
lock. -/
theorem osm_pi_rcv_process_of_set (env : Env) (s : Store) (w : osm_madw_t) (p_port : osm_port_t)
    (hl : w.context.light_sweep = false) (hset : w.context.set_method = true)
    (hp : s.subn.port_guid_tbl w.context.port_guid = some p_port) :
    (osm_pi_rcv_process env s w).store
        = (osm_pi_rcv_process_set env (osm_pi_rcv_process_entry s w) p_port
            (osm_madw_port_num w) (osm_madw_cleared w)).store
      ∧ (osm_pi_rcv_process env s w).trace
        = (osm_pi_rcv_process_set env (osm_pi_rcv_process_entry s w) p_port
            (osm_madw_port_num w) (osm_madw_cleared w)).trace ++ [Event.plock_release] := by
  have hm : ∀ m : Machine, m.store = s →
      osm_get_port_by_guid (m.emit Event.plock_excl_acquire).store.subn w.context.port_guid
        = some p_port := by
    intro m h; simp [osm_get_port_by_guid, h, hp]
  simp only [osm_pi_rcv_process, osm_pi_rcv_process_entry, osm_pi_rcv_process_locked, hl, hset,
    osm_madw_port_num, osm_madw_cleared, Bool.false_eq_true, if_false, if_true]
  split_ifs
  · rw [hm _ rfl]; simp
  · rw [hm _ rfl]; simp

@[simp] theorem osm_pi_rcv_process_p_pi (env : Env) (s : Store) (w : osm_madw_t) :
    (osm_pi_rcv_process env s w).p_pi = osm_pi_rcv_clear_client_rereg w.pi := rfl

theorem osm_pi_rcv_process_get_dr_path (env : Env) (m : Machine) (g : Nat) (p_port : osm_port_t)
    (pn : Nat) (w : osm_madw_t) :
    ((osm_pi_rcv_process_get env m g p_port pn w).store.physp (p_port.p_node, pn)).dr_path
      = osm_dr_path_init w.h_bind w.smp.hop_count w.smp.initial_path := by
  obtain ⟨_, _, h3, _, _⟩ := osm_pi_rcv_process_get_pre env m g
    (osm_node_get_physp_ptr p_port.p_node pn) pn w
  simp only [osm_pi_rcv_process_get, osm_pi_rcv_get_pkey_slvl_vla_tables,
    osm_pkey_get_tables_physp, osm_node_get_physp_ptr] at *
  rw [(osm_pi_rcv_process_get_dispatch_kept _ _ _ _ _ _).1, h3]

/-! ## Claims C2 and C5: the discovery request of a switch port -/

/-- Claim C2: whatever the store, the environment and the response, every
NodeInfo request `osm_pi_rcv_process` issues goes through the port the response
names (the path built from the response extended by that port, the context
carrying that port) and that port differs from the `local_port_num` of the
payload; so when the payload's `local_port_num` equals the PhysicalPort's port
number, no NodeInfo request is issued, whatever the link state. -/
theorem osm_pi_rcv_process_never_probes_responder (env : Env) (s : Store) (w : osm_madw_t) :
    (∀ e ∈ niReqs (osm_pi_rcv_process env s w).trace,
        ∃ g st, e = Event.req_get
            (osm_dr_path_extend
              (osm_dr_path_init w.h_bind w.smp.hop_count w.smp.initial_path)
              (osm_madw_port_num w))
            AttrId.node_info 0 (osm_madw_context_t.ni_context g (osm_madw_port_num w)) st
          ∧ osm_madw_port_num w ≠ w.pi.local_port_num)
    ∧ (w.pi.local_port_num = osm_madw_port_num w →
        niReqs (osm_pi_rcv_process env s w).trace = []) := by
  rw [osm_pi_rcv_process_niReqs]
  simp only [discovery_requests_expected, osm_madw_port_num]
  by_cases h1 : w.context.light_sweep = true
  · simp [h1]
  · rw [if_neg h1]
    cases hp : s.subn.port_guid_tbl w.context.port_guid with
    | none => simp
    | some p_port =>
      simp only []
      by_cases h2 : w.context.set_method = true
      · simp [h2]
      · rw [if_neg h2]
        split_ifs with h3
        · refine ⟨?_, fun h => absurd h h3.2.2.2.2.2⟩
          intro e he
          simp only [List.mem_singleton] at he
          exact ⟨_, _, he, fun h => h3.2.2.2.2.2 h.symm⟩
        · simp

/-- Witness for claim C2, the scenario of the spec: port 3 of a switch answers
with link state Active and local port number 3; no discovery request is issued
and the snapshot is stored. -/
theorem osm_pi_rcv_process_never_probes_responder_witness :
    (Example.madw_get 0x21 3 IB_LINK_ACTIVE 3 0x0100).pi.local_port_num
        = osm_madw_port_num (Example.madw_get 0x21 3 IB_LINK_ACTIVE 3 0x0100)
      ∧ niReqs (osm_pi_rcv_process Example.env_ok Example.store_fabric
          (Example.madw_get 0x21 3 IB_LINK_ACTIVE 3 0x0100)).trace = []
      ∧ ((osm_pi_rcv_process Example.env_ok Example.store_fabric
          (Example.madw_get 0x21 3 IB_LINK_ACTIVE 3 0x0100)).store.physp (1, 3)).port_info
        = (Example.madw_get 0x21 3 IB_LINK_ACTIVE 3 0x0100).pi :=
  ⟨by decide,
   (osm_pi_rcv_process_never_probes_responder Example.env_ok Example.store_fabric
      (Example.madw_get 0x21 3 IB_LINK_ACTIVE 3 0x0100)).2 (by decide),
   by decide⟩

/-- Claim C5: a discovery read for a known Port of a switch, for a non-zero port
`p`, with discovery not limited to hop zero, link state Init, Armed or Active and
a `local_port_num` other than `p`, issues exactly one NodeInfo Get request: its
path is the path stored on the PhysicalPort (the one built from the response)
extended by the hop `p`, its attribute modifier is 0 and its context carries the
node GUID of the switch and the port number `p`. -/
theorem osm_pi_rcv_process_probes_live_port (env : Env) (s : Store) (w : osm_madw_t)
    (p_port : osm_port_t)
    (hl : w.context.light_sweep = false) (hset : w.context.set_method = false)
    (hp : s.subn.port_guid_tbl w.context.port_guid = some p_port)
    (hsw : osm_node_get_type s p_port.p_node = IB_NODE_TYPE_SWITCH)
    (h0 : osm_madw_port_num w ≠ 0) (hhop : s.subn.in_sweep_hop_0 = false)
    (hlive : link_is_live w.pi.port_state)
    (hloc : w.pi.local_port_num ≠ osm_madw_port_num w) :
    niReqs (osm_pi_rcv_process env s w).trace
        = [Event.req_get
            (osm_dr_path_extend
              ((osm_pi_rcv_process env s w).store.physp
                (p_port.p_node, osm_madw_port_num w)).dr_path
              (osm_madw_port_num w))
            AttrId.node_info 0
            (osm_madw_context_t.ni_context (osm_node_get_node_guid s p_port.p_node)
              (osm_madw_port_num w))
            (env.req_status 0)]
      ∧ ((osm_pi_rcv_process env s w).store.physp (p_port.p_node, osm_madw_port_num w)).dr_path
        = osm_dr_path_init w.h_bind w.smp.hop_count w.smp.initial_path := by
  have hd : ((osm_pi_rcv_process env s w).store.physp
      (p_port.p_node, osm_madw_port_num w)).dr_path
        = osm_dr_path_init w.h_bind w.smp.hop_count w.smp.initial_path := by
    rw [(osm_pi_rcv_process_of_get env s w p_port hl hset hp).1, osm_pi_rcv_process_get_dr_path]
    rfl
  refine ⟨?_, hd⟩
  rw [hd, osm_pi_rcv_process_niReqs]
  have hnd : w.pi.port_state ≠ IB_LINK_DOWN := by
    rcases hlive with h | h | h <;> rw [h] <;> decide
  simp only [discovery_requests_expected, hl, hset, hp, osm_madw_port_num] at *
  simp [hsw, h0, hhop, hlive, hloc, hnd]

/-- Witness for claim C5: port 3 of the switch 0x21 answers with link state
Active and local port number 1; one NodeInfo request goes out, on the path
`[0, 1, 3]` of hop count 2, with the context (0x21, 3). -/
theorem osm_pi_rcv_process_probes_live_port_witness :
    niReqs (osm_pi_rcv_process Example.env_ok Example.store_fabric
        (Example.madw_get 0x21 3 IB_LINK_ACTIVE 1 0x0100)).trace
      = [Event.req_get ⟨7, 2, [0, 1, 3]⟩ AttrId.node_info 0
          (osm_madw_context_t.ni_context 0x21 3) true] := by
  have h := (osm_pi_rcv_process_probes_live_port Example.env_ok Example.store_fabric
    (Example.madw_get 0x21 3 IB_LINK_ACTIVE 1 0x0100) ⟨1, 0, [0]⟩ rfl rfl rfl rfl
    (by decide) rfl (by decide) (by decide))
  rw [h.1, h.2]
  rfl

/-! ## Adjacency references through the blocks -/

theorem adjacency_same_refl (s : Store) : adjacency_same s s := fun _ => ⟨rfl, rfl⟩

theorem adjacency_same_trans {a b c : Store} (h1 : adjacency_same a b)
    (h2 : adjacency_same b c) : adjacency_same a c :=
  fun q => ⟨(h1 q).1.trans (h2 q).1, (h1 q).2.trans (h2 q).2⟩

theorem adjacency_same_of_physp_table {a b : Store} (h : a.physp_table = b.physp_table) :
    adjacency_same a b := by
  intro q
  simp [osm_physp_get_remote, osm_physp_is_valid, Store.physp, h]

theorem adjacency_same_symmetric {a b : Store} (h : adjacency_same a b)
    (hs : adjacency_symmetric b) : adjacency_symmetric a := by
  intro x y hxy
  rw [(h x).1] at hxy
  rw [(h y).1]
  exact hs x y hxy

theorem adjacency_same_only_valid {a b : Store} (h : adjacency_same a b)
    (hs : adjacency_only_valid b) : adjacency_only_valid a := by
  intro x hx
  rw [(h x).2] at hx
  rw [(h x).1]
  exact hs x hx

theorem Store.setPhysp_adjacency_same (s : Store) (p : Nat × Nat) (v : osm_physp_t)
    (h1 : v.p_remote_physp = (s.physp p).p_remote_physp) (h2 : v.valid = (s.physp p).valid) :
    adjacency_same (s.setPhysp p v) s := by
  intro q
  simp only [osm_physp_get_remote, osm_physp_is_valid, Store.physp_setPhysp]
  split_ifs with h
  · subst h; exact ⟨h1, h2⟩
  · exact ⟨rfl, rfl⟩

theorem osm_physp_set_port_info_adjacency (s : Store) (p : Nat × Nat) (p_pi : ib_port_info_t) :
    adjacency_same (osm_physp_set_port_info s p p_pi) s :=
  Store.setPhysp_adjacency_same s p _ rfl rfl

theorem osm_physp_trim_base_lid_adjacency (s : Store) (p : Nat × Nat) :
    adjacency_same (osm_physp_trim_base_lid_to_valid_range s p).2 s := by
  simp only [osm_physp_trim_base_lid_to_valid_range]
  split_ifs
  · exact Store.setPhysp_adjacency_same s p _ rfl rfl
  · exact adjacency_same_refl s

theorem osm_pi_rcv_process_switch_port_bsp0_adjacency (m : Machine) (n : Nat) (p : Nat × Nat)
    (p_pi : ib_port_info_t) :
    adjacency_same (osm_pi_rcv_process_switch_port_bsp0 m n p p_pi).store m.store := by
  simp only [osm_pi_rcv_process_switch_port_bsp0]
  split
  · split_ifs
    · exact Store.setPhysp_adjacency_same _ p _ rfl rfl
    · exact adjacency_same_refl _
  · exact adjacency_same_refl _

theorem osm_pi_rcv_process_endport_adjacency (env : Env) (m : Machine) (p : Nat × Nat)
    (p_pi : ib_port_info_t) :
    adjacency_same (osm_pi_rcv_process_endport env m p p_pi).store m.store :=
  adjacency_same_of_physp_table (osm_pi_rcv_process_endport_physp_table env m p p_pi)

theorem osm_pkey_get_tables_adjacency (env : Env) (m : Machine) (n : Nat) (p : Nat × Nat) :
    adjacency_same (osm_pkey_get_tables env m n p).store m.store :=
  adjacency_same_of_physp_table (osm_pkey_get_tables_physp_table env m n p)

theorem osm_pi_rcv_process_ca_or_router_port_adjacency (env : Env) (m : Machine) (n : Nat)
    (p : Nat × Nat) (p_pi : ib_port_info_t) :
    adjacency_same (osm_pi_rcv_process_ca_or_router_port env m n p p_pi).store m.store := by
  simp only [osm_pi_rcv_process_ca_or_router_port]
  refine adjacency_same_trans (osm_pi_rcv_process_endport_adjacency _ _ _ _) ?_
  rw [osm_pi_rcv_trim_base_lid_store]
  exact adjacency_same_trans (osm_physp_trim_base_lid_adjacency _ _)
    (osm_physp_set_port_info_adjacency _ _ _)

/-- After the link-state switch, `__osm_pi_rcv_process_switch_port` changes no
adjacency reference and no validity. -/
theorem osm_pi_rcv_process_switch_port_adjacency (env : Env) (m : Machine) (n : Nat)
    (p : Nat × Nat) (p_pi : ib_port_info_t) :
    adjacency_same (osm_pi_rcv_process_switch_port env m n p p_pi).store
      (osm_pi_rcv_process_switch_port_probe env m n p p_pi).store := by
  simp only [osm_pi_rcv_process_switch_port, osm_pi_rcv_process_switch_port_0]
  split_ifs
  · refine adjacency_same_trans (osm_pi_rcv_process_endport_adjacency _ _ _ _) ?_
    refine adjacency_same_trans (osm_pi_rcv_process_switch_port_bsp0_adjacency _ _ _ _) ?_
    rw [osm_pi_rcv_trim_base_lid_store]
    exact adjacency_same_trans (osm_physp_trim_base_lid_adjacency _ _)
      (osm_physp_set_port_info_adjacency _ _ _)
  · exact osm_physp_set_port_info_adjacency _ _ _

theorem osm_pi_rcv_process_set_adjacency (env : Env) (m : Machine) (p_port : osm_port_t)
    (pn : Nat) (w : osm_madw_t) :
    adjacency_same (osm_pi_rcv_process_set env m p_port pn w).store m.store := by
  have h : (osm_pi_rcv_process_set_status m w).store = m.store := by
    simp only [osm_pi_rcv_process_set_status]; split_ifs <;> rfl
  simp only [osm_pi_rcv_process_set, Machine.setStore_store, Machine.logIfActive_store, h]
  exact adjacency_same_trans (Store.setPhysp_adjacency_same _ _ _ rfl rfl)
    (osm_physp_set_port_info_adjacency _ _ _)

theorem Store.setPhysp_remote_adjacency (s : Store) (a q : Nat × Nat)
    (x : Option (Nat × Nat)) :
    osm_physp_get_remote (s.setPhysp a { s.physp a with p_remote_physp := x }) q
        = (if q = a then x else osm_physp_get_remote s q)
      ∧ osm_physp_is_valid (s.setPhysp a { s.physp a with p_remote_physp := x }) q
        = osm_physp_is_valid s q := by
  simp only [osm_physp_get_remote, osm_physp_is_valid, Store.physp_setPhysp]
  split_ifs with h
  · subst h; exact ⟨rfl, rfl⟩
  · exact ⟨rfl, rfl⟩

/-- The adjacency references and validities after `osm_node_unlink`. -/
theorem osm_node_unlink_adjacency (s : Store) (n pn rn rpn : Nat) (q : Nat × Nat) :
    osm_physp_get_remote (osm_node_unlink s n pn rn rpn) q
        = (if q = (n, pn) ∨ q = (rn, rpn) then none else osm_physp_get_remote s q)
      ∧ osm_physp_is_valid (osm_node_unlink s n pn rn rpn) q = osm_physp_is_valid s q := by
  simp only [osm_node_unlink, osm_node_get_physp_ptr]
  rw [(Store.setPhysp_remote_adjacency _ _ _ _).1, (Store.setPhysp_remote_adjacency _ _ _ _).2,
    (Store.setPhysp_remote_adjacency _ _ _ _).1, (Store.setPhysp_remote_adjacency _ _ _ _).2]
  refine ⟨?_, rfl⟩
  by_cases h1 : q = (rn, rpn)
  · simp [h1]
  · by_cases h2 : q = (n, pn)
    · simp [h2]
    · simp [h1, h2]

/-- The link-state switch keeps adjacency symmetric, and keeps adjacency to valid
PhysicalPorts only. -/
theorem osm_pi_rcv_process_switch_port_probe_invariant (env : Env) (m : Machine)
    (p : Nat × Nat) (p_pi : ib_port_info_t)
    (hs : adjacency_symmetric m.store) (hv : adjacency_only_valid m.store) :
    adjacency_symmetric (osm_pi_rcv_process_switch_port_probe env m p.1 p p_pi).store
      ∧ adjacency_only_valid (osm_pi_rcv_process_switch_port_probe env m p.1 p p_pi).store := by
  simp only [osm_pi_rcv_process_switch_port_probe, osm_pi_rcv_process_switch_port_state,
    osm_pi_rcv_process_switch_port_live, osm_pi_rcv_process_switch_port_down]
  split_ifs
  · cases hr : osm_physp_get_remote m.store p with
    | none => exact ⟨hs, hv⟩
    | some r =>
      simp only []
      split_ifs
      · simp only [Machine.setStore_store, Machine.log_store, osm_physp_get_port_num,
          osm_physp_get_node_ptr]
        have hp : ((p.1, p.2) : Nat × Nat) = p := rfl
        have hr' : ((r.1, r.2) : Nat × Nat) = r := rfl
        constructor
        · intro a b hab
          rw [(osm_node_unlink_adjacency _ _ _ _ _ _).1, hp, hr'] at hab ⊢
          split_ifs at hab with ha
          have hab' := hs a b hab
          have hrp := hs p r hr
          rw [if_neg]
          · exact hab'
          · rintro (hb | hb)
            · subst hb; rw [hr] at hab'; exact ha (Or.inr (Option.some.inj hab').symm)
            · subst hb; rw [hrp] at hab'; exact ha (Or.inl (Option.some.inj hab').symm)
        · intro a ha
          rw [(osm_node_unlink_adjacency _ _ _ _ _ _).2] at ha
          rw [(osm_node_unlink_adjacency _ _ _ _ _ _).1]
          split_ifs
          · rfl
          · exact hv a ha
      · exact ⟨hs, hv⟩
  all_goals first
    | exact ⟨hs, hv⟩
    | (simp only [osm_req_get_store, Machine.log_store, Machine.logIfActive_store]; exact ⟨hs, hv⟩)

theorem osm_pi_rcv_process_get_eq (env : Env) (m : Machine) (g : Nat) (p_port : osm_port_t)
    (pn : Nat) (w : osm_madw_t) :
    osm_pi_rcv_process_get env m g p_port pn w
      = osm_pkey_get_tables env
          (osm_pi_rcv_process_get_dispatch env
            (osm_pi_rcv_process_get_before_dispatch env m g (p_port.p_node, pn) pn w)
            p_port.p_node (p_port.p_node, pn) w.pi)
          p_port.p_node (p_port.p_node, pn) := rfl

theorem osm_pi_rcv_process_get_master_physp_table (m : Machine) (w : osm_madw_t) :
    (osm_pi_rcv_process_get_master m w).store.physp_table = m.store.physp_table := by
  simp only [osm_pi_rcv_process_get_master]; split_ifs <;> rfl

theorem osm_pi_rcv_process_get_physp_adjacency (env : Env) (m : Machine) (g : Nat)
    (p : Nat × Nat) (pn : Nat) (w : osm_madw_t) (q : Nat × Nat) :
    osm_physp_get_remote (osm_pi_rcv_process_get_physp env m g p pn w).store q
        = (if q = p ∧ osm_physp_is_valid m.store p = false then none
            else osm_physp_get_remote m.store q)
      ∧ osm_physp_is_valid (osm_pi_rcv_process_get_physp env m g p pn w).store q
        = (if q = p then true else osm_physp_is_valid m.store q) := by
  simp only [osm_pi_rcv_process_get_physp]
  by_cases hv : osm_physp_is_valid m.store p = false
  · rw [if_pos hv]
    have hs : ∀ s : Store, (osm_port_add_new_physp s g pn).physp q = s.physp q := fun _ => rfl
    simp only [Machine.setStore_store, Machine.logIfActive_store, osm_physp_get_remote,
      osm_physp_is_valid, hs, osm_physp_init, Store.physp_setPhysp]
    by_cases hq : q = p
    · have hv2 : (m.store.physp p).valid = false := hv
      simp [hq, hv2]
    · simp [hq]
  · rw [if_neg hv]
    simp only [Machine.setStore_store, osm_physp_get_remote, osm_physp_is_valid,
      Store.physp_setPhysp]
    by_cases hq : q = p
    · subst hq
      simp only [osm_physp_is_valid, Bool.not_eq_false] at hv
      simp [hv]
    · simp [hq]

/-- The adjacency references and validities when the node type is switched on: the
PhysicalPort of the response is valid, and lost its reference if it was not. -/
theorem osm_pi_rcv_process_get_before_dispatch_adjacency (env : Env) (m : Machine) (g : Nat)
    (p : Nat × Nat) (pn : Nat) (w : osm_madw_t) (q : Nat × Nat) :
    osm_physp_get_remote (osm_pi_rcv_process_get_before_dispatch env m g p pn w).store q
        = (if q = p ∧ osm_physp_is_valid m.store p = false then none
            else osm_physp_get_remote m.store q)
      ∧ osm_physp_is_valid (osm_pi_rcv_process_get_before_dispatch env m g p pn w).store q
        = (if q = p then true else osm_physp_is_valid m.store q) := by
  have h1 := osm_pi_rcv_process_get_physp_adjacency env
    ((m.setStore (osm_port_discovery_count_inc m.store g)).logIfActive env
      osm_log_level_t.verbose) g p pn w q
  have h2 : ((m.setStore (osm_port_discovery_count_inc m.store g)).logIfActive env
      osm_log_level_t.verbose).store.physp_table = m.store.physp_table := by
    simp [osm_port_discovery_count_inc]
  simp only [osm_pi_rcv_process_get_before_dispatch, osm_physp_get_remote, osm_physp_is_valid,
    Store.physp, osm_pi_rcv_process_get_master_physp_table, h2] at h1 ⊢
  exact h1

theorem osm_pi_rcv_process_get_before_dispatch_invariant (env : Env) (m : Machine) (g : Nat)
    (p : Nat × Nat) (pn : Nat) (w : osm_madw_t)
    (hs : adjacency_symmetric m.store) (hv : adjacency_only_valid m.store) :
    adjacency_symmetric (osm_pi_rcv_process_get_before_dispatch env m g p pn w).store
      ∧ adjacency_only_valid (osm_pi_rcv_process_get_before_dispatch env m g p pn w).store := by
  have hr : ∀ q, osm_physp_get_remote
      (osm_pi_rcv_process_get_before_dispatch env m g p pn w).store q
        = osm_physp_get_remote m.store q := by
    intro q
    rw [(osm_pi_rcv_process_get_before_dispatch_adjacency env m g p pn w q).1]
    split_ifs with h
    · rw [h.1, hv p h.2]
    · rfl
  constructor
  · intro a b hab
    rw [hr] at hab ⊢
    exact hs a b hab
  · intro a ha
    rw [(osm_pi_rcv_process_get_before_dispatch_adjacency env m g p pn w a).2] at ha
    rw [hr]
    split_ifs at ha
    exact hv a ha

theorem osm_pi_rcv_process_get_dispatch_invariant (env : Env) (m : Machine)
    (p : Nat × Nat) (p_pi : ib_port_info_t)
    (hs : adjacency_symmetric m.store) (hv : adjacency_only_valid m.store) :
    adjacency_symmetric (osm_pi_rcv_process_get_dispatch env m p.1 p p_pi).store
      ∧ adjacency_only_valid (osm_pi_rcv_process_get_dispatch env m p.1 p p_pi).store := by
  simp only [osm_pi_rcv_process_get_dispatch]
  split_ifs
  · exact ⟨adjacency_same_symmetric (osm_pi_rcv_process_ca_or_router_port_adjacency _ _ _ _ _) hs,
      adjacency_same_only_valid (osm_pi_rcv_process_ca_or_router_port_adjacency _ _ _ _ _) hv⟩
  · obtain ⟨h1, h2⟩ := osm_pi_rcv_process_switch_port_probe_invariant env m p p_pi hs hv
    exact ⟨adjacency_same_symmetric (osm_pi_rcv_process_switch_port_adjacency _ _ _ _ _) h1,
      adjacency_same_only_valid (osm_pi_rcv_process_switch_port_adjacency _ _ _ _ _) h2⟩
  · exact ⟨hs, hv⟩

theorem osm_pi_rcv_process_get_invariant (env : Env) (m : Machine) (g : Nat)
    (p_port : osm_port_t) (pn : Nat) (w : osm_madw_t)
    (hs : adjacency_symmetric m.store) (hv : adjacency_only_valid m.store) :
    adjacency_symmetric (osm_pi_rcv_process_get env m g p_port pn w).store
      ∧ adjacency_only_valid (osm_pi_rcv_process_get env m g p_port pn w).store := by
  rw [osm_pi_rcv_process_get_eq]
  obtain ⟨h1, h2⟩ := osm_pi_rcv_process_get_before_dispatch_invariant env m g
    (p_port.p_node, pn) pn w hs hv
  obtain ⟨h3, h4⟩ := osm_pi_rcv_process_get_dispatch_invariant env _ (p_port.p_node, pn) w.pi
    h1 h2
  exact ⟨adjacency_same_symmetric (osm_pkey_get_tables_adjacency _ _ _ _) h3,
    adjacency_same_only_valid (osm_pkey_get_tables_adjacency _ _ _ _) h4⟩

theorem osm_pi_rcv_process_locked_unknown (env : Env) (m : Machine) (g pn : Nat)
    (w : osm_madw_t) (hp : m.store.subn.port_guid_tbl g = none) :
    osm_pi_rcv_process_locked env m g pn w
      = ((m.emit Event.plock_excl_acquire).emit Event.plock_release).log
          osm_log_level_t.error 0x0F06 := by
  simp only [osm_pi_rcv_process_locked, osm_get_port_by_guid, Machine.emit_store]
  rw [hp]

/-- A response that is a light-sweep one, or names an unknown port GUID, leaves
the store as it was. -/
theorem osm_pi_rcv_process_store_of_light_or_unknown (env : Env) (s : Store) (w : osm_madw_t)
    (h : w.context.light_sweep = true ∨ s.subn.port_guid_tbl w.context.port_guid = none) :
    (osm_pi_rcv_process env s w).store = s := by
  obtain ⟨hm, _, _⟩ := osm_pi_rcv_process_start s w
  simp only [osm_pi_rcv_process]
  generalize (if w.pi.client_rereg = true then
        ((Machine.mk s []).emit (Event.dump_port_info osm_log_level_t.debug)).log
          osm_log_level_t.debug 0
      else (Machine.mk s []).emit (Event.dump_port_info osm_log_level_t.debug)) = m1 at hm ⊢
  by_cases hl : w.context.light_sweep = true
  · rw [if_pos hl]; exact hm
  · rw [if_neg hl, osm_pi_rcv_process_locked_unknown _ _ _ _ _ (by rw [hm]; exact h.resolve_left hl)]
    exact hm

/-- Claim C3, as amended: if before a call of `osm_pi_rcv_process` adjacency is
symmetric and only valid PhysicalPorts hold an adjacency reference, then both
hold in the store after the call, for every response, context and
environment. -/
theorem osm_pi_rcv_process_keeps_adjacency_symmetric (env : Env) (s : Store) (w : osm_madw_t)
    (hs : adjacency_symmetric s) (hv : adjacency_only_valid s) :
    adjacency_symmetric (osm_pi_rcv_process env s w).store
      ∧ adjacency_only_valid (osm_pi_rcv_process env s w).store := by
  by_cases hl : w.context.light_sweep = true
  · rw [osm_pi_rcv_process_store_of_light_or_unknown env s w (Or.inl hl)]
    exact ⟨hs, hv⟩
  · cases hp : s.subn.port_guid_tbl w.context.port_guid with
    | none =>
      rw [osm_pi_rcv_process_store_of_light_or_unknown env s w (Or.inr hp)]
      exact ⟨hs, hv⟩
    | some p_port =>
      have hl' : w.context.light_sweep = false := by simpa using hl
      by_cases hset : w.context.set_method = true
      · rw [(osm_pi_rcv_process_of_set env s w p_port hl' hset hp).1]
        have h := osm_pi_rcv_process_set_adjacency env (osm_pi_rcv_process_entry s w) p_port
          (osm_madw_port_num w) (osm_madw_cleared w)
        rw [osm_pi_rcv_process_entry_store] at h
        exact ⟨adjacency_same_symmetric h hs, adjacency_same_only_valid h hv⟩
      · have hset' : w.context.set_method = false := by simpa using hset
        rw [(osm_pi_rcv_process_of_get env s w p_port hl' hset' hp).1]
        exact osm_pi_rcv_process_get_invariant env _ _ _ _ _
          (by rw [osm_pi_rcv_process_entry_store]; exact hs)
          (by rw [osm_pi_rcv_process_entry_store]; exact hv)

theorem Example.store_fabric_symmetric : adjacency_symmetric Example.store_fabric := by
  rintro ⟨a1, a2⟩ ⟨b1, b2⟩ h
  simp only [osm_physp_get_remote, Store.physp, Example.store_fabric] at h ⊢
  split_ifs at h with h1 h2
  · simp only [Example.physp_linked, Option.some.injEq, Prod.mk.injEq] at h
    obtain ⟨rfl, rfl⟩ := h1
    obtain ⟨rfl, rfl⟩ := h
    rfl
  · simp only [Example.physp_linked, Option.some.injEq, Prod.mk.injEq] at h
    obtain ⟨rfl, rfl⟩ := h2
    obtain ⟨rfl, rfl⟩ := h
    rfl
  · simp [Example.physp_empty] at h

theorem Example.store_fabric_only_valid : adjacency_only_valid Example.store_fabric := by
  rintro ⟨a1, a2⟩ h
  simp only [osm_physp_get_remote, osm_physp_is_valid, Store.physp, Example.store_fabric] at h ⊢
  split_ifs at h ⊢ with h1 h2
  · simp [Example.physp_linked] at h
  · simp [Example.physp_linked] at h
  · rfl

/-- Witness for claim C3: in the example fabric, where port 3 of node 1 and port 5
of node 2 are wired to each other, a Down response for port 3 of the switch 0x21
removes the link at both ends and adjacency stays symmetric. -/
theorem osm_pi_rcv_process_keeps_adjacency_symmetric_witness :
    adjacency_symmetric Example.store_fabric ∧ adjacency_only_valid Example.store_fabric
      ∧ adjacency_symmetric (osm_pi_rcv_process Example.env_ok Example.store_fabric
          (Example.madw_get 0x21 3 IB_LINK_DOWN 1 0x0100)).store
      ∧ osm_physp_get_remote (osm_pi_rcv_process Example.env_ok Example.store_fabric
          (Example.madw_get 0x21 3 IB_LINK_DOWN 1 0x0100)).store (1, 3) = none
      ∧ osm_physp_get_remote (osm_pi_rcv_process Example.env_ok Example.store_fabric
          (Example.madw_get 0x21 3 IB_LINK_DOWN 1 0x0100)).store (2, 5) = none :=
  ⟨Example.store_fabric_symmetric, Example.store_fabric_only_valid,
    (osm_pi_rcv_process_keeps_adjacency_symmetric Example.env_ok Example.store_fabric
      (Example.madw_get 0x21 3 IB_LINK_DOWN 1 0x0100) Example.store_fabric_symmetric
      Example.store_fabric_only_valid).1,
    by decide, by decide⟩

theorem Example.store_undiscovered_link_symmetric :
    adjacency_symmetric Example.store_undiscovered_link := by
  rintro ⟨a1, a2⟩ ⟨b1, b2⟩ h
  simp only [osm_physp_get_remote, Store.physp, Example.store_undiscovered_link] at h ⊢
  split_ifs at h with h1 h2
  · simp only [Option.some.injEq, Prod.mk.injEq] at h
    obtain ⟨rfl, rfl⟩ := h1
    obtain ⟨rfl, rfl⟩ := h
    rfl
  · simp only [Example.physp_linked, Option.some.injEq, Prod.mk.injEq] at h
    obtain ⟨rfl, rfl⟩ := h2
    obtain ⟨rfl, rfl⟩ := h
    rfl
  · simp [Example.physp_empty] at h

/-- Counterexample to claim C3 as stated: adjacency is symmetric in a store where
the undiscovered port 4 of node 1 and port 6 of node 2 refer to each other; after
a discovery read for port 4 of the switch 0x21 the PhysicalPort (1, 4) is
initialized, holds no reference, and (2, 6) still refers to it. -/
theorem osm_pi_rcv_process_adjacency_counterexample :
    adjacency_symmetric Example.store_undiscovered_link
      ∧ osm_physp_get_remote (osm_pi_rcv_process Example.env_ok Example.store_undiscovered_link
          (Example.madw_get 0x21 4 IB_LINK_ACTIVE 4 0x0100)).store (2, 6) = some (1, 4)
      ∧ osm_physp_get_remote (osm_pi_rcv_process Example.env_ok Example.store_undiscovered_link
          (Example.madw_get 0x21 4 IB_LINK_ACTIVE 4 0x0100)).store (1, 4) = none
      ∧ ¬ adjacency_symmetric (osm_pi_rcv_process Example.env_ok
          Example.store_undiscovered_link (Example.madw_get 0x21 4 IB_LINK_ACTIVE 4 0x0100)).store := by
  refine ⟨Example.store_undiscovered_link_symmetric, by decide, by decide, ?_⟩
  intro h
  have h1 := h (2, 6) (1, 4) (by decide)
  revert h1
  decide

/-! ## Claim C4: a Down response removes the adjacency -/

theorem osm_pi_rcv_process_switch_port_probe_down (env : Env) (m : Machine) (n : Nat)
    (p : Nat × Nat) (p_pi : ib_port_info_t)
    (h0 : osm_physp_get_port_num p ≠ 0) (hhop : m.store.subn.in_sweep_hop_0 = false)
    (hdown : p_pi.port_state = IB_LINK_DOWN) :
    (osm_pi_rcv_process_switch_port_probe env m n p p_pi).store
      = (match osm_physp_get_remote m.store p with
        | some r =>
          if osm_physp_is_valid m.store r then osm_node_unlink m.store n p.2 r.1 r.2
          else m.store
        | none => m.store) := by
  simp only [osm_pi_rcv_process_switch_port_probe, osm_pi_rcv_process_switch_port_state,
    osm_pi_rcv_process_switch_port_down, hdown, if_true]
  rw [if_pos ⟨h0, hhop⟩]
  cases osm_physp_get_remote m.store p with
  | none => rfl
  | some r =>
    simp only []
    split_ifs <;> rfl

theorem osm_pi_rcv_process_get_before_dispatch_frame (env : Env) (m : Machine) (g : Nat)
    (p : Nat × Nat) (pn : Nat) (w : osm_madw_t) :
    (osm_pi_rcv_process_get_before_dispatch env m g p pn w).store.node = m.store.node
      ∧ (osm_pi_rcv_process_get_before_dispatch env m g p pn w).store.subn.in_sweep_hop_0
        = m.store.subn.in_sweep_hop_0 := by
  obtain ⟨h1, h2, _, _, _⟩ := osm_pi_rcv_process_get_pre env m g p pn w
  exact ⟨h1, h2⟩

/-- The adjacency references after a discovery read with link state Down for a
non-zero port of a switch, discovery not being limited to hop zero. -/
theorem osm_pi_rcv_process_get_down_adjacency (env : Env) (m : Machine) (g : Nat)
    (p_port : osm_port_t) (pn : Nat) (w : osm_madw_t)
    (hsw : osm_node_get_type m.store p_port.p_node = IB_NODE_TYPE_SWITCH)
    (h0 : pn ≠ 0) (hhop : m.store.subn.in_sweep_hop_0 = false)
    (hdown : w.pi.port_state = IB_LINK_DOWN)
    (hvalid : osm_physp_is_valid m.store (p_port.p_node, pn) = true) (q : Nat × Nat) :
    osm_physp_get_remote (osm_pi_rcv_process_get env m g p_port pn w).store q
      = (match osm_physp_get_remote m.store (p_port.p_node, pn) with
        | some r =>
          if osm_physp_is_valid m.store r = true then
            (if q = (p_port.p_node, pn) ∨ q = r then none else osm_physp_get_remote m.store q)
          else osm_physp_get_remote m.store q
        | none => osm_physp_get_remote m.store q) := by
  rw [osm_pi_rcv_process_get_eq, (osm_pkey_get_tables_adjacency _ _ _ _ q).1]
  obtain ⟨hn, hh⟩ := osm_pi_rcv_process_get_before_dispatch_frame env m g (p_port.p_node, pn) pn w
  have hb := osm_pi_rcv_process_get_before_dispatch_adjacency env m g (p_port.p_node, pn) pn w
  have hbr : ∀ x, osm_physp_get_remote
      (osm_pi_rcv_process_get_before_dispatch env m g (p_port.p_node, pn) pn w).store x
        = osm_physp_get_remote m.store x := by
    intro x
    rw [(hb x).1, if_neg]
    rintro ⟨_, h⟩
    rw [hvalid] at h
    exact Bool.noConfusion h
  have hbv' : ∀ x, osm_physp_is_valid
      (osm_pi_rcv_process_get_before_dispatch env m g (p_port.p_node, pn) pn w).store x
        = osm_physp_is_valid m.store x := by
    intro x
    rw [(hb x).2]
    split_ifs with hx
    · rw [hx, hvalid]
    · rfl
  have hty : osm_node_get_type
      (osm_pi_rcv_process_get_before_dispatch env m g (p_port.p_node, pn) pn w).store
        p_port.p_node = IB_NODE_TYPE_SWITCH := by
    simp only [osm_node_get_type, hn]; exact hsw
  have hdisp : osm_pi_rcv_process_get_dispatch env
      (osm_pi_rcv_process_get_before_dispatch env m g (p_port.p_node, pn) pn w)
      p_port.p_node (p_port.p_node, pn) w.pi
      = osm_pi_rcv_process_switch_port env
          (osm_pi_rcv_process_get_before_dispatch env m g (p_port.p_node, pn) pn w)
          p_port.p_node (p_port.p_node, pn) w.pi := by
    simp only [osm_pi_rcv_process_get_dispatch]
    rw [if_neg (by rw [hty]; decide), if_pos hty]
  rw [hdisp, (osm_pi_rcv_process_switch_port_adjacency _ _ _ _ _ q).1,
    osm_pi_rcv_process_switch_port_probe_down env _ p_port.p_node (p_port.p_node, pn) w.pi h0
      (by rw [hh]; exact hhop) hdown, hbr]
  cases hr : osm_physp_get_remote m.store (p_port.p_node, pn) with
  | none => simp only []; exact hbr q
  | some r =>
    simp only [hbv']
    split_ifs with h1 h2
    · rw [(osm_node_unlink_adjacency _ _ _ _ _ _).1, if_pos h2]
    · rw [(osm_node_unlink_adjacency _ _ _ _ _ _).1, if_neg h2, hbr]
    · exact hbr q

/-- Claim C4, as amended: a discovery read with link state Down for a valid,
non-zero port of a switch, discovery not being limited to hop zero, issues no
discovery request; if the port holds an adjacency reference to a valid
PhysicalPort, afterwards the port has no adjacency reference and neither has that
former peer; if it holds none, it still holds none; if it holds a reference to a
PhysicalPort that is not valid, it keeps it. -/
theorem osm_pi_rcv_process_down_unlinks (env : Env) (s : Store) (w : osm_madw_t)
    (p_port : osm_port_t)
    (hl : w.context.light_sweep = false) (hset : w.context.set_method = false)
    (hp : s.subn.port_guid_tbl w.context.port_guid = some p_port)
    (hsw : osm_node_get_type s p_port.p_node = IB_NODE_TYPE_SWITCH)
    (h0 : osm_madw_port_num w ≠ 0) (hhop : s.subn.in_sweep_hop_0 = false)
    (hdown : w.pi.port_state = IB_LINK_DOWN)
    (hvalid : osm_physp_is_valid s (p_port.p_node, osm_madw_port_num w) = true) :
    niReqs (osm_pi_rcv_process env s w).trace = []
      ∧ (∀ r, osm_physp_get_remote s (p_port.p_node, osm_madw_port_num w) = some r →
          osm_physp_is_valid s r = true →
          osm_physp_get_remote (osm_pi_rcv_process env s w).store
              (p_port.p_node, osm_madw_port_num w) = none
            ∧ osm_physp_get_remote (osm_pi_rcv_process env s w).store r = none)
      ∧ (osm_physp_get_remote s (p_port.p_node, osm_madw_port_num w) = none →
          osm_physp_get_remote (osm_pi_rcv_process env s w).store
            (p_port.p_node, osm_madw_port_num w) = none)
      ∧ (∀ r, osm_physp_get_remote s (p_port.p_node, osm_madw_port_num w) = some r →
          osm_physp_is_valid s r = false →
          osm_physp_get_remote (osm_pi_rcv_process env s w).store
            (p_port.p_node, osm_madw_port_num w) = some r) := by
  have hadj : ∀ q, osm_physp_get_remote (osm_pi_rcv_process env s w).store q
      = (match osm_physp_get_remote s (p_port.p_node, osm_madw_port_num w) with
        | some r =>
          if osm_physp_is_valid s r = true then
            (if q = (p_port.p_node, osm_madw_port_num w) ∨ q = r then none
              else osm_physp_get_remote s q)
          else osm_physp_get_remote s q
        | none => osm_physp_get_remote s q) := by
    intro q
    rw [(osm_pi_rcv_process_of_get env s w p_port hl hset hp).1]
    have h := osm_pi_rcv_process_get_down_adjacency env (osm_pi_rcv_process_entry s w)
      w.context.port_guid p_port (osm_madw_port_num w) (osm_madw_cleared w)
      (by rw [osm_pi_rcv_process_entry_store]; exact hsw) h0
      (by rw [osm_pi_rcv_process_entry_store]; exact hhop)
      (by simp only [osm_madw_cleared, (osm_pi_rcv_clear_client_rereg_fields w.pi).1]; exact hdown)
      (by rw [osm_pi_rcv_process_entry_store]; exact hvalid) q
    rw [osm_pi_rcv_process_entry_store] at h
    exact h
  refine ⟨?_, ?_, ?_, ?_⟩
  · rw [osm_pi_rcv_process_niReqs]
    simp only [discovery_requests_expected, hl, hset, hp, Bool.false_eq_true, if_false]
    rw [if_neg]
    intro h
    exact h.2.2.2.1 hdown
  · intro r hr hrv
    constructor
    · rw [hadj, hr]; simp [hrv]
    · rw [hadj, hr]; simp [hrv]
  · intro hr
    rw [hadj, hr]
  · intro r hr hrv
    rw [hadj, hr]
    simp [hrv, hr]

/-- Witness for claim C4: in the example fabric port 3 of the switch 0x21 is valid
and wired to the valid port 5 of node 2; a Down response for it leaves both
without an adjacency reference and issues no discovery request. -/
theorem osm_pi_rcv_process_down_unlinks_witness :
    niReqs (osm_pi_rcv_process Example.env_ok Example.store_fabric
        (Example.madw_get 0x21 3 IB_LINK_DOWN 1 0x0100)).trace = []
      ∧ osm_physp_get_remote (osm_pi_rcv_process Example.env_ok Example.store_fabric
          (Example.madw_get 0x21 3 IB_LINK_DOWN 1 0x0100)).store (1, 3) = none
      ∧ osm_physp_get_remote (osm_pi_rcv_process Example.env_ok Example.store_fabric
          (Example.madw_get 0x21 3 IB_LINK_DOWN 1 0x0100)).store (2, 5) = none :=
  have h := osm_pi_rcv_process_down_unlinks Example.env_ok Example.store_fabric
    (Example.madw_get 0x21 3 IB_LINK_DOWN 1 0x0100) ⟨1, 0, [0]⟩ rfl rfl rfl rfl
    (by decide) rfl rfl (by decide)
  ⟨h.1, h.2.1 (2, 5) (by decide) (by decide)⟩

/-- Counterexample to claim C4 as stated. First store: the valid port 3 of the
switch 0x21 refers to a PhysicalPort that is not valid; after a Down response the
port still holds its adjacency reference (the unlink is guarded by the validity
of the peer, line 260). Second store: port 4 of the switch was never discovered
and is wired to port 6 of node 2; after a Down response for it the former peer
still refers to it. -/
theorem osm_pi_rcv_process_down_counterexample :
    (osm_node_get_type Example.store_dangling_link 1 = IB_NODE_TYPE_SWITCH
      ∧ Example.store_dangling_link.subn.in_sweep_hop_0 = false
      ∧ osm_physp_get_remote Example.store_dangling_link (1, 3) = some (2, 5)
      ∧ osm_physp_get_remote (osm_pi_rcv_process Example.env_ok Example.store_dangling_link
          (Example.madw_get 0x21 3 IB_LINK_DOWN 1 0x0100)).store (1, 3) = some (2, 5))
    ∧ (osm_physp_get_remote Example.store_undiscovered_link (1, 4) = some (2, 6)
      ∧ osm_physp_get_remote Example.store_undiscovered_link (2, 6) = some (1, 4)
      ∧ osm_physp_get_remote (osm_pi_rcv_process Example.env_ok Example.store_undiscovered_link
          (Example.madw_get 0x21 4 IB_LINK_DOWN 1 0x0100)).store (2, 6) = some (1, 4)) := by
  decide

/-! ## Claim C7: the minimum aggregates never increase -/

theorem subn_minima_le_refl (a : osm_subn_t) : subn_minima_le a a := ⟨le_refl _, le_refl _⟩

theorem subn_minima_le_trans {a b c : osm_subn_t} (h1 : subn_minima_le a b)
    (h2 : subn_minima_le b c) : subn_minima_le a c :=
  ⟨le_trans h1.1 h2.1, le_trans h1.2 h2.2⟩

theorem subn_minima_le_of_eq {a b : osm_subn_t} (h : a = b) : subn_minima_le a b := by
  rw [h]; exact subn_minima_le_refl b

/-- The minima after `__osm_pi_rcv_process_endport`: the smaller of the old value
and the capability of the payload for a non-zero port, the old value for port 0. -/
theorem osm_pi_rcv_process_endport_minima (env : Env) (m : Machine) (p : Nat × Nat)
    (p_pi : ib_port_info_t) :
    (osm_pi_rcv_process_endport env m p p_pi).store.subn.min_ca_mtu
        = (if osm_physp_get_port_num p ≠ 0 then min p_pi.mtu_cap m.store.subn.min_ca_mtu
            else m.store.subn.min_ca_mtu)
      ∧ (osm_pi_rcv_process_endport env m p p_pi).store.subn.min_ca_rate
        = (if osm_physp_get_port_num p ≠ 0 then min p_pi.rate m.store.subn.min_ca_rate
            else m.store.subn.min_ca_rate) := by
  have h2 : ∀ (m : Machine) g,
      (osm_pi_rcv_process_endport_clean m g).store.subn.min_ca_mtu = m.store.subn.min_ca_mtu
      ∧ (osm_pi_rcv_process_endport_clean m g).store.subn.min_ca_rate
        = m.store.subn.min_ca_rate := by
    intro m g; simp only [osm_pi_rcv_process_endport_clean]; split <;> exact ⟨rfl, rfl⟩
  have h3 : ∀ (m : Machine) g,
      (osm_pi_rcv_process_endport_sm env m g p p_pi).store.subn.min_ca_mtu
        = m.store.subn.min_ca_mtu
      ∧ (osm_pi_rcv_process_endport_sm env m g p p_pi).store.subn.min_ca_rate
        = m.store.subn.min_ca_rate := by
    intro m g
    simp only [osm_pi_rcv_process_endport_sm, osm_pi_rcv_process_endport_query]
    split_ifs <;> simp [h2]
  have hm : ∀ m : Machine,
      (osm_pi_rcv_process_endport_mtu m p_pi).store.subn.min_ca_mtu
        = min p_pi.mtu_cap m.store.subn.min_ca_mtu
      ∧ (osm_pi_rcv_process_endport_mtu m p_pi).store.subn.min_ca_rate
        = m.store.subn.min_ca_rate := by
    intro m
    simp only [osm_pi_rcv_process_endport_mtu]
    split_ifs with h
    · exact ⟨(min_eq_left (le_of_lt h)).symm, rfl⟩
    · exact ⟨(min_eq_right (not_lt.mp h)).symm, rfl⟩
  have hr : ∀ m : Machine,
      (osm_pi_rcv_process_endport_rate m p_pi).store.subn.min_ca_mtu
        = m.store.subn.min_ca_mtu
      ∧ (osm_pi_rcv_process_endport_rate m p_pi).store.subn.min_ca_rate
        = min p_pi.rate m.store.subn.min_ca_rate := by
    intro m
    simp only [osm_pi_rcv_process_endport_rate]
    split_ifs with h
    · exact ⟨rfl, (min_eq_left (le_of_lt h)).symm⟩
    · exact ⟨rfl, (min_eq_right (not_lt.mp h)).symm⟩
  simp only [osm_pi_rcv_process_endport, h3, osm_pi_rcv_process_endport_min]
  split_ifs
  · rw [(hr _).1, (hr _).2, (hm _).1, (hm _).2]
    exact ⟨rfl, rfl⟩
  · exact ⟨rfl, rfl⟩

theorem osm_pi_rcv_process_endport_minima_le (env : Env) (m : Machine) (p : Nat × Nat)
    (p_pi : ib_port_info_t) :
    subn_minima_le (osm_pi_rcv_process_endport env m p p_pi).store.subn m.store.subn := by
  obtain ⟨h1, h2⟩ := osm_pi_rcv_process_endport_minima env m p p_pi
  unfold subn_minima_le
  rw [h1, h2]
  split_ifs
  · exact ⟨min_le_right _ _, min_le_right _ _⟩
  · exact ⟨le_refl _, le_refl _⟩

theorem osm_physp_trim_base_lid_subn (s : Store) (p : Nat × Nat) :
    (osm_physp_trim_base_lid_to_valid_range s p).2.subn = s.subn := by
  simp only [osm_physp_trim_base_lid_to_valid_range]; split_ifs <;> rfl

theorem osm_pi_rcv_process_switch_port_bsp0_subn (m : Machine) (n : Nat) (p : Nat × Nat)
    (p_pi : ib_port_info_t) :
    (osm_pi_rcv_process_switch_port_bsp0 m n p p_pi).store.subn = m.store.subn := by
  simp only [osm_pi_rcv_process_switch_port_bsp0]
  split
  · split_ifs <;> rfl
  · rfl

theorem osm_pi_rcv_process_switch_port_probe_subn (env : Env) (m : Machine) (n : Nat)
    (p : Nat × Nat) (p_pi : ib_port_info_t) :
    (osm_pi_rcv_process_switch_port_probe env m n p p_pi).store.subn = m.store.subn := by
  simp only [osm_pi_rcv_process_switch_port_probe, osm_pi_rcv_process_switch_port_state,
    osm_pi_rcv_process_switch_port_live, osm_pi_rcv_process_switch_port_down]
  split_ifs
  · split
    · split_ifs <;> rfl
    · rfl
  all_goals simp

theorem osm_pi_rcv_process_get_dispatch_minima_le (env : Env) (m : Machine) (n : Nat)
    (p : Nat × Nat) (p_pi : ib_port_info_t) :
    subn_minima_le (osm_pi_rcv_process_get_dispatch env m n p p_pi).store.subn m.store.subn := by
  simp only [osm_pi_rcv_process_get_dispatch, osm_pi_rcv_process_ca_or_router_port,
    osm_pi_rcv_process_switch_port, osm_pi_rcv_process_switch_port_0]
  split_ifs
  · refine subn_minima_le_trans (osm_pi_rcv_process_endport_minima_le _ _ _ _) ?_
    apply subn_minima_le_of_eq
    simp [osm_physp_trim_base_lid_subn, osm_physp_set_port_info]
  · refine subn_minima_le_trans (osm_pi_rcv_process_endport_minima_le _ _ _ _) ?_
    apply subn_minima_le_of_eq
    simp [osm_physp_trim_base_lid_subn, osm_physp_set_port_info,
      osm_pi_rcv_process_switch_port_bsp0_subn, osm_pi_rcv_process_switch_port_probe_subn]
  · apply subn_minima_le_of_eq
    simp [osm_physp_set_port_info, osm_pi_rcv_process_switch_port_probe_subn]
  · exact subn_minima_le_refl _

theorem osm_pi_rcv_process_get_before_dispatch_minima (env : Env) (m : Machine) (g : Nat)
    (p : Nat × Nat) (pn : Nat) (w : osm_madw_t) :
    (osm_pi_rcv_process_get_before_dispatch env m g p pn w).store.subn.min_ca_mtu
        = m.store.subn.min_ca_mtu
      ∧ (osm_pi_rcv_process_get_before_dispatch env m g p pn w).store.subn.min_ca_rate
        = m.store.subn.min_ca_rate := by
  simp only [osm_pi_rcv_process_get_before_dispatch, osm_pi_rcv_process_get_master,
    osm_pi_rcv_process_get_physp]
  split_ifs <;>
    simp [osm_physp_init, osm_port_add_new_physp, osm_port_discovery_count_inc]

theorem osm_pi_rcv_process_set_subn (env : Env) (m : Machine) (p_port : osm_port_t)
    (pn : Nat) (w : osm_madw_t) :
    (osm_pi_rcv_process_set env m p_port pn w).store.subn = m.store.subn := by
  have h : (osm_pi_rcv_process_set_status m w).store = m.store := by
    simp only [osm_pi_rcv_process_set_status]; split_ifs <;> rfl
  simp [osm_pi_rcv_process_set, osm_physp_set_port_info, h]

theorem osm_pi_rcv_process_minima_le (env : Env) (s : Store) (w : osm_madw_t) :
    subn_minima_le (osm_pi_rcv_process env s w).store.subn s.subn := by
  by_cases hl : w.context.light_sweep = true
  · rw [osm_pi_rcv_process_store_of_light_or_unknown env s w (Or.inl hl)]
    exact subn_minima_le_refl _
  · cases hp : s.subn.port_guid_tbl w.context.port_guid with
    | none =>
      rw [osm_pi_rcv_process_store_of_light_or_unknown env s w (Or.inr hp)]
      exact subn_minima_le_refl _
    | some p_port =>
      have hl' : w.context.light_sweep = false := by simpa using hl
      by_cases hset : w.context.set_method = true
      · rw [(osm_pi_rcv_process_of_set env s w p_port hl' hset hp).1,
          osm_pi_rcv_process_set_subn, osm_pi_rcv_process_entry_store]
        exact subn_minima_le_refl _
      · have hset' : w.context.set_method = false := by simpa using hset
        rw [(osm_pi_rcv_process_of_get env s w p_port hl' hset' hp).1,
          osm_pi_rcv_process_get_eq, osm_pkey_get_tables_subn]
        refine subn_minima_le_trans (osm_pi_rcv_process_get_dispatch_minima_le _ _ _ _ _) ?_
        obtain ⟨h1, h2⟩ := osm_pi_rcv_process_get_before_dispatch_minima env
          (osm_pi_rcv_process_entry s w) w.context.port_guid
          (p_port.p_node, osm_madw_port_num w) (osm_madw_port_num w) (osm_madw_cleared w)
        unfold subn_minima_le
        rw [h1, h2, osm_pi_rcv_process_entry_store]
        exact ⟨le_refl _, le_refl _⟩

/-- Claim C7: for every store, environment and response, the Subnet's `min_ca_mtu`
and `min_ca_rate` after `osm_pi_rcv_process` are each at most their values
before; hence after every sequence of responses, in any order, both are at most
their values before the sequence, and so at every step along it. -/
theorem osm_pi_rcv_process_minima_never_increase :
    (∀ (env : Env) (s : Store) (w : osm_madw_t),
      (osm_pi_rcv_process env s w).store.subn.min_ca_mtu ≤ s.subn.min_ca_mtu
        ∧ (osm_pi_rcv_process env s w).store.subn.min_ca_rate ≤ s.subn.min_ca_rate)
    ∧ (∀ (s : Store) (rs : List (Env × osm_madw_t)),
      (osm_pi_rcv_process_seq s rs).subn.min_ca_mtu ≤ s.subn.min_ca_mtu
        ∧ (osm_pi_rcv_process_seq s rs).subn.min_ca_rate ≤ s.subn.min_ca_rate)
    ∧ (∀ (s : Store) (rs ts : List (Env × osm_madw_t)),
      (osm_pi_rcv_process_seq s (rs ++ ts)).subn.min_ca_mtu
          ≤ (osm_pi_rcv_process_seq s rs).subn.min_ca_mtu
        ∧ (osm_pi_rcv_process_seq s (rs ++ ts)).subn.min_ca_rate
          ≤ (osm_pi_rcv_process_seq s rs).subn.min_ca_rate) := by
  have hseq : ∀ (rs : List (Env × osm_madw_t)) (s : Store),
      subn_minima_le (osm_pi_rcv_process_seq s rs).subn s.subn := by
    intro rs
    induction rs with
    | nil => intro s; exact subn_minima_le_refl _
    | cons r rs ih =>
      intro s
      simp only [osm_pi_rcv_process_seq, List.foldl_cons]
      exact subn_minima_le_trans (ih _) (osm_pi_rcv_process_minima_le r.1 s r.2)
  refine ⟨fun env s w => osm_pi_rcv_process_minima_le env s w, fun s rs => hseq rs s, ?_⟩
  intro s rs ts
  have h : osm_pi_rcv_process_seq s (rs ++ ts)
      = osm_pi_rcv_process_seq (osm_pi_rcv_process_seq s rs) ts := by
    simp [osm_pi_rcv_process_seq, List.foldl_append]
  rw [h]
  exact hseq ts _

/-! ## Claim C8: a light-sweep response -/

/-- Claim C8: a response whose context has the `light_sweep` flag leaves the whole
store unchanged (every PhysicalPort, every Port with its discovery counter, the
Subnet aggregates, the remote-manager table), issues no request, never takes the
lock and sends exactly one change-detected signal to the state manager; the trace
is the dump of the response, the note of a cleared client-reregister bit if it
was set, the verbose log entry and the signal. -/
theorem osm_pi_rcv_process_light_sweep (env : Env) (s : Store) (w : osm_madw_t)
    (hl : w.context.light_sweep = true) :
    (osm_pi_rcv_process env s w).store = s
      ∧ (osm_pi_rcv_process env s w).trace
        = Event.dump_port_info osm_log_level_t.debug
          :: ((if w.pi.client_rereg = true then [Event.log osm_log_level_t.debug 0] else [])
            ++ [Event.log osm_log_level_t.verbose 0, Event.state_mgr_change_detected])
      ∧ (osm_pi_rcv_process env s w).trace.countP Event.isReq = 0
      ∧ Event.plock_excl_acquire ∉ (osm_pi_rcv_process env s w).trace
      ∧ (osm_pi_rcv_process env s w).trace.count Event.state_mgr_change_detected = 1 := by
  have ht : (osm_pi_rcv_process env s w).trace
        = Event.dump_port_info osm_log_level_t.debug
          :: ((if w.pi.client_rereg = true then [Event.log osm_log_level_t.debug 0] else [])
            ++ [Event.log osm_log_level_t.verbose 0, Event.state_mgr_change_detected]) := by
    simp only [osm_pi_rcv_process, hl, if_true]
    split_ifs <;> rfl
  refine ⟨osm_pi_rcv_process_store_of_light_or_unknown env s w (Or.inl hl), ht, ?_, ?_, ?_⟩
  · rw [ht]; split_ifs <;> rfl
  · rw [ht]; split_ifs <;> decide
  · rw [ht]; split_ifs <;> decide

/-- Witness for claim C8: a light-sweep response for a port of the example fabric,
with the client-reregister bit set. -/
theorem osm_pi_rcv_process_light_sweep_witness :
    (osm_pi_rcv_process Example.env_ok Example.store_fabric Example.madw_light).trace
      = [Event.dump_port_info osm_log_level_t.debug, Event.log osm_log_level_t.debug 0,
          Event.log osm_log_level_t.verbose 0, Event.state_mgr_change_detected] :=
  (osm_pi_rcv_process_light_sweep Example.env_ok Example.store_fabric Example.madw_light rfl).2.1

/-! ## Claims C9 and C10: a write confirmation -/

theorem osm_pi_rcv_process_set_status_store (m : Machine) (w : osm_madw_t) :
    (osm_pi_rcv_process_set_status m w).store = m.store := by
  simp only [osm_pi_rcv_process_set_status]; split_ifs <;> rfl

theorem osm_pi_rcv_process_set_physp (env : Env) (m : Machine) (p_port : osm_port_t)
    (pn : Nat) (w : osm_madw_t) :
    (osm_pi_rcv_process_set env m p_port pn w).store.physp (p_port.p_node, pn)
      = { m.store.physp (p_port.p_node, pn) with port_info := w.pi, got_set_resp := true } := by
  simp [osm_pi_rcv_process_set, osm_physp_set_port_info, osm_pi_rcv_process_set_status_store,
    osm_node_get_physp_ptr]

/-- Claim C9: for every write confirmation (`set_method` set, not a light-sweep
response) whose port GUID resolves to a Port, whatever the status and the flags
`ignore_errors` and `active_transition`, after `osm_pi_rcv_process` the snapshot
stored on the PhysicalPort is the payload as the receiver leaves it in the
response, that is the returned snapshot with the client-reregister bit cleared
(the returned snapshot itself when the bit is clear), and `got_set_resp` is
TRUE. -/
theorem osm_pi_rcv_process_set_records_snapshot (env : Env) (s : Store) (w : osm_madw_t)
    (p_port : osm_port_t)
    (hl : w.context.light_sweep = false) (hset : w.context.set_method = true)
    (hp : s.subn.port_guid_tbl w.context.port_guid = some p_port) :
    ((osm_pi_rcv_process env s w).store.physp (p_port.p_node, osm_madw_port_num w)).port_info
        = (osm_pi_rcv_process env s w).p_pi
      ∧ ((osm_pi_rcv_process env s w).store.physp
          (p_port.p_node, osm_madw_port_num w)).got_set_resp = true
      ∧ (osm_pi_rcv_process env s w).p_pi = { w.pi with client_rereg := false }
      ∧ (w.pi.client_rereg = false → (osm_pi_rcv_process env s w).p_pi = w.pi) := by
  rw [(osm_pi_rcv_process_of_set env s w p_port hl hset hp).1, osm_pi_rcv_process_set_physp,
    osm_pi_rcv_process_p_pi]
  refine ⟨rfl, rfl, ?_, ?_⟩
  · simp only [osm_pi_rcv_clear_client_rereg]
    split_ifs with h
    · rfl
    · have h' : w.pi.client_rereg = false := by simpa using h
      rw [← h']
  · intro h
    simp [osm_pi_rcv_clear_client_rereg, h]

/-- Witness for claim C9, the scenario of the spec: a write confirmation with the
transitional status 0x1c (network order `0x1c00`) during an active transition, for
port 3 of the switch 0x21. -/
theorem osm_pi_rcv_process_set_records_snapshot_witness :
    ((osm_pi_rcv_process Example.env_ok Example.store_fabric
        (Example.madw_set 0x21 3 0x1c00 false true)).store.physp (1, 3)).port_info
        = (Example.madw_set 0x21 3 0x1c00 false true).pi
      ∧ ((osm_pi_rcv_process Example.env_ok Example.store_fabric
        (Example.madw_set 0x21 3 0x1c00 false true)).store.physp (1, 3)).got_set_resp = true :=
  have h := osm_pi_rcv_process_set_records_snapshot Example.env_ok Example.store_fabric
    (Example.madw_set 0x21 3 0x1c00 false true) ⟨1, 0, [0]⟩ rfl rfl rfl
  ⟨h.1.trans (h.2.2.2 rfl), h.2.1⟩

/-- Claim C10, as amended: for a write confirmation with a non-zero status (low 15
bits of the host-order status field), `osm_pi_rcv_process_set` adds to the trace:
nothing about the status when the context's `ignore_errors` flag is set; otherwise
an informational entry and an informational dump exactly when the status is 0x1c
and `active_transition` is set, and the error entry `ERR 0F10` with a dump at error
level for every other status; then only the debug entry, if debug is active. -/
theorem osm_pi_rcv_process_set_status_level (env : Env) (m : Machine) (p_port : osm_port_t)
    (pn : Nat) (w : osm_madw_t) (hst : cl_ntoh16 w.smp.status &&& 0x7fff ≠ 0) :
    (osm_pi_rcv_process_set env m p_port pn w).trace
      = m.trace
        ++ (if w.context.ignore_errors = true then []
          else if cl_ntoh16 w.smp.status &&& 0x7fff = 0x1c ∧ w.context.active_transition = true
            then [Event.log osm_log_level_t.info 0, Event.dump_port_info osm_log_level_t.info]
          else [Event.log osm_log_level_t.error 0x0F10,
            Event.dump_port_info osm_log_level_t.error])
        ++ (if env.log_is_active osm_log_level_t.debug = true
          then [Event.log osm_log_level_t.debug 0] else []) := by
  simp only [osm_pi_rcv_process_set, Machine.setStore_trace, Machine.logIfActive_trace,
    osm_pi_rcv_process_set_status]
  congr 1
  by_cases hi : w.context.ignore_errors = true
  · simp [hi]
  · have hi' : w.context.ignore_errors = false := by simpa using hi
    rw [if_pos ⟨hi', hst⟩, if_neg hi]
    by_cases ha : w.context.active_transition = true ∧ cl_ntoh16 w.smp.status &&& 0x7fff = 0x1c
    · rw [if_pos ha, if_pos ⟨ha.2, ha.1⟩]; simp
    · rw [if_neg ha, if_neg (fun h => ha ⟨h.2, h.1⟩)]; simp

/-- Witness for claim C10: status 0x1c during an active transition is reported at
informational level. -/
theorem osm_pi_rcv_process_set_status_level_witness :
    cl_ntoh16 (Example.madw_set 0x21 3 0x1c00 false true).smp.status &&& 0x7fff = 0x1c
      ∧ (osm_pi_rcv_process_set Example.env_ok ⟨Example.store_fabric, []⟩ ⟨1, 0, [0]⟩ 3
          (Example.madw_set 0x21 3 0x1c00 false true)).trace
        = [Event.log osm_log_level_t.info 0, Event.dump_port_info osm_log_level_t.info,
            Event.log osm_log_level_t.debug 0] :=
  ⟨by decide,
    (osm_pi_rcv_process_set_status_level Example.env_ok ⟨Example.store_fabric, []⟩ ⟨1, 0, [0]⟩ 3
      (Example.madw_set 0x21 3 0x1c00 false true) (by decide)).trans (by decide)⟩

/-- Counterexample to claim C10 as stated: with `ignore_errors` set, the non-zero
status 4 (network order `0x0400`), which is not the transitional code, is not
logged as an error: the only entry is the debug one. -/
theorem osm_pi_rcv_process_set_status_counterexample :
    cl_ntoh16 (Example.madw_set 0x21 3 0x0400 true false).smp.status &&& 0x7fff = 4
      ∧ (osm_pi_rcv_process_set Example.env_ok ⟨Example.store_fabric, []⟩ ⟨1, 0, [0]⟩ 3
          (Example.madw_set 0x21 3 0x0400 true false)).trace
        = [Event.log osm_log_level_t.debug 0]
      ∧ Event.log osm_log_level_t.error 0x0F10
        ∉ (osm_pi_rcv_process_set Example.env_ok ⟨Example.store_fabric, []⟩ ⟨1, 0, [0]⟩ 3
          (Example.madw_set 0x21 3 0x0400 true false)).trace := by
  decide

/-! ## Claim C6: the stored snapshot after a sequence of responses -/

theorem store_shape_same_refl (s : Store) : store_shape_same s s :=
  ⟨fun _ => rfl, fun _ => ⟨rfl, rfl⟩⟩

theorem store_shape_same_trans {a b c : Store} (h1 : store_shape_same a b)
    (h2 : store_shape_same b c) : store_shape_same a c :=
  ⟨fun g => (h1.1 g).trans (h2.1 g),
    fun n => ⟨(h1.2 n).1.trans (h2.2 n).1, (h1.2 n).2.trans (h2.2 n).2⟩⟩

theorem store_shape_same_of_eq {a b : Store} (h1 : a.subn.port_guid_tbl = b.subn.port_guid_tbl)
    (h2 : a.node = b.node) : store_shape_same a b :=
  ⟨fun g => by rw [h1], fun n => by rw [h2]; exact ⟨rfl, rfl⟩⟩

theorem osm_pi_rcv_process_endport_port_guid_tbl (env : Env) (m : Machine) (p : Nat × Nat)
    (p_pi : ib_port_info_t) :
    (osm_pi_rcv_process_endport env m p p_pi).store.subn.port_guid_tbl
      = m.store.subn.port_guid_tbl := by
  have h1 : (osm_pi_rcv_process_endport_min m p p_pi).store.subn.port_guid_tbl
      = m.store.subn.port_guid_tbl := by
    simp only [osm_pi_rcv_process_endport_min, osm_pi_rcv_process_endport_rate,
      osm_pi_rcv_process_endport_mtu]
    split_ifs <;> rfl
  have h2 : ∀ (m : Machine) g, (osm_pi_rcv_process_endport_clean m g).store.subn.port_guid_tbl
      = m.store.subn.port_guid_tbl := by
    intro m g; simp only [osm_pi_rcv_process_endport_clean]; split <;> rfl
  have h3 : ∀ (m : Machine) g,
      (osm_pi_rcv_process_endport_sm env m g p p_pi).store.subn.port_guid_tbl
        = m.store.subn.port_guid_tbl := by
    intro m g
    simp only [osm_pi_rcv_process_endport_sm, osm_pi_rcv_process_endport_query]
    split_ifs <;> simp [h2]
  simp only [osm_pi_rcv_process_endport, h3, h1]

theorem osm_pi_rcv_process_switch_port_probe_node (env : Env) (m : Machine) (n : Nat)
    (p : Nat × Nat) (p_pi : ib_port_info_t) :
    (osm_pi_rcv_process_switch_port_probe env m n p p_pi).store.node = m.store.node := by
  simp only [osm_pi_rcv_process_switch_port_probe, osm_pi_rcv_process_switch_port_state,
    osm_pi_rcv_process_switch_port_live, osm_pi_rcv_process_switch_port_down]
  split_ifs
  · split
    · split_ifs <;> rfl
    · rfl
  all_goals simp

theorem osm_physp_trim_base_lid_node (s : Store) (p : Nat × Nat) :
    (osm_physp_trim_base_lid_to_valid_range s p).2.node = s.node := by
  simp only [osm_physp_trim_base_lid_to_valid_range]; split_ifs <;> rfl

theorem osm_pi_rcv_process_switch_port_bsp0_node (m : Machine) (n : Nat) (p : Nat × Nat)
    (p_pi : ib_port_info_t) :
    (osm_pi_rcv_process_switch_port_bsp0 m n p p_pi).store.node = m.store.node := by
  simp only [osm_pi_rcv_process_switch_port_bsp0]
  split
  · split_ifs <;> rfl
  · rfl

/-- The switch on the node type changes no node and no entry of the port table. -/
theorem osm_pi_rcv_process_get_dispatch_shape (env : Env) (m : Machine) (n : Nat)
    (p : Nat × Nat) (p_pi : ib_port_info_t) :
    (osm_pi_rcv_process_get_dispatch env m n p p_pi).store.node = m.store.node
      ∧ (osm_pi_rcv_process_get_dispatch env m n p p_pi).store.subn.port_guid_tbl
        = m.store.subn.port_guid_tbl := by
  simp only [osm_pi_rcv_process_get_dispatch, osm_pi_rcv_process_ca_or_router_port,
    osm_pi_rcv_process_switch_port, osm_pi_rcv_process_switch_port_0]
  split_ifs
  · simp [osm_pi_rcv_process_endport_node, osm_pi_rcv_process_endport_port_guid_tbl,
      osm_physp_trim_base_lid_node, osm_physp_trim_base_lid_subn, osm_physp_set_port_info]
  · simp [osm_pi_rcv_process_endport_node, osm_pi_rcv_process_endport_port_guid_tbl,
      osm_physp_trim_base_lid_node, osm_physp_trim_base_lid_subn, osm_physp_set_port_info,
      osm_pi_rcv_process_switch_port_bsp0_node, osm_pi_rcv_process_switch_port_bsp0_subn,
      osm_pi_rcv_process_switch_port_probe_node, osm_pi_rcv_process_switch_port_probe_subn]
  · simp [osm_physp_set_port_info, osm_pi_rcv_process_switch_port_probe_node,
      osm_pi_rcv_process_switch_port_probe_subn]
  · exact ⟨rfl, rfl⟩

theorem Store.setEnforceCap_shape (s : Store) (n v : Nat) :
    store_shape_same (s.setEnforceCap n v) s := by
  refine ⟨fun _ => rfl, fun k => ?_⟩
  simp only [Store.setEnforceCap]
  split_ifs with h
  · subst h
    refine ⟨rfl, ?_⟩
    cases (s.node k).sw <;> rfl
  · exact ⟨rfl, rfl⟩

theorem osm_pkey_get_tables_shape (env : Env) (m : Machine) (n : Nat) (p : Nat × Nat) :
    store_shape_same (osm_pkey_get_tables env m n p).store m.store := by
  simp only [osm_pkey_get_tables]
  split
  · split_ifs <;>
      (try simp only [osm_pkey_get_tables_loop_store, Machine.setStore_store]) <;>
      first
        | exact store_shape_same_refl _
        | exact Store.setEnforceCap_shape _ _ _
  · rw [osm_pkey_get_tables_loop_store]
    exact store_shape_same_refl _

theorem osm_pi_rcv_process_get_before_dispatch_shape (env : Env) (m : Machine) (g : Nat)
    (p : Nat × Nat) (pn : Nat) (w : osm_madw_t) :
    store_shape_same (osm_pi_rcv_process_get_before_dispatch env m g p pn w).store m.store := by
  refine ⟨fun k => ?_, fun n => ?_⟩
  · simp only [osm_pi_rcv_process_get_before_dispatch, osm_pi_rcv_process_get_master,
      osm_pi_rcv_process_get_physp]
    split_ifs <;>
      simp only [Machine.setSubn_store, Machine.log_store, Machine.setStore_store,
        Machine.logIfActive_store, osm_port_add_new_physp, osm_physp_init, Store.setPhysp_subn,
        osm_port_discovery_count_inc] <;>
      split_ifs <;>
      cases m.store.subn.port_guid_tbl k <;> rfl
  · rw [(osm_pi_rcv_process_get_before_dispatch_frame env m g p pn w).1]
    exact ⟨rfl, rfl⟩

theorem osm_pi_rcv_process_get_shape (env : Env) (m : Machine) (g : Nat) (p_port : osm_port_t)
    (pn : Nat) (w : osm_madw_t) :
    store_shape_same (osm_pi_rcv_process_get env m g p_port pn w).store m.store := by
  rw [osm_pi_rcv_process_get_eq]
  refine store_shape_same_trans (osm_pkey_get_tables_shape _ _ _ _) ?_
  refine store_shape_same_trans ?_ (osm_pi_rcv_process_get_before_dispatch_shape env m g
    (p_port.p_node, pn) pn w)
  obtain ⟨h1, h2⟩ := osm_pi_rcv_process_get_dispatch_shape env
    (osm_pi_rcv_process_get_before_dispatch env m g (p_port.p_node, pn) pn w)
    p_port.p_node (p_port.p_node, pn) w.pi
  exact store_shape_same_of_eq h2 h1

/-- A call of `osm_pi_rcv_process` keeps the shape of the store. -/
theorem osm_pi_rcv_process_shape (env : Env) (s : Store) (w : osm_madw_t) :
    store_shape_same (osm_pi_rcv_process env s w).store s := by
  by_cases hl : w.context.light_sweep = true
  · rw [osm_pi_rcv_process_store_of_light_or_unknown env s w (Or.inl hl)]
    exact store_shape_same_refl _
  · cases hp : s.subn.port_guid_tbl w.context.port_guid with
    | none =>
      rw [osm_pi_rcv_process_store_of_light_or_unknown env s w (Or.inr hp)]
      exact store_shape_same_refl _
    | some p_port =>
      have hl' : w.context.light_sweep = false := by simpa using hl
      by_cases hset : w.context.set_method = true
      · rw [(osm_pi_rcv_process_of_set env s w p_port hl' hset hp).1]
        apply store_shape_same_of_eq
        · rw [osm_pi_rcv_process_set_subn, osm_pi_rcv_process_entry_store]
        · simp [osm_pi_rcv_process_set, osm_physp_set_port_info,
            osm_pi_rcv_process_set_status_store]
      · have hset' : w.context.set_method = false := by simpa using hset
        rw [(osm_pi_rcv_process_of_get env s w p_port hl' hset' hp).1]
        have h := osm_pi_rcv_process_get_shape env (osm_pi_rcv_process_entry s w)
          w.context.port_guid p_port (osm_madw_port_num w) (osm_madw_cleared w)
        rw [osm_pi_rcv_process_entry_store] at h
        exact h

theorem osm_pi_rcv_process_seq_shape (rs : List (Env × osm_madw_t)) :
    ∀ s : Store, store_shape_same (osm_pi_rcv_process_seq s rs) s := by
  induction rs with
  | nil => intro s; exact store_shape_same_refl _
  | cons r rs ih =>
    intro s
    simp only [osm_pi_rcv_process_seq, List.foldl_cons]
    exact store_shape_same_trans (ih _) (osm_pi_rcv_process_shape r.1 s r.2)

theorem osm_physp_trim_base_lid_port_info (s : Store) (p : Nat × Nat) :
    ((osm_physp_trim_base_lid_to_valid_range s p).2.physp p).port_info
      = snapshot_trimmed (s.physp p).port_info := by
  simp only [osm_physp_trim_base_lid_to_valid_range, snapshot_trimmed]
  split_ifs <;> simp

theorem osm_physp_set_port_info_port_info (s : Store) (p : Nat × Nat) (p_pi : ib_port_info_t) :
    ((osm_physp_set_port_info s p p_pi).physp p).port_info = p_pi := by
  simp [osm_physp_set_port_info]

theorem snapshot_of_get_node (s' s : Store) (n pn : Nat) (p_pi : ib_port_info_t)
    (h1 : (s'.node n).node_info = (s.node n).node_info)
    (h2 : Option.map (fun sw : osm_switch_t => sw.switch_info.enhanced_port0) (s'.node n).sw
      = Option.map (fun sw : osm_switch_t => sw.switch_info.enhanced_port0) (s.node n).sw) :
    snapshot_of_get s' n pn p_pi = snapshot_of_get s n pn p_pi := by
  simp only [snapshot_of_get, osm_node_get_type, h1, h2]

/-- The snapshot on the PhysicalPort after the switch on the node type, for a node
of a known type. -/
theorem osm_pi_rcv_process_get_dispatch_port_info (env : Env) (m : Machine) (n pn : Nat)
    (p_pi : ib_port_info_t) (hk : node_type_known (osm_node_get_type m.store n)) :
    ((osm_pi_rcv_process_get_dispatch env m n (n, pn) p_pi).store.physp (n, pn)).port_info
      = snapshot_of_get m.store n pn p_pi := by
  simp only [osm_pi_rcv_process_get_dispatch, snapshot_of_get]
  by_cases hca : osm_node_get_type m.store n = IB_NODE_TYPE_CA
      ∨ osm_node_get_type m.store n = IB_NODE_TYPE_ROUTER
  · rw [if_pos hca, if_pos hca]
    simp only [osm_pi_rcv_process_ca_or_router_port, osm_pi_rcv_process_endport_physp,
      osm_pi_rcv_trim_base_lid_store, Machine.setStore_store,
      osm_physp_trim_base_lid_port_info, osm_physp_set_port_info_port_info]
  · have hsw : osm_node_get_type m.store n = IB_NODE_TYPE_SWITCH := by
      rcases hk with h | h | h
      · exact absurd (Or.inl h) hca
      · exact absurd (Or.inr h) hca
      · exact h
    rw [if_neg hca, if_neg hca, if_pos hsw]
    simp only [osm_pi_rcv_process_switch_port, osm_pi_rcv_process_switch_port_0,
      osm_physp_get_port_num]
    by_cases h0 : pn = 0
    · rw [if_pos h0, if_neg (by simpa using h0)]
      rw [osm_pi_rcv_process_endport_physp]
      have hnode : (osm_pi_rcv_trim_base_lid
          ((osm_pi_rcv_process_switch_port_probe env m n (n, pn) p_pi).setStore
            (osm_physp_set_port_info
              (osm_pi_rcv_process_switch_port_probe env m n (n, pn) p_pi).store (n, pn) p_pi))
          (n, pn) 0x0F04).store.node = m.store.node := by
        simp [osm_physp_trim_base_lid_node, osm_physp_set_port_info,
          osm_pi_rcv_process_switch_port_probe_node]
      simp only [osm_pi_rcv_process_switch_port_bsp0, hnode]
      cases hs : (m.store.node n).sw with
      | none =>
        simp only [Option.map_none', osm_pi_rcv_trim_base_lid_store, Machine.setStore_store,
          osm_physp_trim_base_lid_port_info, osm_physp_set_port_info_port_info]
      | some sw =>
        simp only [Option.map_some']
        by_cases he : sw.switch_info.enhanced_port0 = false
        · rw [if_pos he, he]
          simp
        · rw [if_neg he]
          have he' : sw.switch_info.enhanced_port0 = true := by simpa using he
          simp only [he', osm_pi_rcv_trim_base_lid_store, Machine.setStore_store,
            osm_physp_trim_base_lid_port_info, osm_physp_set_port_info_port_info]
    · rw [if_neg h0, if_pos h0]
      simp [osm_physp_set_port_info]

theorem osm_pi_rcv_process_get_port_info (env : Env) (m : Machine) (g : Nat)
    (p_port : osm_port_t) (pn : Nat) (w : osm_madw_t)
    (hk : node_type_known (osm_node_get_type m.store p_port.p_node)) :
    ((osm_pi_rcv_process_get env m g p_port pn w).store.physp (p_port.p_node, pn)).port_info
      = snapshot_of_get m.store p_port.p_node pn w.pi := by
  obtain ⟨hn, _⟩ := osm_pi_rcv_process_get_before_dispatch_frame env m g (p_port.p_node, pn) pn w
  rw [osm_pi_rcv_process_get_eq, osm_pkey_get_tables_physp,
    osm_pi_rcv_process_get_dispatch_port_info _ _ _ _ _
      (by simp only [osm_node_get_type, hn]; exact hk)]
  exact snapshot_of_get_node _ _ _ _ _ (by rw [hn]) (by rw [hn])

/-- The snapshot a single call leaves on the PhysicalPort its response names. -/
theorem osm_pi_rcv_process_port_info (env : Env) (s : Store) (w : osm_madw_t)
    (p_port : osm_port_t) (hl : w.context.light_sweep = false)
    (hp : s.subn.port_guid_tbl w.context.port_guid = some p_port)
    (hk : w.context.set_method = true ∨ node_type_known (osm_node_get_type s p_port.p_node)) :
    ((osm_pi_rcv_process env s w).store.physp (p_port.p_node, osm_madw_port_num w)).port_info
      = snapshot_expected s w p_port := by
  simp only [snapshot_expected]
  by_cases hset : w.context.set_method = true
  · rw [if_pos hset, (osm_pi_rcv_process_of_set env s w p_port hl hset hp).1,
      osm_pi_rcv_process_set_physp]
    rfl
  · have hset' : w.context.set_method = false := by simpa using hset
    rw [if_neg hset, (osm_pi_rcv_process_of_get env s w p_port hl hset' hp).1,
      osm_pi_rcv_process_get_port_info _ _ _ _ _ _
        (by rw [osm_pi_rcv_process_entry_store]; exact hk.resolve_left hset),
      osm_pi_rcv_process_entry_store]
    rfl

/-- Claim C6, as amended: after any finite sequence of responses (any kind, any
order) followed by a last response that is not a light-sweep one, names a known
Port and is a write confirmation or a discovery read for a channel adapter,
router or switch, the snapshot stored on the PhysicalPort of the last response is
`snapshot_expected`: the snapshot carried by the last response with the
client-reregister bit cleared, to which a discovery read of an endport (a channel
adapter or router port, or port 0 of a switch other than a base port 0 with a
switch record) applies the base-LID correction. In particular it is the last
response's snapshot itself whenever the client-reregister bit is clear and the
base LID is a unicast LID. -/
theorem osm_pi_rcv_process_seq_last_write_wins (s : Store) (rs : List (Env × osm_madw_t))
    (env : Env) (w : osm_madw_t) (p_port : osm_port_t)
    (hl : w.context.light_sweep = false)
    (hp : s.subn.port_guid_tbl w.context.port_guid = some p_port)
    (hk : w.context.set_method = true ∨ node_type_known (osm_node_get_type s p_port.p_node)) :
    ((osm_pi_rcv_process_seq s (rs ++ [(env, w)])).physp
        (p_port.p_node, osm_madw_port_num w)).port_info = snapshot_expected s w p_port
      ∧ (w.pi.client_rereg = false →
          IB_LID_UCAST_START_HO ≤ cl_ntoh16 w.pi.base_lid →
          cl_ntoh16 w.pi.base_lid ≤ IB_LID_UCAST_END_HO →
          snapshot_expected s w p_port = w.pi) := by
  constructor
  · obtain ⟨h1, h2⟩ := osm_pi_rcv_process_seq_shape rs s
    have hp1 := h1 w.context.port_guid
    rw [hp] at hp1
    cases hq : (osm_pi_rcv_process_seq s rs).subn.port_guid_tbl w.context.port_guid with
    | none => rw [hq] at hp1; exact Option.noConfusion hp1
    | some q_port =>
      rw [hq] at hp1
      have hnode : q_port.p_node = p_port.p_node := Option.some.inj hp1
      have hty : osm_node_get_type (osm_pi_rcv_process_seq s rs) q_port.p_node
          = osm_node_get_type s p_port.p_node := by
        simp only [osm_node_get_type, hnode, (h2 p_port.p_node).1]
      have hstep : osm_pi_rcv_process_seq s (rs ++ [(env, w)])
          = (osm_pi_rcv_process env (osm_pi_rcv_process_seq s rs) w).store := by
        simp [osm_pi_rcv_process_seq, List.foldl_append]
      rw [hstep, ← hnode,
        osm_pi_rcv_process_port_info env _ w q_port hl hq (by rw [hty]; exact hk)]
      simp only [snapshot_expected, hnode]
      rw [snapshot_of_get_node _ s _ _ _ (h2 p_port.p_node).1 (h2 p_port.p_node).2]
  · intro hc h1 h2
    have hclr : osm_pi_rcv_clear_client_rereg w.pi = w.pi := by
      simp [osm_pi_rcv_clear_client_rereg, hc]
    have htrim : snapshot_trimmed w.pi = w.pi := by
      simp only [snapshot_trimmed]
      rw [if_neg]
      intro h
      rcases h with h | h <;> omega
    simp only [snapshot_expected, snapshot_of_get, hclr, htrim]
    split_ifs
    · rfl
    · rfl
    · rfl
    · split <;> rfl

/-- Witness for claim C6: port 3 of the switch 0x21 of the example fabric receives
a Down discovery read, a write confirmation and at last an Active discovery read;
the stored snapshot is the one of the last response. -/
theorem osm_pi_rcv_process_seq_last_write_wins_witness :
    ((osm_pi_rcv_process_seq Example.store_fabric
        ([(Example.env_ok, Example.madw_get 0x21 3 IB_LINK_DOWN 1 0x0200),
          (Example.env_ok, Example.madw_set 0x21 3 0 false false)]
          ++ [(Example.env_ok, Example.madw_get 0x21 3 IB_LINK_ACTIVE 1 0x0100)])).physp
        (1, 3)).port_info = (Example.madw_get 0x21 3 IB_LINK_ACTIVE 1 0x0100).pi :=
  have h := osm_pi_rcv_process_seq_last_write_wins Example.store_fabric
    [(Example.env_ok, Example.madw_get 0x21 3 IB_LINK_DOWN 1 0x0200),
      (Example.env_ok, Example.madw_set 0x21 3 0 false false)]
    Example.env_ok (Example.madw_get 0x21 3 IB_LINK_ACTIVE 1 0x0100) ⟨1, 0, [0]⟩ rfl rfl
    (Or.inr (Or.inr (Or.inr rfl)))
  h.1.trans (h.2 rfl (by decide) (by decide))

/-- Counterexample to claim C6 as stated. For port 1 of the Port 0x41, whose node
has an unknown node type, two discovery reads leave no snapshot at all on the
PhysicalPort (the default case of the switch on the node type, lines 812-818).
For port 1 of the channel adapter 0x31, after two discovery reads of which the
last carries the base LID 0xFFFF, the stored snapshot has base LID 0. -/
theorem osm_pi_rcv_process_seq_last_write_wins_counterexample :
    (((osm_pi_rcv_process_seq Example.store_fabric
        [(Example.env_ok, Example.madw_get 0x41 1 IB_LINK_ACTIVE 2 0x0200),
          (Example.env_ok, Example.madw_get 0x41 1 IB_LINK_ACTIVE 2 0x0100)]).physp
        (4, 1)).port_info ≠ (Example.madw_get 0x41 1 IB_LINK_ACTIVE 2 0x0100).pi
      ∧ ((osm_pi_rcv_process_seq Example.store_fabric
        [(Example.env_ok, Example.madw_get 0x41 1 IB_LINK_ACTIVE 2 0x0200),
          (Example.env_ok, Example.madw_get 0x41 1 IB_LINK_ACTIVE 2 0x0100)]).physp
        (4, 1)).port_info = ib_port_info_t.zero)
    ∧ (((osm_pi_rcv_process_seq Example.store_fabric
        [(Example.env_ok, Example.madw_get 0x31 1 IB_LINK_ACTIVE 2 0x0100),
          (Example.env_ok, Example.madw_get 0x31 1 IB_LINK_ACTIVE 2 0xFFFF)]).physp
        (3, 1)).port_info ≠ (Example.madw_get 0x31 1 IB_LINK_ACTIVE 2 0xFFFF).pi
      ∧ ((osm_pi_rcv_process_seq Example.store_fabric
        [(Example.env_ok, Example.madw_get 0x31 1 IB_LINK_ACTIVE 2 0x0100),
          (Example.env_ok, Example.madw_get 0x31 1 IB_LINK_ACTIVE 2 0xFFFF)]).physp
        (3, 1)).port_info.base_lid = 0) := by
  decide

/-! ## Claim C11: a response for an unknown port GUID -/

/-- Claim C11: a response that is not a light-sweep one and whose context port
GUID resolves to no Port leaves the whole store unchanged (every Port,
PhysicalPort, Subnet aggregate and remote-manager record), issues no request,
logs the error `ERR 0F06`, and has released the lock it took: the trace is the
dump of the response, the note of a cleared client-reregister bit if it was set,
the acquire, the release and the error entry. -/
theorem osm_pi_rcv_process_unknown_port (env : Env) (s : Store) (w : osm_madw_t)
    (hl : w.context.light_sweep = false)
    (hp : s.subn.port_guid_tbl w.context.port_guid = none) :
    (osm_pi_rcv_process env s w).store = s
      ∧ (osm_pi_rcv_process env s w).trace
        = Event.dump_port_info osm_log_level_t.debug
          :: ((if w.pi.client_rereg = true then [Event.log osm_log_level_t.debug 0] else [])
            ++ [Event.plock_excl_acquire, Event.plock_release,
              Event.log osm_log_level_t.error 0x0F06])
      ∧ (osm_pi_rcv_process env s w).trace.countP Event.isReq = 0
      ∧ Event.log osm_log_level_t.error 0x0F06 ∈ (osm_pi_rcv_process env s w).trace
      ∧ (osm_pi_rcv_process env s w).trace.count Event.plock_excl_acquire = 1
      ∧ (osm_pi_rcv_process env s w).trace.count Event.plock_release = 1 := by
  have ht : (osm_pi_rcv_process env s w).trace
        = Event.dump_port_info osm_log_level_t.debug
          :: ((if w.pi.client_rereg = true then [Event.log osm_log_level_t.debug 0] else [])
            ++ [Event.plock_excl_acquire, Event.plock_release,
              Event.log osm_log_level_t.error 0x0F06]) := by
    simp only [osm_pi_rcv_process, hl, Bool.false_eq_true, if_false]
    split_ifs
    · rw [osm_pi_rcv_process_locked_unknown _ _ _ _ _ hp]; rfl
    · rw [osm_pi_rcv_process_locked_unknown _ _ _ _ _ hp]; rfl
  refine ⟨osm_pi_rcv_process_store_of_light_or_unknown env s w (Or.inr hp), ht, ?_, ?_, ?_, ?_⟩
  · rw [ht]; split_ifs <;> rfl
  · rw [ht]; split_ifs <;> decide
  · rw [ht]; split_ifs <;> decide
  · rw [ht]; split_ifs <;> decide

/-- Witness for claim C11: a discovery read for the port GUID 0x77, which the
example fabric does not know. -/
theorem osm_pi_rcv_process_unknown_port_witness :
    (osm_pi_rcv_process Example.env_ok Example.store_fabric
        (Example.madw_get 0x77 1 IB_LINK_ACTIVE 2 0x0100)).trace
      = [Event.dump_port_info osm_log_level_t.debug, Event.plock_excl_acquire,
          Event.plock_release, Event.log osm_log_level_t.error 0x0F06] :=
  (osm_pi_rcv_process_unknown_port Example.env_ok Example.store_fabric
    (Example.madw_get 0x77 1 IB_LINK_ACTIVE 2 0x0100) rfl rfl).2.1

/-! ## Claim C12: the minimum aggregates after endport processing -/

theorem osm_pi_rcv_process_endport_min_trace (m : Machine) (p : Nat × Nat)
    (p_pi : ib_port_info_t) :
    (osm_pi_rcv_process_endport_min m p p_pi).trace
      = m.trace
        ++ (if osm_physp_get_port_num p ≠ 0 ∧ p_pi.mtu_cap < m.store.subn.min_ca_mtu
            then [Event.log osm_log_level_t.verbose 0] else [])
        ++ (if osm_physp_get_port_num p ≠ 0 ∧ p_pi.rate < m.store.subn.min_ca_rate
            then [Event.log osm_log_level_t.verbose 0] else []) := by
  simp only [osm_pi_rcv_process_endport_min]
  by_cases h0 : osm_physp_get_port_num p ≠ 0
  · rw [if_pos h0]
    have hm : (osm_pi_rcv_process_endport_mtu m p_pi).trace
        = m.trace ++ (if p_pi.mtu_cap < m.store.subn.min_ca_mtu
            then [Event.log osm_log_level_t.verbose 0] else [])
        ∧ (osm_pi_rcv_process_endport_mtu m p_pi).store.subn.min_ca_rate
          = m.store.subn.min_ca_rate := by
      simp only [osm_pi_rcv_process_endport_mtu]
      split_ifs <;> simp
    simp only [osm_pi_rcv_process_endport_rate, hm.2]
    split_ifs <;> simp_all
  · rw [if_neg h0]
    simp [h0]

/-- Claim C12: when `__osm_pi_rcv_process_endport` runs for a port with a non-zero
port number, the new `min_ca_mtu` is the minimum of the old one and the MTU
capability of the payload, the new `min_ca_rate` the minimum of the old one and
the computed rate of the payload, and the block that tracks the minima (lines
120-147, after which the function only deals with managers) logs one entry for
the MTU exactly when the MTU capability is strictly below the old minimum and one
for the rate exactly when the rate is strictly below the old minimum; for port 0
both aggregates are unchanged and nothing is logged by that block. -/
theorem osm_pi_rcv_process_endport_tracks_minima (env : Env) (m : Machine) (p : Nat × Nat)
    (p_pi : ib_port_info_t) :
    osm_pi_rcv_process_endport env m p p_pi
        = osm_pi_rcv_process_endport_sm env (osm_pi_rcv_process_endport_min m p p_pi)
            (osm_physp_get_port_guid m.store p) p p_pi
      ∧ (osm_physp_get_port_num p ≠ 0 →
          (osm_pi_rcv_process_endport env m p p_pi).store.subn.min_ca_mtu
              = min m.store.subn.min_ca_mtu p_pi.mtu_cap
            ∧ (osm_pi_rcv_process_endport env m p p_pi).store.subn.min_ca_rate
              = min m.store.subn.min_ca_rate p_pi.rate
            ∧ (osm_pi_rcv_process_endport_min m p p_pi).trace
              = m.trace
                ++ (if p_pi.mtu_cap < m.store.subn.min_ca_mtu
                    then [Event.log osm_log_level_t.verbose 0] else [])
                ++ (if p_pi.rate < m.store.subn.min_ca_rate
                    then [Event.log osm_log_level_t.verbose 0] else []))
      ∧ (osm_physp_get_port_num p = 0 →
          (osm_pi_rcv_process_endport env m p p_pi).store.subn.min_ca_mtu
              = m.store.subn.min_ca_mtu
            ∧ (osm_pi_rcv_process_endport env m p p_pi).store.subn.min_ca_rate
              = m.store.subn.min_ca_rate
            ∧ (osm_pi_rcv_process_endport_min m p p_pi).trace = m.trace) := by
  obtain ⟨h1, h2⟩ := osm_pi_rcv_process_endport_minima env m p p_pi
  have ht := osm_pi_rcv_process_endport_min_trace m p p_pi
  refine ⟨rfl, ?_, ?_⟩
  · intro h0
    rw [h1, h2, ht, if_pos h0, if_pos h0, Nat.min_comm, Nat.min_comm p_pi.rate]
    simp [h0]
  · intro h0
    rw [h1, h2, ht, if_neg (by simpa using h0), if_neg (by simpa using h0)]
    simp [h0]

/-- Witness for claim C12, the scenario of the spec: a channel adapter port with
MTU capability 4 and rate 3 is processed when the minima are 5 and 10; both are
lowered and each update is logged once. -/
theorem osm_pi_rcv_process_endport_tracks_minima_witness :
    (osm_pi_rcv_process_endport Example.env_ok ⟨Example.store_fabric, []⟩ (3, 1)
        (Example.madw_get 0x31 1 IB_LINK_ACTIVE 2 0x0100).pi).store.subn.min_ca_mtu = 4
      ∧ (osm_pi_rcv_process_endport Example.env_ok ⟨Example.store_fabric, []⟩ (3, 1)
        (Example.madw_get 0x31 1 IB_LINK_ACTIVE 2 0x0100).pi).store.subn.min_ca_rate = 3
      ∧ (osm_pi_rcv_process_endport_min ⟨Example.store_fabric, []⟩ (3, 1)
        (Example.madw_get 0x31 1 IB_LINK_ACTIVE 2 0x0100).pi).trace
        = [Event.log osm_log_level_t.verbose 0, Event.log osm_log_level_t.verbose 0] :=
  have h := (osm_pi_rcv_process_endport_tracks_minima Example.env_ok
    ⟨Example.store_fabric, []⟩ (3, 1) (Example.madw_get 0x31 1 IB_LINK_ACTIVE 2 0x0100).pi).2.1
    (by decide)
  ⟨h.1.trans (by decide), h.2.1.trans (by decide), h.2.2.trans (by decide)⟩

/-! ## Claim C13: a refused request ends the fan-out -/

theorem osm_pkey_get_tables_loop_refused (env : Env) (p_node port_num : Nat)
    (path : osm_dr_path_t) (ctx : osm_madw_context_t) :
    ∀ (k n b : Nat) (m : Machine), k < n →
      (∀ i, i < k → env.req_status (m.trace.countP Event.isReq + i) = true) →
      env.req_status (m.trace.countP Event.isReq + k) = false →
      (osm_pkey_get_tables_loop env p_node port_num path ctx n b m).store = m.store ∧
      (osm_pkey_get_tables_loop env p_node port_num path ctx n b m).trace
        = m.trace ++ ((List.range k).map (fun i =>
            Event.req_get path AttrId.p_key_table
              (cl_hton32 (pkey_attr_mod_ho m.store p_node port_num (b + i))) ctx true)
          ++ [Event.req_get path AttrId.p_key_table
                (cl_hton32 (pkey_attr_mod_ho m.store p_node port_num (b + k))) ctx false,
              Event.log osm_log_level_t.error 0x0F12]) := by
  intro k
  induction k with
  | zero =>
    intro n b m hn _ hf
    obtain ⟨n', rfl⟩ : ∃ n', n = n' + 1 := ⟨n - 1, by omega⟩
    rw [osm_pkey_get_tables_loop]
    simp only [osm_req_get_fst, Nat.add_zero] at hf ⊢
    simp [hf]
  | succ k ih =>
    intro n b m hn hok hf
    obtain ⟨n', rfl⟩ : ∃ n', n = n' + 1 := ⟨n - 1, by omega⟩
    have h0 : env.req_status (m.trace.countP Event.isReq) = true := by
      simpa using hok 0 (by omega)
    rw [osm_pkey_get_tables_loop]
    simp only [osm_req_get_fst, h0, if_true]
    have hc : (osm_req_get env m path AttrId.p_key_table
        (cl_hton32 (pkey_attr_mod_ho m.store p_node port_num b)) ctx).2.trace.countP Event.isReq
        = m.trace.countP Event.isReq + 1 := by
      rw [osm_req_get_trace, List.countP_append]
      rfl
    obtain ⟨h1, h2⟩ := ih n' (b + 1) (osm_req_get env m path AttrId.p_key_table
      (cl_hton32 (pkey_attr_mod_ho m.store p_node port_num b)) ctx).2 (by omega)
      (by
        intro i hi
        rw [hc, Nat.add_assoc, Nat.add_comm 1 i]
        exact hok (i + 1) (by omega))
      (by
        rw [hc, Nat.add_assoc, Nat.add_comm 1 k]
        exact hf)
    refine ⟨by rw [h1]; rfl, ?_⟩
    have hf : (fun i => Event.req_get path AttrId.p_key_table
          (cl_hton32 (pkey_attr_mod_ho m.store p_node port_num (b + 1 + i))) ctx true)
        = (fun i => Event.req_get path AttrId.p_key_table
          (cl_hton32 (pkey_attr_mod_ho m.store p_node port_num (b + i))) ctx true) ∘ Nat.succ := by
      funext i
      simp only [Function.comp, Nat.succ_eq_add_one]
      rw [Nat.add_assoc, Nat.add_comm 1 i]
    rw [h2, osm_req_get_trace, osm_req_get_store, h0, List.range_succ_eq_map, List.map_cons,
      List.map_map, List.append_assoc, List.singleton_append, hf, Nat.add_zero,
      Nat.add_assoc b 1 k, Nat.add_comm 1 k]
    rfl

/-- Claim C13, as amended: in a fan-out of N = `(c + 31) / 32` blocks of
`osm_pkey_get_tables`, if the requests for the blocks before `k` are accepted and
the request for the block `k < N` is refused, then the trace grows by exactly the
accepted requests for the blocks 0, ..., k-1, the refused request for the block
`k` and the error entry `ERR 0F12`, in this order: the failure is logged and the
loop is left, so `k + 1` requests are attempted and none for the blocks
k+1, ..., N-1; the store is unchanged. -/
theorem osm_pkey_get_tables_stops_at_refusal (env : Env) (m : Machine) (p_node : Nat)
    (p_physp : Nat × Nat) (k : Nat)
    (hk : k < (pkey_capability m.store p_node p_physp.2 + 31) / 32)
    (hok : ∀ i, i < k → env.req_status (m.trace.countP Event.isReq + i) = true)
    (hf : env.req_status (m.trace.countP Event.isReq + k) = false) :
    (osm_pkey_get_tables env m p_node p_physp).trace
        = m.trace ++ ((List.range k).map (pkey_request m.store p_node p_physp)
            ++ [pkey_request_refused m.store p_node p_physp k,
                Event.log osm_log_level_t.error 0x0F12])
      ∧ (osm_pkey_get_tables env m p_node p_physp).trace.countP
          (Event.isReqFor AttrId.p_key_table)
        = m.trace.countP (Event.isReqFor AttrId.p_key_table) + (k + 1)
      ∧ (osm_pkey_get_tables env m p_node p_physp).store = m.store := by
  have key : (osm_pkey_get_tables env m p_node p_physp).trace
        = m.trace ++ ((List.range k).map (pkey_request m.store p_node p_physp)
            ++ [pkey_request_refused m.store p_node p_physp k,
                Event.log osm_log_level_t.error 0x0F12])
      ∧ (osm_pkey_get_tables env m p_node p_physp).store = m.store := by
    revert hk
    simp only [osm_pkey_get_tables, pkey_capability]
    cases hsw : (m.store.node p_node).sw with
    | none =>
      simp only [IB_NUM_PKEY_ELEMENTS_IN_BLOCK]
      intro hk
      have hlt := cl_ntoh16_lt (m.store.node p_node).node_info.partition_cap
      rw [Nat.mod_eq_of_lt (by omega)]
      obtain ⟨h1, h2⟩ := osm_pkey_get_tables_loop_refused env p_node (osm_physp_get_port_num p_physp)
        (osm_physp_get_dr_path_ptr m.store p_physp)
        (osm_madw_context_t.pkey_context (osm_node_get_node_guid m.store p_node)
          (osm_physp_get_port_guid m.store p_physp) false) k
              ((cl_ntoh16 (m.store.node p_node).node_info.partition_cap + 32 - 1) / 32) 0 m (by omega) hok hf
      refine ⟨?_, h1⟩
      rw [h2]
      simp [pkey_request, pkey_request_refused]
    | some sw =>
      simp only [IB_NUM_PKEY_ELEMENTS_IN_BLOCK, osm_physp_get_port_num]
      by_cases hp : p_physp.2 = 0
      · simp only [hp, if_true]
        intro hk
        have hlt := cl_ntoh16_lt (m.store.node p_node).node_info.partition_cap
        rw [Nat.mod_eq_of_lt (by omega)]
        obtain ⟨h1, h2⟩ := osm_pkey_get_tables_loop_refused env p_node 0
          (osm_physp_get_dr_path_ptr m.store p_physp)
          (osm_madw_context_t.pkey_context (osm_node_get_node_guid m.store p_node)
            (osm_physp_get_port_guid m.store p_physp) false) k
              ((cl_ntoh16 (m.store.node p_node).node_info.partition_cap + 32 - 1) / 32) 0 m (by omega) hok hf
        refine ⟨?_, h1⟩
        rw [h2]
        simp [pkey_request, pkey_request_refused, osm_physp_get_port_num, hp]
      · simp only [hp, if_false]
        by_cases hv : cl_ntoh32 (m.store.node p_node).node_info.vendor_id = IBM_VENDOR_ID
        · simp only [hv, if_true]
          intro hk
          omega
        · simp only [hv, if_false]
          intro hk
          have hlt := cl_ntoh16_lt sw.switch_info.enforce_cap
          have hc : cl_ntoh16 sw.switch_info.enforce_cap ≠ 0 := by omega
          simp only [hc, if_false]
          rw [Nat.mod_eq_of_lt (by omega)]
          obtain ⟨h1, h2⟩ := osm_pkey_get_tables_loop_refused env p_node p_physp.2
            (osm_physp_get_dr_path_ptr m.store p_physp)
            (osm_madw_context_t.pkey_context (osm_node_get_node_guid m.store p_node)
              (osm_physp_get_port_guid m.store p_physp) false) k
              ((cl_ntoh16 sw.switch_info.enforce_cap + 32 - 1) / 32) 0 m (by omega) hok hf
          refine ⟨?_, h1⟩
          rw [h2]
          simp [pkey_request, pkey_request_refused, osm_physp_get_port_num]
  refine ⟨key.1, ?_, key.2⟩
  rw [key.1, List.countP_append, List.countP_append]
  have h1 : ∀ l : List Nat, (l.map (pkey_request m.store p_node p_physp)).countP
      (Event.isReqFor AttrId.p_key_table) = l.length := by
    intro l
    induction l with
    | nil => rfl
    | cons a l ih =>
      rw [List.map_cons, List.countP_cons, ih]
      simp [pkey_request, Event.isReqFor]
  rw [h1, List.length_range]
  rfl

/-- Witness for claim C13: a switch of another vendor, port 1, enforcement
capability 33, so two blocks; the first request is accepted and the second
refused: both are attempted and the failure is logged. -/
theorem osm_pkey_get_tables_stops_at_refusal_witness :
    (osm_pkey_get_tables ⟨fun _ => true, fun k => k != 1⟩ ⟨Example.store_sw, []⟩ 1 (1, 1)).trace
      = [pkey_request Example.store_sw 1 (1, 1) 0,
          pkey_request_refused Example.store_sw 1 (1, 1) 1,
          Event.log osm_log_level_t.error 0x0F12] :=
  (osm_pkey_get_tables_stops_at_refusal ⟨fun _ => true, fun k => k != 1⟩
    ⟨Example.store_sw, []⟩ 1 (1, 1) 1 (by decide)
    (fun i hi => by
      have h0 : i = 0 := by omega
      subst h0
      rfl)
    rfl).1

/-- Counterexample to claim C13 as stated: a switch of another vendor, port 1,
enforcement capability 33, so a fan-out of N = 2 blocks; the transport refuses the
first request and would accept every later one. The failure is logged, the
request for block 1 is never attempted, and one request is attempted in total,
not two. -/
theorem osm_pkey_get_tables_refusal_counterexample :
    (pkey_capability Example.store_sw 1 1 + 31) / 32 = 2
      ∧ Example.env_first_refused.req_status 1 = true
      ∧ (osm_pkey_get_tables Example.env_first_refused ⟨Example.store_sw, []⟩ 1 (1, 1)).trace
        = [pkey_request_refused Example.store_sw 1 (1, 1) 0,
            Event.log osm_log_level_t.error 0x0F12]
      ∧ (osm_pkey_get_tables Example.env_first_refused ⟨Example.store_sw, []⟩ 1
          (1, 1)).trace.countP Event.isReq ≠ 2 := by
  decide

/-! ## Claim C14: the vendor whose switches misreport the enforcement capability -/

/-- Claim C14: for a non-zero port of a node with a switch record whose NodeInfo
vendor id is 0x5076, `osm_pkey_get_tables` takes the partition enforcement
capability as 0 whatever the switch reported, appends nothing to the trace (no
request is issued) and changes the store only by setting `enforce_cap` of that
switch to 0: the subnet, every PhysicalPort, every other node, the NodeInfo of
the node and the other fields of its SwitchInfo are as before. For every other
node or port `osm_pkey_get_tables` leaves the store unchanged. -/
theorem osm_pkey_get_tables_vendor_frame (env : Env) (m : Machine) (p_node : Nat)
    (p_physp : Nat × Nat) :
    (∀ sw : osm_switch_t, (m.store.node p_node).sw = some sw → p_physp.2 ≠ 0 →
        cl_ntoh32 (m.store.node p_node).node_info.vendor_id = IBM_VENDOR_ID →
        pkey_capability m.store p_node p_physp.2 = 0
          ∧ (osm_pkey_get_tables env m p_node p_physp).trace = m.trace
          ∧ (osm_pkey_get_tables env m p_node p_physp).store = m.store.setEnforceCap p_node 0
          ∧ (osm_pkey_get_tables env m p_node p_physp).store.subn = m.store.subn
          ∧ (osm_pkey_get_tables env m p_node p_physp).store.physp_table = m.store.physp_table
          ∧ (∀ n, n ≠ p_node →
              (osm_pkey_get_tables env m p_node p_physp).store.node n = m.store.node n)
          ∧ ((osm_pkey_get_tables env m p_node p_physp).store.node p_node).node_info
              = (m.store.node p_node).node_info
          ∧ ((osm_pkey_get_tables env m p_node p_physp).store.node p_node).sw
              = some { sw with switch_info := { sw.switch_info with enforce_cap := 0 } })
      ∧ (¬ (∃ sw : osm_switch_t, (m.store.node p_node).sw = some sw ∧ p_physp.2 ≠ 0
            ∧ cl_ntoh32 (m.store.node p_node).node_info.vendor_id = IBM_VENDOR_ID) →
          (osm_pkey_get_tables env m p_node p_physp).store = m.store) := by
  constructor
  · intro sw hsw hp hv
    have hm : osm_pkey_get_tables env m p_node p_physp
        = m.setStore (m.store.setEnforceCap p_node 0) := by
      simp only [osm_pkey_get_tables, hsw, osm_physp_get_port_num, hp, hv, if_true, if_false]
      rw [if_pos (by decide)]
    refine ⟨?_, ?_, ?_, ?_, ?_, ?_, ?_, ?_⟩
    · simp only [pkey_capability, hsw, hp, hv, if_true, if_false]
    · rw [hm]; rfl
    · rw [hm]; rfl
    · rw [hm]; rfl
    · rw [hm]; rfl
    · intro n hn
      rw [hm]
      simp only [Machine.setStore_store, Store.setEnforceCap, hn, if_false]
    · rw [hm]
      simp only [Machine.setStore_store, Store.setEnforceCap, if_true]
    · rw [hm]
      simp only [Machine.setStore_store, Store.setEnforceCap, if_true, hsw, Option.map_some']
  · intro hne
    simp only [osm_pkey_get_tables]
    cases hsw : (m.store.node p_node).sw with
    | none => simp only [osm_pkey_get_tables_loop_store]
    | some sw =>
      simp only [osm_physp_get_port_num]
      by_cases hp : p_physp.2 = 0
      · simp only [hp, if_true, osm_pkey_get_tables_loop_store]
      · have hv : ¬ cl_ntoh32 (m.store.node p_node).node_info.vendor_id = IBM_VENDOR_ID :=
          fun hv => hne ⟨sw, hsw, hp, hv⟩
        simp only [hp, hv, if_false]
        split_ifs
        · rfl
        · rw [osm_pkey_get_tables_loop_store]

/-- Witness for claim C14: a switch of vendor 0x5076 that reports the enforcement
capability 64: for its port 1 nothing is issued and the capability is stored as
0; for its port 0 the store is unchanged. -/
theorem osm_pkey_get_tables_vendor_frame_witness :
    (osm_pkey_get_tables Example.env_ok ⟨Example.store_ibm, []⟩ 1 (1, 1)).trace = []
      ∧ ((osm_pkey_get_tables Example.env_ok ⟨Example.store_ibm, []⟩ 1 (1, 1)).store.node 1).sw
        = some ⟨⟨0, true⟩⟩
      ∧ (osm_pkey_get_tables Example.env_ok ⟨Example.store_ibm, []⟩ 1 (1, 0)).store
        = Example.store_ibm :=
  have h := (osm_pkey_get_tables_vendor_frame Example.env_ok ⟨Example.store_ibm, []⟩ 1 (1, 1)).1
    ⟨⟨0x4000, true⟩⟩ rfl (by decide) (by decide)
  ⟨h.2.1, h.2.2.2.2.2.2.2,
    (osm_pkey_get_tables_vendor_frame Example.env_ok ⟨Example.store_ibm, []⟩ 1 (1, 0)).2
      (by rintro ⟨_, _, h0, _⟩; exact h0 rfl)⟩

/-! ## Claim C15: the attribute modifier of a PKeyTable request -/

theorem cl_ntoh32_cl_hton32 (x : Nat) (h : x < 4294967296) : cl_ntoh32 (cl_hton32 x) = x := by
  have hx : x = x % 256 + 256 * (x / 256 % 256) + 65536 * (x / 65536 % 256)
      + 16777216 * (x / 16777216 % 256) := by omega
  have ha : x % 256 < 256 := Nat.mod_lt _ (by decide)
  have hb : x / 256 % 256 < 256 := Nat.mod_lt _ (by decide)
  have hc : x / 65536 % 256 < 256 := Nat.mod_lt _ (by decide)
  have hd : x / 16777216 % 256 < 256 := Nat.mod_lt _ (by decide)
  unfold cl_hton32
  generalize hy : cl_ntoh32 x = y
  unfold cl_ntoh32 at hy ⊢
  generalize x % 256 = a at hx ha hy
  generalize x / 256 % 256 = b at hx hb hy
  generalize x / 65536 % 256 = c at hx hc hy
  generalize x / 16777216 % 256 = d at hx hd hy
  have h1 : y % 256 = d := by omega
  have h2 : y / 256 = a * 65536 + b * 256 + c := by omega
  have h3 : y / 65536 = a * 256 + b := by omega
  have h4 : y / 16777216 = a := by omega
  rw [h1, h2, h3, h4]
  have m2 : (a * 65536 + b * 256 + c) % 256 = c := by clear hy h1 h2 h3 h4 hx; omega
  have m3 : (a * 256 + b) % 256 = b := by clear hy h1 h2 h3 h4 hx; omega
  rw [m2, m3, Nat.mod_eq_of_lt ha, hx]
  ring

theorem or_shiftLeft_16 (b p : Nat) (hb : b < 65536) : b ||| (p <<< 16) = 65536 * p + b := by
  rw [Nat.shiftLeft_eq, Nat.or_comm, Nat.mul_comm]
  exact (Nat.mul_add_lt_is_or (by simpa using hb) p).symm

theorem osm_pkey_get_tables_loop_mem (env : Env) (p_node port_num : Nat)
    (path : osm_dr_path_t) (ctx : osm_madw_context_t) :
    ∀ (n b : Nat) (m : Machine), ∃ l : List Event,
      (osm_pkey_get_tables_loop env p_node port_num path ctx n b m).trace = m.trace ++ l
      ∧ ∀ e ∈ l, e = Event.log osm_log_level_t.error 0x0F12
        ∨ ∃ i st, i < n ∧ e = Event.req_get path AttrId.p_key_table
            (cl_hton32 (pkey_attr_mod_ho m.store p_node port_num (b + i))) ctx st := by
  intro n
  induction n with
  | zero => intro b m; exact ⟨[], by simp [osm_pkey_get_tables_loop], by simp⟩
  | succ k ih =>
    intro b m
    rw [osm_pkey_get_tables_loop]
    simp only [osm_req_get_fst]
    by_cases hs : env.req_status (m.trace.countP Event.isReq) = true
    · rw [if_pos hs]
      obtain ⟨l, h1, h2⟩ := ih (b + 1) (osm_req_get env m path AttrId.p_key_table
        (cl_hton32 (pkey_attr_mod_ho m.store p_node port_num b)) ctx).2
      refine ⟨Event.req_get path AttrId.p_key_table
        (cl_hton32 (pkey_attr_mod_ho m.store p_node port_num b)) ctx true :: l, ?_, ?_⟩
      · rw [h1, osm_req_get_trace, hs, List.append_assoc, List.singleton_append]
      · intro e he
        rcases List.mem_cons.mp he with he | he
        · exact Or.inr ⟨0, true, by omega, he⟩
        · rcases h2 e he with h | ⟨i, st, hi, h⟩
          · exact Or.inl h
          · refine Or.inr ⟨i + 1, st, by omega, ?_⟩
            rw [h, osm_req_get_store, Nat.add_assoc, Nat.add_comm 1 i]
    · rw [if_neg hs]
      refine ⟨[Event.req_get path AttrId.p_key_table
        (cl_hton32 (pkey_attr_mod_ho m.store p_node port_num b)) ctx
          (env.req_status (m.trace.countP Event.isReq)), Event.log osm_log_level_t.error 0x0F12],
        by simp, ?_⟩
      intro e he
      rcases List.mem_cons.mp he with he | he
      · exact Or.inr ⟨0, _, by omega, he⟩
      · exact Or.inl (List.mem_singleton.mp he)

theorem pkey_capability_lt (s : Store) (n p : Nat) : pkey_capability s n p < 65536 := by
  unfold pkey_capability
  split
  · exact cl_ntoh16_lt _
  · split_ifs
    · exact cl_ntoh16_lt _
    · omega
    · exact cl_ntoh16_lt _

theorem osm_pkey_get_tables_mem (env : Env) (m : Machine) (p_node : Nat) (p_physp : Nat × Nat) :
    ∃ l : List Event, (osm_pkey_get_tables env m p_node p_physp).trace = m.trace ++ l
      ∧ ∀ e ∈ l, e = Event.log osm_log_level_t.error 0x0F12
        ∨ ∃ b st, b < (pkey_capability m.store p_node p_physp.2 + 31) / 32
          ∧ e = Event.req_get (osm_physp_get_dr_path_ptr m.store p_physp) AttrId.p_key_table
            (cl_hton32 (pkey_attr_mod_ho m.store p_node p_physp.2 b))
            (osm_madw_context_t.pkey_context (osm_node_get_node_guid m.store p_node)
              (osm_physp_get_port_guid m.store p_physp) false) st := by
  simp only [osm_pkey_get_tables, pkey_capability]
  cases hsw : (m.store.node p_node).sw with
  | none =>
    simp only [IB_NUM_PKEY_ELEMENTS_IN_BLOCK, osm_physp_get_port_num]
    have hlt := cl_ntoh16_lt (m.store.node p_node).node_info.partition_cap
    rw [Nat.mod_eq_of_lt (by omega)]
    obtain ⟨l, h1, h2⟩ := osm_pkey_get_tables_loop_mem env p_node p_physp.2
      (osm_physp_get_dr_path_ptr m.store p_physp)
      (osm_madw_context_t.pkey_context (osm_node_get_node_guid m.store p_node)
        (osm_physp_get_port_guid m.store p_physp) false)
      ((cl_ntoh16 (m.store.node p_node).node_info.partition_cap + 32 - 1) / 32) 0 m
    refine ⟨l, h1, fun e he => ?_⟩
    rcases h2 e he with h | ⟨i, st, hi, h⟩
    · exact Or.inl h
    · exact Or.inr ⟨i, st, by omega, by rw [h, Nat.zero_add]⟩
  | some sw =>
    simp only [IB_NUM_PKEY_ELEMENTS_IN_BLOCK, osm_physp_get_port_num]
    by_cases hp : p_physp.2 = 0
    · simp only [hp, if_true]
      have hlt := cl_ntoh16_lt (m.store.node p_node).node_info.partition_cap
      rw [Nat.mod_eq_of_lt (by omega)]
      obtain ⟨l, h1, h2⟩ := osm_pkey_get_tables_loop_mem env p_node 0
        (osm_physp_get_dr_path_ptr m.store p_physp)
        (osm_madw_context_t.pkey_context (osm_node_get_node_guid m.store p_node)
          (osm_physp_get_port_guid m.store p_physp) false)
        ((cl_ntoh16 (m.store.node p_node).node_info.partition_cap + 32 - 1) / 32) 0 m
      refine ⟨l, h1, fun e he => ?_⟩
      rcases h2 e he with h | ⟨i, st, hi, h⟩
      · exact Or.inl h
      · exact Or.inr ⟨i, st, by omega, by rw [h, Nat.zero_add]⟩
    · simp only [hp, if_false]
      by_cases hv : cl_ntoh32 (m.store.node p_node).node_info.vendor_id = IBM_VENDOR_ID
      · simp only [hv, if_true]
        rw [if_pos (by decide)]
        exact ⟨[], by simp, by simp⟩
      · simp only [hv, if_false]
        have hlt := cl_ntoh16_lt sw.switch_info.enforce_cap
        by_cases hc : cl_ntoh16 sw.switch_info.enforce_cap = 0
        · simp only [hc, if_true]
          exact ⟨[], by simp, by simp⟩
        · simp only [hc, if_false]
          rw [Nat.mod_eq_of_lt (by omega)]
          obtain ⟨l, h1, h2⟩ := osm_pkey_get_tables_loop_mem env p_node p_physp.2
            (osm_physp_get_dr_path_ptr m.store p_physp)
            (osm_madw_context_t.pkey_context (osm_node_get_node_guid m.store p_node)
              (osm_physp_get_port_guid m.store p_physp) false)
            ((cl_ntoh16 sw.switch_info.enforce_cap + 32 - 1) / 32) 0 m
          refine ⟨l, h1, fun e he => ?_⟩
          rcases h2 e he with h | ⟨i, st, hi, h⟩
          · exact Or.inl h
          · exact Or.inr ⟨i, st, by omega, by rw [h, Nat.zero_add]⟩

/-- Claim C15: every request `osm_pkey_get_tables` hands to the transport is a
PKeyTable request for a block `b < N`, `N = (c + 31) / 32 <= 2048`, whose
attribute modifier is `cl_hton32` of the host-order value `pkey_attr_mod_ho`
computed at lines 449-452. For a port number below 256 (it is a `uint8_t`) that
host-order value is read back by `cl_ntoh32`, is `b` when the node type is not
switch and `b OR (port number shifted left by 16)` when it is; its low 16 bits
decode to `b` and, for a switch, its bits 16..23 decode to the port number; so on
a switch distinct (port, block) pairs never share a modifier, and on any node
distinct blocks never do. -/
theorem osm_pkey_get_tables_attr_mod (env : Env) (m : Machine) (p_node : Nat)
    (p_physp : Nat × Nat) (hp : p_physp.2 < 256) :
    (pkey_capability m.store p_node p_physp.2 + 31) / 32 ≤ 2048
      ∧ (∃ l : List Event, (osm_pkey_get_tables env m p_node p_physp).trace = m.trace ++ l
          ∧ ∀ e ∈ l, e = Event.log osm_log_level_t.error 0x0F12
            ∨ ∃ b st, b < (pkey_capability m.store p_node p_physp.2 + 31) / 32
              ∧ e = Event.req_get (osm_physp_get_dr_path_ptr m.store p_physp)
                AttrId.p_key_table
                (cl_hton32 (pkey_attr_mod_ho m.store p_node p_physp.2 b))
                (osm_madw_context_t.pkey_context (osm_node_get_node_guid m.store p_node)
                  (osm_physp_get_port_guid m.store p_physp) false) st)
      ∧ (∀ b, b < (pkey_capability m.store p_node p_physp.2 + 31) / 32 →
          cl_ntoh32 (cl_hton32 (pkey_attr_mod_ho m.store p_node p_physp.2 b))
              = pkey_attr_mod_ho m.store p_node p_physp.2 b
            ∧ (osm_node_get_type m.store p_node ≠ IB_NODE_TYPE_SWITCH →
                pkey_attr_mod_ho m.store p_node p_physp.2 b = b)
            ∧ (osm_node_get_type m.store p_node = IB_NODE_TYPE_SWITCH →
                pkey_attr_mod_ho m.store p_node p_physp.2 b = b ||| (p_physp.2 <<< 16)
                  ∧ pkey_attr_mod_ho m.store p_node p_physp.2 b / 65536 % 256 = p_physp.2)
            ∧ pkey_attr_mod_ho m.store p_node p_physp.2 b % 65536 = b)
      ∧ (∀ p p' b b', p < 256 → p' < 256 → b < 2048 → b' < 2048 →
          pkey_attr_mod_ho m.store p_node p b = pkey_attr_mod_ho m.store p_node p' b' →
          b = b' ∧ (osm_node_get_type m.store p_node = IB_NODE_TYPE_SWITCH → p = p')) := by
  have hN := pkey_capability_lt m.store p_node p_physp.2
  refine ⟨by omega, osm_pkey_get_tables_mem env m p_node p_physp, ?_, ?_⟩
  · intro b hb
    have hb' : b < 65536 := by omega
    by_cases ht : osm_node_get_type m.store p_node = IB_NODE_TYPE_SWITCH
    · have ha : pkey_attr_mod_ho m.store p_node p_physp.2 b = 65536 * p_physp.2 + b := by
        simp only [pkey_attr_mod_ho, ht, ne_eq, not_true_eq_false, if_false]
        exact or_shiftLeft_16 b p_physp.2 hb'
      refine ⟨cl_ntoh32_cl_hton32 _ (by rw [ha]; omega), fun h => absurd ht h, fun _ => ⟨?_, ?_⟩, ?_⟩
      · rw [ha, or_shiftLeft_16 b p_physp.2 hb']
      · rw [ha]; omega
      · rw [ha]; omega
    · have ha : pkey_attr_mod_ho m.store p_node p_physp.2 b = b := by
        simp only [pkey_attr_mod_ho, ne_eq, ht, not_false_eq_true, if_true]
      refine ⟨cl_ntoh32_cl_hton32 _ (by rw [ha]; omega), fun _ => ha, fun h => absurd h ht, ?_⟩
      rw [ha]; omega
  · intro p p' b b' h1 h2 h3 h4 he
    by_cases ht : osm_node_get_type m.store p_node = IB_NODE_TYPE_SWITCH
    · simp only [pkey_attr_mod_ho, ht, ne_eq, not_true_eq_false, if_false] at he
      rw [or_shiftLeft_16 b p (by omega), or_shiftLeft_16 b' p' (by omega)] at he
      exact ⟨by omega, fun _ => by omega⟩
    · simp only [pkey_attr_mod_ho, ne_eq, ht, not_false_eq_true, if_true] at he
      exact ⟨he, fun h => absurd h ht⟩

/-- Witness for claim C15: port 1 of a switch with two blocks; the modifier of
block 1 is 0x10001 in host order, its bits 16..23 are the port number 1 and its
low 16 bits the block 1. -/
theorem osm_pkey_get_tables_attr_mod_witness :
    pkey_attr_mod_ho Example.store_sw 1 1 1 = 0x10001
      ∧ cl_ntoh32 (cl_hton32 (pkey_attr_mod_ho Example.store_sw 1 1 1))
        = pkey_attr_mod_ho Example.store_sw 1 1 1
      ∧ pkey_attr_mod_ho Example.store_sw 1 1 1 / 65536 % 256 = 1
      ∧ pkey_attr_mod_ho Example.store_sw 1 1 1 % 65536 = 1 :=
  have h := (osm_pkey_get_tables_attr_mod Example.env_ok ⟨Example.store_sw, []⟩ 1 (1, 1)
    (by decide)).2.2.1 1 (by decide)
  ⟨by decide, h.1, (h.2.2.1 (by decide)).2, h.2.2.2⟩

/-! ## The manager part of endport processing, spelled out -/

theorem osm_pi_rcv_process_endport_min_frame (m : Machine) (p : Nat × Nat)
    (p_pi : ib_port_info_t) :
    (osm_pi_rcv_process_endport_min m p p_pi).store.subn.sm_guid_tbl = m.store.subn.sm_guid_tbl
      ∧ (osm_pi_rcv_process_endport_min m p p_pi).store.subn.sm_port_guid
        = m.store.subn.sm_port_guid
      ∧ (osm_pi_rcv_process_endport_min m p p_pi).store.subn.ignore_other_sm
        = m.store.subn.ignore_other_sm
      ∧ (osm_pi_rcv_process_endport_min m p p_pi).store.physp_table = m.store.physp_table
      ∧ (osm_pi_rcv_process_endport_min m p p_pi).trace.filter Event.isReq
        = m.trace.filter Event.isReq
      ∧ (osm_pi_rcv_process_endport_min m p p_pi).trace.countP Event.isReq
        = m.trace.countP Event.isReq := by
  simp only [osm_pi_rcv_process_endport_min, osm_pi_rcv_process_endport_rate,
    osm_pi_rcv_process_endport_mtu]
  split_ifs <;> simp [Event.isReq]

theorem osm_pi_rcv_process_endport_clean_trace (m : Machine) (g : Nat) :
    (osm_pi_rcv_process_endport_clean m g).trace = m.trace := by
  simp only [osm_pi_rcv_process_endport_clean]; split <;> rfl

theorem osm_pi_rcv_process_endport_clean_frame (m : Machine) (g : Nat) :
    (osm_pi_rcv_process_endport_clean m g).store.physp_table = m.store.physp_table
      ∧ (osm_pi_rcv_process_endport_clean m g).store.subn.ignore_other_sm
        = m.store.subn.ignore_other_sm
      ∧ (osm_pi_rcv_process_endport_clean m g).store.subn.sm_port_guid
        = m.store.subn.sm_port_guid := by
  simp only [osm_pi_rcv_process_endport_clean]; split <;> exact ⟨rfl, rfl, rfl⟩

theorem osm_pi_rcv_process_endport_clean_sm_guid_tbl (m : Machine) (g k : Nat) :
    (osm_pi_rcv_process_endport_clean m g).store.subn.sm_guid_tbl k
      = if k = g then
          Option.map (fun r : osm_remote_sm_t => { r with pri_state := 0xF0 &&& r.pri_state })
            (m.store.subn.sm_guid_tbl g)
        else m.store.subn.sm_guid_tbl k := by
  simp only [osm_pi_rcv_process_endport_clean]
  cases h : m.store.subn.sm_guid_tbl g with
  | none =>
    by_cases hk : k = g
    · simp [hk, h]
    · simp [hk]
  | some r =>
    by_cases hk : k = g
    · simp [hk]
    · simp [hk]

theorem osm_pi_rcv_process_endport_sm_own (env : Env) (m : Machine) (g : Nat) (p : Nat × Nat)
    (p_pi : ib_port_info_t) (h : g = m.store.subn.sm_port_guid) :
    (osm_pi_rcv_process_endport_sm env m g p p_pi).store = m.store
      ∧ (osm_pi_rcv_process_endport_sm env m g p p_pi).trace
        = m.trace ++ (if p_pi.capability_mask &&& IB_PORT_CAP_IS_SM = 0 then
            (if env.log_is_active osm_log_level_t.debug = true
              then [Event.log osm_log_level_t.debug 0] else [])
            ++ [Event.vendor_set_sm (osm_physp_get_dr_path_ptr m.store p).h_bind true]
          else []) := by
  simp only [osm_pi_rcv_process_endport_sm]
  rw [if_pos h]
  by_cases hb : p_pi.capability_mask &&& IB_PORT_CAP_IS_SM = 0
  · rw [if_pos hb, if_pos hb]
    simp only [osm_pi_rcv_set_sm, Machine.emit_store, Machine.logIfActive_store,
      Machine.emit_trace, Machine.logIfActive_trace, List.append_assoc, and_self]
  · rw [if_neg hb, if_neg hb]
    simp

theorem osm_pi_rcv_process_endport_query_trace (env : Env) (m : Machine) (g : Nat)
    (p : Nat × Nat) (p_pi : ib_port_info_t) :
    (osm_pi_rcv_process_endport_query env m g p p_pi).store = m.store
      ∧ (osm_pi_rcv_process_endport_query env m g p p_pi).trace
        = m.trace ++ (if p_pi.capability_mask &&& IB_PORT_CAP_IS_SM ≠ 0 then
            (if m.store.subn.ignore_other_sm = true then [Event.log osm_log_level_t.verbose 0]
            else
              (if env.log_is_active osm_log_level_t.verbose = true
                then [Event.log osm_log_level_t.verbose 0] else [])
              ++ Event.req_get (osm_physp_get_dr_path_ptr m.store p) AttrId.sm_info 0
                  (osm_madw_context_t.smi_context g false)
                  (env.req_status (m.trace.countP Event.isReq))
              :: (if env.req_status (m.trace.countP Event.isReq) = true then []
                  else [Event.log osm_log_level_t.error 0x0F05]))
          else []) := by
  simp only [osm_pi_rcv_process_endport_query]
  by_cases hb : p_pi.capability_mask &&& IB_PORT_CAP_IS_SM ≠ 0
  · rw [if_pos hb, if_pos hb]
    by_cases hi : m.store.subn.ignore_other_sm = true
    · rw [if_pos hi, if_pos hi]
      exact ⟨rfl, rfl⟩
    · rw [if_neg hi, if_neg hi]
      simp only [osm_req_get_fst, reqCount_logIfActive, Machine.logIfActive_store]
      by_cases hs : env.req_status (m.trace.countP Event.isReq) = true
      · rw [if_pos hs, if_pos hs]
        simp only [osm_req_get_store, osm_req_get_trace, Machine.logIfActive_store,
          reqCount_logIfActive]
        simp only [Machine.logIfActive_trace, List.append_assoc, List.singleton_append,
          List.append_nil, true_and]
      · rw [if_neg hs, if_neg hs]
        simp only [Machine.log_store, Machine.log_trace, osm_req_get_store, osm_req_get_trace,
          Machine.logIfActive_store, reqCount_logIfActive]
        simp only [Machine.logIfActive_trace, List.append_assoc, List.singleton_append,
          List.cons_append, List.nil_append, true_and]
  · rw [if_neg hb, if_neg hb]
    simp

/-! ## Claim C17: the record of a remote manager is cleaned -/

theorem and_0xF0 (x : Nat) : (0xF0 &&& x) % 16 = 0 ∧ (0xF0 &&& x) / 16 = x / 16 % 16 := by
  have h16 : ∀ y : Nat, y / 16 = y / 2 / 2 / 2 / 2 := by intro y; omega
  constructor
  · have h := Nat.and_pow_two_sub_one_eq_mod (0xF0 &&& x) 4
    have h2 : (0xF0 &&& x) &&& 15 = 0 := by
      rw [Nat.and_comm 0xF0 x, Nat.and_assoc]
      exact Nat.and_zero x
    exact h.symm.trans h2
  · rw [h16 (0xF0 &&& x), Nat.and_div_two, Nat.and_div_two, Nat.and_div_two, Nat.and_div_two,
      ← h16 x, Nat.and_comm]
    exact Nat.and_pow_two_sub_one_eq_mod (x / 16) 4

/-- Claim C17: when endport processing runs for a port whose GUID differs from the
manager's own port GUID, the remote-manager table afterwards is the old one with
the record of that GUID, if there is one, replaced by the record whose
`pri_state` is `0xF0 AND` the old one: its low four bits (the state) are 0 and
its high four bits (the priority) those of the old record. This holds for every
payload (IS_SM bit set or not) and every policy; when no record exists none is
created, and the records of other GUIDs are unchanged. -/
theorem osm_pi_rcv_process_endport_cleans_remote_sm (env : Env) (m : Machine)
    (p : Nat × Nat) (p_pi : ib_port_info_t)
    (hg : osm_physp_get_port_guid m.store p ≠ m.store.subn.sm_port_guid) :
    (∀ k, (osm_pi_rcv_process_endport env m p p_pi).store.subn.sm_guid_tbl k
        = if k = osm_physp_get_port_guid m.store p then
            Option.map
              (fun r : osm_remote_sm_t => { r with pri_state := 0xF0 &&& r.pri_state })
              (m.store.subn.sm_guid_tbl (osm_physp_get_port_guid m.store p))
          else m.store.subn.sm_guid_tbl k)
      ∧ (∀ r, m.store.subn.sm_guid_tbl (osm_physp_get_port_guid m.store p) = some r →
          ∃ r', (osm_pi_rcv_process_endport env m p p_pi).store.subn.sm_guid_tbl
              (osm_physp_get_port_guid m.store p) = some r'
            ∧ r'.pri_state % 16 = 0
            ∧ r'.pri_state / 16 = r.pri_state / 16 % 16)
      ∧ (m.store.subn.sm_guid_tbl (osm_physp_get_port_guid m.store p) = none →
          (osm_pi_rcv_process_endport env m p p_pi).store.subn.sm_guid_tbl
            (osm_physp_get_port_guid m.store p) = none)
      ∧ (∀ k, k ≠ osm_physp_get_port_guid m.store p →
          (osm_pi_rcv_process_endport env m p p_pi).store.subn.sm_guid_tbl k
            = m.store.subn.sm_guid_tbl k) := by
  obtain ⟨f1, f2, -, -, -, -⟩ := osm_pi_rcv_process_endport_min_frame m p p_pi
  have key : ∀ k, (osm_pi_rcv_process_endport env m p p_pi).store.subn.sm_guid_tbl k
        = if k = osm_physp_get_port_guid m.store p then
            Option.map
              (fun r : osm_remote_sm_t => { r with pri_state := 0xF0 &&& r.pri_state })
              (m.store.subn.sm_guid_tbl (osm_physp_get_port_guid m.store p))
          else m.store.subn.sm_guid_tbl k := by
    intro k
    simp only [osm_pi_rcv_process_endport, osm_pi_rcv_process_endport_sm]
    rw [if_neg (by rw [f2]; exact hg),
      (osm_pi_rcv_process_endport_query_trace env _ _ p p_pi).1,
      osm_pi_rcv_process_endport_clean_sm_guid_tbl, f1]
  refine ⟨key, ?_, ?_, ?_⟩
  · intro r hr
    refine ⟨{ r with pri_state := 0xF0 &&& r.pri_state }, ?_, (and_0xF0 _).1, (and_0xF0 _).2⟩
    rw [key, if_pos rfl, hr]
    rfl
  · intro hn
    rw [key, if_pos rfl, hn]
    rfl
  · intro k hk
    rw [key, if_neg hk]

/-- Witness for claim C17: the port 0x31 has a remote-manager record with
priority 5 and state 0xA; after endport processing, with the IS_SM bit set or
clear, the record holds 0x50, and no record appears for the port 0x21. -/
theorem osm_pi_rcv_process_endport_cleans_remote_sm_witness :
    (osm_pi_rcv_process_endport Example.env_ok ⟨Example.store_managers, []⟩ (3, 1)
        Example.pi_is_sm).store.subn.sm_guid_tbl 0x31 = some ⟨0x50⟩
      ∧ (osm_pi_rcv_process_endport Example.env_ok ⟨Example.store_managers, []⟩ (3, 1)
        Example.pi_no_sm).store.subn.sm_guid_tbl 0x31 = some ⟨0x50⟩
      ∧ (osm_pi_rcv_process_endport Example.env_ok ⟨Example.store_managers, []⟩ (1, 3)
        Example.pi_is_sm).store.subn.sm_guid_tbl 0x21 = none :=
  ⟨((osm_pi_rcv_process_endport_cleans_remote_sm Example.env_ok ⟨Example.store_managers, []⟩
      (3, 1) Example.pi_is_sm (by decide)).1 0x31).trans (by decide),
    ((osm_pi_rcv_process_endport_cleans_remote_sm Example.env_ok ⟨Example.store_managers, []⟩
      (3, 1) Example.pi_no_sm (by decide)).1 0x31).trans (by decide),
    (osm_pi_rcv_process_endport_cleans_remote_sm Example.env_ok ⟨Example.store_managers, []⟩
      (1, 3) Example.pi_is_sm (by decide)).2.2.1 (by decide)⟩

/-! ## Claim C18: the manager's own port -/

/-- Claim C18: when endport processing runs for a port whose GUID is the manager's
own port GUID, the trace grows by the entries of the tracking of the minima and
then, exactly when the IS_SM bit of the payload's capability mask is clear, by
the call `osm_vendor_set_sm (h_bind, TRUE)` on the binding of the port's path
(after a debug entry if that level is active); with the bit set nothing more is
appended. In either case no request is issued and the remote-manager table is
unchanged. -/
theorem osm_pi_rcv_process_endport_own_port (env : Env) (m : Machine) (p : Nat × Nat)
    (p_pi : ib_port_info_t)
    (hg : osm_physp_get_port_guid m.store p = m.store.subn.sm_port_guid) :
    (osm_pi_rcv_process_endport env m p p_pi).trace
        = (osm_pi_rcv_process_endport_min m p p_pi).trace
          ++ (if p_pi.capability_mask &&& IB_PORT_CAP_IS_SM = 0 then
              (if env.log_is_active osm_log_level_t.debug = true
                then [Event.log osm_log_level_t.debug 0] else [])
              ++ [Event.vendor_set_sm (osm_physp_get_dr_path_ptr m.store p).h_bind true]
            else [])
      ∧ (∀ h b, Event.vendor_set_sm h b ∉ (osm_pi_rcv_process_endport_min m p p_pi).trace →
          (Event.vendor_set_sm h b ∈ (osm_pi_rcv_process_endport env m p p_pi).trace
            ↔ (p_pi.capability_mask &&& IB_PORT_CAP_IS_SM = 0
              ∧ h = (osm_physp_get_dr_path_ptr m.store p).h_bind ∧ b = true)))
      ∧ (osm_pi_rcv_process_endport env m p p_pi).trace.filter Event.isReq
        = m.trace.filter Event.isReq
      ∧ (osm_pi_rcv_process_endport env m p p_pi).store.subn.sm_guid_tbl
        = m.store.subn.sm_guid_tbl := by
  obtain ⟨f1, f2, -, f4, f5, -⟩ := osm_pi_rcv_process_endport_min_frame m p p_pi
  obtain ⟨h1, h2⟩ := osm_pi_rcv_process_endport_sm_own env
    (osm_pi_rcv_process_endport_min m p p_pi) (osm_physp_get_port_guid m.store p) p p_pi
    (by rw [f2]; exact hg)
  have hd : osm_physp_get_dr_path_ptr (osm_pi_rcv_process_endport_min m p p_pi).store p
      = osm_physp_get_dr_path_ptr m.store p := by
    simp only [osm_physp_get_dr_path_ptr, Store.physp, f4]
  have ht : (osm_pi_rcv_process_endport env m p p_pi).trace
        = (osm_pi_rcv_process_endport_min m p p_pi).trace
          ++ (if p_pi.capability_mask &&& IB_PORT_CAP_IS_SM = 0 then
              (if env.log_is_active osm_log_level_t.debug = true
                then [Event.log osm_log_level_t.debug 0] else [])
              ++ [Event.vendor_set_sm (osm_physp_get_dr_path_ptr m.store p).h_bind true]
            else []) := by
    rw [← hd]; exact h2
  refine ⟨ht, ?_, ?_, ?_⟩
  · intro h b hnot
    rw [ht, List.mem_append]
    constructor
    · rintro (hin | hin)
      · exact absurd hin hnot
      · by_cases hb : p_pi.capability_mask &&& IB_PORT_CAP_IS_SM = 0
        · rw [if_pos hb] at hin
          refine ⟨hb, ?_⟩
          split_ifs at hin <;> simp at hin <;> exact hin
        · rw [if_neg hb] at hin
          simp at hin
    · rintro ⟨hb, rfl, rfl⟩
      right
      rw [if_pos hb]
      simp
  · rw [ht, List.filter_append, f5]
    split_ifs <;> simp [Event.isReq]
  · show (osm_pi_rcv_process_endport_sm env (osm_pi_rcv_process_endport_min m p p_pi)
      (osm_physp_get_port_guid m.store p) p p_pi).store.subn.sm_guid_tbl = _
    rw [h1, f1]

/-- Witness for claim C18: the manager's own port 0x10 on binding 7; with an empty
capability mask the transport is told to set the IS_SM bit, with the bit already
set nothing is done. -/
theorem osm_pi_rcv_process_endport_own_port_witness :
    (osm_pi_rcv_process_endport Example.env_ok ⟨Example.store_managers, []⟩ (5, 1)
        Example.pi_no_sm).trace
      = [Event.log osm_log_level_t.verbose 0, Event.log osm_log_level_t.verbose 0,
          Event.log osm_log_level_t.debug 0, Event.vendor_set_sm 7 true]
      ∧ (osm_pi_rcv_process_endport Example.env_ok ⟨Example.store_managers, []⟩ (5, 1)
        Example.pi_is_sm).trace
      = [Event.log osm_log_level_t.verbose 0, Event.log osm_log_level_t.verbose 0] :=
  ⟨(osm_pi_rcv_process_endport_own_port Example.env_ok ⟨Example.store_managers, []⟩ (5, 1)
      Example.pi_no_sm (by decide)).1.trans (by decide),
    (osm_pi_rcv_process_endport_own_port Example.env_ok ⟨Example.store_managers, []⟩ (5, 1)
      Example.pi_is_sm (by decide)).1.trans (by decide)⟩

/-! ## Claim C19: the SMInfo query -/

theorem countP_isReqFor_filter (a : AttrId) (l : List Event) :
    (l.filter Event.isReq).countP (Event.isReqFor a) = l.countP (Event.isReqFor a) := by
  induction l with
  | nil => rfl
  | cons e l ih =>
    cases e <;> simp [List.filter_cons, List.countP_cons, Event.isReq, Event.isReqFor, ih]

/-- Claim C19: the requests in the trace after endport processing are those before
it followed by one SMInfo Get request if the port's GUID differs from the
manager's own port GUID, the payload's capability mask has the IS_SM bit and the
policy `ignore_other_sm` is off, and by nothing otherwise (in particular with the
policy on). The request goes along the directed-route path stored on the port,
with attribute modifier 0 and a context made of this port's GUID and
`set_method = FALSE`. -/
theorem osm_pi_rcv_process_endport_sm_info_query (env : Env) (m : Machine) (p : Nat × Nat)
    (p_pi : ib_port_info_t) :
    (osm_pi_rcv_process_endport env m p p_pi).trace.filter Event.isReq
        = m.trace.filter Event.isReq
          ++ (if osm_physp_get_port_guid m.store p ≠ m.store.subn.sm_port_guid
                ∧ p_pi.capability_mask &&& IB_PORT_CAP_IS_SM ≠ 0
                ∧ m.store.subn.ignore_other_sm = false
              then [Event.req_get (osm_physp_get_dr_path_ptr m.store p) AttrId.sm_info 0
                (osm_madw_context_t.smi_context (osm_physp_get_port_guid m.store p) false)
                (env.req_status (m.trace.countP Event.isReq))]
              else [])
      ∧ ((osm_pi_rcv_process_endport env m p p_pi).trace.countP
            (Event.isReqFor AttrId.sm_info)
          = m.trace.countP (Event.isReqFor AttrId.sm_info) + 1
        ↔ (osm_physp_get_port_guid m.store p ≠ m.store.subn.sm_port_guid
            ∧ p_pi.capability_mask &&& IB_PORT_CAP_IS_SM ≠ 0
            ∧ m.store.subn.ignore_other_sm = false))
      ∧ (m.store.subn.ignore_other_sm = true →
          (osm_pi_rcv_process_endport env m p p_pi).trace.filter Event.isReq
            = m.trace.filter Event.isReq) := by
  obtain ⟨-, f2, f3, f4, f5, f6⟩ := osm_pi_rcv_process_endport_min_frame m p p_pi
  have hd : ∀ q : Machine, q.store.physp_table = m.store.physp_table →
      osm_physp_get_dr_path_ptr q.store p = osm_physp_get_dr_path_ptr m.store p := by
    intro q hq
    simp only [osm_physp_get_dr_path_ptr, Store.physp, hq]
  have ht : ∃ l : List Event, (osm_pi_rcv_process_endport env m p p_pi).trace = m.trace ++ l
      ∧ l.filter Event.isReq
        = (if osm_physp_get_port_guid m.store p ≠ m.store.subn.sm_port_guid
                ∧ p_pi.capability_mask &&& IB_PORT_CAP_IS_SM ≠ 0
                ∧ m.store.subn.ignore_other_sm = false
              then [Event.req_get (osm_physp_get_dr_path_ptr m.store p) AttrId.sm_info 0
                (osm_madw_context_t.smi_context (osm_physp_get_port_guid m.store p) false)
                (env.req_status (m.trace.countP Event.isReq))]
              else []) := by
    have hm := osm_pi_rcv_process_endport_min_trace m p p_pi
    rw [List.append_assoc] at hm
    generalize hL : (if osm_physp_get_port_num p ≠ 0 ∧ p_pi.mtu_cap < m.store.subn.min_ca_mtu
            then [Event.log osm_log_level_t.verbose 0] else [])
        ++ (if osm_physp_get_port_num p ≠ 0 ∧ p_pi.rate < m.store.subn.min_ca_rate
            then [Event.log osm_log_level_t.verbose 0] else []) = L1 at hm
    have hL1 : L1.filter Event.isReq = [] := by
      rw [← hL]
      split_ifs <;> simp [Event.isReq]
    by_cases hg : osm_physp_get_port_guid m.store p = m.store.subn.sm_port_guid
    · obtain ⟨-, h2⟩ := osm_pi_rcv_process_endport_sm_own env
        (osm_pi_rcv_process_endport_min m p p_pi) (osm_physp_get_port_guid m.store p) p p_pi
        (by rw [f2]; exact hg)
      rw [hm, List.append_assoc] at h2
      refine ⟨_, h2, ?_⟩
      have hneg : ¬ (osm_physp_get_port_guid m.store p ≠ m.store.subn.sm_port_guid
          ∧ p_pi.capability_mask &&& IB_PORT_CAP_IS_SM ≠ 0
          ∧ m.store.subn.ignore_other_sm = false) := fun h => h.1 hg
      rw [List.filter_append, hL1, if_neg hneg]
      split_ifs <;> simp [Event.isReq]
    · obtain ⟨c1, c2, -⟩ := osm_pi_rcv_process_endport_clean_frame
        (osm_pi_rcv_process_endport_min m p p_pi) (osm_physp_get_port_guid m.store p)
      have c3 := osm_pi_rcv_process_endport_clean_trace
        (osm_pi_rcv_process_endport_min m p p_pi) (osm_physp_get_port_guid m.store p)
      obtain ⟨-, h2⟩ := osm_pi_rcv_process_endport_query_trace env
        (osm_pi_rcv_process_endport_clean (osm_pi_rcv_process_endport_min m p p_pi)
          (osm_physp_get_port_guid m.store p)) (osm_physp_get_port_guid m.store p) p p_pi
      rw [c2, f3, c3, f6, hd _ (c1.trans f4), hm, List.append_assoc] at h2
      have hE : osm_pi_rcv_process_endport_query env
          (osm_pi_rcv_process_endport_clean (osm_pi_rcv_process_endport_min m p p_pi)
            (osm_physp_get_port_guid m.store p)) (osm_physp_get_port_guid m.store p) p p_pi
          = osm_pi_rcv_process_endport env m p p_pi := by
        simp only [osm_pi_rcv_process_endport, osm_pi_rcv_process_endport_sm]
        rw [if_neg (by rw [f2]; exact hg)]
      rw [hE] at h2
      refine ⟨_, h2, ?_⟩
      · rw [List.filter_append, hL1, List.nil_append]
        by_cases hb : p_pi.capability_mask &&& IB_PORT_CAP_IS_SM ≠ 0
        · rw [if_pos hb]
          by_cases hi : m.store.subn.ignore_other_sm = true
          · have hneg : ¬ (osm_physp_get_port_guid m.store p ≠ m.store.subn.sm_port_guid
          ∧ p_pi.capability_mask &&& IB_PORT_CAP_IS_SM ≠ 0
          ∧ m.store.subn.ignore_other_sm = false) :=
              fun h => by rw [hi] at h; exact Bool.noConfusion h.2.2
            rw [if_pos hi, if_neg hneg]
            rfl
          · have hall : (osm_physp_get_port_guid m.store p ≠ m.store.subn.sm_port_guid
          ∧ p_pi.capability_mask &&& IB_PORT_CAP_IS_SM ≠ 0
          ∧ m.store.subn.ignore_other_sm = false) :=
              ⟨hg, hb, by simpa using hi⟩
            rw [if_neg hi, if_pos hall]
            split_ifs <;> simp [Event.isReq]
        · have hneg : ¬ (osm_physp_get_port_guid m.store p ≠ m.store.subn.sm_port_guid
          ∧ p_pi.capability_mask &&& IB_PORT_CAP_IS_SM ≠ 0
          ∧ m.store.subn.ignore_other_sm = false) := fun h => hb h.2.1
          rw [if_neg hb, if_neg hneg]
          rfl
  obtain ⟨l, ht1, ht2⟩ := ht
  have hfil : (osm_pi_rcv_process_endport env m p p_pi).trace.filter Event.isReq
        = m.trace.filter Event.isReq
          ++ (if osm_physp_get_port_guid m.store p ≠ m.store.subn.sm_port_guid
                ∧ p_pi.capability_mask &&& IB_PORT_CAP_IS_SM ≠ 0
                ∧ m.store.subn.ignore_other_sm = false
              then [Event.req_get (osm_physp_get_dr_path_ptr m.store p) AttrId.sm_info 0
                (osm_madw_context_t.smi_context (osm_physp_get_port_guid m.store p) false)
                (env.req_status (m.trace.countP Event.isReq))]
              else []) := by
    rw [ht1, List.filter_append, ht2]
  refine ⟨hfil, ?_, ?_⟩
  · rw [ht1, List.countP_append, ← countP_isReqFor_filter AttrId.sm_info l, ht2]
    by_cases hc : osm_physp_get_port_guid m.store p ≠ m.store.subn.sm_port_guid
                ∧ p_pi.capability_mask &&& IB_PORT_CAP_IS_SM ≠ 0
                ∧ m.store.subn.ignore_other_sm = false
    · rw [if_pos hc]
      exact ⟨fun _ => hc, fun _ => rfl⟩
    · rw [if_neg hc]
      constructor
      · intro h
        simp at h
      · intro h
        exact absurd h hc
  · intro hi
    have hneg : ¬ (osm_physp_get_port_guid m.store p ≠ m.store.subn.sm_port_guid
          ∧ p_pi.capability_mask &&& IB_PORT_CAP_IS_SM ≠ 0
          ∧ m.store.subn.ignore_other_sm = false) :=
      fun h => by rw [hi] at h; exact Bool.noConfusion h.2.2
    rw [hfil, if_neg hneg, List.append_nil]

/-- Witness for claim C19: the remote port 0x31 advertises a manager and the
policy is off: one SMInfo request along the path of the port, with the port's
GUID in the context; the manager's own port 0x10 is never queried. -/
theorem osm_pi_rcv_process_endport_sm_info_query_witness :
    (osm_pi_rcv_process_endport Example.env_ok ⟨Example.store_managers, []⟩ (3, 1)
        Example.pi_is_sm).trace.filter Event.isReq
      = [Event.req_get ⟨7, 1, [0, 1]⟩ AttrId.sm_info 0
          (osm_madw_context_t.smi_context 0x31 false) true]
      ∧ (osm_pi_rcv_process_endport Example.env_ok ⟨Example.store_managers, []⟩ (5, 1)
        Example.pi_is_sm).trace.filter Event.isReq = [] :=
  ⟨(osm_pi_rcv_process_endport_sm_info_query Example.env_ok ⟨Example.store_managers, []⟩
      (3, 1) Example.pi_is_sm).1.trans (by decide),
    (osm_pi_rcv_process_endport_sm_info_query Example.env_ok ⟨Example.store_managers, []⟩
      (5, 1) Example.pi_is_sm).1.trans (by decide)⟩

/-! ## Claim C16: the base LID on a base switch port 0 -/

/-- Claim C16 fails on a base switch port 0: after `osm_pi_rcv_process` handles a
discovery read for port 0 of a switch that has a switch record without the
enhanced-port-0 flag, the base LID of the stored snapshot is the base LID of the
response, whatever it is: the assignment `p_physp->port_info = *p_pi` of line 358
follows the correction of lines 348-352 and overwrites its result. -/
theorem osm_pi_rcv_process_base_port0_keeps_lid (env : Env) (s : Store) (w : osm_madw_t)
    (p_port : osm_port_t) (sw : osm_switch_t)
    (hl : w.context.light_sweep = false) (hset : w.context.set_method = false)
    (hp : s.subn.port_guid_tbl w.context.port_guid = some p_port)
    (ht : osm_node_get_type s p_port.p_node = IB_NODE_TYPE_SWITCH)
    (hsw : (s.node p_port.p_node).sw = some sw)
    (hb : sw.switch_info.enhanced_port0 = false)
    (h0 : osm_madw_port_num w = 0) :
    ((osm_pi_rcv_process env s w).store.physp (p_port.p_node, 0)).port_info.base_lid
      = w.pi.base_lid := by
  have h := osm_pi_rcv_process_port_info env s w p_port hl hp (Or.inr (Or.inr (Or.inr ht)))
  rw [h0] at h
  rw [h]
  simp only [snapshot_expected, hset, Bool.false_eq_true, if_false, snapshot_of_get, ht, h0]
  rw [if_neg (by decide), if_neg (by decide)]
  simp only [hsw, Option.map_some', hb]
  exact (osm_pi_rcv_clear_client_rereg_fields w.pi).2.2.2.2.1

/-- Witness for claim C16, the failing input: a discovery read for port 0 of the
Port 0x22, a switch with a base port 0, that reports the base LID 0xFFFF, which is
above the last unicast LID 0xBFFF. The receiver logs `ERR 0F04` ("Invalid base
LID corrected") and the stored snapshot still holds the base LID 0xFFFF. -/
theorem osm_pi_rcv_process_base_port0_keeps_lid_witness :
    cl_ntoh16 0xFFFF > IB_LID_UCAST_END_HO
      ∧ ((osm_pi_rcv_process Example.env_ok Example.store_fabric
          (Example.madw_get 0x22 0 IB_LINK_ACTIVE 0 0xFFFF)).store.physp
            (2, 0)).port_info.base_lid = 0xFFFF
      ∧ Event.log osm_log_level_t.error 0x0F04
          ∈ (osm_pi_rcv_process Example.env_ok Example.store_fabric
            (Example.madw_get 0x22 0 IB_LINK_ACTIVE 0 0xFFFF)).trace :=
  ⟨by decide,
    osm_pi_rcv_process_base_port0_keeps_lid Example.env_ok Example.store_fabric
      (Example.madw_get 0x22 0 IB_LINK_ACTIVE 0 0xFFFF) ⟨2, 0, [0]⟩ ⟨⟨0, false⟩⟩
      rfl rfl rfl rfl rfl rfl rfl,
    by decide⟩

/-! ## Claim C20: the tables are fetched once, after the switch on the node type -/

theorem pkCount_logIfActive (m : Machine) (env : Env) (l : osm_log_level_t) :
    (m.logIfActive env l).trace.countP (Event.isReqFor AttrId.p_key_table)
      = m.trace.countP (Event.isReqFor AttrId.p_key_table) := by
  rw [Machine.logIfActive_trace]; split_ifs <;> simp [Event.isReqFor]

theorem osm_pi_rcv_process_endport_pkCount (env : Env) (m : Machine) (p : Nat × Nat)
    (p_pi : ib_port_info_t) :
    (osm_pi_rcv_process_endport env m p p_pi).trace.countP (Event.isReqFor AttrId.p_key_table)
      = m.trace.countP (Event.isReqFor AttrId.p_key_table) := by
  have h1 : (osm_pi_rcv_process_endport_min m p p_pi).trace.countP
      (Event.isReqFor AttrId.p_key_table)
      = m.trace.countP (Event.isReqFor AttrId.p_key_table) := by
    rw [osm_pi_rcv_process_endport_min_trace]
    split_ifs <;> simp [Event.isReqFor]
  have h2 : ∀ (q : Machine) (g : Nat),
      (osm_pi_rcv_process_endport_sm env q g p p_pi).trace.countP
        (Event.isReqFor AttrId.p_key_table)
      = q.trace.countP (Event.isReqFor AttrId.p_key_table) := by
    intro q g
    simp only [osm_pi_rcv_process_endport_sm]
    by_cases hg : g = q.store.subn.sm_port_guid
    · rw [if_pos hg]
      split_ifs
      · simp [osm_pi_rcv_set_sm, pkCount_logIfActive, Event.isReqFor]
      · rfl
    · rw [if_neg hg, (osm_pi_rcv_process_endport_query_trace env _ g p p_pi).2,
        osm_pi_rcv_process_endport_clean_trace]
      split_ifs <;> simp [Event.isReqFor]
  simp only [osm_pi_rcv_process_endport, h2, h1]

theorem osm_pi_rcv_trim_base_lid_pkCount (m : Machine) (p : Nat × Nat) (code : Nat) :
    (osm_pi_rcv_trim_base_lid m p code).trace.countP (Event.isReqFor AttrId.p_key_table)
      = m.trace.countP (Event.isReqFor AttrId.p_key_table) := by
  rw [osm_pi_rcv_trim_base_lid_trace]; split_ifs <;> simp [Event.isReqFor]

theorem osm_pi_rcv_process_switch_port_probe_pkCount (env : Env) (m : Machine) (n : Nat)
    (p : Nat × Nat) (p_pi : ib_port_info_t) :
    (osm_pi_rcv_process_switch_port_probe env m n p p_pi).trace.countP
        (Event.isReqFor AttrId.p_key_table)
      = m.trace.countP (Event.isReqFor AttrId.p_key_table) := by
  have hd : (osm_pi_rcv_process_switch_port_down m n p).trace.countP
      (Event.isReqFor AttrId.p_key_table)
      = m.trace.countP (Event.isReqFor AttrId.p_key_table) := by
    simp only [osm_pi_rcv_process_switch_port_down]
    split
    · split_ifs <;> simp [Event.isReqFor]
    · rfl
  have hv : (osm_pi_rcv_process_switch_port_live env m n p p_pi).trace.countP
      (Event.isReqFor AttrId.p_key_table)
      = m.trace.countP (Event.isReqFor AttrId.p_key_table) := by
    simp only [osm_pi_rcv_process_switch_port_live]
    split_ifs <;> simp [pkCount_logIfActive, Event.isReqFor]
  simp only [osm_pi_rcv_process_switch_port_probe, osm_pi_rcv_process_switch_port_state]
  split_ifs <;> simp [hd, hv, Event.isReqFor]

theorem osm_pi_rcv_process_get_dispatch_pkCount (env : Env) (m : Machine) (n : Nat)
    (p : Nat × Nat) (p_pi : ib_port_info_t) :
    (osm_pi_rcv_process_get_dispatch env m n p p_pi).trace.countP
        (Event.isReqFor AttrId.p_key_table)
      = m.trace.countP (Event.isReqFor AttrId.p_key_table) := by
  simp only [osm_pi_rcv_process_get_dispatch]
  split_ifs
  · simp only [osm_pi_rcv_process_ca_or_router_port, osm_pi_rcv_process_endport_pkCount,
      osm_pi_rcv_trim_base_lid_pkCount, Machine.setStore_trace]
  · simp only [osm_pi_rcv_process_switch_port, osm_pi_rcv_process_switch_port_0]
    split_ifs
    · simp only [osm_pi_rcv_process_endport_pkCount, osm_pi_rcv_process_switch_port_bsp0_trace,
        osm_pi_rcv_trim_base_lid_pkCount, Machine.setStore_trace,
        osm_pi_rcv_process_switch_port_probe_pkCount]
    · simp only [Machine.setStore_trace, osm_pi_rcv_process_switch_port_probe_pkCount]
  · simp [Event.isReqFor]

theorem osm_pi_rcv_process_at_dispatch_pkCount (env : Env) (s : Store) (w : osm_madw_t)
    (p_port : osm_port_t) :
    (osm_pi_rcv_process_at_dispatch env s w p_port).trace.countP
        (Event.isReqFor AttrId.p_key_table) = 0 := by
  have he : (osm_pi_rcv_process_entry s w).trace.countP (Event.isReqFor AttrId.p_key_table)
      = 0 := by
    simp only [osm_pi_rcv_process_entry]; split_ifs <;> simp [Machine.emit, Machine.log, Event.isReqFor]
  rw [← he]
  simp only [osm_pi_rcv_process_at_dispatch, osm_pi_rcv_process_get_before_dispatch,
    osm_pi_rcv_process_get_master, osm_pi_rcv_process_get_physp]
  split_ifs <;> simp [pkCount_logIfActive, Event.isReqFor]

/-- Claim C20: for a discovery read (not a light-sweep one) whose port GUID names a
known Port, whatever the node type and the link state, `osm_pi_rcv_process` ends
with one call of `osm_pkey_get_tables` for the node and the PhysicalPort of the
response, followed by the release of the lock: store and trace are those of that
call, made in the state the switch on the node type leaves, and no PKeyTable
request precedes it. For a node type that is not channel adapter, router or
switch the switch on the node type only logs `ERR 0F07`, and the attribute
snapshot of the PhysicalPort is left as it was before the switch (for a
PhysicalPort that was already valid: as it was before the call). -/
theorem osm_pi_rcv_process_fetches_tables_once (env : Env) (s : Store) (w : osm_madw_t)
    (p_port : osm_port_t)
    (hl : w.context.light_sweep = false) (hset : w.context.set_method = false)
    (hp : s.subn.port_guid_tbl w.context.port_guid = some p_port) :
    (osm_pi_rcv_process env s w).store
        = (osm_pkey_get_tables env (osm_pi_rcv_process_at_tables env s w p_port) p_port.p_node
            (p_port.p_node, osm_madw_port_num w)).store
      ∧ (osm_pi_rcv_process env s w).trace
        = (osm_pkey_get_tables env (osm_pi_rcv_process_at_tables env s w p_port) p_port.p_node
            (p_port.p_node, osm_madw_port_num w)).trace ++ [Event.plock_release]
      ∧ (osm_pi_rcv_process_at_tables env s w p_port).trace.countP
          (Event.isReqFor AttrId.p_key_table) = 0
      ∧ (¬ node_type_known (osm_node_get_type s p_port.p_node) →
          osm_pi_rcv_process_at_tables env s w p_port
              = (osm_pi_rcv_process_at_dispatch env s w p_port).log osm_log_level_t.error 0x0F07
            ∧ ((osm_pi_rcv_process env s w).store.physp
                (p_port.p_node, osm_madw_port_num w)).port_info
              = ((osm_pi_rcv_process_at_dispatch env s w p_port).store.physp
                (p_port.p_node, osm_madw_port_num w)).port_info
            ∧ (osm_physp_is_valid s (p_port.p_node, osm_madw_port_num w) = true →
                ((osm_pi_rcv_process env s w).store.physp
                  (p_port.p_node, osm_madw_port_num w)).port_info
                = (s.physp (p_port.p_node, osm_madw_port_num w)).port_info)) := by
  obtain ⟨h1, h2⟩ := osm_pi_rcv_process_of_get env s w p_port hl hset hp
  rw [osm_pi_rcv_process_get_eq] at h1 h2
  refine ⟨h1, h2, ?_, ?_⟩
  · rw [osm_pi_rcv_process_at_tables, osm_pi_rcv_process_get_dispatch_pkCount,
      osm_pi_rcv_process_at_dispatch_pkCount]
  · intro hk
    have hn : (osm_pi_rcv_process_at_dispatch env s w p_port).store.node = s.node := by
      rw [osm_pi_rcv_process_at_dispatch,
        (osm_pi_rcv_process_get_before_dispatch_frame env _ _ _ _ _).1,
        osm_pi_rcv_process_entry_store]
    have hd : osm_pi_rcv_process_at_tables env s w p_port
        = (osm_pi_rcv_process_at_dispatch env s w p_port).log osm_log_level_t.error 0x0F07 := by
      simp only [osm_pi_rcv_process_at_tables, osm_pi_rcv_process_get_dispatch,
        osm_node_get_type, hn]
      have h3 : ¬ ((s.node p_port.p_node).node_info.node_type = IB_NODE_TYPE_CA
          ∨ (s.node p_port.p_node).node_info.node_type = IB_NODE_TYPE_ROUTER) :=
        fun h => hk (h.elim Or.inl (fun h => Or.inr (Or.inl h)))
      have h4 : ¬ (s.node p_port.p_node).node_info.node_type = IB_NODE_TYPE_SWITCH :=
        fun h => hk (Or.inr (Or.inr h))
      rw [if_neg h3, if_neg h4]
    have hpi : ((osm_pi_rcv_process env s w).store.physp
          (p_port.p_node, osm_madw_port_num w)).port_info
        = ((osm_pi_rcv_process_at_dispatch env s w p_port).store.physp
          (p_port.p_node, osm_madw_port_num w)).port_info := by
      have h1' := h1
      rw [← osm_pi_rcv_process_at_dispatch, ← osm_pi_rcv_process_at_tables] at h1'
      rw [h1', osm_pkey_get_tables_physp, hd]
      rfl
    refine ⟨hd, hpi, ?_⟩
    intro hv
    rw [hpi]
    simp only [osm_pi_rcv_process_at_dispatch, osm_pi_rcv_process_get_before_dispatch,
      Store.physp, osm_pi_rcv_process_get_master_physp_table]
    have hv' : osm_physp_is_valid
        ((Machine.setStore (osm_pi_rcv_process_entry s w)
          (osm_port_discovery_count_inc (osm_pi_rcv_process_entry s w).store
            w.context.port_guid)).logIfActive env osm_log_level_t.verbose).store
        (p_port.p_node, osm_madw_port_num w) = true := by
      simpa [osm_physp_is_valid, Store.physp, osm_port_discovery_count_inc] using hv
    simp only [osm_pi_rcv_process_get_physp]
    rw [if_neg (by rw [hv']; decide)]
    simp [Store.physp, Store.setPhysp, osm_port_discovery_count_inc]

/-- Witness for claim C20: a discovery read for port 1 of the channel adapter
0x31, partition capability 64: the two PKeyTable requests of the one fan-out; and
a discovery read for a port of the Port 0x41, whose node type is unknown: the
error `ERR 0F07` is logged. -/
theorem osm_pi_rcv_process_fetches_tables_once_witness :
    (osm_pi_rcv_process Example.env_ok Example.store_fabric
        (Example.madw_get 0x31 1 IB_LINK_ACTIVE 2 0x0100)).trace.countP
          (Event.isReqFor AttrId.p_key_table) = 2
      ∧ osm_pi_rcv_process_at_tables Example.env_ok Example.store_fabric Example.madw_unknown
          ⟨4, 0, []⟩
        = (osm_pi_rcv_process_at_dispatch Example.env_ok Example.store_fabric
            Example.madw_unknown ⟨4, 0, []⟩).log osm_log_level_t.error 0x0F07 :=
  ⟨(congrArg (List.countP (Event.isReqFor AttrId.p_key_table))
      (osm_pi_rcv_process_fetches_tables_once Example.env_ok Example.store_fabric
        (Example.madw_get 0x31 1 IB_LINK_ACTIVE 2 0x0100) ⟨3, 0, []⟩ rfl rfl rfl).2.1).trans
      (by decide),
    ((osm_pi_rcv_process_fetches_tables_once Example.env_ok Example.store_fabric
      Example.madw_unknown ⟨4, 0, []⟩ rfl rfl rfl).2.2.2
      (by unfold node_type_known; decide)).1⟩

/-! ## Claim C21: what selects the Port and the PhysicalPort -/

theorem osm_pi_rcv_process_set_other (env : Env) (m : Machine) (p_port : osm_port_t)
    (pn : Nat) (w : osm_madw_t) (q : Nat × Nat) (hq : q ≠ (p_port.p_node, pn)) :
    (osm_pi_rcv_process_set env m p_port pn w).store.physp q = m.store.physp q := by
  have hq' : ¬ (q.1 = p_port.p_node ∧ q.2 = pn) := fun h => hq (Prod.ext h.1 h.2)
  simp [osm_pi_rcv_process_set, osm_physp_set_port_info, osm_pi_rcv_process_set_status_store,
    osm_node_get_physp_ptr, Store.physp, Store.setPhysp, hq']

/-- Claim C21, as amended: the branch `osm_pi_rcv_process` takes and the Port it
works on depend on the context alone (the flags and the port GUID), but the
PhysicalPort is the slot of the Port's node at the port number read from the
attribute modifier of the response. For two responses handled from the same
store with the same context and the same port number in the attribute modifier,
whatever the rest of the responses and the environments, the same branch is
taken and the same Port and PhysicalPort are selected; a write confirmation is
handled by `osm_pi_rcv_process_set` and a discovery read by
`osm_pi_rcv_process_get` on that Port and port number, and a write confirmation
writes no other PhysicalPort. -/
theorem osm_pi_rcv_process_selects_by_context (s : Store) (w1 w2 : osm_madw_t)
    (hc : w1.context = w2.context) (hn : osm_madw_port_num w1 = osm_madw_port_num w2) :
    osm_pi_rcv_process_branch s w1 = osm_pi_rcv_process_branch s w2
      ∧ osm_pi_rcv_process_target s w1 = osm_pi_rcv_process_target s w2
      ∧ (∀ (env : Env) (w : osm_madw_t) (p_port : osm_port_t) (p : Nat × Nat),
          osm_pi_rcv_process_target s w = some (p_port, p) →
          p = (p_port.p_node, osm_madw_port_num w)
            ∧ s.subn.port_guid_tbl w.context.port_guid = some p_port
            ∧ (osm_pi_rcv_process_branch s w = Branch.set →
                (osm_pi_rcv_process env s w).store
                    = (osm_pi_rcv_process_set env (osm_pi_rcv_process_entry s w) p_port
                        (osm_madw_port_num w) (osm_madw_cleared w)).store
                  ∧ ∀ q, q ≠ p → (osm_pi_rcv_process env s w).store.physp q = s.physp q)
            ∧ (osm_pi_rcv_process_branch s w = Branch.get →
                (osm_pi_rcv_process env s w).store
                    = (osm_pi_rcv_process_get env (osm_pi_rcv_process_entry s w)
                        w.context.port_guid p_port (osm_madw_port_num w)
                        (osm_madw_cleared w)).store))
      ∧ (∀ (env : Env) (w : osm_madw_t), osm_pi_rcv_process_target s w = none →
          (osm_pi_rcv_process env s w).store = s) := by
  refine ⟨?_, ?_, ?_, ?_⟩
  · simp only [osm_pi_rcv_process_branch, hc]
  · simp only [osm_pi_rcv_process_target, hc, hn]
  · intro env w p_port p ht
    simp only [osm_pi_rcv_process_target, osm_get_port_by_guid] at ht
    by_cases hl : w.context.light_sweep = true
    · rw [if_pos hl] at ht; exact absurd ht (by simp)
    · rw [if_neg hl] at ht
      have hl' : w.context.light_sweep = false := by simpa using hl
      cases hp : s.subn.port_guid_tbl w.context.port_guid with
      | none => rw [hp] at ht; exact absurd ht (by simp)
      | some p_port' =>
        rw [hp] at ht
        simp only [Option.some.injEq, Prod.mk.injEq, osm_node_get_physp_ptr] at ht
        obtain ⟨rfl, rfl⟩ := ht
        refine ⟨rfl, rfl, ?_, ?_⟩
        · intro hb
          have hset : w.context.set_method = true := by
            simp only [osm_pi_rcv_process_branch, osm_get_port_by_guid, hl, hp, if_false] at hb
            by_contra h
            rw [if_neg h] at hb
            exact Branch.noConfusion hb
          have h1 := (osm_pi_rcv_process_of_set env s w p_port' hl' hset hp).1
          refine ⟨h1, fun q hq => ?_⟩
          rw [h1, osm_pi_rcv_process_set_other _ _ _ _ _ _ hq, osm_pi_rcv_process_entry_store]
        · intro hb
          have hset : w.context.set_method = false := by
            simp only [osm_pi_rcv_process_branch, osm_get_port_by_guid, hl, hp, if_false] at hb
            by_contra h
            have h' : w.context.set_method = true := by simpa using h
            rw [if_pos h'] at hb
            exact Branch.noConfusion hb
          exact (osm_pi_rcv_process_of_get env s w p_port' hl' hset hp).1
  · intro env w ht
    apply osm_pi_rcv_process_store_of_light_or_unknown
    simp only [osm_pi_rcv_process_target, osm_get_port_by_guid] at ht
    by_cases hl : w.context.light_sweep = true
    · exact Or.inl hl
    · right
      rw [if_neg hl] at ht
      cases hp : s.subn.port_guid_tbl w.context.port_guid with
      | none => rfl
      | some p_port => rw [hp] at ht; exact absurd ht (by simp)

/-- Witness for claim C21: two discovery reads for port 3 of the Port 0x21 with
the same context and different payloads (link state Active with base LID 1, link
state Down with base LID 0xFFFF) select the same Port and PhysicalPort. -/
theorem osm_pi_rcv_process_selects_by_context_witness :
    osm_pi_rcv_process_target Example.store_fabric
        (Example.madw_get 0x21 3 IB_LINK_ACTIVE 2 0x0100)
      = osm_pi_rcv_process_target Example.store_fabric
        (Example.madw_get 0x21 3 IB_LINK_DOWN 7 0xFFFF)
      ∧ osm_pi_rcv_process_target Example.store_fabric
        (Example.madw_get 0x21 3 IB_LINK_ACTIVE 2 0x0100) = some (⟨1, 0, [0]⟩, (1, 3)) :=
  ⟨(osm_pi_rcv_process_selects_by_context Example.store_fabric
      (Example.madw_get 0x21 3 IB_LINK_ACTIVE 2 0x0100)
      (Example.madw_get 0x21 3 IB_LINK_DOWN 7 0xFFFF) rfl (by decide)).2.1,
    by decide⟩

/-- Counterexample to claim C21 as stated: two write confirmations handled from
the same store with the same context (same node GUID, port GUID and flags) whose
attribute modifiers name port 3 and port 5. The context holds no port number;
the receiver takes it from the response, selects the PhysicalPorts (1, 3) and
(1, 5), and marks a different PhysicalPort as acknowledged in each case. -/
theorem osm_pi_rcv_process_selection_counterexample :
    (Example.madw_set 0x21 3 0 false false).context
        = (Example.madw_set 0x21 5 0 false false).context
      ∧ osm_pi_rcv_process_target Example.store_fabric (Example.madw_set 0x21 3 0 false false)
        = some (⟨1, 0, [0]⟩, (1, 3))
      ∧ osm_pi_rcv_process_target Example.store_fabric (Example.madw_set 0x21 5 0 false false)
        = some (⟨1, 0, [0]⟩, (1, 5))
      ∧ ((osm_pi_rcv_process Example.env_ok Example.store_fabric
          (Example.madw_set 0x21 3 0 false false)).store.physp (1, 3)).got_set_resp = true
      ∧ ((osm_pi_rcv_process Example.env_ok Example.store_fabric
          (Example.madw_set 0x21 3 0 false false)).store.physp (1, 5)).got_set_resp = false
      ∧ ((osm_pi_rcv_process Example.env_ok Example.store_fabric
          (Example.madw_set 0x21 5 0 false false)).store.physp (1, 5)).got_set_resp = true
      ∧ ((osm_pi_rcv_process Example.env_ok Example.store_fabric
          (Example.madw_set 0x21 5 0 false false)).store.physp (1, 3)).got_set_resp = false := by
  decide

/-! ## Claim C22: what a write confirmation changes -/

/-- Claim C22: a write confirmation (not a light-sweep response) for a known Port
changes nothing in the store but the attribute snapshot and the
write-acknowledged flag of the PhysicalPort it names. The subnet object is
unchanged (every Port with its discovery counter, the minimum MTU and rate, the
master base LID, the remote-manager table), every node is unchanged, every other
PhysicalPort is unchanged, the PhysicalPort named keeps its path, port GUID,
validity and adjacency reference, and the trace holds no request of any kind. -/
theorem osm_pi_rcv_process_set_frame (env : Env) (s : Store) (w : osm_madw_t)
    (p_port : osm_port_t)
    (hl : w.context.light_sweep = false) (hset : w.context.set_method = true)
    (hp : s.subn.port_guid_tbl w.context.port_guid = some p_port) :
    (osm_pi_rcv_process env s w).store.subn = s.subn
      ∧ (osm_pi_rcv_process env s w).store.node = s.node
      ∧ (∀ q, q ≠ (p_port.p_node, osm_madw_port_num w) →
          (osm_pi_rcv_process env s w).store.physp q = s.physp q)
      ∧ (osm_pi_rcv_process env s w).store.physp (p_port.p_node, osm_madw_port_num w)
        = { s.physp (p_port.p_node, osm_madw_port_num w) with
            port_info := osm_pi_rcv_clear_client_rereg w.pi, got_set_resp := true }
      ∧ (∀ q, ((osm_pi_rcv_process env s w).store.physp q).dr_path = (s.physp q).dr_path
          ∧ osm_physp_get_remote (osm_pi_rcv_process env s w).store q
            = osm_physp_get_remote s q)
      ∧ (∀ g, Option.map (fun p : osm_port_t => p.discovery_count)
            ((osm_pi_rcv_process env s w).store.subn.port_guid_tbl g)
          = Option.map (fun p : osm_port_t => p.discovery_count) (s.subn.port_guid_tbl g))
      ∧ (osm_pi_rcv_process env s w).trace.countP Event.isReq = 0 := by
  obtain ⟨h1, h2⟩ := osm_pi_rcv_process_of_set env s w p_port hl hset hp
  have hsub : (osm_pi_rcv_process env s w).store.subn = s.subn := by
    rw [h1, osm_pi_rcv_process_set_subn, osm_pi_rcv_process_entry_store]
  have hother : ∀ q, q ≠ (p_port.p_node, osm_madw_port_num w) →
      (osm_pi_rcv_process env s w).store.physp q = s.physp q := by
    intro q hq
    rw [h1, osm_pi_rcv_process_set_other _ _ _ _ _ _ hq, osm_pi_rcv_process_entry_store]
  have htarget : (osm_pi_rcv_process env s w).store.physp (p_port.p_node, osm_madw_port_num w)
      = { s.physp (p_port.p_node, osm_madw_port_num w) with
          port_info := osm_pi_rcv_clear_client_rereg w.pi, got_set_resp := true } := by
    rw [h1, osm_pi_rcv_process_set_physp, osm_pi_rcv_process_entry_store]
    rfl
  refine ⟨hsub, ?_, hother, htarget, ?_, ?_, ?_⟩
  · rw [h1]
    simp [osm_pi_rcv_process_set, osm_physp_set_port_info, osm_pi_rcv_process_set_status_store]
  · intro q
    by_cases hq : q = (p_port.p_node, osm_madw_port_num w)
    · subst hq
      simp only [osm_physp_get_remote]
      rw [htarget]
      exact ⟨rfl, rfl⟩
    · simp only [osm_physp_get_remote]
      rw [hother q hq]
      exact ⟨rfl, rfl⟩
  · intro g
    rw [hsub]
  · rw [h2, List.countP_append]
    have hc : (osm_pi_rcv_process_set env (osm_pi_rcv_process_entry s w) p_port
        (osm_madw_port_num w) (osm_madw_cleared w)).trace.countP Event.isReq
        = (osm_pi_rcv_process_entry s w).trace.countP Event.isReq := by
      simp only [osm_pi_rcv_process_set, osm_pi_rcv_process_set_status, Machine.setStore_trace,
        reqCount_logIfActive]
      split_ifs <;> simp
    rw [hc, osm_pi_rcv_process_entry_reqCount]
    rfl

/-- Witness for claim C22: a write confirmation for port 3 of the Port 0x21 in the
example fabric, with an error status: the subnet object and the adjacency of the
port are as before, the flag is set and no request is made. -/
theorem osm_pi_rcv_process_set_frame_witness :
    (osm_pi_rcv_process Example.env_ok Example.store_fabric
        (Example.madw_set 0x21 3 0x0400 false false)).store.subn = Example.store_fabric.subn
      ∧ osm_physp_get_remote (osm_pi_rcv_process Example.env_ok Example.store_fabric
          (Example.madw_set 0x21 3 0x0400 false false)).store (1, 3) = some (2, 5)
      ∧ (osm_pi_rcv_process Example.env_ok Example.store_fabric
          (Example.madw_set 0x21 3 0x0400 false false)).trace.countP Event.isReq = 0 :=
  have h := osm_pi_rcv_process_set_frame Example.env_ok Example.store_fabric
    (Example.madw_set 0x21 3 0x0400 false false) ⟨1, 0, [0]⟩ rfl rfl rfl
  ⟨h.1, ((h.2.2.2.2.1 (1, 3)).2).trans (by decide), h.2.2.2.2.2.2⟩

/-! ## Claim C23: discovery limited to hop zero -/

theorem trace_continues_refl (m : Machine) : trace_continues m m :=
  ⟨[], by simp, rfl⟩

theorem trace_continues_trans {a b c : Machine} (h1 : trace_continues c b)
    (h2 : trace_continues b a) : trace_continues c a := by
  obtain ⟨l1, e1, c1⟩ := h1
  obtain ⟨l2, e2, c2⟩ := h2
  exact ⟨l2 ++ l1, by rw [e1, e2, List.append_assoc], by rw [List.countP_append, c1, c2]⟩

theorem trace_continues_of_eq {a b : Machine} (h : a.trace = b.trace) : trace_continues a b :=
  ⟨[], by simp [h], rfl⟩

theorem trace_continues_emit {x m : Machine} (e : Event) (he : e.isLock = false)
    (h : trace_continues x m) : trace_continues (x.emit e) m :=
  trace_continues_trans ⟨[e], rfl, by simp [List.countP_cons, he]⟩ h

theorem trace_continues_log {x m : Machine} (l : osm_log_level_t) (c : Nat)
    (h : trace_continues x m) : trace_continues (x.log l c) m :=
  trace_continues_emit _ rfl h

theorem trace_continues_setStore {x m : Machine} (s : Store) (h : trace_continues x m) :
    trace_continues (x.setStore s) m :=
  trace_continues_trans (trace_continues_of_eq rfl) h

theorem trace_continues_setSubn {x m : Machine} (s : osm_subn_t) (h : trace_continues x m) :
    trace_continues (x.setSubn s) m :=
  trace_continues_trans (trace_continues_of_eq rfl) h

theorem trace_continues_logIfActive {x m : Machine} (env : Env) (l : osm_log_level_t)
    (h : trace_continues x m) : trace_continues (x.logIfActive env l) m := by
  unfold Machine.logIfActive
  split_ifs
  · exact trace_continues_log _ _ h
  · exact h

theorem trace_continues_req_get {x m : Machine} (env : Env) (p : osm_dr_path_t) (a : AttrId)
    (md : Nat) (c : osm_madw_context_t) (h : trace_continues x m) :
    trace_continues (osm_req_get env x p a md c).2 m :=
  trace_continues_emit _ rfl h

theorem osm_pi_rcv_process_endport_continues (env : Env) (m : Machine) (p : Nat × Nat)
    (p_pi : ib_port_info_t) : trace_continues (osm_pi_rcv_process_endport env m p p_pi) m := by
  have h1 : trace_continues (osm_pi_rcv_process_endport_min m p p_pi) m := by
    simp only [osm_pi_rcv_process_endport_min, osm_pi_rcv_process_endport_rate,
      osm_pi_rcv_process_endport_mtu]
    split_ifs <;>
      repeat (first
        | exact trace_continues_refl _
        | refine trace_continues_setSubn _ ?_
        | refine trace_continues_log _ _ ?_)
  have h2 : ∀ (q : Machine) (g : Nat),
      trace_continues (osm_pi_rcv_process_endport_sm env q g p p_pi) q := by
    intro q g
    have hc : trace_continues (osm_pi_rcv_process_endport_clean q g) q :=
      trace_continues_of_eq (osm_pi_rcv_process_endport_clean_trace q g)
    simp only [osm_pi_rcv_process_endport_sm, osm_pi_rcv_set_sm,
      osm_pi_rcv_process_endport_query]
    split_ifs <;>
      repeat (first
        | exact trace_continues_refl _
        | exact hc
        | refine trace_continues_log _ _ ?_
        | refine trace_continues_req_get _ _ _ _ _ ?_
        | refine trace_continues_logIfActive _ _ ?_
        | exact trace_continues_emit _ rfl (trace_continues_logIfActive _ _
            (trace_continues_refl _)))
  exact trace_continues_trans (h2 _ _) h1

theorem osm_pi_rcv_trim_base_lid_continues (m : Machine) (p : Nat × Nat) (code : Nat) :
    trace_continues (osm_pi_rcv_trim_base_lid m p code) m := by
  simp only [osm_pi_rcv_trim_base_lid]
  split_ifs <;>
    repeat (first
      | exact trace_continues_refl _
      | refine trace_continues_log _ _ ?_
      | refine trace_continues_setStore _ ?_)

theorem osm_pi_rcv_process_switch_port_probe_continues (env : Env) (m : Machine) (n : Nat)
    (p : Nat × Nat) (p_pi : ib_port_info_t) :
    trace_continues (osm_pi_rcv_process_switch_port_probe env m n p p_pi) m := by
  have hd : trace_continues (osm_pi_rcv_process_switch_port_down m n p) m := by
    simp only [osm_pi_rcv_process_switch_port_down]
    split
    · split_ifs <;>
        repeat (first
          | exact trace_continues_refl _
          | refine trace_continues_setStore _ ?_
          | refine trace_continues_log _ _ ?_)
    · exact trace_continues_refl _
  have hv : trace_continues (osm_pi_rcv_process_switch_port_live env m n p p_pi) m := by
    simp only [osm_pi_rcv_process_switch_port_live]
    split_ifs <;>
      repeat (first
        | exact trace_continues_refl _
        | refine trace_continues_log _ _ ?_
        | refine trace_continues_req_get _ _ _ _ _ ?_
        | refine trace_continues_logIfActive _ _ ?_)
  simp only [osm_pi_rcv_process_switch_port_probe, osm_pi_rcv_process_switch_port_state]
  split_ifs
  · exact hd
  · exact hv
  · exact trace_continues_log _ _ (trace_continues_refl _)
  · exact trace_continues_refl _

theorem osm_pi_rcv_process_switch_port_0_continues (env : Env) (m : Machine) (n : Nat)
    (p : Nat × Nat) (p_pi : ib_port_info_t) :
    trace_continues (osm_pi_rcv_process_switch_port_0 env m n p p_pi) m := by
  simp only [osm_pi_rcv_process_switch_port_0]
  split_ifs
  · exact trace_continues_trans (osm_pi_rcv_process_endport_continues _ _ _ _)
      (trace_continues_trans
        (trace_continues_of_eq (osm_pi_rcv_process_switch_port_bsp0_trace _ _ _ _))
        (osm_pi_rcv_trim_base_lid_continues _ _ _))
  · exact trace_continues_refl _

theorem osm_pi_rcv_process_get_dispatch_continues (env : Env) (m : Machine) (n : Nat)
    (p : Nat × Nat) (p_pi : ib_port_info_t) :
    trace_continues (osm_pi_rcv_process_get_dispatch env m n p p_pi) m := by
  simp only [osm_pi_rcv_process_get_dispatch]
  split_ifs
  · simp only [osm_pi_rcv_process_ca_or_router_port]
    exact trace_continues_trans (osm_pi_rcv_process_endport_continues _ _ _ _)
      (trace_continues_trans (osm_pi_rcv_trim_base_lid_continues _ _ _)
        (trace_continues_setStore _ (trace_continues_refl _)))
  · simp only [osm_pi_rcv_process_switch_port]
    exact trace_continues_trans (osm_pi_rcv_process_switch_port_0_continues _ _ _ _ _)
      (trace_continues_setStore _ (osm_pi_rcv_process_switch_port_probe_continues _ _ _ _ _))
  · exact trace_continues_log _ _ (trace_continues_refl _)

theorem osm_pkey_get_tables_continues (env : Env) (m : Machine) (n : Nat) (p : Nat × Nat) :
    trace_continues (osm_pkey_get_tables env m n p) m := by
  obtain ⟨l, h1, h2⟩ := osm_pkey_get_tables_mem env m n p
  refine ⟨l, h1, ?_⟩
  rw [List.countP_eq_zero]
  intro e he
  rcases h2 e he with h | ⟨b, st, -, h⟩ <;> rw [h] <;> simp [Event.isLock]

theorem osm_pi_rcv_process_get_before_dispatch_continues (env : Env) (m : Machine) (g : Nat)
    (p : Nat × Nat) (pn : Nat) (w : osm_madw_t) :
    trace_continues (osm_pi_rcv_process_get_before_dispatch env m g p pn w) m := by
  simp only [osm_pi_rcv_process_get_before_dispatch, osm_pi_rcv_process_get_master,
    osm_pi_rcv_process_get_physp]
  split_ifs <;>
    repeat (first
      | exact trace_continues_refl _
      | refine trace_continues_logIfActive _ _ ?_
      | refine trace_continues_log _ _ ?_
      | refine trace_continues_setSubn _ ?_
      | refine trace_continues_setStore _ ?_)

theorem osm_pi_rcv_process_get_continues (env : Env) (m : Machine) (g : Nat)
    (p_port : osm_port_t) (pn : Nat) (w : osm_madw_t) :
    trace_continues (osm_pi_rcv_process_get env m g p_port pn w) m := by
  rw [osm_pi_rcv_process_get_eq]
  exact trace_continues_trans (osm_pkey_get_tables_continues _ _ _ _)
    (trace_continues_trans (osm_pi_rcv_process_get_dispatch_continues _ _ _ _ _)
      (osm_pi_rcv_process_get_before_dispatch_continues _ _ _ _ _ _))

theorem osm_pi_rcv_process_set_continues (env : Env) (m : Machine) (p_port : osm_port_t)
    (pn : Nat) (w : osm_madw_t) :
    trace_continues (osm_pi_rcv_process_set env m p_port pn w) m := by
  have h : trace_continues (osm_pi_rcv_process_set_status m w) m := by
    simp only [osm_pi_rcv_process_set_status]
    split_ifs
    · exact trace_continues_emit _ rfl (trace_continues_log _ _ (trace_continues_refl _))
    · exact trace_continues_emit _ rfl (trace_continues_log _ _ (trace_continues_refl _))
    · exact trace_continues_refl _
  simp only [osm_pi_rcv_process_set]
  exact trace_continues_setStore _ (trace_continues_logIfActive _ _ h)

/-! ## Claim C24: an unknown link state -/

theorem osm_pi_rcv_process_get_dispatch_port_guid_tbl (env : Env) (m : Machine) (n : Nat)
    (p : Nat × Nat) (p_pi : ib_port_info_t) :
    (osm_pi_rcv_process_get_dispatch env m n p p_pi).store.subn.port_guid_tbl
      = m.store.subn.port_guid_tbl := by
  simp only [osm_pi_rcv_process_get_dispatch]
  split_ifs
  · simp only [osm_pi_rcv_process_ca_or_router_port, osm_pi_rcv_process_endport_port_guid_tbl,
      osm_pi_rcv_trim_base_lid_store, osm_physp_trim_base_lid_subn, Machine.setStore_store,
      osm_physp_set_port_info, Store.setPhysp_subn]
  · simp only [osm_pi_rcv_process_switch_port, osm_pi_rcv_process_switch_port_0]
    split_ifs
    · simp only [osm_pi_rcv_process_endport_port_guid_tbl,
        osm_pi_rcv_process_switch_port_bsp0_subn, osm_pi_rcv_trim_base_lid_store,
        osm_physp_trim_base_lid_subn, Machine.setStore_store, osm_physp_set_port_info,
        Store.setPhysp_subn, osm_pi_rcv_process_switch_port_probe_subn]
    · simp only [Machine.setStore_store, osm_physp_set_port_info, Store.setPhysp_subn,
        osm_pi_rcv_process_switch_port_probe_subn]
  · rfl

theorem osm_pi_rcv_process_get_discovery_count (env : Env) (m : Machine) (g : Nat)
    (p_port : osm_port_t) (pn : Nat) (w : osm_madw_t) (g' : Nat) :
    discovery_count_of (osm_pi_rcv_process_get env m g p_port pn w).store g'
      = if g' = g then Option.map (fun c => c + 1) (discovery_count_of m.store g)
        else discovery_count_of m.store g' := by
  rw [osm_pi_rcv_process_get_eq]
  simp only [discovery_count_of, osm_pkey_get_tables_subn,
    osm_pi_rcv_process_get_dispatch_port_guid_tbl]
  simp only [osm_pi_rcv_process_get_before_dispatch, osm_pi_rcv_process_get_master,
    osm_pi_rcv_process_get_physp]
  by_cases hg : g' = g
  · subst hg
    split_ifs <;>
      first
        | contradiction
        | (cases h : m.store.subn.port_guid_tbl g' <;>
            simp [osm_port_add_new_physp, osm_physp_init, osm_port_discovery_count_inc,
              Store.setPhysp, h])
  · split_ifs <;>
      simp [osm_port_add_new_physp, osm_physp_init, osm_port_discovery_count_inc,
        Store.setPhysp, hg]

/-- Claim C25: a discovery read (not a light-sweep response, not a write
confirmation) whose port GUID names a known Port increases the discovery counter
of that Port by exactly 1, whatever the node type, the port number and the link
state, and leaves the counter of every other Port as it was; a light-sweep
response, a write confirmation and a response with an unknown port GUID leave
every discovery counter as it was. -/
theorem osm_pi_rcv_process_discovery_count (env : Env) (s : Store) (w : osm_madw_t) :
    (∀ p_port : osm_port_t, w.context.light_sweep = false → w.context.set_method = false →
        s.subn.port_guid_tbl w.context.port_guid = some p_port →
        ∀ g, discovery_count_of (osm_pi_rcv_process env s w).store g
          = if g = w.context.port_guid then some (p_port.discovery_count + 1)
            else discovery_count_of s g)
      ∧ ((w.context.light_sweep = true ∨ w.context.set_method = true
            ∨ s.subn.port_guid_tbl w.context.port_guid = none) →
          ∀ g, discovery_count_of (osm_pi_rcv_process env s w).store g
            = discovery_count_of s g) := by
  constructor
  · intro p_port hl hset hp g
    rw [(osm_pi_rcv_process_of_get env s w p_port hl hset hp).1,
      osm_pi_rcv_process_get_discovery_count, osm_pi_rcv_process_entry_store]
    simp only [discovery_count_of, hp, Option.map_some']
  · intro h g
    by_cases hl : w.context.light_sweep = true
    · rw [osm_pi_rcv_process_store_of_light_or_unknown env s w (Or.inl hl)]
    · cases hp : s.subn.port_guid_tbl w.context.port_guid with
      | none => rw [osm_pi_rcv_process_store_of_light_or_unknown env s w (Or.inr hp)]
      | some p_port =>
        have hset : w.context.set_method = true := by
          rcases h with h | h | h
          · exact absurd h hl
          · exact h
          · rw [hp] at h; exact Option.noConfusion h
        simp only [discovery_count_of]
        rw [(osm_pi_rcv_process_of_set env s w p_port (by simpa using hl) hset hp).1,
          osm_pi_rcv_process_set_subn, osm_pi_rcv_process_entry_store]

/-- Witness for claim C25: a discovery read for port 1 of the Port 0x31 of the
example fabric, whose counter is 0: the counter is 1 afterwards and the counter
of the Port 0x21 is still 0; a write confirmation leaves the counter at 0. -/
theorem osm_pi_rcv_process_discovery_count_witness :
    discovery_count_of (osm_pi_rcv_process Example.env_ok Example.store_fabric
        (Example.madw_get 0x31 1 IB_LINK_ACTIVE 2 0x0100)).store 0x31 = some 1
      ∧ discovery_count_of (osm_pi_rcv_process Example.env_ok Example.store_fabric
        (Example.madw_get 0x31 1 IB_LINK_ACTIVE 2 0x0100)).store 0x21 = some 0
      ∧ discovery_count_of (osm_pi_rcv_process Example.env_ok Example.store_fabric
        (Example.madw_set 0x31 1 0 false false)).store 0x31 = some 0 :=
  ⟨((osm_pi_rcv_process_discovery_count Example.env_ok Example.store_fabric
      (Example.madw_get 0x31 1 IB_LINK_ACTIVE 2 0x0100)).1 ⟨3, 0, []⟩ rfl rfl rfl 0x31).trans
      (by decide),
    ((osm_pi_rcv_process_discovery_count Example.env_ok Example.store_fabric
      (Example.madw_get 0x31 1 IB_LINK_ACTIVE 2 0x0100)).1 ⟨3, 0, []⟩ rfl rfl rfl 0x21).trans
      (by decide),
    ((osm_pi_rcv_process_discovery_count Example.env_ok Example.store_fabric
      (Example.madw_set 0x31 1 0 false false)).2 (Or.inr (Or.inl rfl)) 0x31).trans
      (by decide)⟩

/-! ## Claim C26: the PhysicalPort of a discovery read -/

theorem osm_pi_rcv_process_get_physp_valid (env : Env) (m : Machine) (g : Nat)
    (p : Nat × Nat) (pn : Nat) (w : osm_madw_t)
    (hv : osm_physp_is_valid m.store p = true) :
    (osm_pi_rcv_process_get_physp env m g p pn w).store
        = m.store.setPhysp p { m.store.physp p with
            dr_path := osm_dr_path_init w.h_bind w.smp.hop_count w.smp.initial_path } := by
  simp only [osm_pi_rcv_process_get_physp]
  rw [if_neg (by rw [hv]; decide)]
  rfl

theorem osm_pi_rcv_process_get_physp_new (env : Env) (m : Machine) (g : Nat)
    (p : Nat × Nat) (pn : Nat) (w : osm_madw_t)
    (hv : osm_physp_is_valid m.store p = false) :
    (osm_pi_rcv_process_get_physp env m g p pn w).store.physp p
      = { port_info := ib_port_info_t.zero, port_guid := g, p_remote_physp := none,
          dr_path := osm_dr_path_init w.h_bind w.smp.hop_count w.smp.initial_path,
          got_set_resp := false, valid := true } := by
  simp only [osm_pi_rcv_process_get_physp]
  rw [if_pos hv]
  simp [osm_port_add_new_physp, osm_physp_init, Store.physp, Store.setPhysp]

theorem osm_pi_rcv_process_get_kept (env : Env) (m : Machine) (g : Nat) (p_port : osm_port_t)
    (pn : Nat) (w : osm_madw_t) :
    physp_kept ((osm_pi_rcv_process_get env m g p_port pn w).store.physp (p_port.p_node, pn))
      ((osm_pi_rcv_process_get_physp env
        ((m.setStore (osm_port_discovery_count_inc m.store g)).logIfActive env
          osm_log_level_t.verbose) g (p_port.p_node, pn) pn w).store.physp
        (p_port.p_node, pn)) := by
  rw [osm_pi_rcv_process_get_eq, osm_pkey_get_tables_physp]
  refine physp_kept_trans (osm_pi_rcv_process_get_dispatch_kept _ _ _ _ _ _) ?_
  simp only [osm_pi_rcv_process_get_before_dispatch, Store.physp,
    osm_pi_rcv_process_get_master_physp_table]
  exact physp_kept_refl _

/-- Claim C26: after `osm_pi_rcv_process` handles a discovery read (not a
light-sweep response) for a known Port, the PhysicalPort in the slot of the
Port's node at the port number of the response is valid and its path is the one
built from the transport binding of the response and the hop count and initial
path of its envelope. If the slot was not valid it was initialized with the port
GUID of the context (the port number and the owning node are the key of the
slot); if it was valid, the refresh of the path (lines 773-783) changes nothing
but the path: port GUID, adjacency reference, snapshot, flags, and every other
PhysicalPort are as before, and the port GUID is kept to the end of the call. -/
theorem osm_pi_rcv_process_materializes_physp (env : Env) (s : Store) (w : osm_madw_t)
    (p_port : osm_port_t)
    (hl : w.context.light_sweep = false) (hset : w.context.set_method = false)
    (hp : s.subn.port_guid_tbl w.context.port_guid = some p_port) :
    osm_physp_is_valid (osm_pi_rcv_process env s w).store
        (p_port.p_node, osm_madw_port_num w) = true
      ∧ ((osm_pi_rcv_process env s w).store.physp (p_port.p_node, osm_madw_port_num w)).dr_path
        = osm_dr_path_init w.h_bind w.smp.hop_count w.smp.initial_path
      ∧ (osm_physp_is_valid s (p_port.p_node, osm_madw_port_num w) = false →
          ((osm_pi_rcv_process env s w).store.physp
            (p_port.p_node, osm_madw_port_num w)).port_guid = w.context.port_guid)
      ∧ (osm_physp_is_valid s (p_port.p_node, osm_madw_port_num w) = true →
          ((osm_pi_rcv_process env s w).store.physp
            (p_port.p_node, osm_madw_port_num w)).port_guid
          = (s.physp (p_port.p_node, osm_madw_port_num w)).port_guid)
      ∧ (∀ (m : Machine) (g : Nat) (p : Nat × Nat) (pn : Nat),
          osm_physp_is_valid m.store p = true →
          (osm_pi_rcv_process_get_physp env m g p pn w).store
            = m.store.setPhysp p { m.store.physp p with
                dr_path := osm_dr_path_init w.h_bind w.smp.hop_count w.smp.initial_path })
      ∧ (∀ (m : Machine) (g : Nat) (p : Nat × Nat) (pn : Nat),
          osm_physp_is_valid m.store p = false →
          (osm_pi_rcv_process_get_physp env m g p pn w).store.physp p
            = { port_info := ib_port_info_t.zero, port_guid := g, p_remote_physp := none,
                dr_path := osm_dr_path_init w.h_bind w.smp.hop_count w.smp.initial_path,
                got_set_resp := false, valid := true }) := by
  obtain ⟨h1, -⟩ := osm_pi_rcv_process_of_get env s w p_port hl hset hp
  have hk := osm_pi_rcv_process_get_kept env (osm_pi_rcv_process_entry s w) w.context.port_guid
    p_port (osm_madw_port_num w) (osm_madw_cleared w)
  have hst : ((Machine.setStore (osm_pi_rcv_process_entry s w)
      (osm_port_discovery_count_inc (osm_pi_rcv_process_entry s w).store
        w.context.port_guid)).logIfActive env osm_log_level_t.verbose).store.physp
        (p_port.p_node, osm_madw_port_num w)
      = s.physp (p_port.p_node, osm_madw_port_num w) := by
    simp [Store.physp, osm_port_discovery_count_inc]
  have hval : ∀ b, osm_physp_is_valid s (p_port.p_node, osm_madw_port_num w) = b →
      osm_physp_is_valid ((Machine.setStore (osm_pi_rcv_process_entry s w)
        (osm_port_discovery_count_inc (osm_pi_rcv_process_entry s w).store
          w.context.port_guid)).logIfActive env osm_log_level_t.verbose).store
        (p_port.p_node, osm_madw_port_num w) = b := by
    intro b hb
    simp only [osm_physp_is_valid] at hb ⊢
    rw [hst]; exact hb
  refine ⟨?_, ?_, ?_, ?_, ?_, ?_⟩
  · simp only [osm_physp_is_valid]
    rw [h1, hk.2.2.1]
    cases hv : osm_physp_is_valid s (p_port.p_node, osm_madw_port_num w)
    · rw [osm_pi_rcv_process_get_physp_new _ _ _ _ _ _ (hval _ hv)]
    · rw [osm_pi_rcv_process_get_physp_valid _ _ _ _ _ _ (hval _ hv), Store.physp_setPhysp_same]
      simp only [osm_physp_is_valid] at hv
      rw [hst]; exact hv
  · rw [h1, osm_pi_rcv_process_get_dr_path]
    rfl
  · intro hv
    rw [h1, hk.2.1, osm_pi_rcv_process_get_physp_new _ _ _ _ _ _ (hval _ hv)]
  · intro hv
    rw [h1, hk.2.1, osm_pi_rcv_process_get_physp_valid _ _ _ _ _ _ (hval _ hv),
      Store.physp_setPhysp_same, hst]
  · intro m g p pn hv
    exact osm_pi_rcv_process_get_physp_valid env m g p pn w hv
  · intro m g p pn hv
    exact osm_pi_rcv_process_get_physp_new env m g p pn w hv

/-- Witness for claim C26: a discovery read for port 3 of the Port 0x21, already
valid with the path `[0, 1]` of one hop on binding 7, arriving on binding 7 with
the same envelope, and one for its port 4, never seen before. -/
theorem osm_pi_rcv_process_materializes_physp_witness :
    ((osm_pi_rcv_process Example.env_ok Example.store_fabric
        (Example.madw_get 0x21 3 IB_LINK_ACTIVE 2 0x0100)).store.physp (1, 3)).dr_path
      = ⟨7, 1, [0, 1]⟩
      ∧ osm_physp_is_valid (osm_pi_rcv_process Example.env_ok Example.store_fabric
        (Example.madw_get 0x21 4 IB_LINK_ACTIVE 2 0x0100)).store (1, 4) = true
      ∧ ((osm_pi_rcv_process Example.env_ok Example.store_fabric
        (Example.madw_get 0x21 4 IB_LINK_ACTIVE 2 0x0100)).store.physp (1, 4)).port_guid
        = 0x21 :=
  ⟨(osm_pi_rcv_process_materializes_physp Example.env_ok Example.store_fabric
      (Example.madw_get 0x21 3 IB_LINK_ACTIVE 2 0x0100) ⟨1, 0, [0]⟩ rfl rfl rfl).2.1,
    (osm_pi_rcv_process_materializes_physp Example.env_ok Example.store_fabric
      (Example.madw_get 0x21 4 IB_LINK_ACTIVE 2 0x0100) ⟨1, 0, [0]⟩ rfl rfl rfl).1,
    (osm_pi_rcv_process_materializes_physp Example.env_ok Example.store_fabric
      (Example.madw_get 0x21 4 IB_LINK_ACTIVE 2 0x0100) ⟨1, 0, [0]⟩ rfl rfl rfl).2.2.1
      (by decide)⟩

/-! ## Claim C27: the path of a probe is an extended copy -/

/-- Claim C27: `__osm_pi_rcv_process_switch_port` extends a copy of the path. For
every PhysicalPort, the path stored after the call is the path stored before it;
and when the call issues a NodeInfo request through the port `p` (the port is
not port 0, discovery is not limited to hop zero, the link state is Init, Armed
or Active and the responder's port is another one), it issues exactly one, whose
path is the stored path of `p` with the hop `p` appended and a hop count one
greater, on the same binding. -/
theorem osm_pi_rcv_process_switch_port_copy_on_extend (env : Env) (m : Machine) (n : Nat)
    (p : Nat × Nat) (p_pi : ib_port_info_t) :
    (∀ q, ((osm_pi_rcv_process_switch_port env m n p p_pi).store.physp q).dr_path
        = (m.store.physp q).dr_path)
      ∧ ((osm_physp_get_port_num p ≠ 0 ∧ m.store.subn.in_sweep_hop_0 = false
            ∧ p_pi.port_state ≠ IB_LINK_DOWN ∧ link_is_live p_pi.port_state
            ∧ p_pi.local_port_num ≠ osm_physp_get_port_num p) →
          niReqs (osm_pi_rcv_process_switch_port env m n p p_pi).trace
            = niReqs m.trace ++
              [Event.req_get
                { h_bind := ((osm_pi_rcv_process_switch_port env m n p p_pi).store.physp
                    p).dr_path.h_bind
                  hop_count := ((osm_pi_rcv_process_switch_port env m n p p_pi).store.physp
                    p).dr_path.hop_count + 1
                  path := ((osm_pi_rcv_process_switch_port env m n p p_pi).store.physp
                    p).dr_path.path ++ [osm_physp_get_port_num p] }
                AttrId.node_info 0
                (osm_madw_context_t.ni_context (osm_node_get_node_guid m.store n)
                  (osm_physp_get_port_num p))
                (env.req_status (m.trace.countP Event.isReq))])
      ∧ (¬ (osm_physp_get_port_num p ≠ 0 ∧ m.store.subn.in_sweep_hop_0 = false
            ∧ p_pi.port_state ≠ IB_LINK_DOWN ∧ link_is_live p_pi.port_state
            ∧ p_pi.local_port_num ≠ osm_physp_get_port_num p) →
          niReqs (osm_pi_rcv_process_switch_port env m n p p_pi).trace = niReqs m.trace) := by
  have hk : ∀ q, ((osm_pi_rcv_process_switch_port env m n p p_pi).store.physp q).dr_path
      = (m.store.physp q).dr_path :=
    fun q => (osm_pi_rcv_process_switch_port_kept env m n p q p_pi).1
  refine ⟨hk, ?_, ?_⟩
  · intro hc
    rw [osm_pi_rcv_process_switch_port_niReqs, if_pos hc, hk p]
    rfl
  · intro hc
    rw [osm_pi_rcv_process_switch_port_niReqs, if_neg hc, List.append_nil]

/-- Witness for claim C27: port 3 of node 1 in the example fabric has the path
`[0, 1]` of one hop on binding 7 and reports link state Active from the
responder's port 2: the request has the path `[0, 1, 3]` of two hops, and the
stored path is still `[0, 1]`. -/
theorem osm_pi_rcv_process_switch_port_copy_on_extend_witness :
    (osm_pi_rcv_process_switch_port Example.env_ok ⟨Example.store_fabric, []⟩ 1 (1, 3)
        (Example.madw_get 0x21 3 IB_LINK_ACTIVE 2 0x0100).pi).trace
      = [Event.req_get ⟨7, 2, [0, 1, 3]⟩ AttrId.node_info 0
          (osm_madw_context_t.ni_context 0x21 3) true]
      ∧ ((osm_pi_rcv_process_switch_port Example.env_ok ⟨Example.store_fabric, []⟩ 1 (1, 3)
        (Example.madw_get 0x21 3 IB_LINK_ACTIVE 2 0x0100).pi).store.physp (1, 3)).dr_path
      = ⟨7, 1, [0, 1]⟩ :=
  ⟨by decide,
    ((osm_pi_rcv_process_switch_port_copy_on_extend Example.env_ok ⟨Example.store_fabric, []⟩
      1 (1, 3) (Example.madw_get 0x21 3 IB_LINK_ACTIVE 2 0x0100).pi).1 (1, 3)).trans
      (by decide)⟩

/-! ## Claim C28: the lock -/

theorem count_lock_of_countP {l : List Event} (h : l.countP Event.isLock = 0) :
    l.count Event.plock_excl_acquire = 0 ∧ l.count Event.plock_release = 0 := by
  rw [List.countP_eq_zero] at h
  constructor
  · rw [List.count_eq_zero]
    intro hm
    exact h _ hm rfl
  · rw [List.count_eq_zero]
    intro hm
    exact h _ hm rfl

theorem osm_pi_rcv_process_entry_trace (s : Store) (w : osm_madw_t) :
    (osm_pi_rcv_process_entry s w).trace
      = (Event.dump_port_info osm_log_level_t.debug
          :: (if w.pi.client_rereg = true then [Event.log osm_log_level_t.debug 0] else []))
        ++ [Event.plock_excl_acquire] := by
  simp only [osm_pi_rcv_process_entry]
  split_ifs <;> rfl

/-- Claim C28: in every execution of `osm_pi_rcv_process` the lock is taken at
most once, in exclusive mode, and released exactly once when it was taken. A
light-sweep response never takes it, issues no request and leaves the store as
it was. Otherwise the trace of the call is: the actions before the lock (no
request among them, the store still the initial one), the exclusive acquire, the
actions of the handling, the release, and after the release nothing but the
error entry `ERR 0F06` of an unknown port GUID. For a known Port the handling is
`osm_pi_rcv_process_set` or `osm_pi_rcv_process_get`, started in the state at
the acquire; its actions, among them every request of the call, lie between the
acquire and the release, and the store it leaves is the store the call returns;
for an unknown port GUID nothing lies between them and the store is the initial
one. -/
theorem osm_pi_rcv_process_lock_discipline (env : Env) (s : Store) (w : osm_madw_t) :
    (w.context.light_sweep = true →
        (osm_pi_rcv_process env s w).trace.countP Event.isLock = 0
          ∧ (osm_pi_rcv_process env s w).trace.countP Event.isReq = 0
          ∧ (osm_pi_rcv_process env s w).store = s)
      ∧ (w.context.light_sweep = false →
          (∃ pre : List Event,
              (osm_pi_rcv_process_entry s w).trace = pre ++ [Event.plock_excl_acquire]
                ∧ pre.countP Event.isLock = 0 ∧ pre.countP Event.isReq = 0)
            ∧ (osm_pi_rcv_process_entry s w).store = s
            ∧ (osm_pi_rcv_process env s w).trace.count Event.plock_excl_acquire = 1
            ∧ (osm_pi_rcv_process env s w).trace.count Event.plock_release = 1
            ∧ (s.subn.port_guid_tbl w.context.port_guid = none →
                (osm_pi_rcv_process env s w).trace
                    = (osm_pi_rcv_process_entry s w).trace
                      ++ [Event.plock_release, Event.log osm_log_level_t.error 0x0F06]
                  ∧ (osm_pi_rcv_process env s w).store = s)
            ∧ (∀ p_port : osm_port_t,
                s.subn.port_guid_tbl w.context.port_guid = some p_port →
                ∃ mid : List Event, mid.countP Event.isLock = 0
                  ∧ (osm_pi_rcv_process env s w).trace
                    = (osm_pi_rcv_process_entry s w).trace ++ mid ++ [Event.plock_release]
                  ∧ (if w.context.set_method = true then
                      osm_pi_rcv_process_set env (osm_pi_rcv_process_entry s w) p_port
                        (osm_madw_port_num w) (osm_madw_cleared w)
                    else
                      osm_pi_rcv_process_get env (osm_pi_rcv_process_entry s w)
                        w.context.port_guid p_port (osm_madw_port_num w)
                        (osm_madw_cleared w)).trace
                    = (osm_pi_rcv_process_entry s w).trace ++ mid
                  ∧ (osm_pi_rcv_process env s w).store
                    = (if w.context.set_method = true then
                      osm_pi_rcv_process_set env (osm_pi_rcv_process_entry s w) p_port
                        (osm_madw_port_num w) (osm_madw_cleared w)
                    else
                      osm_pi_rcv_process_get env (osm_pi_rcv_process_entry s w)
                        w.context.port_guid p_port (osm_madw_port_num w)
                        (osm_madw_cleared w)).store)) := by
  have hpre : (Event.dump_port_info osm_log_level_t.debug
      :: (if w.pi.client_rereg = true then [Event.log osm_log_level_t.debug 0]
          else [])).countP Event.isLock = 0
      ∧ (Event.dump_port_info osm_log_level_t.debug
      :: (if w.pi.client_rereg = true then [Event.log osm_log_level_t.debug 0]
          else [])).countP Event.isReq = 0 := by
    split_ifs <;> exact ⟨rfl, rfl⟩
  have hentry := osm_pi_rcv_process_entry_trace s w
  have hec : (osm_pi_rcv_process_entry s w).trace.count Event.plock_excl_acquire = 1
      ∧ (osm_pi_rcv_process_entry s w).trace.count Event.plock_release = 0 := by
    rw [hentry, List.count_append, List.count_append, (count_lock_of_countP hpre.1).1,
      (count_lock_of_countP hpre.1).2]
    exact ⟨rfl, rfl⟩
  have hknown : ∀ p_port : osm_port_t,
      s.subn.port_guid_tbl w.context.port_guid = some p_port →
      w.context.light_sweep = false →
      ∃ mid : List Event, mid.countP Event.isLock = 0
        ∧ (osm_pi_rcv_process env s w).trace
          = (osm_pi_rcv_process_entry s w).trace ++ mid ++ [Event.plock_release]
        ∧ (if w.context.set_method = true then
            osm_pi_rcv_process_set env (osm_pi_rcv_process_entry s w) p_port
              (osm_madw_port_num w) (osm_madw_cleared w)
          else
            osm_pi_rcv_process_get env (osm_pi_rcv_process_entry s w)
              w.context.port_guid p_port (osm_madw_port_num w)
              (osm_madw_cleared w)).trace
          = (osm_pi_rcv_process_entry s w).trace ++ mid
        ∧ (osm_pi_rcv_process env s w).store
          = (if w.context.set_method = true then
            osm_pi_rcv_process_set env (osm_pi_rcv_process_entry s w) p_port
              (osm_madw_port_num w) (osm_madw_cleared w)
          else
            osm_pi_rcv_process_get env (osm_pi_rcv_process_entry s w)
              w.context.port_guid p_port (osm_madw_port_num w)
              (osm_madw_cleared w)).store := by
    intro p_port hp hl
    by_cases hset : w.context.set_method = true
    · obtain ⟨h1, h2⟩ := osm_pi_rcv_process_of_set env s w p_port hl hset hp
      obtain ⟨mid, hm, hc⟩ := osm_pi_rcv_process_set_continues env
        (osm_pi_rcv_process_entry s w) p_port (osm_madw_port_num w) (osm_madw_cleared w)
      refine ⟨mid, hc, ?_, ?_, ?_⟩
      · rw [h2, hm]
      · rw [if_pos hset, hm]
      · rw [if_pos hset, h1]
    · have hset' : w.context.set_method = false := by simpa using hset
      obtain ⟨h1, h2⟩ := osm_pi_rcv_process_of_get env s w p_port hl hset' hp
      obtain ⟨mid, hm, hc⟩ := osm_pi_rcv_process_get_continues env
        (osm_pi_rcv_process_entry s w) w.context.port_guid p_port (osm_madw_port_num w)
        (osm_madw_cleared w)
      refine ⟨mid, hc, ?_, ?_, ?_⟩
      · rw [h2, hm]
      · rw [if_neg hset, hm]
      · rw [if_neg hset, h1]
  have hunknown : w.context.light_sweep = false →
      s.subn.port_guid_tbl w.context.port_guid = none →
      (osm_pi_rcv_process env s w).trace
        = (osm_pi_rcv_process_entry s w).trace
          ++ [Event.plock_release, Event.log osm_log_level_t.error 0x0F06] := by
    intro hl hp
    simp only [osm_pi_rcv_process, hl, Bool.false_eq_true, if_false, osm_pi_rcv_process_entry]
    split_ifs <;>
      (rw [osm_pi_rcv_process_locked_unknown _ _ _ _ _ hp]; simp [Machine.emit, Machine.log])
  constructor
  · intro hl
    refine ⟨?_, ?_, osm_pi_rcv_process_store_of_light_or_unknown env s w (Or.inl hl)⟩
    · simp only [osm_pi_rcv_process, hl, if_true]
      split_ifs <;> rfl
    · simp only [osm_pi_rcv_process, hl, if_true]
      split_ifs <;> rfl
  · intro hl
    refine ⟨⟨_, hentry, hpre.1, hpre.2⟩, osm_pi_rcv_process_entry_store s w, ?_, ?_, ?_,
      fun p_port hp => hknown p_port hp hl⟩
    · cases hp : s.subn.port_guid_tbl w.context.port_guid with
      | none =>
        rw [hunknown hl hp, List.count_append, hec.1]
        rfl
      | some p_port =>
        obtain ⟨mid, hc, ht, -, -⟩ := hknown p_port hp hl
        rw [ht, List.count_append, List.count_append, hec.1, (count_lock_of_countP hc).1]
        rfl
    · cases hp : s.subn.port_guid_tbl w.context.port_guid with
      | none =>
        rw [hunknown hl hp, List.count_append, hec.2]
        rfl
      | some p_port =>
        obtain ⟨mid, hc, ht, -, -⟩ := hknown p_port hp hl
        rw [ht, List.count_append, List.count_append, hec.2, (count_lock_of_countP hc).2]
        rfl
    · intro hp
      exact ⟨hunknown hl hp,
        osm_pi_rcv_process_store_of_light_or_unknown env s w (Or.inr hp)⟩

/-- Witness for claim C28: a discovery read for port 3 of the Port 0x21 of the
example fabric: the dump, the acquire, then a log entry, the NodeInfo request and
the two PKeyTable requests, then the release. -/
theorem osm_pi_rcv_process_lock_discipline_witness :
    (osm_pi_rcv_process Example.env_ok Example.store_fabric
        (Example.madw_get 0x21 3 IB_LINK_ACTIVE 2 0x0100)).trace
      = [Event.dump_port_info osm_log_level_t.debug, Event.plock_excl_acquire,
          Event.log osm_log_level_t.verbose 0,
          Event.req_get ⟨7, 2, [0, 1, 3]⟩ AttrId.node_info 0
            (osm_madw_context_t.ni_context 0x21 3) true,
          Event.req_get ⟨7, 1, [0, 1]⟩ AttrId.p_key_table 768
            (osm_madw_context_t.pkey_context 0x21 0x21 false) true,
          Event.req_get ⟨7, 1, [0, 1]⟩ AttrId.p_key_table 16777984
            (osm_madw_context_t.pkey_context 0x21 0x21 false) true,
          Event.plock_release]
      ∧ (osm_pi_rcv_process Example.env_ok Example.store_fabric
        (Example.madw_get 0x21 3 IB_LINK_ACTIVE 2 0x0100)).trace.count
          Event.plock_excl_acquire = 1
      ∧ (osm_pi_rcv_process Example.env_ok Example.store_fabric
        (Example.madw_get 0x21 3 IB_LINK_ACTIVE 2 0x0100)).trace.count
          Event.plock_release = 1 :=
  ⟨by decide,
    ((osm_pi_rcv_process_lock_discipline Example.env_ok Example.store_fabric
      (Example.madw_get 0x21 3 IB_LINK_ACTIVE 2 0x0100)).2 rfl).2.2.1,
    ((osm_pi_rcv_process_lock_discipline Example.env_ok Example.store_fabric
      (Example.madw_get 0x21 3 IB_LINK_ACTIVE 2 0x0100)).2 rfl).2.2.2.1⟩

/-! ## Claim C29: a switch and the minimum aggregates -/

theorem osm_pi_rcv_process_switch_port_0_id (env : Env) (m : Machine) (n : Nat)
    (p : Nat × Nat) (p_pi : ib_port_info_t) (h0 : osm_physp_get_port_num p ≠ 0) :
    osm_pi_rcv_process_switch_port_0 env m n p p_pi = m := by
  simp only [osm_pi_rcv_process_switch_port_0]
  rw [if_neg h0]

theorem osm_pi_rcv_process_switch_port_minima (env : Env) (m : Machine) (n : Nat)
    (p : Nat × Nat) (p_pi : ib_port_info_t) :
    (osm_pi_rcv_process_switch_port env m n p p_pi).store.subn.min_ca_mtu
        = m.store.subn.min_ca_mtu
      ∧ (osm_pi_rcv_process_switch_port env m n p p_pi).store.subn.min_ca_rate
        = m.store.subn.min_ca_rate := by
  have hs : ((osm_pi_rcv_process_switch_port_probe env m n p p_pi).setStore
      (osm_physp_set_port_info (osm_pi_rcv_process_switch_port_probe env m n p p_pi).store
        p p_pi)).store.subn = m.store.subn := by
    simp only [Machine.setStore_store, osm_physp_set_port_info, Store.setPhysp_subn,
      osm_pi_rcv_process_switch_port_probe_subn]
  simp only [osm_pi_rcv_process_switch_port, osm_pi_rcv_process_switch_port_0]
  by_cases h0 : osm_physp_get_port_num p = 0
  · rw [if_pos h0]
    obtain ⟨h1, h2⟩ := osm_pi_rcv_process_endport_minima env
      (osm_pi_rcv_process_switch_port_bsp0 (osm_pi_rcv_trim_base_lid
        ((osm_pi_rcv_process_switch_port_probe env m n p p_pi).setStore
          (osm_physp_set_port_info (osm_pi_rcv_process_switch_port_probe env m n p p_pi).store
            p p_pi)) p 0x0F04) n p p_pi) p p_pi
    rw [h1, h2, if_neg (by simpa using h0), if_neg (by simpa using h0),
      osm_pi_rcv_process_switch_port_bsp0_subn, osm_pi_rcv_trim_base_lid_store,
      osm_physp_trim_base_lid_subn, hs]
    exact ⟨rfl, rfl⟩
  · rw [if_neg h0, hs]
    exact ⟨rfl, rfl⟩

theorem osm_pi_rcv_process_switch_port_subn (env : Env) (m : Machine) (n : Nat)
    (p : Nat × Nat) (p_pi : ib_port_info_t) (h0 : osm_physp_get_port_num p ≠ 0) :
    (osm_pi_rcv_process_switch_port env m n p p_pi).store.subn = m.store.subn
      ∧ (osm_pi_rcv_process_switch_port env m n p p_pi).trace
        = (osm_pi_rcv_process_switch_port_probe env m n p p_pi).trace := by
  simp only [osm_pi_rcv_process_switch_port, osm_pi_rcv_process_switch_port_0_id _ _ _ _ _ h0,
    Machine.setStore_store, Machine.setStore_trace, osm_physp_set_port_info,
    Store.setPhysp_subn, osm_pi_rcv_process_switch_port_probe_subn, and_self]

theorem smCount_logIfActive (m : Machine) (env : Env) (l : osm_log_level_t) :
    (m.logIfActive env l).trace.countP (Event.isReqFor AttrId.sm_info)
      = m.trace.countP (Event.isReqFor AttrId.sm_info) := by
  rw [Machine.logIfActive_trace]; split_ifs <;> simp [Event.isReqFor]

theorem osm_pi_rcv_process_switch_port_probe_smCount (env : Env) (m : Machine) (n : Nat)
    (p : Nat × Nat) (p_pi : ib_port_info_t) :
    (osm_pi_rcv_process_switch_port_probe env m n p p_pi).trace.countP
        (Event.isReqFor AttrId.sm_info)
      = m.trace.countP (Event.isReqFor AttrId.sm_info) := by
  have hd : (osm_pi_rcv_process_switch_port_down m n p).trace.countP
      (Event.isReqFor AttrId.sm_info)
      = m.trace.countP (Event.isReqFor AttrId.sm_info) := by
    simp only [osm_pi_rcv_process_switch_port_down]
    split
    · split_ifs <;> simp [Event.isReqFor]
    · rfl
  have hv : (osm_pi_rcv_process_switch_port_live env m n p p_pi).trace.countP
      (Event.isReqFor AttrId.sm_info)
      = m.trace.countP (Event.isReqFor AttrId.sm_info) := by
    simp only [osm_pi_rcv_process_switch_port_live]
    split_ifs <;> simp [smCount_logIfActive, Event.isReqFor]
  simp only [osm_pi_rcv_process_switch_port_probe, osm_pi_rcv_process_switch_port_state]
  split_ifs <;> simp [hd, hv, Event.isReqFor]

theorem osm_pkey_get_tables_smCount (env : Env) (m : Machine) (n : Nat) (p : Nat × Nat) :
    (osm_pkey_get_tables env m n p).trace.countP (Event.isReqFor AttrId.sm_info)
      = m.trace.countP (Event.isReqFor AttrId.sm_info) := by
  obtain ⟨l, h1, h2⟩ := osm_pkey_get_tables_mem env m n p
  have hl : l.countP (Event.isReqFor AttrId.sm_info) = 0 := by
    rw [List.countP_eq_zero]
    intro e he
    rcases h2 e he with h | ⟨b, st, -, h⟩ <;> rw [h] <;> simp [Event.isReqFor]
  rw [h1, List.countP_append, hl, Nat.add_zero]

theorem osm_pi_rcv_process_get_before_dispatch_sm (env : Env) (m : Machine) (g : Nat)
    (p : Nat × Nat) (pn : Nat) (w : osm_madw_t) :
    (osm_pi_rcv_process_get_before_dispatch env m g p pn w).store.subn.sm_guid_tbl
        = m.store.subn.sm_guid_tbl
      ∧ (osm_pi_rcv_process_get_before_dispatch env m g p pn w).trace.countP
          (Event.isReqFor AttrId.sm_info)
        = m.trace.countP (Event.isReqFor AttrId.sm_info) := by
  simp only [osm_pi_rcv_process_get_before_dispatch, osm_pi_rcv_process_get_master,
    osm_pi_rcv_process_get_physp]
  split_ifs <;>
    simp [smCount_logIfActive, Event.isReqFor, osm_port_add_new_physp, osm_physp_init,
      osm_port_discovery_count_inc, Store.setPhysp]

/-- Claim C29: handling a response whose Port belongs to a node of type switch
never changes `min_ca_mtu` or `min_ca_rate`, whatever the kind of the response.
In `__osm_pi_rcv_process_switch_port` a non-zero port never reaches the endport
processing (lines 345-361 are skipped), and port 0 reaches it but the tracking of
the minima is skipped for port 0. For a discovery read for a non-zero port of a
switch no SMInfo request is issued and the remote-manager table is unchanged. -/
theorem osm_pi_rcv_process_switch_keeps_minima (env : Env) (s : Store) (w : osm_madw_t)
    (p_port : osm_port_t)
    (hp : s.subn.port_guid_tbl w.context.port_guid = some p_port)
    (ht : osm_node_get_type s p_port.p_node = IB_NODE_TYPE_SWITCH) :
    (osm_pi_rcv_process env s w).store.subn.min_ca_mtu = s.subn.min_ca_mtu
      ∧ (osm_pi_rcv_process env s w).store.subn.min_ca_rate = s.subn.min_ca_rate
      ∧ (∀ (m : Machine) (n : Nat) (p : Nat × Nat) (p_pi : ib_port_info_t),
          (osm_physp_get_port_num p ≠ 0 →
            osm_pi_rcv_process_switch_port_0 env m n p p_pi = m)
          ∧ (osm_pi_rcv_process_switch_port env m n p p_pi).store.subn.min_ca_mtu
            = m.store.subn.min_ca_mtu
          ∧ (osm_pi_rcv_process_switch_port env m n p p_pi).store.subn.min_ca_rate
            = m.store.subn.min_ca_rate)
      ∧ (w.context.light_sweep = false → w.context.set_method = false →
          osm_madw_port_num w ≠ 0 →
          (osm_pi_rcv_process env s w).trace.countP (Event.isReqFor AttrId.sm_info) = 0
            ∧ (osm_pi_rcv_process env s w).store.subn.sm_guid_tbl = s.subn.sm_guid_tbl) := by
  have hdis : ∀ m : Machine, m.store.node = s.node →
      osm_pi_rcv_process_get_dispatch env m p_port.p_node
          (p_port.p_node, osm_madw_port_num w) (osm_madw_cleared w).pi
        = osm_pi_rcv_process_switch_port env m p_port.p_node
          (p_port.p_node, osm_madw_port_num w) (osm_madw_cleared w).pi := by
    intro m hm
    have hty : osm_node_get_type m.store p_port.p_node = IB_NODE_TYPE_SWITCH := by
      simp only [osm_node_get_type, hm]; exact ht
    simp only [osm_pi_rcv_process_get_dispatch, hty, if_true]
    rw [if_neg (by decide)]
  have hnode : (osm_pi_rcv_process_get_before_dispatch env (osm_pi_rcv_process_entry s w)
      w.context.port_guid (p_port.p_node, osm_madw_port_num w) (osm_madw_port_num w)
      (osm_madw_cleared w)).store.node = s.node := by
    rw [(osm_pi_rcv_process_get_before_dispatch_frame env _ _ _ _ _).1,
      osm_pi_rcv_process_entry_store]
  have hmin : (osm_pi_rcv_process env s w).store.subn.min_ca_mtu = s.subn.min_ca_mtu
      ∧ (osm_pi_rcv_process env s w).store.subn.min_ca_rate = s.subn.min_ca_rate := by
    by_cases hl : w.context.light_sweep = true
    · rw [osm_pi_rcv_process_store_of_light_or_unknown env s w (Or.inl hl)]
      exact ⟨rfl, rfl⟩
    · have hl' : w.context.light_sweep = false := by simpa using hl
      by_cases hset : w.context.set_method = true
      · rw [(osm_pi_rcv_process_of_set env s w p_port hl' hset hp).1,
          osm_pi_rcv_process_set_subn, osm_pi_rcv_process_entry_store]
        exact ⟨rfl, rfl⟩
      · have hset' : w.context.set_method = false := by simpa using hset
        rw [(osm_pi_rcv_process_of_get env s w p_port hl' hset' hp).1,
          osm_pi_rcv_process_get_eq, osm_pkey_get_tables_subn, hdis _ hnode,
          (osm_pi_rcv_process_switch_port_minima _ _ _ _ _).1,
          (osm_pi_rcv_process_switch_port_minima _ _ _ _ _).2,
          (osm_pi_rcv_process_get_before_dispatch_minima _ _ _ _ _ _).1,
          (osm_pi_rcv_process_get_before_dispatch_minima _ _ _ _ _ _).2,
          osm_pi_rcv_process_entry_store]
        exact ⟨rfl, rfl⟩
  refine ⟨hmin.1, hmin.2, ?_, ?_⟩
  · intro m n p p_pi
    exact ⟨fun h0 => osm_pi_rcv_process_switch_port_0_id env m n p p_pi h0,
      osm_pi_rcv_process_switch_port_minima env m n p p_pi⟩
  · intro hl hset h0
    obtain ⟨h1, h2⟩ := osm_pi_rcv_process_of_get env s w p_port hl hset hp
    obtain ⟨k1, k2⟩ := osm_pi_rcv_process_switch_port_subn env
      (osm_pi_rcv_process_get_before_dispatch env (osm_pi_rcv_process_entry s w)
        w.context.port_guid (p_port.p_node, osm_madw_port_num w) (osm_madw_port_num w)
        (osm_madw_cleared w))
      p_port.p_node (p_port.p_node, osm_madw_port_num w) (osm_madw_cleared w).pi h0
    obtain ⟨b1, b2⟩ := osm_pi_rcv_process_get_before_dispatch_sm env
      (osm_pi_rcv_process_entry s w) w.context.port_guid
      (p_port.p_node, osm_madw_port_num w) (osm_madw_port_num w) (osm_madw_cleared w)
    have he : (osm_pi_rcv_process_entry s w).trace.countP (Event.isReqFor AttrId.sm_info)
        = 0 := by
      rw [osm_pi_rcv_process_entry_trace]
      split_ifs <;> rfl
    constructor
    · rw [h2, osm_pi_rcv_process_get_eq, List.countP_append, osm_pkey_get_tables_smCount,
        hdis _ hnode, k2, osm_pi_rcv_process_switch_port_probe_smCount, b2, he]
      rfl
    · rw [h1, osm_pi_rcv_process_get_eq, osm_pkey_get_tables_subn, hdis _ hnode, k1, b1,
        osm_pi_rcv_process_entry_store]

/-- Witness for claim C29: port 0 and port 3 of the switch Port 0x21 report an MTU
capability 4 and a rate 3 below the minima 5 and 10 of the example fabric: the
minima stay 5 and 10. -/
theorem osm_pi_rcv_process_switch_keeps_minima_witness :
    (osm_pi_rcv_process Example.env_ok Example.store_fabric
        (Example.madw_get 0x21 0 IB_LINK_ACTIVE 2 0x0100)).store.subn.min_ca_mtu = 5
      ∧ (osm_pi_rcv_process Example.env_ok Example.store_fabric
        (Example.madw_get 0x21 0 IB_LINK_ACTIVE 2 0x0100)).store.subn.min_ca_rate = 10
      ∧ (osm_pi_rcv_process Example.env_ok Example.store_fabric
        (Example.madw_get 0x21 3 IB_LINK_ACTIVE 2 0x0100)).store.subn.min_ca_mtu = 5 :=
  ⟨(osm_pi_rcv_process_switch_keeps_minima Example.env_ok Example.store_fabric
      (Example.madw_get 0x21 0 IB_LINK_ACTIVE 2 0x0100) ⟨1, 0, [0]⟩ rfl rfl).1,
    (osm_pi_rcv_process_switch_keeps_minima Example.env_ok Example.store_fabric
      (Example.madw_get 0x21 0 IB_LINK_ACTIVE 2 0x0100) ⟨1, 0, [0]⟩ rfl rfl).2.1,
    (osm_pi_rcv_process_switch_keeps_minima Example.env_ok Example.store_fabric
      (Example.madw_get 0x21 3 IB_LINK_ACTIVE 2 0x0100) ⟨1, 0, [0]⟩ rfl rfl).1⟩

/-! ## Claim C30: the answer to a SubnAdmGet query for LFT records -/

/-- Taking an item from the pool sends nothing. -/
theorem cl_qlock_pool_get_sends (env : LftrEnv) (m : LftrMachine) :
    (cl_qlock_pool_get env m).2.trace.filter LftrEvent.isSend
      = m.trace.filter LftrEvent.isSend := by
  simp [cl_qlock_pool_get, LftrEvent.isSend]

/-- Building a record sends nothing. -/
theorem osm_lftr_rcv_new_lftr_sends (env : LftrEnv) (p_rcv : osm_lftr_rcv_t) (m : LftrMachine)
    (p_sw lid block : Nat) :
    (osm_lftr_rcv_new_lftr env p_rcv m p_sw lid block).trace.filter LftrEvent.isSend
      = m.trace.filter LftrEvent.isSend := by
  have h := cl_qlock_pool_get_sends env m
  simp only [osm_lftr_rcv_new_lftr]
  split_ifs <;>
    simp [LftrMachine.log, LftrMachine.emit, LftrEvent.isSend, h]

/-- The block loop sends nothing. -/
theorem osm_lftr_rcv_by_comp_mask_loop_sends (env : LftrEnv) (p_rcv : osm_lftr_rcv_t)
    (p_sw lid max_block : Nat) :
    ∀ (fuel block : Nat) (m m' : LftrMachine),
      osm_lftr_rcv_by_comp_mask_loop env p_rcv p_sw lid max_block fuel block m = some m' →
      m'.trace.filter LftrEvent.isSend = m.trace.filter LftrEvent.isSend := by
  intro fuel
  induction fuel with
  | zero => intro block m m' h; simp [osm_lftr_rcv_by_comp_mask_loop] at h
  | succ k ih =>
    intro block m m' h
    simp only [osm_lftr_rcv_by_comp_mask_loop] at h
    split_ifs at h with hb
    · rw [ih _ _ _ h, osm_lftr_rcv_new_lftr_sends]
    · cases h; rfl

/-- Looking a Port up sends nothing. -/
theorem osm_lftr_get_port_by_guid_sends (p_rcv : osm_lftr_rcv_t) (m : LftrMachine) (g : Nat) :
    (osm_lftr_get_port_by_guid p_rcv m g).2.trace.filter LftrEvent.isSend
      = m.trace.filter LftrEvent.isSend := by
  simp only [osm_lftr_get_port_by_guid]
  cases osm_get_port_by_guid p_rcv.p_subn.subn g <;>
    simp [LftrMachine.log, LftrMachine.emit, LftrEvent.isSend]

/-- The visit of a switch sends nothing. -/
theorem osm_lftr_rcv_by_comp_mask_sends (fuel : Nat) (env : LftrEnv) (p_rcv : osm_lftr_rcv_t)
    (p_ctxt : osm_lftr_search_ctxt_t) (m m' : LftrMachine) (p_sw : Nat)
    (h : osm_lftr_rcv_by_comp_mask fuel env p_rcv p_ctxt m p_sw = some m') :
    m'.trace.filter LftrEvent.isSend = m.trace.filter LftrEvent.isSend := by
  have hg := osm_lftr_get_port_by_guid_sends p_rcv m (p_rcv.p_subn.node p_sw).node_info.port_guid
  simp only [osm_lftr_rcv_by_comp_mask] at h
  split at h
  · cases h; simp [LftrMachine.log, LftrMachine.emit, LftrEvent.isSend, hg]
  · split at h
    · cases h; simp [LftrMachine.log, LftrMachine.emit, LftrEvent.isSend, hg]
    · split_ifs at h
      · cases h; exact hg
      · cases h; simp [LftrMachine.log, LftrMachine.emit, LftrEvent.isSend, hg]
      · cases h; exact hg
      · rw [osm_lftr_rcv_by_comp_mask_loop_sends _ _ _ _ _ _ _ _ _ h]
        simp [LftrMachine.log, LftrMachine.emit, LftrEvent.isSend, hg]
      · rw [osm_lftr_rcv_by_comp_mask_loop_sends _ _ _ _ _ _ _ _ _ h]
        exact hg

/-- A function that sends nothing, applied to every item of a map, sends
nothing. -/
theorem cl_qmap_apply_func_sends (f : LftrMachine → Nat → Option LftrMachine)
    (hf : ∀ m p m', f m p = some m' →
      m'.trace.filter LftrEvent.isSend = m.trace.filter LftrEvent.isSend) :
    ∀ (l : List Nat) (m m' : LftrMachine), cl_qmap_apply_func f l m = some m' →
      m'.trace.filter LftrEvent.isSend = m.trace.filter LftrEvent.isSend := by
  intro l
  induction l with
  | nil => intro m m' h; simp only [cl_qmap_apply_func] at h; cases h; rfl
  | cons p rest ih =>
    intro m m' h
    simp only [cl_qmap_apply_func] at h
    cases hp : f m p with
    | none => rw [hp] at h; cases h
    | some m1 =>
      rw [hp] at h
      rw [ih _ _ h, hf _ _ _ hp]

/-- The search sends nothing. -/
theorem osm_lftr_rcv_process_search_sends (fuel : Nat) (env : LftrEnv) (p_rcv : osm_lftr_rcv_t)
    (m m' : LftrMachine) (p_madw : osm_sa_madw_t) (p_req_physp : Nat × Nat)
    (h : osm_lftr_rcv_process_search fuel env p_rcv m p_madw p_req_physp = some m') :
    m'.trace.filter LftrEvent.isSend = m.trace.filter LftrEvent.isSend := by
  simp only [osm_lftr_rcv_process_search] at h
  split at h
  · cases h
  · rename_i m2 h2
    cases h
    have h3 := cl_qmap_apply_func_sends _
      (fun a p a' => osm_lftr_rcv_by_comp_mask_sends fuel env p_rcv
        (osm_lftr_rcv_process_context p_madw p_req_physp) a a' p) _ _ _ h2
    simp [LftrMachine.emit, LftrEvent.isSend, h3]

/-- The block loop ends when the last block is not `0xFFFF`: one evaluation of
the condition more than there are blocks left is enough. -/
theorem osm_lftr_rcv_by_comp_mask_loop_some (env : LftrEnv) (p_rcv : osm_lftr_rcv_t)
    (p_sw lid max_block : Nat) (hmax : max_block < 65535) :
    ∀ (fuel block : Nat) (m : LftrMachine), max_block + 1 ≤ fuel + block →
      ∃ m', osm_lftr_rcv_by_comp_mask_loop env p_rcv p_sw lid max_block (fuel + 1) block m
        = some m' := by
  intro fuel
  induction fuel with
  | zero =>
    intro block m h
    have hb : ¬ block ≤ max_block := by omega
    exact ⟨m, by simp [osm_lftr_rcv_by_comp_mask_loop, hb]⟩
  | succ k ih =>
    intro block m h
    by_cases hb : block ≤ max_block
    · have hmod : (block + 1) % 65536 = block + 1 := Nat.mod_eq_of_lt (by omega)
      obtain ⟨m', hm'⟩ := ih (block + 1)
        (osm_lftr_rcv_new_lftr env p_rcv m p_sw lid (cl_hton16 block)) (by omega)
      refine ⟨m', ?_⟩
      rw [osm_lftr_rcv_by_comp_mask_loop, if_pos hb, hmod]
      exact hm'
    · exact ⟨m, by rw [osm_lftr_rcv_by_comp_mask_loop, if_neg hb]⟩

/-- The visit of a switch ends within 65536 evaluations of the loop condition when
the last block of the switch is not `0xFFFF`. -/
theorem osm_lftr_rcv_by_comp_mask_some (fuel : Nat) (env : LftrEnv) (p_rcv : osm_lftr_rcv_t)
    (p_ctxt : osm_lftr_search_ctxt_t) (m : LftrMachine) (p_sw : Nat)
    (hf : 65536 ≤ fuel)
    (hmax : osm_lftr_rcv_by_comp_mask_max_block p_rcv p_ctxt p_sw < 65535) :
    ∃ m', osm_lftr_rcv_by_comp_mask fuel env p_rcv p_ctxt m p_sw = some m' := by
  obtain ⟨k, rfl⟩ : ∃ k, fuel = k + 1 := ⟨fuel - 1, by omega⟩
  simp only [osm_lftr_rcv_by_comp_mask]
  split
  · exact ⟨_, rfl⟩
  · split
    · exact ⟨_, rfl⟩
    · split_ifs
      · exact ⟨_, rfl⟩
      · exact ⟨_, rfl⟩
      · exact ⟨_, rfl⟩
      · exact osm_lftr_rcv_by_comp_mask_loop_some env p_rcv p_sw _ _ hmax k _ _ (by omega)
      · exact osm_lftr_rcv_by_comp_mask_loop_some env p_rcv p_sw _ _ hmax k _ _ (by omega)

/-- A function that returns on every item of a map returns on the map. -/
theorem cl_qmap_apply_func_some (f : LftrMachine → Nat → Option LftrMachine) :
    ∀ (l : List Nat), (∀ p ∈ l, ∀ m, ∃ m', f m p = some m') →
      ∀ m, ∃ m', cl_qmap_apply_func f l m = some m' := by
  intro l
  induction l with
  | nil => intro _ m; exact ⟨m, rfl⟩
  | cons p rest ih =>
    intro hf m
    obtain ⟨m1, h1⟩ := hf p (List.mem_cons_self _ _) m
    obtain ⟨m2, h2⟩ := ih (fun q hq => hf q (List.mem_cons_of_mem _ hq)) m1
    exact ⟨m2, by simp only [cl_qmap_apply_func, h1, h2]⟩

/-- The search ends within 65536 evaluations of the loop condition per switch when
the last block of no switch is `0xFFFF`. -/
theorem osm_lftr_rcv_process_search_some (fuel : Nat) (env : LftrEnv) (p_rcv : osm_lftr_rcv_t)
    (m : LftrMachine) (p_madw : osm_sa_madw_t) (p_req_physp : Nat × Nat)
    (hf : 65536 ≤ fuel)
    (hmax : ∀ p_sw ∈ p_rcv.sw_guid_tbl,
      osm_lftr_rcv_by_comp_mask_max_block p_rcv
        (osm_lftr_rcv_process_context p_madw p_req_physp) p_sw < 65535) :
    ∃ m', osm_lftr_rcv_process_search fuel env p_rcv m p_madw p_req_physp = some m' := by
  obtain ⟨m2, h2⟩ := cl_qmap_apply_func_some
    (osm_lftr_rcv_by_comp_mask fuel env p_rcv (osm_lftr_rcv_process_context p_madw p_req_physp))
    p_rcv.sw_guid_tbl
    (fun p hp a => osm_lftr_rcv_by_comp_mask_some fuel env p_rcv _ a p hf (hmax p hp))
    ({ m with rec_list := [] }.emit LftrEvent.plock_acquire)
  exact ⟨m2.emit LftrEvent.plock_release, by simp only [osm_lftr_rcv_process_search, h2]⟩

/-- Returning the heads of the list to the pool adds one `pool_put` per item to the
trace. -/
theorem osm_lftr_rcv_put_heads_trace :
    ∀ (k : Nat) (m : LftrMachine),
      (osm_lftr_rcv_put_heads k m).trace = m.trace ++ List.replicate k LftrEvent.pool_put := by
  intro k
  induction k with
  | zero => intro m; simp [osm_lftr_rcv_put_heads]
  | succ k ih =>
    intro m
    rw [osm_lftr_rcv_put_heads, ih]
    simp [cl_qlock_pool_put, List.replicate_succ]

/-- Returning items to the pool sends nothing. -/
theorem osm_lftr_rcv_put_heads_sends (k : Nat) (m : LftrMachine) :
    (osm_lftr_rcv_put_heads k m).trace.filter LftrEvent.isSend
      = m.trace.filter LftrEvent.isSend := by
  rw [osm_lftr_rcv_put_heads_trace]
  simp [LftrEvent.isSend]

/-- A SubnAdmGet query that matched nothing is answered with the status "no
records" and nothing else is done. -/
theorem osm_lftr_rcv_process_respond_none (env : LftrEnv) (p_rcv : osm_lftr_rcv_t)
    (m : LftrMachine) (p_madw : osm_sa_madw_t)
    (hmethod : p_madw.sa_mad.method = IB_MAD_METHOD_GET) (h : m.rec_list = []) :
    osm_lftr_rcv_process_respond env p_rcv m p_madw
      = m.emit (LftrEvent.sa_send_error ib_sa_status_t.IB_SA_MAD_STATUS_NO_RECORDS) := by
  simp [osm_lftr_rcv_process_respond, hmethod, h]

/-- A SubnAdmGet query that matched several records is answered with the status
"too many records", and every item goes back to the pool. -/
theorem osm_lftr_rcv_process_respond_many (env : LftrEnv) (p_rcv : osm_lftr_rcv_t)
    (m : LftrMachine) (p_madw : osm_sa_madw_t)
    (hmethod : p_madw.sa_mad.method = IB_MAD_METHOD_GET)
    (h1 : 1 < m.rec_list.length) (h2 : m.rec_list.length < 4294967296) :
    (osm_lftr_rcv_process_respond env p_rcv m p_madw).trace
      = m.trace ++ [LftrEvent.log osm_log_level_t.error 0x4409,
          LftrEvent.sa_send_error ib_sa_status_t.IB_SA_MAD_STATUS_TOO_MANY_RECORDS]
        ++ List.replicate m.rec_list.length LftrEvent.pool_put := by
  have hmod : m.rec_list.length % 4294967296 = m.rec_list.length := Nat.mod_eq_of_lt h2
  have h0 : ¬ m.rec_list.length = 0 := by omega
  simp only [osm_lftr_rcv_process_respond, hmethod, hmod, true_and, if_neg h0, gt_iff_lt,
    if_pos h1, osm_lftr_rcv_put_heads_trace]
  simp [LftrMachine.log, LftrMachine.emit]

/-- A SubnAdmGet query that matched one record: a response MAD for one record is
requested; when there is one, the item goes back to the pool and the response
with the record is sent; when there is none, the item goes back to the pool and
the status "no resources" is sent. -/
theorem osm_lftr_rcv_process_respond_one (env : LftrEnv) (p_rcv : osm_lftr_rcv_t)
    (m : LftrMachine) (p_madw : osm_sa_madw_t) (r : ib_lft_record_t)
    (hmethod : p_madw.sa_mad.method = IB_MAD_METHOD_GET) (h : m.rec_list = [r]) :
    (osm_lftr_rcv_process_respond env p_rcv m p_madw).trace
      = m.trace ++ [LftrEvent.log osm_log_level_t.debug 0,
          LftrEvent.mad_pool_get 128 env.mad_pool_get_ok]
        ++ (if env.mad_pool_get_ok = true then
              [LftrEvent.pool_put,
               LftrEvent.vendor_send
                 ⟨p_madw.h_bind, 128, p_madw.mad_addr, lftr_resp_header p_madw, [r]⟩
                 env.vendor_send_ok]
              ++ (if env.vendor_send_ok = true then []
                  else [LftrEvent.log osm_log_level_t.error 0x4411])
            else
              [LftrEvent.log osm_log_level_t.error 0x4410, LftrEvent.pool_put,
               LftrEvent.sa_send_error ib_sa_status_t.IB_SA_MAD_STATUS_NO_RESOURCES]) := by
  have hm : (1 ||| IB_MAD_METHOD_RESP_MASK) % 256 = 0x81 := by decide
  cases hp : env.mad_pool_get_ok <;> cases hv : env.vendor_send_ok <;>
    simp [osm_lftr_rcv_process_respond, osm_lftr_rcv_process_reply, osm_lftr_rcv_process_send,
      osm_lftr_rcv_copy_loop, osm_lftr_rcv_put_heads, cl_qlock_pool_put, hmethod, h, hp, hv, hm,
      IB_MAD_METHOD_GET, IB_MAD_METHOD_GETTABLE, IB_MAD_METHOD_GETTABLE_RESP, MAD_BLOCK_SIZE,
      IB_SA_MAD_HDR_SIZE, sizeof_ib_lft_record_t, LftrMachine.log, LftrMachine.emit,
      lftr_resp_header]

/-- Claim C30: a SubnAdmGet LFT-record query of a known requester. The search returns
(within 65536 evaluations of the loop condition per switch) when the last block
of no switch is `0xFFFF`; and whenever the search returns, with the list of
matching records `m.rec_list`, the receiver returns and what it sends is: the
status "no records" and nothing else when the list is empty; the status "too
many records" and nothing else when the list has more than one record (and
fewer than 2^32, the width of the counter); for a list of one record, the
response with that record when a response MAD is available, the status "no
resources" otherwise. So a record response is sent only when exactly one record
matches. -/
theorem osm_lftr_rcv_process_get_one_record (fuel : Nat) (env : LftrEnv)
    (p_rcv : osm_lftr_rcv_t) (pool_in_use : Nat) (p_madw : osm_sa_madw_t)
    (p_req_physp : Nat × Nat)
    (hmethod : p_madw.sa_mad.method = IB_MAD_METHOD_GET)
    (hreq : p_rcv.osm_get_physp_by_mad_addr p_madw.mad_addr = some p_req_physp) :
    (65536 ≤ fuel →
      (∀ p_sw ∈ p_rcv.sw_guid_tbl,
        osm_lftr_rcv_by_comp_mask_max_block p_rcv
          (osm_lftr_rcv_process_context p_madw p_req_physp) p_sw < 65535) →
      ∃ m, osm_lftr_rcv_process_search fuel env p_rcv ⟨pool_in_use, [], []⟩ p_madw p_req_physp
        = some m)
    ∧ ∀ m, osm_lftr_rcv_process_search fuel env p_rcv ⟨pool_in_use, [], []⟩ p_madw p_req_physp
        = some m →
      ∃ m', osm_lftr_rcv_process fuel env p_rcv pool_in_use p_madw = some m'
        ∧ (m.rec_list = [] →
            m'.trace.filter LftrEvent.isSend
              = [LftrEvent.sa_send_error ib_sa_status_t.IB_SA_MAD_STATUS_NO_RECORDS])
        ∧ (1 < m.rec_list.length → m.rec_list.length < 4294967296 →
            m'.trace.filter LftrEvent.isSend
              = [LftrEvent.sa_send_error ib_sa_status_t.IB_SA_MAD_STATUS_TOO_MANY_RECORDS])
        ∧ (∀ r, m.rec_list = [r] →
            m'.trace.filter LftrEvent.isSend
              = if env.mad_pool_get_ok = true then
                  [LftrEvent.vendor_send
                    ⟨p_madw.h_bind, 128, p_madw.mad_addr, lftr_resp_header p_madw, [r]⟩
                    env.vendor_send_ok]
                else [LftrEvent.sa_send_error ib_sa_status_t.IB_SA_MAD_STATUS_NO_RESOURCES])
        ∧ (m.rec_list.length < 4294967296 →
            ∀ resp ok, LftrEvent.vendor_send resp ok ∈ m'.trace → m.rec_list.length = 1) := by
  refine ⟨fun hf hmax => osm_lftr_rcv_process_search_some fuel env p_rcv _ p_madw p_req_physp
    hf hmax, ?_⟩
  intro m hs
  have hsend : m.trace.filter LftrEvent.isSend = [] := by
    rw [osm_lftr_rcv_process_search_sends fuel env p_rcv _ m p_madw p_req_physp hs]
    rfl
  have hproc : osm_lftr_rcv_process fuel env p_rcv pool_in_use p_madw
      = some (osm_lftr_rcv_process_respond env p_rcv m p_madw) := by
    have hne : ¬ (p_madw.sa_mad.method ≠ IB_MAD_METHOD_GET
        ∧ p_madw.sa_mad.method ≠ IB_MAD_METHOD_GETTABLE) := fun hc => hc.1 hmethod
    simp only [osm_lftr_rcv_process, if_neg hne, hreq, hs]
  have h0 : m.rec_list = [] →
      (osm_lftr_rcv_process_respond env p_rcv m p_madw).trace.filter LftrEvent.isSend
        = [LftrEvent.sa_send_error ib_sa_status_t.IB_SA_MAD_STATUS_NO_RECORDS] := by
    intro h
    rw [osm_lftr_rcv_process_respond_none env p_rcv m p_madw hmethod h]
    simp [LftrMachine.emit, hsend, LftrEvent.isSend]
  have hmany : 1 < m.rec_list.length → m.rec_list.length < 4294967296 →
      (osm_lftr_rcv_process_respond env p_rcv m p_madw).trace.filter LftrEvent.isSend
        = [LftrEvent.sa_send_error ib_sa_status_t.IB_SA_MAD_STATUS_TOO_MANY_RECORDS] := by
    intro h1 h2
    rw [osm_lftr_rcv_process_respond_many env p_rcv m p_madw hmethod h1 h2]
    simp [hsend, LftrEvent.isSend]
  refine ⟨_, hproc, h0, hmany, ?_, ?_⟩
  · intro r h
    rw [osm_lftr_rcv_process_respond_one env p_rcv m p_madw r hmethod h]
    cases hp : env.mad_pool_get_ok <;> cases hv : env.vendor_send_ok <;>
      simp [hsend, LftrEvent.isSend]
  · intro hlt resp ok hmem
    have hf : LftrEvent.vendor_send resp ok
        ∈ (osm_lftr_rcv_process_respond env p_rcv m p_madw).trace.filter LftrEvent.isSend :=
      List.mem_filter.mpr ⟨hmem, rfl⟩
    rcases Nat.lt_trichotomy m.rec_list.length 1 with hl | hl | hl
    · have hnil : m.rec_list = [] := List.length_eq_zero.mp (by omega)
      rw [h0 hnil] at hf
      simp at hf
    · exact hl
    · rw [hmany hl hlt] at hf
      simp at hf

/-- Witness for claim C30: in the small fabric a SubnAdmGet query for the LID 4 with no
block number matches the two blocks of node 1; the search returns and the only
thing sent is the status "too many records". -/
theorem osm_lftr_rcv_process_get_one_record_witness :
    (Example.lftr_madw IB_MAD_METHOD_GET IB_LFTR_COMPMASK_LID 0x0400 0).sa_mad.method
        = IB_MAD_METHOD_GET
    ∧ Example.lftr_rcv.osm_get_physp_by_mad_addr
        (Example.lftr_madw IB_MAD_METHOD_GET IB_LFTR_COMPMASK_LID 0x0400 0).mad_addr = some (3, 1)
    ∧ ∃ m', osm_lftr_rcv_process 65536 Example.lftr_env_ok Example.lftr_rcv 0
          (Example.lftr_madw IB_MAD_METHOD_GET IB_LFTR_COMPMASK_LID 0x0400 0) = some m'
        ∧ m'.trace.filter LftrEvent.isSend
          = [LftrEvent.sa_send_error ib_sa_status_t.IB_SA_MAD_STATUS_TOO_MANY_RECORDS] := by
  have h := osm_lftr_rcv_process_get_one_record 65536 Example.lftr_env_ok Example.lftr_rcv 0
    (Example.lftr_madw IB_MAD_METHOD_GET IB_LFTR_COMPMASK_LID 0x0400 0) (3, 1) rfl rfl
  obtain ⟨m, hm⟩ := h.1 (by decide) (by decide)
  have hlen : (osm_lftr_rcv_process_search 65536 Example.lftr_env_ok Example.lftr_rcv ⟨0, [], []⟩
      (Example.lftr_madw IB_MAD_METHOD_GET IB_LFTR_COMPMASK_LID 0x0400 0) (3, 1)).map
      (fun a => a.rec_list.length) = some 2 := by decide
  rw [hm] at hlen
  have h2 : m.rec_list.length = 2 := by simpa using hlen
  obtain ⟨m', hp, _, hmany, _, _⟩ := h.2 m hm
  exact ⟨rfl, rfl, m', hp, hmany (by omega) (by omega)⟩

/-! ## The visit of a switch by the search for LFT records -/

/-- The Port that `__osm_lftr_get_port_by_guid` returns is the one of the
subnet. -/
theorem osm_lftr_get_port_by_guid_fst (p_rcv : osm_lftr_rcv_t) (m : LftrMachine) (g : Nat) :
    (osm_lftr_get_port_by_guid p_rcv m g).1 = osm_get_port_by_guid p_rcv.p_subn.subn g := rfl

/-- Looking a Port up leaves the list, the pool and the number of pool requests
as they are. -/
theorem osm_lftr_get_port_by_guid_frame (p_rcv : osm_lftr_rcv_t) (m : LftrMachine) (g : Nat) :
    (osm_lftr_get_port_by_guid p_rcv m g).2.rec_list = m.rec_list
      ∧ (osm_lftr_get_port_by_guid p_rcv m g).2.pool_in_use = m.pool_in_use
      ∧ (osm_lftr_get_port_by_guid p_rcv m g).2.trace.countP LftrEvent.isPoolGet
        = m.trace.countP LftrEvent.isPoolGet := by
  simp only [osm_lftr_get_port_by_guid]
  cases osm_get_port_by_guid p_rcv.p_subn.subn g <;>
    simp [LftrMachine.log, LftrMachine.emit, LftrEvent.isPoolGet]

/-- The state in which the block loop starts has the list, the pool and the
number of pool requests of the state before the visit. -/
theorem osm_lftr_rcv_by_comp_mask_at_loop_frame (p_rcv : osm_lftr_rcv_t)
    (p_ctxt : osm_lftr_search_ctxt_t) (m : LftrMachine) (p_sw : Nat) :
    (osm_lftr_rcv_by_comp_mask_at_loop p_rcv p_ctxt m p_sw).rec_list = m.rec_list
      ∧ (osm_lftr_rcv_by_comp_mask_at_loop p_rcv p_ctxt m p_sw).pool_in_use = m.pool_in_use
      ∧ (osm_lftr_rcv_by_comp_mask_at_loop p_rcv p_ctxt m p_sw).trace.countP LftrEvent.isPoolGet
        = m.trace.countP LftrEvent.isPoolGet := by
  have h := osm_lftr_get_port_by_guid_frame p_rcv m (p_rcv.p_subn.node p_sw).node_info.port_guid
  simp only [osm_lftr_rcv_by_comp_mask_at_loop]
  split_ifs
  · simpa [LftrMachine.log, LftrMachine.emit, LftrEvent.isPoolGet] using h
  · exact h

/-- For a switch that passes both filters the visit is the block loop, from the
first block to the last, started after the lookup of the Port. -/
theorem osm_lftr_rcv_by_comp_mask_of_passes (fuel : Nat) (env : LftrEnv)
    (p_rcv : osm_lftr_rcv_t) (p_ctxt : osm_lftr_search_ctxt_t) (m : LftrMachine) (p_sw : Nat)
    (hp : lftr_shares_partition p_rcv p_ctxt p_sw = true)
    (hl : lftr_lid_in_range p_rcv p_ctxt p_sw = true) :
    osm_lftr_rcv_by_comp_mask fuel env p_rcv p_ctxt m p_sw
      = osm_lftr_rcv_by_comp_mask_loop env p_rcv p_sw
          (p_rcv.osm_port_get_base_lid (p_rcv.p_subn.node p_sw).node_info.port_guid)
          (osm_lftr_rcv_by_comp_mask_max_block p_rcv p_ctxt p_sw) fuel
          (osm_lftr_rcv_by_comp_mask_min_block p_ctxt)
          (osm_lftr_rcv_by_comp_mask_at_loop p_rcv p_ctxt m p_sw) := by
  simp only [lftr_shares_partition, Bool.and_eq_true] at hp
  obtain ⟨hport, hphysp⟩ := hp
  simp only [osm_lftr_rcv_by_comp_mask, osm_lftr_get_port_by_guid_fst,
    osm_lftr_rcv_by_comp_mask_at_loop]
  cases hq : osm_get_port_by_guid p_rcv.p_subn.subn (p_rcv.p_subn.node p_sw).node_info.port_guid
    with
  | none => rw [hq] at hport; simp at hport
  | some p_port =>
    cases hy : p_rcv.p_physp (p_rcv.p_subn.node p_sw).node_info.port_guid with
    | none => rw [hy] at hphysp; simp at hphysp
    | some p_physp =>
      rw [hy] at hphysp
      simp only at hphysp
      simp only [hphysp, Bool.true_eq_false, if_false]
      simp only [lftr_lid_in_range, Bool.or_eq_true, Bool.and_eq_true, decide_eq_true_eq] at hl
      by_cases hbit : p_ctxt.comp_mask &&& IB_LFTR_COMPMASK_LID = 0
      · simp [hbit]
      · have hr : ¬ (p_ctxt.comp_mask &&& IB_LFTR_COMPMASK_LID ≠ 0
            ∧ ((p_rcv.osm_port_get_lid_range_ho
                  (p_rcv.p_subn.node p_sw).node_info.port_guid).1 % 65536
                > cl_ntoh16 p_ctxt.p_rcvd_rec.lid
              ∨ (p_rcv.osm_port_get_lid_range_ho
                  (p_rcv.p_subn.node p_sw).node_info.port_guid).2 % 65536
                < cl_ntoh16 p_ctxt.p_rcvd_rec.lid)) := by
          rintro ⟨_, h⟩
          rcases hl with h0 | ⟨h1, h2⟩
          · exact hbit h0
          · omega
        rw [if_neg hr]

/-- For a switch that fails a filter the visit returns at once, whatever the
bound on the loop, with the list, the pool and the number of pool requests as
they were. -/
theorem osm_lftr_rcv_by_comp_mask_of_fails (fuel : Nat) (env : LftrEnv)
    (p_rcv : osm_lftr_rcv_t) (p_ctxt : osm_lftr_search_ctxt_t) (m : LftrMachine) (p_sw : Nat)
    (h : lftr_shares_partition p_rcv p_ctxt p_sw = false
      ∨ lftr_lid_in_range p_rcv p_ctxt p_sw = false) :
    ∃ m', osm_lftr_rcv_by_comp_mask fuel env p_rcv p_ctxt m p_sw = some m'
      ∧ m'.rec_list = m.rec_list ∧ m'.pool_in_use = m.pool_in_use
      ∧ m'.trace.countP LftrEvent.isPoolGet = m.trace.countP LftrEvent.isPoolGet := by
  have hg := osm_lftr_get_port_by_guid_frame p_rcv m (p_rcv.p_subn.node p_sw).node_info.port_guid
  simp only [osm_lftr_rcv_by_comp_mask, osm_lftr_get_port_by_guid_fst]
  cases hq : osm_get_port_by_guid p_rcv.p_subn.subn (p_rcv.p_subn.node p_sw).node_info.port_guid
    with
  | none =>
    exact ⟨_, rfl, by simpa [LftrMachine.log, LftrMachine.emit, LftrEvent.isPoolGet] using hg⟩
  | some p_port =>
    cases hy : p_rcv.p_physp (p_rcv.p_subn.node p_sw).node_info.port_guid with
    | none =>
      exact ⟨_, rfl, by simpa [LftrMachine.log, LftrMachine.emit, LftrEvent.isPoolGet] using hg⟩
    | some p_physp =>
      simp only
      by_cases hs : p_rcv.osm_physp_share_pkey p_ctxt.p_req_physp p_physp = false
      · rw [if_pos hs]; exact ⟨_, rfl, hg⟩
      · rw [if_neg hs]
        have hs' : p_rcv.osm_physp_share_pkey p_ctxt.p_req_physp p_physp = true := by
          simpa using hs
        have hl : lftr_lid_in_range p_rcv p_ctxt p_sw = false := by
          rcases h with h | h
          · simp [lftr_shares_partition, hq, hy, hs'] at h
          · exact h
        simp only [lftr_lid_in_range, Bool.or_eq_false_iff, Bool.and_eq_false_iff,
          decide_eq_false_iff_not] at hl
        obtain ⟨hbit, hrange⟩ := hl
        have hr : p_ctxt.comp_mask &&& IB_LFTR_COMPMASK_LID ≠ 0
            ∧ ((p_rcv.osm_port_get_lid_range_ho
                  (p_rcv.p_subn.node p_sw).node_info.port_guid).1 % 65536
                > cl_ntoh16 p_ctxt.p_rcvd_rec.lid
              ∨ (p_rcv.osm_port_get_lid_range_ho
                  (p_rcv.p_subn.node p_sw).node_info.port_guid).2 % 65536
                < cl_ntoh16 p_ctxt.p_rcvd_rec.lid) := by
          refine ⟨hbit, ?_⟩
          rcases hrange with h1 | h2
          · left; omega
          · right; omega
        rw [if_pos hr, if_pos hbit]
        exact ⟨_, rfl, by simpa [LftrMachine.log, LftrMachine.emit, LftrEvent.isPoolGet] using hg⟩

/-- Building a record depends on the state only through its result. -/
theorem osm_lftr_rcv_new_lftr_same (env : LftrEnv) (p_rcv : osm_lftr_rcv_t)
    (a b : LftrMachine) (p_sw lid block : Nat) (h : lftr_same_result a b) :
    lftr_same_result (osm_lftr_rcv_new_lftr env p_rcv a p_sw lid block)
      (osm_lftr_rcv_new_lftr env p_rcv b p_sw lid block) := by
  obtain ⟨h1, h2, h3⟩ := h
  simp only [lftr_same_result, osm_lftr_rcv_new_lftr, cl_qlock_pool_get, h3]
  cases env.pool_get_ok (List.countP LftrEvent.isPoolGet b.trace) <;>
    cases env.log_is_active osm_log_level_t.debug <;>
    simp [LftrMachine.log, LftrMachine.emit, LftrEvent.isPoolGet, h1, h2, h3]

/-- The block loop depends on the state only through its result. -/
theorem osm_lftr_rcv_by_comp_mask_loop_same (env : LftrEnv) (p_rcv : osm_lftr_rcv_t)
    (p_sw lid max_block : Nat) :
    ∀ (fuel block : Nat) (a b : LftrMachine), lftr_same_result a b →
      lftr_same_outcome
        (osm_lftr_rcv_by_comp_mask_loop env p_rcv p_sw lid max_block fuel block a)
        (osm_lftr_rcv_by_comp_mask_loop env p_rcv p_sw lid max_block fuel block b) := by
  intro fuel
  induction fuel with
  | zero => intro block a b _; simp [osm_lftr_rcv_by_comp_mask_loop, lftr_same_outcome]
  | succ k ih =>
    intro block a b h
    simp only [osm_lftr_rcv_by_comp_mask_loop]
    split_ifs
    · exact ih _ _ _ (osm_lftr_rcv_new_lftr_same env p_rcv a b p_sw lid _ h)
    · exact h

/-- The visit of a switch depends on the state only through its result. -/
theorem osm_lftr_rcv_by_comp_mask_same (fuel : Nat) (env : LftrEnv) (p_rcv : osm_lftr_rcv_t)
    (p_ctxt : osm_lftr_search_ctxt_t) (a b : LftrMachine) (p_sw : Nat)
    (h : lftr_same_result a b) :
    lftr_same_outcome (osm_lftr_rcv_by_comp_mask fuel env p_rcv p_ctxt a p_sw)
      (osm_lftr_rcv_by_comp_mask fuel env p_rcv p_ctxt b p_sw) := by
  by_cases hp : lftr_shares_partition p_rcv p_ctxt p_sw = true
    ∧ lftr_lid_in_range p_rcv p_ctxt p_sw = true
  · rw [osm_lftr_rcv_by_comp_mask_of_passes fuel env p_rcv p_ctxt a p_sw hp.1 hp.2,
      osm_lftr_rcv_by_comp_mask_of_passes fuel env p_rcv p_ctxt b p_sw hp.1 hp.2]
    apply osm_lftr_rcv_by_comp_mask_loop_same
    obtain ⟨a1, a2, a3⟩ := osm_lftr_rcv_by_comp_mask_at_loop_frame p_rcv p_ctxt a p_sw
    obtain ⟨b1, b2, b3⟩ := osm_lftr_rcv_by_comp_mask_at_loop_frame p_rcv p_ctxt b p_sw
    obtain ⟨h1, h2, h3⟩ := h
    exact ⟨by rw [a1, b1, h1], by rw [a2, b2, h2], by rw [a3, b3, h3]⟩
  · have hf : lftr_shares_partition p_rcv p_ctxt p_sw = false
        ∨ lftr_lid_in_range p_rcv p_ctxt p_sw = false := by
      cases h1 : lftr_shares_partition p_rcv p_ctxt p_sw
      · exact Or.inl rfl
      · cases h2 : lftr_lid_in_range p_rcv p_ctxt p_sw
        · exact Or.inr rfl
        · exact absurd ⟨h1, h2⟩ hp
    obtain ⟨a', ha, a1, a2, a3⟩ := osm_lftr_rcv_by_comp_mask_of_fails fuel env p_rcv p_ctxt a p_sw hf
    obtain ⟨b', hb, b1, b2, b3⟩ := osm_lftr_rcv_by_comp_mask_of_fails fuel env p_rcv p_ctxt b p_sw hf
    obtain ⟨h1, h2, h3⟩ := h
    rw [ha, hb]
    exact ⟨by rw [a1, b1, h1], by rw [a2, b2, h2], by rw [a3, b3, h3]⟩

/-- The search over a table of switches has the same outcome as the search over
the switches of the table that pass both filters. -/
theorem cl_qmap_apply_func_passing (fuel : Nat) (env : LftrEnv) (p_rcv : osm_lftr_rcv_t)
    (p_ctxt : osm_lftr_search_ctxt_t) :
    ∀ (l : List Nat) (a b : LftrMachine), lftr_same_result a b →
      lftr_same_outcome
        (cl_qmap_apply_func (osm_lftr_rcv_by_comp_mask fuel env p_rcv p_ctxt) l a)
        (cl_qmap_apply_func (osm_lftr_rcv_by_comp_mask fuel env p_rcv p_ctxt)
          (l.filter (lftr_passes p_rcv p_ctxt)) b) := by
  intro l
  induction l with
  | nil => intro a b h; simpa [cl_qmap_apply_func, lftr_same_outcome] using h
  | cons p rest ih =>
    intro a b h
    by_cases hp : lftr_shares_partition p_rcv p_ctxt p = true
      ∧ lftr_lid_in_range p_rcv p_ctxt p = true
    · have hf : lftr_passes p_rcv p_ctxt p = true := by simp [lftr_passes, hp.1, hp.2]
      rw [List.filter_cons_of_pos hf]
      have hs := osm_lftr_rcv_by_comp_mask_same fuel env p_rcv p_ctxt a b p h
      simp only [cl_qmap_apply_func]
      cases ha : osm_lftr_rcv_by_comp_mask fuel env p_rcv p_ctxt a p with
      | none =>
        cases hb : osm_lftr_rcv_by_comp_mask fuel env p_rcv p_ctxt b p with
        | none => simp [lftr_same_outcome]
        | some b' => rw [ha, hb] at hs; exact absurd hs (by simp [lftr_same_outcome])
      | some a' =>
        cases hb : osm_lftr_rcv_by_comp_mask fuel env p_rcv p_ctxt b p with
        | none => rw [ha, hb] at hs; exact absurd hs (by simp [lftr_same_outcome])
        | some b' =>
          rw [ha, hb] at hs
          exact ih a' b' hs
    · have hf : lftr_shares_partition p_rcv p_ctxt p = false
          ∨ lftr_lid_in_range p_rcv p_ctxt p = false := by
        cases h1 : lftr_shares_partition p_rcv p_ctxt p
        · exact Or.inl rfl
        · cases h2 : lftr_lid_in_range p_rcv p_ctxt p
          · exact Or.inr rfl
          · exact absurd ⟨h1, h2⟩ hp
      have hn : ¬ lftr_passes p_rcv p_ctxt p = true := by
        rcases hf with h1 | h1 <;> simp [lftr_passes, h1]
      rw [List.filter_cons_of_neg hn]
      obtain ⟨a', ha, a1, a2, a3⟩ :=
        osm_lftr_rcv_by_comp_mask_of_fails fuel env p_rcv p_ctxt a p hf
      simp only [cl_qmap_apply_func, ha]
      obtain ⟨h1, h2, h3⟩ := h
      exact ih a' b ⟨by rw [a1, h1], by rw [a2, h2], by rw [a3, h3]⟩

/-- Runs with the same outcome return the same list of records. -/
theorem lftr_same_outcome_rec_list (x y : Option LftrMachine) (h : lftr_same_outcome x y) :
    x.map (fun m => m.rec_list) = y.map (fun m => m.rec_list) := by
  cases x <;> cases y <;> simp [lftr_same_outcome] at h ⊢
  exact h.1

/-! ## Claim C32: the filters of the search -/

/-- Claim C32: in the search for LFT records a switch contributes records only if
it passes both filters: its Port's default PhysicalPort shares a partition with
the PhysicalPort of the requester, and, when the LID bit of the component mask
is set, the requested LID in host order lies in the LID range of the Port,
bounds included. The visit of a switch that fails a filter returns at once with
the list of records as it was, no item taken from the pool and no pool request
made; a visit that changes the list is the visit of a switch that passes both;
and the records the search over the whole table returns are those the search
over the passing switches alone returns. -/
theorem osm_lftr_rcv_by_comp_mask_filters (fuel : Nat) (env : LftrEnv) (p_rcv : osm_lftr_rcv_t)
    (p_ctxt : osm_lftr_search_ctxt_t) (m : LftrMachine) :
    (∀ p_sw, (lftr_shares_partition p_rcv p_ctxt p_sw = false
          ∨ lftr_lid_in_range p_rcv p_ctxt p_sw = false) →
        ∃ m', osm_lftr_rcv_by_comp_mask fuel env p_rcv p_ctxt m p_sw = some m'
          ∧ m'.rec_list = m.rec_list ∧ m'.pool_in_use = m.pool_in_use
          ∧ m'.trace.countP LftrEvent.isPoolGet = m.trace.countP LftrEvent.isPoolGet)
      ∧ (∀ p_sw m', osm_lftr_rcv_by_comp_mask fuel env p_rcv p_ctxt m p_sw = some m' →
          m'.rec_list ≠ m.rec_list →
          lftr_shares_partition p_rcv p_ctxt p_sw = true
            ∧ lftr_lid_in_range p_rcv p_ctxt p_sw = true)
      ∧ (cl_qmap_apply_func (osm_lftr_rcv_by_comp_mask fuel env p_rcv p_ctxt)
            p_rcv.sw_guid_tbl m).map (fun a => a.rec_list)
          = (cl_qmap_apply_func (osm_lftr_rcv_by_comp_mask fuel env p_rcv p_ctxt)
              (p_rcv.sw_guid_tbl.filter (lftr_passes p_rcv p_ctxt)) m).map (fun a => a.rec_list) := by
  refine ⟨fun p_sw h => osm_lftr_rcv_by_comp_mask_of_fails fuel env p_rcv p_ctxt m p_sw h,
    ?_, ?_⟩
  · intro p_sw m' hm hne
    by_contra hc
    have hf : lftr_shares_partition p_rcv p_ctxt p_sw = false
        ∨ lftr_lid_in_range p_rcv p_ctxt p_sw = false := by
      cases h1 : lftr_shares_partition p_rcv p_ctxt p_sw
      · exact Or.inl rfl
      · cases h2 : lftr_lid_in_range p_rcv p_ctxt p_sw
        · exact Or.inr rfl
        · exact absurd ⟨h1, h2⟩ hc
    obtain ⟨m2, h2, hl, _, _⟩ := osm_lftr_rcv_by_comp_mask_of_fails fuel env p_rcv p_ctxt m p_sw hf
    rw [hm] at h2
    cases h2
    exact hne hl
  · exact lftr_same_outcome_rec_list _ _
      (cl_qmap_apply_func_passing fuel env p_rcv p_ctxt p_rcv.sw_guid_tbl m m ⟨rfl, rfl, rfl⟩)

/-- Witness for claim C32: in the small fabric a SubnAdmGetTable query for the
LID 4 reaches node 2, whose Port has the LID 5: the switch shares a partition
with the requester but fails the LID filter, and its visit leaves the list
empty and the pool untouched. -/
theorem osm_lftr_rcv_by_comp_mask_filters_witness :
    lftr_shares_partition Example.lftr_rcv
        (osm_lftr_rcv_process_context
          (Example.lftr_madw IB_MAD_METHOD_GETTABLE IB_LFTR_COMPMASK_LID 0x0400 0) (3, 1)) 2 = true
      ∧ lftr_lid_in_range Example.lftr_rcv
        (osm_lftr_rcv_process_context
          (Example.lftr_madw IB_MAD_METHOD_GETTABLE IB_LFTR_COMPMASK_LID 0x0400 0) (3, 1)) 2 = false
      ∧ ∃ m', osm_lftr_rcv_by_comp_mask 65536 Example.lftr_env_ok Example.lftr_rcv
          (osm_lftr_rcv_process_context
            (Example.lftr_madw IB_MAD_METHOD_GETTABLE IB_LFTR_COMPMASK_LID 0x0400 0) (3, 1))
          ⟨0, [], []⟩ 2 = some m'
        ∧ m'.rec_list = [] ∧ m'.pool_in_use = 0
        ∧ m'.trace.countP LftrEvent.isPoolGet = 0 :=
  ⟨by decide, by decide,
    (osm_lftr_rcv_by_comp_mask_filters 65536 Example.lftr_env_ok Example.lftr_rcv
      (osm_lftr_rcv_process_context
        (Example.lftr_madw IB_MAD_METHOD_GETTABLE IB_LFTR_COMPMASK_LID 0x0400 0) (3, 1))
      ⟨0, [], []⟩).1 2 (Or.inr (by decide))⟩

/-! ## The block loop of the search -/

/-- Swapping the bytes of a 16-bit value twice gives the value back. -/
theorem cl_ntoh16_cl_hton16 (b : Nat) (h : b < 65536) : cl_ntoh16 (cl_hton16 b) = b := by
  have h1 : b / 256 < 256 := by omega
  have h2 : (b % 256 * 256 + b / 256 % 256) % 256 = b / 256 := by omega
  have h3 : (b % 256 * 256 + b / 256 % 256) / 256 = b % 256 := by omega
  simp only [cl_hton16, cl_ntoh16]
  rw [h2, h3]
  omega

/-- Building a record makes exactly one request to the pool. -/
theorem osm_lftr_rcv_new_lftr_poolget (env : LftrEnv) (p_rcv : osm_lftr_rcv_t) (m : LftrMachine)
    (p_sw lid block : Nat) :
    (osm_lftr_rcv_new_lftr env p_rcv m p_sw lid block).trace.countP LftrEvent.isPoolGet
      = m.trace.countP LftrEvent.isPoolGet + 1 := by
  simp only [osm_lftr_rcv_new_lftr, cl_qlock_pool_get]
  split_ifs <;> simp [LftrMachine.log, LftrMachine.emit, LftrEvent.isPoolGet]

/-- Building a record keeps the number of items out of the pool equal to the
number of records on the list, up to what it was before. -/
theorem osm_lftr_rcv_new_lftr_balance (env : LftrEnv) (p_rcv : osm_lftr_rcv_t) (m : LftrMachine)
    (p_sw lid block : Nat) :
    (osm_lftr_rcv_new_lftr env p_rcv m p_sw lid block).pool_in_use + m.rec_list.length
      = m.pool_in_use + (osm_lftr_rcv_new_lftr env p_rcv m p_sw lid block).rec_list.length := by
  simp only [osm_lftr_rcv_new_lftr, cl_qlock_pool_get]
  cases env.pool_get_ok (List.countP LftrEvent.isPoolGet m.trace) <;>
    cases env.log_is_active osm_log_level_t.debug <;>
    simp [LftrMachine.log, LftrMachine.emit] <;> omega

/-- When the pool returns an item, building a record appends the record with the
LID and the block number given and the block of the forwarding table, and one
more item is out of the pool. -/
theorem osm_lftr_rcv_new_lftr_ok (env : LftrEnv) (p_rcv : osm_lftr_rcv_t) (m : LftrMachine)
    (p_sw lid block : Nat) (hpool : ∀ k, env.pool_get_ok k = true) :
    (osm_lftr_rcv_new_lftr env p_rcv m p_sw lid block).rec_list
        = m.rec_list ++ [⟨lid, block,
            (p_rcv.osm_switch_get_fwd_tbl_block p_sw (cl_ntoh16 block)).getD
              (List.replicate 64 0)⟩]
      ∧ (osm_lftr_rcv_new_lftr env p_rcv m p_sw lid block).pool_in_use = m.pool_in_use + 1 := by
  simp only [osm_lftr_rcv_new_lftr, cl_qlock_pool_get, hpool]
  cases env.log_is_active osm_log_level_t.debug <;>
    simp [LftrMachine.log, LftrMachine.emit]

/-- The block loop never ends when the last block is `0xFFFF`: the 16-bit counter
wraps to 0 and the condition holds for every value it takes. -/
theorem osm_lftr_rcv_by_comp_mask_loop_none (env : LftrEnv) (p_rcv : osm_lftr_rcv_t)
    (p_sw lid : Nat) :
    ∀ (fuel block : Nat) (m : LftrMachine), block < 65536 →
      osm_lftr_rcv_by_comp_mask_loop env p_rcv p_sw lid 65535 fuel block m = none := by
  intro fuel
  induction fuel with
  | zero => intro block m _; rfl
  | succ k ih =>
    intro block m hb
    have hle : block ≤ 65535 := by omega
    rw [osm_lftr_rcv_by_comp_mask_loop, if_pos hle]
    exact ih _ _ (Nat.mod_lt _ (by decide))

/-- The block loop does not end before the condition was evaluated once for every
block left and once more. -/
theorem osm_lftr_rcv_by_comp_mask_loop_short (env : LftrEnv) (p_rcv : osm_lftr_rcv_t)
    (p_sw lid max_block : Nat) (hmax : max_block < 65535) :
    ∀ (fuel block : Nat) (m : LftrMachine), fuel + block < max_block + 2 →
      osm_lftr_rcv_by_comp_mask_loop env p_rcv p_sw lid max_block fuel block m = none := by
  intro fuel
  induction fuel with
  | zero => intro block m _; rfl
  | succ k ih =>
    intro block m h
    have hle : block ≤ max_block := by omega
    have hmod : (block + 1) % 65536 = block + 1 := Nat.mod_eq_of_lt (by omega)
    rw [osm_lftr_rcv_by_comp_mask_loop, if_pos hle, hmod]
    exact ih _ _ (by omega)

/-- The block loop, when the last block is not `0xFFFF`: it ends after one
iteration per block from the current one to the last, each with one request to
the pool; when the pool returns an item every time, the records of these blocks
are appended in ascending order. -/
theorem osm_lftr_rcv_by_comp_mask_loop_exact (env : LftrEnv) (p_rcv : osm_lftr_rcv_t)
    (p_sw lid max_block : Nat) (hmax : max_block < 65535) :
    ∀ (fuel block : Nat) (m : LftrMachine), max_block + 1 ≤ fuel + block →
      block ≤ max_block + 1 →
      ∃ m', osm_lftr_rcv_by_comp_mask_loop env p_rcv p_sw lid max_block (fuel + 1) block m
          = some m'
        ∧ m'.trace.countP LftrEvent.isPoolGet
          = m.trace.countP LftrEvent.isPoolGet + (max_block + 1 - block)
        ∧ ((∀ k, env.pool_get_ok k = true) →
            m'.rec_list = m.rec_list ++ (List.range' block (max_block + 1 - block)).map
                (fun b => ⟨lid, cl_hton16 b,
                  (p_rcv.osm_switch_get_fwd_tbl_block p_sw b).getD (List.replicate 64 0)⟩)
              ∧ m'.pool_in_use = m.pool_in_use + (max_block + 1 - block)) := by
  intro fuel
  induction fuel with
  | zero =>
    intro block m h hb
    have hn : ¬ block ≤ max_block := by omega
    have h0 : max_block + 1 - block = 0 := by omega
    refine ⟨m, by simp [osm_lftr_rcv_by_comp_mask_loop, hn], by rw [h0]; rfl, fun _ => ?_⟩
    rw [h0]
    simp
  | succ k ih =>
    intro block m h hb
    by_cases hle : block ≤ max_block
    · have hmod : (block + 1) % 65536 = block + 1 := Nat.mod_eq_of_lt (by omega)
      have hlen : max_block + 1 - block = (max_block + 1 - (block + 1)) + 1 := by omega
      obtain ⟨m', hm', hc, hr⟩ := ih (block + 1)
        (osm_lftr_rcv_new_lftr env p_rcv m p_sw lid (cl_hton16 block)) (by omega) (by omega)
      refine ⟨m', ?_, ?_, ?_⟩
      · rw [osm_lftr_rcv_by_comp_mask_loop, if_pos hle, hmod]
        exact hm'
      · rw [hc, osm_lftr_rcv_new_lftr_poolget]
        omega
      · intro hpool
        obtain ⟨hr1, hr2⟩ := hr hpool
        obtain ⟨hn1, hn2⟩ := osm_lftr_rcv_new_lftr_ok env p_rcv m p_sw lid (cl_hton16 block) hpool
        rw [hr1, hr2, hn1, hn2, cl_ntoh16_cl_hton16 block (by omega), hlen, List.range'_succ]
        refine ⟨by simp, by omega⟩
    · have h0 : max_block + 1 - block = 0 := by omega
      refine ⟨m, by rw [osm_lftr_rcv_by_comp_mask_loop, if_neg hle], by rw [h0]; rfl,
        fun _ => ?_⟩
      rw [h0]
      simp

/-- The first block to output is not after the last, and the last is a 16-bit
value. -/
theorem osm_lftr_rcv_by_comp_mask_block_bounds (p_rcv : osm_lftr_rcv_t)
    (p_ctxt : osm_lftr_search_ctxt_t) (p_sw : Nat) :
    osm_lftr_rcv_by_comp_mask_min_block p_ctxt
        ≤ osm_lftr_rcv_by_comp_mask_max_block p_rcv p_ctxt p_sw
      ∧ osm_lftr_rcv_by_comp_mask_max_block p_rcv p_ctxt p_sw < 65536 := by
  simp only [osm_lftr_rcv_by_comp_mask_min_block, osm_lftr_rcv_by_comp_mask_max_block]
  split_ifs
  · exact ⟨le_refl _, cl_ntoh16_lt _⟩
  · exact ⟨Nat.zero_le _, Nat.mod_lt _ (by decide)⟩

/-- Both filters hold for a switch that passes. -/
theorem lftr_passes_iff (p_rcv : osm_lftr_rcv_t) (p_ctxt : osm_lftr_search_ctxt_t) (p_sw : Nat) :
    lftr_passes p_rcv p_ctxt p_sw = true
      ↔ lftr_shares_partition p_rcv p_ctxt p_sw = true
        ∧ lftr_lid_in_range p_rcv p_ctxt p_sw = true := by
  simp [lftr_passes]

/-! ## Claim C33: the records of a switch -/

/-- Claim C33: for a switch that passes the filters, when the pool returns an item
at every request, `__osm_lftr_rcv_by_comp_mask` appends to the list: when the
BLOCK bit of the component mask is set, exactly one record, for the requested
block number; otherwise one record per block 0, 1, ..., max-block-id-in-use, in
ascending order. Every record appended carries the base LID of the switch's
Port, the block number in network order and that block of the forwarding table
(zeros when the table has no such block), and one item is out of the pool for
each. The code does this, returning within 65536 evaluations of the loop
condition, for every last block but `0xFFFF`; for the last block `0xFFFF` the
16-bit counter of the loop wraps and the code fails the claim, as
`osm_lftr_rcv_by_comp_mask_loop_none` and the failing input below show. -/
theorem osm_lftr_rcv_by_comp_mask_records (fuel : Nat) (env : LftrEnv) (p_rcv : osm_lftr_rcv_t)
    (p_ctxt : osm_lftr_search_ctxt_t) (m : LftrMachine) (p_sw : Nat)
    (hp : lftr_passes p_rcv p_ctxt p_sw = true)
    (hpool : ∀ k, env.pool_get_ok k = true)
    (hmax : osm_lftr_rcv_by_comp_mask_max_block p_rcv p_ctxt p_sw < 65535)
    (hf : 65536 ≤ fuel) :
    ∃ m', osm_lftr_rcv_by_comp_mask fuel env p_rcv p_ctxt m p_sw = some m'
      ∧ (p_ctxt.comp_mask &&& IB_LFTR_COMPMASK_BLOCK ≠ 0 →
          m'.rec_list
            = m.rec_list ++ [lftr_record p_rcv p_sw (cl_ntoh16 p_ctxt.p_rcvd_rec.block_num)]
          ∧ m'.pool_in_use = m.pool_in_use + 1)
      ∧ (p_ctxt.comp_mask &&& IB_LFTR_COMPMASK_BLOCK = 0 →
          m'.rec_list
            = m.rec_list ++ (List.range
                (p_rcv.osm_switch_get_max_block_id_in_use p_sw % 65536 + 1)).map
                (lftr_record p_rcv p_sw)
          ∧ m'.pool_in_use
            = m.pool_in_use + (p_rcv.osm_switch_get_max_block_id_in_use p_sw % 65536 + 1)) := by
  obtain ⟨h1, h2⟩ := (lftr_passes_iff p_rcv p_ctxt p_sw).mp hp
  obtain ⟨k, rfl⟩ : ∃ k, fuel = k + 1 := ⟨fuel - 1, by omega⟩
  obtain ⟨hb1, _⟩ := osm_lftr_rcv_by_comp_mask_block_bounds p_rcv p_ctxt p_sw
  obtain ⟨a1, a2, _⟩ := osm_lftr_rcv_by_comp_mask_at_loop_frame p_rcv p_ctxt m p_sw
  obtain ⟨m', hm', _, hr⟩ := osm_lftr_rcv_by_comp_mask_loop_exact env p_rcv p_sw
    (p_rcv.osm_port_get_base_lid (p_rcv.p_subn.node p_sw).node_info.port_guid)
    (osm_lftr_rcv_by_comp_mask_max_block p_rcv p_ctxt p_sw) hmax k
    (osm_lftr_rcv_by_comp_mask_min_block p_ctxt)
    (osm_lftr_rcv_by_comp_mask_at_loop p_rcv p_ctxt m p_sw) (by omega) (by omega)
  obtain ⟨hr1, hr2⟩ := hr hpool
  rw [a1] at hr1
  rw [a2] at hr2
  refine ⟨m', ?_, ?_, ?_⟩
  · rw [osm_lftr_rcv_by_comp_mask_of_passes (k + 1) env p_rcv p_ctxt m p_sw h1 h2]
    exact hm'
  · intro hbit
    have e1 : osm_lftr_rcv_by_comp_mask_min_block p_ctxt
        = cl_ntoh16 p_ctxt.p_rcvd_rec.block_num := by
      simp only [osm_lftr_rcv_by_comp_mask_min_block, if_pos hbit]
    have e2 : osm_lftr_rcv_by_comp_mask_max_block p_rcv p_ctxt p_sw
        = cl_ntoh16 p_ctxt.p_rcvd_rec.block_num := by
      simp only [osm_lftr_rcv_by_comp_mask_max_block, if_pos hbit]
    rw [e1, e2] at hr1 hr2
    have e3 : cl_ntoh16 p_ctxt.p_rcvd_rec.block_num + 1
        - cl_ntoh16 p_ctxt.p_rcvd_rec.block_num = 1 := by omega
    rw [e3] at hr1 hr2
    exact ⟨by rw [hr1]; rfl, hr2⟩
  · intro hbit
    have hbit' : ¬ p_ctxt.comp_mask &&& IB_LFTR_COMPMASK_BLOCK ≠ 0 := fun h => h hbit
    have e1 : osm_lftr_rcv_by_comp_mask_min_block p_ctxt = 0 := by
      simp only [osm_lftr_rcv_by_comp_mask_min_block, if_neg hbit']
    have e2 : osm_lftr_rcv_by_comp_mask_max_block p_rcv p_ctxt p_sw
        = p_rcv.osm_switch_get_max_block_id_in_use p_sw % 65536 := by
      simp only [osm_lftr_rcv_by_comp_mask_max_block, if_neg hbit']
    rw [e1, e2] at hr1 hr2
    refine ⟨?_, by simpa using hr2⟩
    rw [hr1, Nat.sub_zero, List.range_eq_range']
    rfl

/-- Witness for claim C33: in the small fabric, a query for the block 1 of every
switch gets one record from node 1, with the LID 4 and the block 1 of its
table; a query with no block number gets the records of the blocks 0 and 1 of
node 1, in this order. -/
theorem osm_lftr_rcv_by_comp_mask_records_witness :
    (∃ m', osm_lftr_rcv_by_comp_mask 65536 Example.lftr_env_ok Example.lftr_rcv
        (osm_lftr_rcv_process_context
          (Example.lftr_madw IB_MAD_METHOD_GETTABLE IB_LFTR_COMPMASK_BLOCK 0 0x0100) (3, 1))
        ⟨0, [], []⟩ 1 = some m'
      ∧ m'.rec_list = [⟨0x0400, 0x0100, List.replicate 64 2⟩] ∧ m'.pool_in_use = 1)
    ∧ (∃ m', osm_lftr_rcv_by_comp_mask 65536 Example.lftr_env_ok Example.lftr_rcv
        (osm_lftr_rcv_process_context
          (Example.lftr_madw IB_MAD_METHOD_GETTABLE 0 0 0) (3, 1))
        ⟨0, [], []⟩ 1 = some m'
      ∧ m'.rec_list = [⟨0x0400, 0, List.replicate 64 1⟩, ⟨0x0400, 0x0100, List.replicate 64 2⟩]
      ∧ m'.pool_in_use = 2) := by
  constructor
  · obtain ⟨m', h1, h2, _⟩ := osm_lftr_rcv_by_comp_mask_records 65536 Example.lftr_env_ok
      Example.lftr_rcv
      (osm_lftr_rcv_process_context
        (Example.lftr_madw IB_MAD_METHOD_GETTABLE IB_LFTR_COMPMASK_BLOCK 0 0x0100) (3, 1))
      ⟨0, [], []⟩ 1 (by decide) (fun _ => rfl) (by decide) (by decide)
    obtain ⟨h3, h4⟩ := h2 (by decide)
    exact ⟨m', h1, by rw [h3]; decide, by rw [h4]⟩
  · obtain ⟨m', h1, _, h2⟩ := osm_lftr_rcv_by_comp_mask_records 65536 Example.lftr_env_ok
      Example.lftr_rcv
      (osm_lftr_rcv_process_context (Example.lftr_madw IB_MAD_METHOD_GETTABLE 0 0 0) (3, 1))
      ⟨0, [], []⟩ 1 (by decide) (fun _ => rfl) (by decide) (by decide)
    obtain ⟨h3, h4⟩ := h2 (by decide)
    exact ⟨m', h1, by rw [h3]; decide, by rw [h4]; rfl⟩

/-- Failing input for claim C33: in the small fabric, with a pool that returns an
item at every request, a query with the BLOCK bit set for the block number
`0xFFFF` reaches node 2, which passes both filters. The claim expects exactly
one record, for the block `0xFFFF`. In the code the first and the last block are
both `0xFFFF`, the 16-bit counter wraps to 0 after the first record, and the
visit never returns with one record appended: it returns within no number of
evaluations of the loop condition. -/
theorem osm_lftr_rcv_by_comp_mask_records_counterexample :
    lftr_passes Example.lftr_rcv
        (osm_lftr_rcv_process_context
          (Example.lftr_madw IB_MAD_METHOD_GETTABLE IB_LFTR_COMPMASK_BLOCK 0 0xFFFF) (3, 1)) 2 = true
      ∧ ¬ ∃ fuel m', osm_lftr_rcv_by_comp_mask fuel Example.lftr_env_ok Example.lftr_rcv
          (osm_lftr_rcv_process_context
            (Example.lftr_madw IB_MAD_METHOD_GETTABLE IB_LFTR_COMPMASK_BLOCK 0 0xFFFF) (3, 1))
          ⟨0, [], []⟩ 2 = some m' := by
  refine ⟨by decide, ?_⟩
  rintro ⟨fuel, m', h⟩
  rw [osm_lftr_rcv_by_comp_mask_of_passes fuel _ _ _ _ _ (by decide) (by decide)] at h
  have e : osm_lftr_rcv_by_comp_mask_max_block Example.lftr_rcv
      (osm_lftr_rcv_process_context
        (Example.lftr_madw IB_MAD_METHOD_GETTABLE IB_LFTR_COMPMASK_BLOCK 0 0xFFFF) (3, 1)) 2
      = 65535 := by decide
  rw [e, osm_lftr_rcv_by_comp_mask_loop_none _ _ _ _ _ _ _ (by decide)] at h
  cases h

/-! ## Claim C34: the end of the block loop -/

/-- Claim C34: the block loop of `__osm_lftr_rcv_by_comp_mask` for a switch that
passes the filters. The first block is not after the last, and the last is a
16-bit value. When the last block is not `0xFFFF` the loop ends after exactly
`max_block - min_block + 1` iterations: the visit does not return before the
condition was evaluated `max_block - min_block + 2` times, it returns when it
was, and it has then made `max_block - min_block + 1` requests to the pool, one
per iteration. When the last block is `0xFFFF` (the requested block number with
the BLOCK bit set, or the max-block-id-in-use of the switch without it) the
loop never ends: the visit returns within no number of evaluations of the
condition. -/
theorem osm_lftr_rcv_by_comp_mask_loop_ends (env : LftrEnv) (p_rcv : osm_lftr_rcv_t)
    (p_ctxt : osm_lftr_search_ctxt_t) (m : LftrMachine) (p_sw : Nat)
    (hp : lftr_passes p_rcv p_ctxt p_sw = true) :
    osm_lftr_rcv_by_comp_mask_min_block p_ctxt
        ≤ osm_lftr_rcv_by_comp_mask_max_block p_rcv p_ctxt p_sw
      ∧ osm_lftr_rcv_by_comp_mask_max_block p_rcv p_ctxt p_sw < 65536
      ∧ (osm_lftr_rcv_by_comp_mask_max_block p_rcv p_ctxt p_sw < 65535 →
          ∀ fuel,
            (fuel < osm_lftr_rcv_by_comp_mask_max_block p_rcv p_ctxt p_sw
                - osm_lftr_rcv_by_comp_mask_min_block p_ctxt + 2 →
              osm_lftr_rcv_by_comp_mask fuel env p_rcv p_ctxt m p_sw = none)
            ∧ (osm_lftr_rcv_by_comp_mask_max_block p_rcv p_ctxt p_sw
                - osm_lftr_rcv_by_comp_mask_min_block p_ctxt + 2 ≤ fuel →
              ∃ m', osm_lftr_rcv_by_comp_mask fuel env p_rcv p_ctxt m p_sw = some m'
                ∧ m'.trace.countP LftrEvent.isPoolGet
                  = m.trace.countP LftrEvent.isPoolGet
                    + (osm_lftr_rcv_by_comp_mask_max_block p_rcv p_ctxt p_sw
                      - osm_lftr_rcv_by_comp_mask_min_block p_ctxt + 1)))
      ∧ (osm_lftr_rcv_by_comp_mask_max_block p_rcv p_ctxt p_sw = 65535 →
          ∀ fuel, osm_lftr_rcv_by_comp_mask fuel env p_rcv p_ctxt m p_sw = none) := by
  obtain ⟨h1, h2⟩ := (lftr_passes_iff p_rcv p_ctxt p_sw).mp hp
  obtain ⟨hb1, hb2⟩ := osm_lftr_rcv_by_comp_mask_block_bounds p_rcv p_ctxt p_sw
  obtain ⟨_, _, a3⟩ := osm_lftr_rcv_by_comp_mask_at_loop_frame p_rcv p_ctxt m p_sw
  refine ⟨hb1, hb2, ?_, ?_⟩
  · intro hmax fuel
    rw [osm_lftr_rcv_by_comp_mask_of_passes fuel env p_rcv p_ctxt m p_sw h1 h2]
    constructor
    · intro hf
      exact osm_lftr_rcv_by_comp_mask_loop_short env p_rcv p_sw _ _ hmax fuel _ _ (by omega)
    · intro hf
      obtain ⟨k, rfl⟩ : ∃ k, fuel = k + 1 := ⟨fuel - 1, by omega⟩
      obtain ⟨m', hm', hc, _⟩ := osm_lftr_rcv_by_comp_mask_loop_exact env p_rcv p_sw
        (p_rcv.osm_port_get_base_lid (p_rcv.p_subn.node p_sw).node_info.port_guid)
        (osm_lftr_rcv_by_comp_mask_max_block p_rcv p_ctxt p_sw) hmax k
        (osm_lftr_rcv_by_comp_mask_min_block p_ctxt)
        (osm_lftr_rcv_by_comp_mask_at_loop p_rcv p_ctxt m p_sw) (by omega) (by omega)
      refine ⟨m', hm', ?_⟩
      rw [hc, a3]
      omega
  · intro hmax fuel
    rw [osm_lftr_rcv_by_comp_mask_of_passes fuel env p_rcv p_ctxt m p_sw h1 h2, hmax]
    apply osm_lftr_rcv_by_comp_mask_loop_none
    have := hb1
    omega

/-- Witness for claim C34, the failing input: in the small fabric a SubnAdmGet
query for the LID 4 and the block number `0xFFFF` reaches node 1, which passes
both filters; the last block is `0xFFFF` and the visit has not returned after
100000 evaluations of the loop condition. The same query for the block 1
returns after two evaluations and not after one. -/
theorem osm_lftr_rcv_by_comp_mask_loop_ends_witness :
    lftr_passes Example.lftr_rcv
        (osm_lftr_rcv_process_context
          (Example.lftr_madw IB_MAD_METHOD_GET (IB_LFTR_COMPMASK_LID ||| IB_LFTR_COMPMASK_BLOCK)
            0x0400 0xFFFF) (3, 1)) 1 = true
      ∧ osm_lftr_rcv_by_comp_mask_max_block Example.lftr_rcv
          (osm_lftr_rcv_process_context
            (Example.lftr_madw IB_MAD_METHOD_GET (IB_LFTR_COMPMASK_LID ||| IB_LFTR_COMPMASK_BLOCK)
              0x0400 0xFFFF) (3, 1)) 1 = 65535
      ∧ osm_lftr_rcv_by_comp_mask 100000 Example.lftr_env_ok Example.lftr_rcv
          (osm_lftr_rcv_process_context
            (Example.lftr_madw IB_MAD_METHOD_GET (IB_LFTR_COMPMASK_LID ||| IB_LFTR_COMPMASK_BLOCK)
              0x0400 0xFFFF) (3, 1)) ⟨0, [], []⟩ 1 = none
      ∧ osm_lftr_rcv_by_comp_mask 1 Example.lftr_env_ok Example.lftr_rcv
          (osm_lftr_rcv_process_context
            (Example.lftr_madw IB_MAD_METHOD_GET (IB_LFTR_COMPMASK_LID ||| IB_LFTR_COMPMASK_BLOCK)
              0x0400 0x0100) (3, 1)) ⟨0, [], []⟩ 1 = none
      ∧ ∃ m', osm_lftr_rcv_by_comp_mask 2 Example.lftr_env_ok Example.lftr_rcv
          (osm_lftr_rcv_process_context
            (Example.lftr_madw IB_MAD_METHOD_GET (IB_LFTR_COMPMASK_LID ||| IB_LFTR_COMPMASK_BLOCK)
              0x0400 0x0100) (3, 1)) ⟨0, [], []⟩ 1 = some m'
        ∧ m'.trace.countP LftrEvent.isPoolGet = 1 := by
  refine ⟨by decide, by decide, ?_, ?_, ?_⟩
  · exact (osm_lftr_rcv_by_comp_mask_loop_ends Example.lftr_env_ok Example.lftr_rcv
      (osm_lftr_rcv_process_context
        (Example.lftr_madw IB_MAD_METHOD_GET (IB_LFTR_COMPMASK_LID ||| IB_LFTR_COMPMASK_BLOCK)
          0x0400 0xFFFF) (3, 1)) ⟨0, [], []⟩ 1 (by decide)).2.2.2 (by decide) 100000
  · exact ((osm_lftr_rcv_by_comp_mask_loop_ends Example.lftr_env_ok Example.lftr_rcv
      (osm_lftr_rcv_process_context
        (Example.lftr_madw IB_MAD_METHOD_GET (IB_LFTR_COMPMASK_LID ||| IB_LFTR_COMPMASK_BLOCK)
          0x0400 0x0100) (3, 1)) ⟨0, [], []⟩ 1 (by decide)).2.2.1 (by decide) 1).1 (by decide)
  · obtain ⟨m', h1, h2⟩ := ((osm_lftr_rcv_by_comp_mask_loop_ends Example.lftr_env_ok
      Example.lftr_rcv
      (osm_lftr_rcv_process_context
        (Example.lftr_madw IB_MAD_METHOD_GET (IB_LFTR_COMPMASK_LID ||| IB_LFTR_COMPMASK_BLOCK)
          0x0400 0x0100) (3, 1)) ⟨0, [], []⟩ 1 (by decide)).2.2.1 (by decide) 2).2 (by decide)
    exact ⟨m', h1, by rw [h2]; decide⟩

/-! ## The pool and the list of records through a call -/

/-- The block loop keeps the number of items out of the pool equal to the number
of records on the list, up to what it was before. -/
theorem osm_lftr_rcv_by_comp_mask_loop_balance (env : LftrEnv) (p_rcv : osm_lftr_rcv_t)
    (p_sw lid max_block : Nat) :
    ∀ (fuel block : Nat) (m m' : LftrMachine),
      osm_lftr_rcv_by_comp_mask_loop env p_rcv p_sw lid max_block fuel block m = some m' →
      m'.pool_in_use + m.rec_list.length = m.pool_in_use + m'.rec_list.length := by
  intro fuel
  induction fuel with
  | zero => intro block m m' h; simp [osm_lftr_rcv_by_comp_mask_loop] at h
  | succ k ih =>
    intro block m m' h
    simp only [osm_lftr_rcv_by_comp_mask_loop] at h
    split_ifs at h with hb
    · have h1 := ih _ _ _ h
      have h2 := osm_lftr_rcv_new_lftr_balance env p_rcv m p_sw lid (cl_hton16 block)
      omega
    · cases h; rfl

/-- The visit of a switch keeps the number of items out of the pool equal to the
number of records on the list, up to what it was before. -/
theorem osm_lftr_rcv_by_comp_mask_balance (fuel : Nat) (env : LftrEnv) (p_rcv : osm_lftr_rcv_t)
    (p_ctxt : osm_lftr_search_ctxt_t) (m m' : LftrMachine) (p_sw : Nat)
    (h : osm_lftr_rcv_by_comp_mask fuel env p_rcv p_ctxt m p_sw = some m') :
    m'.pool_in_use + m.rec_list.length = m.pool_in_use + m'.rec_list.length := by
  by_cases hp : lftr_shares_partition p_rcv p_ctxt p_sw = true
    ∧ lftr_lid_in_range p_rcv p_ctxt p_sw = true
  · rw [osm_lftr_rcv_by_comp_mask_of_passes fuel env p_rcv p_ctxt m p_sw hp.1 hp.2] at h
    have h1 := osm_lftr_rcv_by_comp_mask_loop_balance _ _ _ _ _ _ _ _ _ h
    obtain ⟨a1, a2, _⟩ := osm_lftr_rcv_by_comp_mask_at_loop_frame p_rcv p_ctxt m p_sw
    rw [a1, a2] at h1
    exact h1
  · have hf : lftr_shares_partition p_rcv p_ctxt p_sw = false
        ∨ lftr_lid_in_range p_rcv p_ctxt p_sw = false := by
      cases h1 : lftr_shares_partition p_rcv p_ctxt p_sw
      · exact Or.inl rfl
      · cases h2 : lftr_lid_in_range p_rcv p_ctxt p_sw
        · exact Or.inr rfl
        · exact absurd ⟨h1, h2⟩ hp
    obtain ⟨m2, h2, b1, b2, _⟩ := osm_lftr_rcv_by_comp_mask_of_fails fuel env p_rcv p_ctxt m p_sw hf
    rw [h] at h2
    cases h2
    rw [b1, b2]

/-- The visit of every switch of a table keeps the number of items out of the
pool equal to the number of records on the list, up to what it was before. -/
theorem cl_qmap_apply_func_balance (fuel : Nat) (env : LftrEnv) (p_rcv : osm_lftr_rcv_t)
    (p_ctxt : osm_lftr_search_ctxt_t) :
    ∀ (l : List Nat) (m m' : LftrMachine),
      cl_qmap_apply_func (osm_lftr_rcv_by_comp_mask fuel env p_rcv p_ctxt) l m = some m' →
      m'.pool_in_use + m.rec_list.length = m.pool_in_use + m'.rec_list.length := by
  intro l
  induction l with
  | nil => intro m m' h; simp only [cl_qmap_apply_func] at h; cases h; rfl
  | cons p rest ih =>
    intro m m' h
    simp only [cl_qmap_apply_func] at h
    cases hp : osm_lftr_rcv_by_comp_mask fuel env p_rcv p_ctxt m p with
    | none => rw [hp] at h; cases h
    | some m1 =>
      rw [hp] at h
      have h1 := ih _ _ h
      have h2 := osm_lftr_rcv_by_comp_mask_balance fuel env p_rcv p_ctxt m m1 p hp
      omega

/-- After the search every item taken from the pool is on the list of records:
the items out of the pool are those that were out before plus one per record. -/
theorem osm_lftr_rcv_process_search_balance (fuel : Nat) (env : LftrEnv) (p_rcv : osm_lftr_rcv_t)
    (m m' : LftrMachine) (p_madw : osm_sa_madw_t) (p_req_physp : Nat × Nat)
    (h : osm_lftr_rcv_process_search fuel env p_rcv m p_madw p_req_physp = some m') :
    m'.pool_in_use = m.pool_in_use + m'.rec_list.length := by
  simp only [osm_lftr_rcv_process_search] at h
  split at h
  · cases h
  · rename_i m2 h2
    cases h
    have h3 := cl_qmap_apply_func_balance fuel env p_rcv _ _ _ _ h2
    simpa [LftrMachine.emit] using h3

/-- Returning the heads of the list to the pool: one item less is out of the pool
for each, and the list loses its first records. -/
theorem osm_lftr_rcv_put_heads_frame :
    ∀ (k : Nat) (m : LftrMachine),
      (osm_lftr_rcv_put_heads k m).pool_in_use = m.pool_in_use - k
        ∧ (osm_lftr_rcv_put_heads k m).rec_list = m.rec_list.drop k := by
  intro k
  induction k with
  | zero => intro m; simp [osm_lftr_rcv_put_heads]
  | succ k ih =>
    intro m
    rw [osm_lftr_rcv_put_heads]
    obtain ⟨h1, h2⟩ := ih (cl_qlock_pool_put { m with rec_list := m.rec_list.tail })
    rw [h1, h2]
    simp only [cl_qlock_pool_put, List.drop_tail]
    exact ⟨by omega, trivial⟩

/-- The copy loop of the response: every one of the `k` items it visits goes back
to the pool, and the records copied are the first ones of the list, as many as
the response has room for. -/
theorem osm_lftr_rcv_copy_loop_eq (num_rec : Nat) :
    ∀ (k i : Nat) (m : LftrMachine) (recs : List ib_lft_record_t),
      (osm_lftr_rcv_copy_loop num_rec k i m recs).2
          = recs ++ (m.rec_list.take k).take (num_rec - i)
        ∧ (osm_lftr_rcv_copy_loop num_rec k i m recs).1.trace
          = m.trace ++ List.replicate k LftrEvent.pool_put
        ∧ (osm_lftr_rcv_copy_loop num_rec k i m recs).1.pool_in_use = m.pool_in_use - k
        ∧ (osm_lftr_rcv_copy_loop num_rec k i m recs).1.rec_list = m.rec_list.drop k := by
  intro k
  induction k with
  | zero => intro i m recs; simp [osm_lftr_rcv_copy_loop]
  | succ k ih =>
    intro i m recs
    rw [osm_lftr_rcv_copy_loop]
    obtain ⟨h1, h2, h3, h4⟩ := ih (i + 1)
      (cl_qlock_pool_put { m with rec_list := m.rec_list.tail })
      (match m.rec_list.head? with
        | some r => if i < num_rec then recs ++ [r] else recs
        | none => recs)
    simp only [h1, h2, h3, h4]
    refine ⟨?_, ?_, ?_, ?_⟩
    · cases hl : m.rec_list with
      | nil => simp [cl_qlock_pool_put, hl]
      | cons r t =>
        by_cases hi : i < num_rec
        · have e : num_rec - i = (num_rec - (i + 1)) + 1 := by omega
          simp [cl_qlock_pool_put, hl, hi, e]
        · have e : num_rec - i = 0 := by omega
          have e2 : num_rec - (i + 1) = 0 := by omega
          simp [cl_qlock_pool_put, hl, hi, e, e2]
    · simp [cl_qlock_pool_put, List.replicate_succ]
    · simp only [cl_qlock_pool_put]; omega
    · simp [cl_qlock_pool_put]

/-- Sending the response (lines 430-484): every one of the `pre_trim_num_rec` items
goes back to the pool, then the response is sent with the header filled in and
the first `num_rec` records of the list; a failure to send is logged. -/
theorem osm_lftr_rcv_process_send_eq (env : LftrEnv) (p_rcv : osm_lftr_rcv_t)
    (m : LftrMachine) (p_madw : osm_sa_madw_t) (num_rec pre_trim_num_rec size : Nat) :
    (osm_lftr_rcv_process_send env p_rcv m p_madw num_rec pre_trim_num_rec size).trace
        = m.trace ++ List.replicate pre_trim_num_rec LftrEvent.pool_put
          ++ [LftrEvent.vendor_send
                ⟨p_madw.h_bind, size, p_madw.mad_addr, lftr_resp_header_of p_rcv p_madw,
                  (m.rec_list.take pre_trim_num_rec).take num_rec⟩ env.vendor_send_ok]
          ++ (if env.vendor_send_ok = true then []
              else [LftrEvent.log osm_log_level_t.error 0x4411])
      ∧ (osm_lftr_rcv_process_send env p_rcv m p_madw num_rec pre_trim_num_rec size).pool_in_use
        = m.pool_in_use - pre_trim_num_rec := by
  obtain ⟨h1, h2, h3, _⟩ := osm_lftr_rcv_copy_loop_eq num_rec pre_trim_num_rec 0 m []
  have hh : (if (p_madw.sa_mad.method ||| IB_MAD_METHOD_RESP_MASK) % 256
        = IB_MAD_METHOD_GETTABLE_RESP then
      if p_rcv.VENDOR_RMPP_SUPPORT = false then
        ({ p_madw.sa_mad with
            method := (p_madw.sa_mad.method ||| IB_MAD_METHOD_RESP_MASK) % 256
            sm_key := 0
            attr_offset := ib_get_attr_offset sizeof_ib_lft_record_t
            rmpp_type := IB_RMPP_TYPE_DATA
            rmpp_flags := IB_RMPP_FLAG_FIRST ||| IB_RMPP_FLAG_LAST ||| IB_RMPP_FLAG_ACTIVE }
          : ib_sa_mad_t)
      else
        { p_madw.sa_mad with
            method := (p_madw.sa_mad.method ||| IB_MAD_METHOD_RESP_MASK) % 256
            sm_key := 0
            attr_offset := ib_get_attr_offset sizeof_ib_lft_record_t
            rmpp_flags := IB_RMPP_FLAG_ACTIVE }
    else
      { p_madw.sa_mad with
          method := (p_madw.sa_mad.method ||| IB_MAD_METHOD_RESP_MASK) % 256
          sm_key := 0
          attr_offset := ib_get_attr_offset sizeof_ib_lft_record_t })
      = lftr_resp_header_of p_rcv p_madw := by
    simp only [lftr_resp_header_of, lftr_resp_header, lftr_resp_header_gettable]
  simp only [List.nil_append, Nat.sub_zero] at h1
  simp only [osm_lftr_rcv_process_send, hh, h1]
  cases hv : env.vendor_send_ok <;>
    simp [LftrMachine.log, LftrMachine.emit, h2, h3]

/-- The state in which the response MAD has just been requested has the list and
the pool of the state after the search, and nothing was sent in between. -/
theorem lftr_at_mad_frame (env : LftrEnv) (p_rcv : osm_lftr_rcv_t) (m : LftrMachine) (n : Nat) :
    (lftr_at_mad env p_rcv m n).rec_list = m.rec_list
      ∧ (lftr_at_mad env p_rcv m n).pool_in_use = m.pool_in_use
      ∧ (lftr_at_mad env p_rcv m n).trace.filter LftrEvent.isSend
        = m.trace.filter LftrEvent.isSend
      ∧ LftrEvent.mad_pool_get
          (lftr_num_rec p_rcv n * sizeof_ib_lft_record_t + IB_SA_MAD_HDR_SIZE) env.mad_pool_get_ok
        ∈ (lftr_at_mad env p_rcv m n).trace := by
  simp only [lftr_at_mad]
  split_ifs <;> simp [LftrMachine.log, LftrMachine.emit, LftrEvent.isSend]

/-- Lines 383-484 on the paths that request a response MAD: when there is none,
`ERR 4410` is logged, as many items as the response would have held go back to
the pool and the status "no resources" is sent; when there is one, the response
is sent. -/
theorem osm_lftr_rcv_process_reply_eq (env : LftrEnv) (p_rcv : osm_lftr_rcv_t)
    (m : LftrMachine) (p_madw : osm_sa_madw_t) (n : Nat)
    (h : ¬ (p_madw.sa_mad.method ≠ IB_MAD_METHOD_GETTABLE ∧ lftr_num_rec p_rcv n = 0)) :
    osm_lftr_rcv_process_reply env p_rcv m p_madw n
      = if env.mad_pool_get_ok = false then
          (osm_lftr_rcv_put_heads (lftr_num_rec p_rcv n)
            ((lftr_at_mad env p_rcv m n).log osm_log_level_t.error 0x4410)).emit
            (LftrEvent.sa_send_error ib_sa_status_t.IB_SA_MAD_STATUS_NO_RESOURCES)
        else
          osm_lftr_rcv_process_send env p_rcv (lftr_at_mad env p_rcv m n) p_madw
            (lftr_num_rec p_rcv n) n
            (lftr_num_rec p_rcv n * sizeof_ib_lft_record_t + IB_SA_MAD_HDR_SIZE) := by
  by_cases ht : p_rcv.VENDOR_RMPP_SUPPORT = false
      ∧ (MAD_BLOCK_SIZE - IB_SA_MAD_HDR_SIZE) / sizeof_ib_lft_record_t < n
  · simp only [lftr_num_rec, if_pos ht] at h
    simp only [osm_lftr_rcv_process_reply, lftr_at_mad, lftr_num_rec, if_pos ht, if_neg h]
  · simp only [lftr_num_rec, if_neg ht] at h
    simp only [osm_lftr_rcv_process_reply, lftr_at_mad, lftr_num_rec, if_neg ht, if_neg h]

/-- The whole call for a supported method and a known requester is the search
followed by the response. -/
theorem osm_lftr_rcv_process_of_search (fuel : Nat) (env : LftrEnv) (p_rcv : osm_lftr_rcv_t)
    (pool_in_use : Nat) (p_madw : osm_sa_madw_t) (p_req_physp : Nat × Nat) (m : LftrMachine)
    (hmethod : p_madw.sa_mad.method = IB_MAD_METHOD_GET
      ∨ p_madw.sa_mad.method = IB_MAD_METHOD_GETTABLE)
    (hreq : p_rcv.osm_get_physp_by_mad_addr p_madw.mad_addr = some p_req_physp)
    (hs : osm_lftr_rcv_process_search fuel env p_rcv ⟨pool_in_use, [], []⟩ p_madw p_req_physp
      = some m) :
    osm_lftr_rcv_process fuel env p_rcv pool_in_use p_madw
      = some (osm_lftr_rcv_process_respond env p_rcv m p_madw) := by
  have hne : ¬ (p_madw.sa_mad.method ≠ IB_MAD_METHOD_GET
      ∧ p_madw.sa_mad.method ≠ IB_MAD_METHOD_GETTABLE) := by
    rintro ⟨h1, h2⟩
    rcases hmethod with h | h
    · exact h1 h
    · exact h2 h
  simp only [osm_lftr_rcv_process, if_neg hne, hreq, hs]

/-- For a SubnAdmGetTable query the response is built for all the records
found. -/
theorem osm_lftr_rcv_process_respond_gettable (env : LftrEnv) (p_rcv : osm_lftr_rcv_t)
    (m : LftrMachine) (p_madw : osm_sa_madw_t)
    (hmethod : p_madw.sa_mad.method = IB_MAD_METHOD_GETTABLE)
    (hn : m.rec_list.length < 4294967296) :
    osm_lftr_rcv_process_respond env p_rcv m p_madw
      = osm_lftr_rcv_process_reply env p_rcv m p_madw m.rec_list.length := by
  have hne : ¬ IB_MAD_METHOD_GETTABLE = IB_MAD_METHOD_GET := by decide
  simp only [osm_lftr_rcv_process_respond, hmethod, hne, false_and, if_false,
    Nat.mod_eq_of_lt hn]

/-! ## Claim C31: the records of a SubnAdmGetTable response -/

/-- Claim C31: a SubnAdmGetTable query of a known requester, handled by a receiver
compiled without RMPP support. The search returns (within 65536 evaluations of
the loop condition per switch) when the last block of no switch is `0xFFFF`; and
whenever the search returns with `n` records on the list (fewer than 2^32, the
width of the counter), the receiver returns, the response MAD it requests is
sized for `min(n, (MAD_BLOCK_SIZE - IB_SA_MAD_HDR_SIZE) / sizeof(ib_lft_record_t))`
records, and when the MAD is available the only thing sent is the response with
exactly that many records, the first ones of the list in the order of the
search; the number is `min(n, 2)`. When no MAD is available the status "no
resources" is sent instead. -/
theorem osm_lftr_rcv_process_gettable_trims (fuel : Nat) (env : LftrEnv)
    (p_rcv : osm_lftr_rcv_t) (pool_in_use : Nat) (p_madw : osm_sa_madw_t)
    (p_req_physp : Nat × Nat)
    (hmethod : p_madw.sa_mad.method = IB_MAD_METHOD_GETTABLE)
    (hrmpp : p_rcv.VENDOR_RMPP_SUPPORT = false)
    (hreq : p_rcv.osm_get_physp_by_mad_addr p_madw.mad_addr = some p_req_physp) :
    (65536 ≤ fuel →
      (∀ p_sw ∈ p_rcv.sw_guid_tbl,
        osm_lftr_rcv_by_comp_mask_max_block p_rcv
          (osm_lftr_rcv_process_context p_madw p_req_physp) p_sw < 65535) →
      ∃ m, osm_lftr_rcv_process_search fuel env p_rcv ⟨pool_in_use, [], []⟩ p_madw p_req_physp
        = some m)
    ∧ ∀ m, osm_lftr_rcv_process_search fuel env p_rcv ⟨pool_in_use, [], []⟩ p_madw p_req_physp
        = some m →
      m.rec_list.length < 4294967296 →
      ∃ m', osm_lftr_rcv_process fuel env p_rcv pool_in_use p_madw = some m'
        ∧ min m.rec_list.length
            ((MAD_BLOCK_SIZE - IB_SA_MAD_HDR_SIZE) / sizeof_ib_lft_record_t)
          = min m.rec_list.length 2
        ∧ LftrEvent.mad_pool_get
            (min m.rec_list.length
                ((MAD_BLOCK_SIZE - IB_SA_MAD_HDR_SIZE) / sizeof_ib_lft_record_t)
              * sizeof_ib_lft_record_t + IB_SA_MAD_HDR_SIZE) env.mad_pool_get_ok ∈ m'.trace
        ∧ m'.trace.filter LftrEvent.isSend
          = if env.mad_pool_get_ok = true then
              [LftrEvent.vendor_send
                ⟨p_madw.h_bind,
                  min m.rec_list.length
                      ((MAD_BLOCK_SIZE - IB_SA_MAD_HDR_SIZE) / sizeof_ib_lft_record_t)
                    * sizeof_ib_lft_record_t + IB_SA_MAD_HDR_SIZE,
                  p_madw.mad_addr, lftr_resp_header_gettable p_madw,
                  m.rec_list.take (min m.rec_list.length
                    ((MAD_BLOCK_SIZE - IB_SA_MAD_HDR_SIZE) / sizeof_ib_lft_record_t))⟩
                env.vendor_send_ok]
            else [LftrEvent.sa_send_error ib_sa_status_t.IB_SA_MAD_STATUS_NO_RESOURCES] := by
  refine ⟨fun hf hmax => osm_lftr_rcv_process_search_some fuel env p_rcv _ p_madw p_req_physp
    hf hmax, ?_⟩
  intro m hs hn
  have hsend : m.trace.filter LftrEvent.isSend = [] := by
    rw [osm_lftr_rcv_process_search_sends fuel env p_rcv _ m p_madw p_req_physp hs]
    rfl
  have hnum : lftr_num_rec p_rcv m.rec_list.length
      = min m.rec_list.length
          ((MAD_BLOCK_SIZE - IB_SA_MAD_HDR_SIZE) / sizeof_ib_lft_record_t) := by
    simp only [lftr_num_rec, hrmpp, true_and]
    split_ifs with h
    · exact (Nat.min_eq_right (Nat.le_of_lt h)).symm
    · exact (Nat.min_eq_left (Nat.le_of_not_lt h)).symm
  have hhdr : lftr_resp_header_of p_rcv p_madw = lftr_resp_header_gettable p_madw := by
    have e : (IB_MAD_METHOD_GETTABLE ||| IB_MAD_METHOD_RESP_MASK) % 256
        = IB_MAD_METHOD_GETTABLE_RESP := by decide
    simp only [lftr_resp_header_of, lftr_resp_header, hmethod, e, hrmpp, if_true]
  have hnot : ¬ (p_madw.sa_mad.method ≠ IB_MAD_METHOD_GETTABLE
      ∧ lftr_num_rec p_rcv m.rec_list.length = 0) := fun hc => hc.1 hmethod
  obtain ⟨f1, _, f3, f4⟩ := lftr_at_mad_frame env p_rcv m m.rec_list.length
  have htrim : (MAD_BLOCK_SIZE - IB_SA_MAD_HDR_SIZE) / sizeof_ib_lft_record_t = 2 := by decide
  refine ⟨_, osm_lftr_rcv_process_of_search fuel env p_rcv pool_in_use p_madw p_req_physp m
    (Or.inr hmethod) hreq hs, by rw [htrim], ?_, ?_⟩
  · rw [osm_lftr_rcv_process_respond_gettable env p_rcv m p_madw hmethod hn,
      osm_lftr_rcv_process_reply_eq env p_rcv m p_madw _ hnot, ← hnum]
    cases hp : env.mad_pool_get_ok
    · rw [hp] at f4
      simp only [if_true, LftrMachine.emit, osm_lftr_rcv_put_heads_trace, LftrMachine.log]
      simp only [List.mem_append]
      exact Or.inl (Or.inl (Or.inl f4))
    · rw [hp] at f4
      simp only [Bool.true_eq_false, if_false,
        (osm_lftr_rcv_process_send_eq env p_rcv _ p_madw _ _ _).1]
      simp only [List.mem_append]
      exact Or.inl (Or.inl (Or.inl f4))
  · rw [osm_lftr_rcv_process_respond_gettable env p_rcv m p_madw hmethod hn,
      osm_lftr_rcv_process_reply_eq env p_rcv m p_madw _ hnot, ← hnum]
    cases hp : env.mad_pool_get_ok
    · simp only [if_true, LftrMachine.emit, osm_lftr_rcv_put_heads_trace, LftrMachine.log,
        Bool.false_eq_true, if_false]
      simp [f3, hsend, LftrEvent.isSend]
    · simp only [Bool.true_eq_false, if_false, if_true,
        (osm_lftr_rcv_process_send_eq env p_rcv _ p_madw _ _ _).1, f1, hhdr,
        List.take_length]
      cases hv : env.vendor_send_ok <;> simp [f3, hsend, LftrEvent.isSend]

/-- Witness for claim C31: in the small fabric a SubnAdmGetTable query with an
empty component mask finds three records (the blocks 0 and 1 of node 1, the
block 0 of node 2); the response MAD is sized for two records, 200 bytes, and
the response holds the first two, in the order of the search. -/
theorem osm_lftr_rcv_process_gettable_trims_witness :
    ∃ m', osm_lftr_rcv_process 65536 Example.lftr_env_ok Example.lftr_rcv 0
        (Example.lftr_madw IB_MAD_METHOD_GETTABLE 0 0 0) = some m'
      ∧ LftrEvent.mad_pool_get 200 true ∈ m'.trace
      ∧ m'.trace.filter LftrEvent.isSend
        = [LftrEvent.vendor_send
            ⟨7, 200, 9, lftr_resp_header_gettable (Example.lftr_madw IB_MAD_METHOD_GETTABLE 0 0 0),
              [⟨0x0400, 0, List.replicate 64 1⟩, ⟨0x0400, 0x0100, List.replicate 64 2⟩]⟩
            true] := by
  have h := osm_lftr_rcv_process_gettable_trims 65536 Example.lftr_env_ok Example.lftr_rcv 0
    (Example.lftr_madw IB_MAD_METHOD_GETTABLE 0 0 0) (3, 1) rfl rfl rfl
  obtain ⟨m, hm⟩ := h.1 (by decide) (by decide)
  have hrec : (osm_lftr_rcv_process_search 65536 Example.lftr_env_ok Example.lftr_rcv
      ⟨0, [], []⟩ (Example.lftr_madw IB_MAD_METHOD_GETTABLE 0 0 0) (3, 1)).map
      (fun a => a.rec_list)
      = some [⟨0x0400, 0, List.replicate 64 1⟩, ⟨0x0400, 0x0100, List.replicate 64 2⟩,
          ⟨0x0500, 0, List.replicate 64 1⟩] := by decide
  rw [hm] at hrec
  have h2 : m.rec_list = [⟨0x0400, 0, List.replicate 64 1⟩, ⟨0x0400, 0x0100, List.replicate 64 2⟩,
      ⟨0x0500, 0, List.replicate 64 1⟩] := by simpa using hrec
  obtain ⟨m', hp, _, hmad, hsend⟩ := h.2 m hm (by rw [h2]; decide)
  rw [h2] at hmad hsend
  exact ⟨m', hp, hmad, hsend⟩

/-- The pool after the response, for a supported method, when every item taken
during the search is on the list: every item is back in the pool, except that
after a SubnAdmGetTable query for which no response MAD is available only as
many items are back as the response would have held. -/
theorem osm_lftr_rcv_process_respond_pool (env : LftrEnv) (p_rcv : osm_lftr_rcv_t)
    (m : LftrMachine) (p_madw : osm_sa_madw_t) (pool_in_use : Nat)
    (hmethod : p_madw.sa_mad.method = IB_MAD_METHOD_GET
      ∨ p_madw.sa_mad.method = IB_MAD_METHOD_GETTABLE)
    (hn : m.rec_list.length < 4294967296)
    (hb : m.pool_in_use = pool_in_use + m.rec_list.length) :
    (osm_lftr_rcv_process_respond env p_rcv m p_madw).pool_in_use
      = pool_in_use
        + (if p_madw.sa_mad.method = IB_MAD_METHOD_GETTABLE ∧ env.mad_pool_get_ok = false then
            m.rec_list.length - lftr_num_rec p_rcv m.rec_list.length
          else 0) := by
  have hle : lftr_num_rec p_rcv m.rec_list.length ≤ m.rec_list.length := by
    simp only [lftr_num_rec]
    split_ifs with h
    · exact Nat.le_of_lt h.2
    · exact le_refl _
  rcases hmethod with hg | hg
  · have hne : ¬ (p_madw.sa_mad.method = IB_MAD_METHOD_GETTABLE
        ∧ env.mad_pool_get_ok = false) := by
      rw [hg]; exact fun hc => absurd hc.1 (by decide)
    rw [if_neg hne]
    rcases Nat.lt_trichotomy m.rec_list.length 1 with hl | hl | hl
    · have hnil : m.rec_list = [] := List.length_eq_zero.mp (by omega)
      rw [osm_lftr_rcv_process_respond_none env p_rcv m p_madw hg hnil]
      simp only [LftrMachine.emit]
      rw [hb, hnil]
      rfl
    · have h1 : lftr_num_rec p_rcv m.rec_list.length = 1 := by
        have e : ¬ (MAD_BLOCK_SIZE - IB_SA_MAD_HDR_SIZE) / sizeof_ib_lft_record_t < 1 := by
          decide
        simp only [lftr_num_rec, hl, e, and_false, if_false]
      have hnot : ¬ (p_madw.sa_mad.method ≠ IB_MAD_METHOD_GETTABLE
          ∧ lftr_num_rec p_rcv m.rec_list.length = 0) := by
        rw [h1]; exact fun hc => absurd hc.2 (by decide)
      have hresp : osm_lftr_rcv_process_respond env p_rcv m p_madw
          = osm_lftr_rcv_process_reply env p_rcv m p_madw m.rec_list.length := by
        have e1 : ¬ (1 : Nat) = 0 := by decide
        have e2 : ¬ (1 : Nat) > 1 := by decide
        simp only [osm_lftr_rcv_process_respond, hg, Nat.mod_eq_of_lt hn, hl, true_and, e1, e2,
          if_false]
      obtain ⟨_, f2, _, _⟩ := lftr_at_mad_frame env p_rcv m m.rec_list.length
      rw [hresp, osm_lftr_rcv_process_reply_eq env p_rcv m p_madw _ hnot]
      cases hp : env.mad_pool_get_ok
      · simp only [if_true, LftrMachine.emit, (osm_lftr_rcv_put_heads_frame _ _).1,
          LftrMachine.log, f2]
        omega
      · simp only [Bool.true_eq_false, if_false,
          (osm_lftr_rcv_process_send_eq env p_rcv _ p_madw _ _ _).2, f2]
        omega
    · have h0 : ¬ m.rec_list.length = 0 := by omega
      have hgt : m.rec_list.length > 1 := hl
      simp only [osm_lftr_rcv_process_respond, hg, Nat.mod_eq_of_lt hn, true_and, if_neg h0,
        if_pos hgt, (osm_lftr_rcv_put_heads_frame _ _).1, LftrMachine.emit, LftrMachine.log]
      omega
  · have hnot : ¬ (p_madw.sa_mad.method ≠ IB_MAD_METHOD_GETTABLE
        ∧ lftr_num_rec p_rcv m.rec_list.length = 0) := fun hc => hc.1 hg
    obtain ⟨_, f2, _, _⟩ := lftr_at_mad_frame env p_rcv m m.rec_list.length
    rw [osm_lftr_rcv_process_respond_gettable env p_rcv m p_madw hg hn,
      osm_lftr_rcv_process_reply_eq env p_rcv m p_madw _ hnot]
    cases hp : env.mad_pool_get_ok
    · simp only [if_true, LftrMachine.emit, (osm_lftr_rcv_put_heads_frame _ _).1,
        LftrMachine.log, f2, hg, and_self]
      omega
    · simp only [Bool.true_eq_false, if_false, and_false,
        (osm_lftr_rcv_process_send_eq env p_rcv _ p_madw _ _ _).2, f2]
      omega

/-! ## Claim C35: the balance of the record pool -/

/-- Claim C35: the record pool over a call of `osm_lftr_rcv_process` that starts
with `pool_in_use` items out of the pool. For an unsupported method and for an
unknown requester the receiver returns with the pool as it was. For a supported
method and a known requester the search returns (within 65536 evaluations of the
loop condition per switch) when the last block of no switch is `0xFFFF`; whenever
it returns, every item it took is on the list of records; and the receiver then
returns with the pool as it was before the call on every path but one: after a
SubnAdmGetTable query handled without RMPP support that found `n` records, more
than fit in one MAD, when no response MAD is available, only the
`(MAD_BLOCK_SIZE - IB_SA_MAD_HDR_SIZE) / sizeof(ib_lft_record_t)` items of the
trimmed count go back to the pool and the others stay out of it. The number of
records is taken below 2^32, the width of the counter. -/
theorem osm_lftr_rcv_process_pool_balance (fuel : Nat) (env : LftrEnv) (p_rcv : osm_lftr_rcv_t)
    (pool_in_use : Nat) (p_madw : osm_sa_madw_t) :
    ((p_madw.sa_mad.method ≠ IB_MAD_METHOD_GET
          ∧ p_madw.sa_mad.method ≠ IB_MAD_METHOD_GETTABLE) →
        ∃ m', osm_lftr_rcv_process fuel env p_rcv pool_in_use p_madw = some m'
          ∧ m'.pool_in_use = pool_in_use)
      ∧ (p_rcv.osm_get_physp_by_mad_addr p_madw.mad_addr = none →
          ∃ m', osm_lftr_rcv_process fuel env p_rcv pool_in_use p_madw = some m'
            ∧ m'.pool_in_use = pool_in_use)
      ∧ (∀ p_req_physp,
          p_rcv.osm_get_physp_by_mad_addr p_madw.mad_addr = some p_req_physp →
          (65536 ≤ fuel →
            (∀ p_sw ∈ p_rcv.sw_guid_tbl,
              osm_lftr_rcv_by_comp_mask_max_block p_rcv
                (osm_lftr_rcv_process_context p_madw p_req_physp) p_sw < 65535) →
            ∃ m, osm_lftr_rcv_process_search fuel env p_rcv ⟨pool_in_use, [], []⟩ p_madw
              p_req_physp = some m)
          ∧ ∀ m, (p_madw.sa_mad.method = IB_MAD_METHOD_GET
                ∨ p_madw.sa_mad.method = IB_MAD_METHOD_GETTABLE) →
              osm_lftr_rcv_process_search fuel env p_rcv ⟨pool_in_use, [], []⟩ p_madw
                p_req_physp = some m →
              m.rec_list.length < 4294967296 →
              m.pool_in_use = pool_in_use + m.rec_list.length
                ∧ ∃ m', osm_lftr_rcv_process fuel env p_rcv pool_in_use p_madw = some m'
                  ∧ m'.pool_in_use
                    = pool_in_use
                      + (if p_madw.sa_mad.method = IB_MAD_METHOD_GETTABLE
                            ∧ env.mad_pool_get_ok = false
                            ∧ p_rcv.VENDOR_RMPP_SUPPORT = false
                            ∧ (MAD_BLOCK_SIZE - IB_SA_MAD_HDR_SIZE) / sizeof_ib_lft_record_t
                              < m.rec_list.length then
                          m.rec_list.length
                            - (MAD_BLOCK_SIZE - IB_SA_MAD_HDR_SIZE) / sizeof_ib_lft_record_t
                        else 0)) := by
  refine ⟨?_, ?_, ?_⟩
  · intro h
    simp only [osm_lftr_rcv_process, if_pos h]
    exact ⟨_, rfl, rfl⟩
  · intro hreq
    by_cases h : p_madw.sa_mad.method ≠ IB_MAD_METHOD_GET
        ∧ p_madw.sa_mad.method ≠ IB_MAD_METHOD_GETTABLE
    · simp only [osm_lftr_rcv_process, if_pos h]
      exact ⟨_, rfl, rfl⟩
    · simp only [osm_lftr_rcv_process, if_neg h, hreq]
      exact ⟨_, rfl, rfl⟩
  · intro p_req_physp hreq
    refine ⟨fun hf hmax => osm_lftr_rcv_process_search_some fuel env p_rcv _ p_madw p_req_physp
      hf hmax, ?_⟩
    intro m hmethod hs hn
    have hb : m.pool_in_use = pool_in_use + m.rec_list.length :=
      osm_lftr_rcv_process_search_balance fuel env p_rcv _ m p_madw p_req_physp hs
    refine ⟨hb, _, osm_lftr_rcv_process_of_search fuel env p_rcv pool_in_use p_madw p_req_physp m
      hmethod hreq hs, ?_⟩
    rw [osm_lftr_rcv_process_respond_pool env p_rcv m p_madw pool_in_use hmethod hn hb]
    simp only [lftr_num_rec]
    by_cases h1 : p_madw.sa_mad.method = IB_MAD_METHOD_GETTABLE ∧ env.mad_pool_get_ok = false
    · by_cases h2 : p_rcv.VENDOR_RMPP_SUPPORT = false
          ∧ (MAD_BLOCK_SIZE - IB_SA_MAD_HDR_SIZE) / sizeof_ib_lft_record_t < m.rec_list.length
      · rw [if_pos h1, if_pos h2, if_pos ⟨h1.1, h1.2, h2.1, h2.2⟩]
      · have h3 : ¬ (p_madw.sa_mad.method = IB_MAD_METHOD_GETTABLE
            ∧ env.mad_pool_get_ok = false
            ∧ p_rcv.VENDOR_RMPP_SUPPORT = false
            ∧ (MAD_BLOCK_SIZE - IB_SA_MAD_HDR_SIZE) / sizeof_ib_lft_record_t
              < m.rec_list.length) := fun hc => h2 ⟨hc.2.2.1, hc.2.2.2⟩
        rw [if_pos h1, if_neg h2, if_neg h3, Nat.sub_self]
    · have h3 : ¬ (p_madw.sa_mad.method = IB_MAD_METHOD_GETTABLE
          ∧ env.mad_pool_get_ok = false
          ∧ p_rcv.VENDOR_RMPP_SUPPORT = false
          ∧ (MAD_BLOCK_SIZE - IB_SA_MAD_HDR_SIZE) / sizeof_ib_lft_record_t
            < m.rec_list.length) := fun hc => h1 ⟨hc.1, hc.2.1⟩
      rw [if_neg h1, if_neg h3]

/-- Witness for claim C35, the failing input: in the small fabric a
SubnAdmGetTable query with an empty component mask finds three records, one more
than fits in a MAD, and no response MAD is available. The call starts with no
item out of the pool and returns with one item out of it: three items were
taken, two were returned. With a response MAD available the same query returns
with every item back in the pool. -/
theorem osm_lftr_rcv_process_pool_balance_witness :
    (∃ m', osm_lftr_rcv_process 65536 Example.lftr_env_no_mad Example.lftr_rcv 0
        (Example.lftr_madw IB_MAD_METHOD_GETTABLE 0 0 0) = some m'
      ∧ m'.pool_in_use = 1)
    ∧ (∃ m', osm_lftr_rcv_process 65536 Example.lftr_env_ok Example.lftr_rcv 0
        (Example.lftr_madw IB_MAD_METHOD_GETTABLE 0 0 0) = some m'
      ∧ m'.pool_in_use = 0) := by
  constructor
  · have h := (osm_lftr_rcv_process_pool_balance 65536 Example.lftr_env_no_mad Example.lftr_rcv 0
      (Example.lftr_madw IB_MAD_METHOD_GETTABLE 0 0 0)).2.2 (3, 1) rfl
    obtain ⟨m, hm⟩ := h.1 (by decide) (by decide)
    have hlen : (osm_lftr_rcv_process_search 65536 Example.lftr_env_no_mad Example.lftr_rcv
        ⟨0, [], []⟩ (Example.lftr_madw IB_MAD_METHOD_GETTABLE 0 0 0) (3, 1)).map
        (fun a => a.rec_list.length) = some 3 := by decide
    rw [hm] at hlen
    have h3 : m.rec_list.length = 3 := by simpa using hlen
    obtain ⟨_, m', hp, hpool⟩ := h.2 m (Or.inr rfl) hm (by omega)
    rw [h3] at hpool
    exact ⟨m', hp, by rw [hpool]; decide⟩
  · have h := (osm_lftr_rcv_process_pool_balance 65536 Example.lftr_env_ok Example.lftr_rcv 0
      (Example.lftr_madw IB_MAD_METHOD_GETTABLE 0 0 0)).2.2 (3, 1) rfl
    obtain ⟨m, hm⟩ := h.1 (by decide) (by decide)
    have hlen : (osm_lftr_rcv_process_search 65536 Example.lftr_env_ok Example.lftr_rcv
        ⟨0, [], []⟩ (Example.lftr_madw IB_MAD_METHOD_GETTABLE 0 0 0) (3, 1)).map
        (fun a => a.rec_list.length) = some 3 := by decide
    rw [hm] at hlen
    have h3 : m.rec_list.length = 3 := by simpa using hlen
    obtain ⟨_, m', hp, hpool⟩ := h.2 m (Or.inr rfl) hm (by omega)
    rw [h3] at hpool
    exact ⟨m', hp, by rw [hpool]; decide⟩

end OpenSM
